import Mathlib

/-!
# GPU partitioned constraint solver: issue-order model of `PxgCudaSolverCore`

A shallow embedding of the host-side control code of
`physx/source/gpusolver/src/PxgCudaSolverCore.cpp`.

The host code does not compute on bodies itself: it issues kernel launches,
asynchronous memory operations and collaborator calls onto device queues.
The embedding therefore models every member function as a fallible
transformer of a `SolverState` that records

* `issued`: the operations handed to the device queues and to the
  collaborating solvers, in issue order, with the scalar arguments of each;
* `errors`: the reports sent to the foundation error channel.

Unsigned 32-bit arithmetic (`PxU32`) is modelled on `Nat` with explicit
reduction modulo `2^32`; signed iteration counts (`PxI32`) are `Int`.
An integer division faults (`none`) when the divisor is zero.
`GPU_DEBUG` is `0` in the source, so the synchronous checks guarded by it
are compiled out and are not part of the model.  Floating-point arguments
(`dt`, `invDt`, bias coefficients, gravity) do not influence the control
flow and are not recorded.
-/

namespace PxgCudaSolverCore

/-! ## Machine integers -/

/-- Reduction of a natural number to the range of `PxU32`. -/
def u32 (n : Nat) : Nat := n % 4294967296

/-- `PxU32` addition (wraps modulo `2^32`). -/
def u32add (a b : Nat) : Nat := (a + b) % 4294967296

/-- `PxU32` subtraction (wraps modulo `2^32`): the two's complement of the
subtrahend is added to the minuend. -/
def u32sub (a b : Nat) : Nat := (4294967296 - b % 4294967296 + a % 4294967296) % 4294967296

/-- `PxU32` multiplication (wraps modulo `2^32`). -/
def u32mul (a b : Nat) : Nat := (a * b) % 4294967296

/-- `PxU32` division; a zero divisor is a fault. -/
def u32div (a b : Nat) : Option Nat := if b = 0 then none else some (a / b)

/-- Modelled from the spec: the macro `PXG_BATCH_SIZE` is defined outside the
given sources; a batch is a "fixed-width (warp-sized) group" of constraints. -/
def PXG_BATCH_SIZE : Nat := 32

/-- Modelled from the spec: the macro `WARP_SIZE` is defined outside the given
sources; `artiJointConstraintPrepare` spells the same quantity as the literal
`32` (`numThreadsPerWarp`). -/
def WARP_SIZE : Nat := 32

/-! ## Operations issued by the host -/

/-- The two device command queues owned by the solver core. -/
inductive Stream where
  | mStream
  | mStream2
  deriving DecidableEq, Repr

/-- Kernel identifiers (`PxgKernelIds`) used by the preparation and solve stages. -/
inductive KernelId where
  | JOINT_CONSTRAINT_PREPREP_BLOCK
  | JOINT_CONSTRAINT_PREPARE_BLOCK_PARALLEL
  | CONTACT_CONSTRAINT_PREPARE_BLOCK_PARALLEL
  | ARTI_JOINT_PREP
  | ARTI_CONTACT_PREP
  | WRITEBACK_BLOCKS
  | SOLVE_BLOCK_PARTITION
  | ARTI_SOLVE_BLOCK_PARTITION
  | COMPUTE_AVERAGE_VELOCITY
  | CONCLUDE_BLOCKS
  | WRITE_BACK_BODIES
  | PROPAGATE_BODY_VELOCITY
  | RIGID_SOLVE_STATIC_CONSTRAINTS
  | PROPAGATE_STATIC_SOLVER_VELOCITIES
  | DMA_CONSTRAINT_RESIDUAL
  | DMA_ARTICULATION_RESIDUAL
  deriving DecidableEq, Repr

/-- One entry of a `PxCudaKernelParam` array: either one of the descriptor /
buffer pointers held by the core, or a scalar passed by value. -/
inductive KernelParam where
  | mSolverCoreDescd
  | mSharedDescd
  | mPrePrepDescd
  | mPrepareDescd
  | artiDescd
  | mConstraintWriteBackBuffer
  | posIterResidualPinnedMem
  | perArticulationInternalError
  | u32 (value : Nat)
  | bool (value : Bool)
  deriving DecidableEq, Repr

/-- Device addresses of the two contact error accumulators (`zeroA`, `zeroB`). -/
inductive ErrorAccumulatorPtr where
  | solverCoreContactErrorAccumulator
  | articulationContactErrorAccumulator
  deriving DecidableEq, Repr

/-- Host destinations of the residual read-back copies. -/
inductive HostPtr where
  | posIterError
  | artiContactPosIterError
  deriving DecidableEq, Repr

/-- An operation issued by the host: a kernel launch or asynchronous memory
operation on a queue, or a call into a collaborating solver. -/
inductive Op where
  | launchKernel (f : KernelId) (gridDimX blockDimX blockDimY : Nat) (hStream : Stream)
      (kernelParams : List KernelParam)
  | memsetD32Async (dst : ErrorAccumulatorPtr) (value count : Nat) (hStream : Stream)
  | memcpyDtoHAsync (dst : HostPtr) (src : ErrorAccumulatorPtr) (byteCount : Nat) (hStream : Stream)
  | averageDeltaV (nbSlabs : Nat) (stream : Stream) (partitionId : Nat) (isTGS : Bool)
  | precomputeReferenceCount (islandIndex : Nat) (isTGS : Bool)
  | propagateRigidBodyImpulsesAndSolveInternalConstraints
      (isVelocityIteration doFriction isTGS residualReportingEnabled : Bool)
  | outputVelocity (stream : Stream) (isTGS : Bool)
  | saveVelocities
  | particleSystemSolve (core : Nat) (stream : Stream)
  | particleSystemUpdateParticles (core : Nat)
  | femClothSolve (stream : Stream) (iter maxIter : Int) (isVelocityIteration : Bool)
  | softBodySolve (stream : Stream) (isFirstIteration : Bool)
  | softBodyCopyContactCountsToHost
  | softBodyFinalizeVelocities (isTGS : Bool)
  | femClothCopyContactCountsToHost
  | femClothFinalizeVelocities
  | softBodyConstraintPrep (stream : Stream) (isTGS : Bool) (numSolverBodies numArticulations : Nat)
  | femClothConstraintPrep (stream : Stream) (numSolverBodies numArticulations : Nat)
  | particleSystemConstraintPrep (core : Nat) (stream : Stream) (isTGS : Bool)
      (numSolverBodies : Nat)
  deriving DecidableEq, Repr

/-- Result code of a driver call; `0` is `CUDA_SUCCESS`. -/
abbrev CUresult := Nat

/-- The success code of the driver API. -/
def CUDA_SUCCESS : CUresult := 0

/-! ## Configuration and state -/

/-- Thread-block sizes.  The enumerations `PxgKernelBlockDim` and
`PxgArticulationCoreKernelBlockDim` are declared outside the given sources,
so their values are parameters of the model. -/
structure PxgKernelBlockDim where
  CONSTRAINT_PREPREP_BLOCK : Nat
  CONSTRAINT_PREPARE_BLOCK_PARALLEL : Nat
  ARTI_CONSTRAINT_PREPARE : Nat
  SOLVE_BLOCK_PARTITION : Nat
  COMPUTE_BODIES_AVERAGE_VELOCITY : Nat
  CONCLUDE_BLOCKS : Nat
  WRITEBACK_BLOCKS : Nat
  WRITE_BACK_BODIES : Nat
  COMPUTE_UNCONSTRAINED_VELOCITES : Nat
  deriving DecidableEq, Repr

/-- Modelled from the spec: `PxgIslandContext` is declared outside the given
sources.  These are the fields the solve stage reads; counts are `PxU32`
and the iteration counts are signed (`PxI32`, compared with the `PxI32`
loop counter `b`). -/
structure PxgIslandContext where
  mNumPartitions : Nat
  mBodyCount : Nat
  mBatchCount : Nat
  mArtiBatchCount : Nat
  mStaticArtiBatchCount : Nat
  mSelfArtiBatchCount : Nat
  mStaticRigidBatchCount : Nat
  mNumPositionIterations : Int
  mNumVelocityIterations : Int
  deriving DecidableEq, Repr

/-- The members of the solver core and of its collaborators that the
preparation and solve stages read, together with the answer of the driver
to each kernel launch (a function of everything issued so far, the launch
included). -/
structure SolverCore where
  blockDim : PxgKernelBlockDim
  launchResult : List Op → CUresult
  mFrictionEveryIteration : Bool
  mNbStaticRigidSlabs : Nat
  mMaxNumStaticPartitions : Nat
  mNbArticSlabs : Nat
  residualReportingEnabled : Bool
  softbodyCore : Bool
  femClothCore : Bool
  numParticleSystemCores : Nat
  nbArticulations : Nat
  sizeofErrorAccumulator : Nat

/-- What the host has done so far: operations issued (in order) and internal
errors reported, each identified by the kernel whose launch failed. -/
structure SolverState where
  issued : List Op
  errors : List KernelId
  deriving DecidableEq, Repr

/-- The state before anything has been issued. -/
def SolverState.empty : SolverState := ⟨[], []⟩

/-- Append one operation to the issue log. -/
def issue (op : Op) (st : SolverState) : SolverState :=
  ⟨st.issued ++ [op], st.errors⟩

/-- Member `mCudaContext->launchKernel(f, gridDimX, 1, 1, blockDimX, blockDimY, 1, 0, hStream, params, ...)`:
the launch is issued and the driver answers with a result code. -/
def launchKernel (core : SolverCore) (f : KernelId) (gridDimX blockDimX blockDimY : Nat)
    (hStream : Stream) (kernelParams : List KernelParam) (st : SolverState) :
    CUresult × SolverState :=
  let st1 := issue (Op.launchKernel f gridDimX blockDimX blockDimY hStream kernelParams) st
  (core.launchResult st1.issued, st1)

/-- The idiom `if (result != CUDA_SUCCESS) PxGetFoundation().error(eINTERNAL_ERROR, ...)`. -/
def reportIfFailed (result : CUresult) (site : KernelId) (st : SolverState) : SolverState :=
  if result ≠ CUDA_SUCCESS then ⟨st.issued, st.errors ++ [site]⟩ else st

/-- A kernel launch whose result is checked and reported. -/
def launchKernelChecked (core : SolverCore) (f : KernelId) (gridDimX blockDimX blockDimY : Nat)
    (hStream : Stream) (kernelParams : List KernelParam) (st : SolverState) : SolverState :=
  let r := launchKernel core f gridDimX blockDimX blockDimY hStream kernelParams st
  reportIfFailed r.1 f r.2

/-- A counted loop `for (i = 0; i < n; ++i) body(i)` over a fallible state transformer. -/
def forLoop {σ : Type} (n : Nat) (body : Nat → σ → Option σ) (s : σ) : Option σ :=
  (List.range n).foldlM (fun acc i => body i acc) s

/-! ## Constraint preparation stage -/

/-- Member `jointConstraintBlockPrePrepParallel` (source lines 899-926).  The launch result is
only asserted (`PX_ASSERT`), so nothing is reported. -/
def jointConstraintBlockPrePrepParallel (core : SolverCore) (nbConstraintBatches : Nat)
    (st : SolverState) : Option SolverState := do
  let nbBlocksRequired ← u32div
    (u32sub (u32add (u32mul nbConstraintBatches PXG_BATCH_SIZE) core.blockDim.CONSTRAINT_PREPREP_BLOCK) 1)
    (u32 core.blockDim.CONSTRAINT_PREPREP_BLOCK)
  if nbBlocksRequired ≠ 0 then
    let r := launchKernel core KernelId.JOINT_CONSTRAINT_PREPREP_BLOCK nbBlocksRequired
      core.blockDim.CONSTRAINT_PREPREP_BLOCK 1 Stream.mStream
      [KernelParam.mPrePrepDescd, KernelParam.mSharedDescd] st
    pure r.2
  else
    pure st

/-- Member `jointConstraintPrepareParallel` (source lines 928-954). -/
def jointConstraintPrepareParallel (core : SolverCore) (nbJointBatches : Nat)
    (st : SolverState) : Option SolverState := do
  let nbBlocksRequired ← u32div
    (u32sub (u32add (u32mul nbJointBatches PXG_BATCH_SIZE)
      core.blockDim.CONSTRAINT_PREPARE_BLOCK_PARALLEL) 1)
    (u32 core.blockDim.CONSTRAINT_PREPARE_BLOCK_PARALLEL)
  if nbBlocksRequired ≠ 0 then
    pure (launchKernelChecked core KernelId.JOINT_CONSTRAINT_PREPARE_BLOCK_PARALLEL nbBlocksRequired
      core.blockDim.CONSTRAINT_PREPARE_BLOCK_PARALLEL 1 Stream.mStream
      [KernelParam.mPrepareDescd, KernelParam.mSharedDescd] st)
  else
    pure st

/-- Member `contactConstraintPrepareParallel` (source lines 956-984). -/
def contactConstraintPrepareParallel (core : SolverCore) (nbContactBatches : Nat)
    (st : SolverState) : Option SolverState := do
  let nbWarpsPerBlock ← u32div (u32 core.blockDim.CONSTRAINT_PREPARE_BLOCK_PARALLEL) 32
  let nbBlocks ← u32div (u32sub (u32add nbContactBatches nbWarpsPerBlock) 1) nbWarpsPerBlock
  if nbBlocks > 0 then
    pure (launchKernelChecked core KernelId.CONTACT_CONSTRAINT_PREPARE_BLOCK_PARALLEL nbBlocks
      core.blockDim.CONSTRAINT_PREPARE_BLOCK_PARALLEL 1 Stream.mStream
      [KernelParam.mPrepareDescd, KernelParam.mSharedDescd] st)
  else
    pure st

/-- Member `artiJointConstraintPrepare` (source lines 986-1015). -/
def artiJointConstraintPrepare (core : SolverCore) (nbArtiJointBatches : Nat)
    (st : SolverState) : Option SolverState := do
  let numThreadsPerWarp : Nat := 32
  let nbWarpsPerBlock ← u32div (u32 core.blockDim.ARTI_CONSTRAINT_PREPARE) numThreadsPerWarp
  let nbBlocksRequired ← u32div (u32sub (u32add nbArtiJointBatches nbWarpsPerBlock) 1) nbWarpsPerBlock
  if nbBlocksRequired > 0 then
    pure (launchKernelChecked core KernelId.ARTI_JOINT_PREP nbBlocksRequired
      numThreadsPerWarp nbWarpsPerBlock Stream.mStream
      [KernelParam.mPrepareDescd, KernelParam.mSharedDescd] st)
  else
    pure st

/-- Member `artiContactConstraintPrepare` (source lines 1018-1045). -/
def artiContactConstraintPrepare (core : SolverCore) (nbArtiContactBatches : Nat)
    (st : SolverState) : Option SolverState := do
  let nbWarpsPerBlock ← u32div (u32 core.blockDim.ARTI_CONSTRAINT_PREPARE) WARP_SIZE
  let nbBlocks ← u32div (u32sub (u32add nbArtiContactBatches nbWarpsPerBlock) 1) nbWarpsPerBlock
  if nbBlocks > 0 then
    pure (launchKernelChecked core KernelId.ARTI_CONTACT_PREP nbBlocks
      WARP_SIZE nbWarpsPerBlock Stream.mStream
      [KernelParam.mPrepareDescd, KernelParam.mSharedDescd] st)
  else
    pure st

/-! ## Partitioned iterative solver -/

/-- Conversion of a `PxI32` array element to `PxU32` (two's complement). -/
def i32ToU32 (x : Int) : Nat := (x % 4294967296).toNat

/-- A loop `for (i = 0; i < n; ++i) body(i)` whose body cannot fault. -/
def forEach (n : Nat) (body : Nat → SolverState → SolverState) (st : SolverState) : SolverState :=
  (List.range n).foldl (fun acc i => body i acc) st

/-- Locals carried around the partition loop of `solvePartitions`. -/
structure PartitionLoopState where
  startIndex : Nat
  startArtic : Nat
  st : SolverState

/-- Body of the loop `for (c = 0; c < context.mNumPartitions; ++c)` of
`solvePartitions` (source lines 1123-1202). -/
def solvePartitions_partition (core : SolverCore)
    (constraintsPerPartition artiConstraintsPerPartition : Nat → Int)
    (islandIndex : Nat) (doFriction anyArticulationConstraints : Bool)
    (numThreadsPerWarp numWarpsPerBlock : Nat) (c : Nat) (s : PartitionLoopState) :
    Option PartitionLoopState := do
  let endIndex := i32ToU32 (constraintsPerPartition c)
  let nbBlocks ← u32div
    (u32sub (u32add (u32mul (u32sub endIndex s.startIndex) PXG_BATCH_SIZE)
      core.blockDim.SOLVE_BLOCK_PARTITION) 1)
    (u32 core.blockDim.SOLVE_BLOCK_PARTITION)
  let startIndex := endIndex
  let endIndex := i32ToU32 (artiConstraintsPerPartition c)
  let nbArtiBlocks ← u32div
    (u32sub (u32add (u32sub endIndex s.startArtic) numWarpsPerBlock) 1) numWarpsPerBlock
  let st := s.st
  let st :=
    if nbArtiBlocks > 0 ∨ (c = 0 ∧ anyArticulationConstraints = true) then
      issue (Op.averageDeltaV core.mNbArticSlabs Stream.mStream c false) st
    else st
  let st :=
    if c = 0 then issue (Op.precomputeReferenceCount islandIndex false) st else st
  let st :=
    if nbBlocks > 0 then
      launchKernelChecked core KernelId.SOLVE_BLOCK_PARTITION nbBlocks
        core.blockDim.SOLVE_BLOCK_PARTITION 1 Stream.mStream
        [KernelParam.mSolverCoreDescd, KernelParam.mSharedDescd, KernelParam.u32 islandIndex,
          KernelParam.u32 c, KernelParam.bool doFriction] st
    else st
  let st :=
    if nbArtiBlocks > 0 then
      launchKernelChecked core KernelId.ARTI_SOLVE_BLOCK_PARTITION nbArtiBlocks
        numThreadsPerWarp numWarpsPerBlock Stream.mStream
        [KernelParam.mSolverCoreDescd, KernelParam.mSharedDescd, KernelParam.u32 islandIndex,
          KernelParam.u32 c, KernelParam.bool doFriction, KernelParam.artiDescd] st
    else st
  pure ⟨startIndex, endIndex, st⟩

/-- The block after the partition loop of `solvePartitions` that averages the
velocity of a body over its partitions (source lines 1204-1228). -/
def solvePartitions_averageVelocity (core : SolverCore) (context : PxgIslandContext)
    (st : SolverState) : Option SolverState := do
  let nbThreadsRequired := u32mul 32 context.mBodyCount
  let nbBlocksRequired ← u32div
    (u32sub (u32add nbThreadsRequired core.blockDim.COMPUTE_BODIES_AVERAGE_VELOCITY) 1)
    (u32 core.blockDim.COMPUTE_BODIES_AVERAGE_VELOCITY)
  if nbBlocksRequired > 0 then
    pure (launchKernelChecked core KernelId.COMPUTE_AVERAGE_VELOCITY nbBlocksRequired 32
      (u32 core.blockDim.COMPUTE_BODIES_AVERAGE_VELOCITY / 32) Stream.mStream
      [KernelParam.mSolverCoreDescd, KernelParam.mSharedDescd] st)
  else
    pure st

/-- Member `solvePartitions` (source lines 1101-1229). -/
def solvePartitions (core : SolverCore) (islandContexts : Nat → PxgIslandContext)
    (constraintsPerPartition artiConstraintsPerPartition : Nat → Int)
    (islandIndex : Nat) (doFriction anyArticulationConstraints : Bool)
    (st : SolverState) : Option SolverState := do
  let context := islandContexts islandIndex
  let numThreadsPerWarp := WARP_SIZE
  let numWarpsPerBlock := u32 core.blockDim.COMPUTE_UNCONSTRAINED_VELOCITES / numThreadsPerWarp
  let s ← forLoop context.mNumPartitions
    (solvePartitions_partition core constraintsPerPartition artiConstraintsPerPartition
      islandIndex doFriction anyArticulationConstraints numThreadsPerWarp numWarpsPerBlock)
    ⟨0, 0, st⟩
  solvePartitions_averageVelocity core context s.st

/-- Member `writeBackBlock` (source lines 1074-1099). -/
def writeBackBlock (core : SolverCore) (a : Nat) (context : PxgIslandContext)
    (st : SolverState) : Option SolverState := do
  let nbBatches := u32add (u32add (u32add (u32add context.mArtiBatchCount context.mBatchCount)
    context.mStaticArtiBatchCount) context.mSelfArtiBatchCount) context.mStaticRigidBatchCount
  let nbBlocksRequired ← u32div
    (u32sub (u32add (u32mul nbBatches PXG_BATCH_SIZE) core.blockDim.WRITEBACK_BLOCKS) 1)
    (u32 core.blockDim.WRITEBACK_BLOCKS)
  if nbBlocksRequired ≠ 0 then
    pure (launchKernelChecked core KernelId.WRITEBACK_BLOCKS nbBlocksRequired
      core.blockDim.WRITEBACK_BLOCKS 1 Stream.mStream
      [KernelParam.mSolverCoreDescd, KernelParam.mSharedDescd, KernelParam.u32 a] st)
  else
    pure st

/-- The value written when the error accumulators are cleared
(`residualReportingEnabled ? 0u : 0xFFFFFFFFu`). -/
def clearValue (core : SolverCore) : Nat :=
  if core.residualReportingEnabled then 0 else 4294967295

/-- The pair of `memsetD32Async` calls that clear both contact error
accumulators (source lines 1271-1272, 1293-1294, 1501-1502). -/
def zeroErrorAccumulators (core : SolverCore) (st : SolverState) : SolverState :=
  let st := issue (Op.memsetD32Async ErrorAccumulatorPtr.solverCoreContactErrorAccumulator
    (clearValue core) (core.sizeofErrorAccumulator / 4) Stream.mStream) st
  issue (Op.memsetD32Async ErrorAccumulatorPtr.articulationContactErrorAccumulator
    (clearValue core) (core.sizeofErrorAccumulator / 4) Stream.mStream) st

/-- The static-constraint block of an iteration: solve kernel, then the
propagate kernel (source lines 1340-1369 and, identically, 1539-1567). -/
def solveStaticConstraints (core : SolverCore) (context : PxgIslandContext) (a : Nat)
    (doFriction : Bool) (st : SolverState) : Option SolverState := do
  let q ← u32div (u32sub (u32add context.mBodyCount core.blockDim.SOLVE_BLOCK_PARTITION) 1)
    (u32 core.blockDim.SOLVE_BLOCK_PARTITION)
  let nbBlocksRequired := u32mul q core.mNbStaticRigidSlabs
  if nbBlocksRequired ≠ 0 then
    let staticKernelParams := [KernelParam.mSolverCoreDescd, KernelParam.mSharedDescd,
      KernelParam.u32 a, KernelParam.u32 core.mNbStaticRigidSlabs,
      KernelParam.u32 core.mMaxNumStaticPartitions, KernelParam.bool doFriction]
    let st := launchKernelChecked core KernelId.RIGID_SOLVE_STATIC_CONSTRAINTS nbBlocksRequired
      core.blockDim.SOLVE_BLOCK_PARTITION 1 Stream.mStream staticKernelParams st
    pure (launchKernelChecked core KernelId.PROPAGATE_STATIC_SOLVER_VELOCITIES nbBlocksRequired
      core.blockDim.SOLVE_BLOCK_PARTITION 1 Stream.mStream staticKernelParams st)
  else
    pure st

/-- The re-averaging block of an iteration: the propagate-body-velocity kernel
(source lines 1371-1382 and 1573-1584). -/
def propagateBodyVelocity (core : SolverCore) (context : PxgIslandContext)
    (st : SolverState) : Option SolverState := do
  let nbBlocksRequired ← u32div
    (u32sub (u32add (u32mul context.mBodyCount 32) core.blockDim.COMPUTE_BODIES_AVERAGE_VELOCITY) 1)
    (u32 core.blockDim.COMPUTE_BODIES_AVERAGE_VELOCITY)
  if nbBlocksRequired ≠ 0 then
    pure (launchKernelChecked core KernelId.PROPAGATE_BODY_VELOCITY nbBlocksRequired
      core.blockDim.COMPUTE_BODIES_AVERAGE_VELOCITY 1 Stream.mStream
      [KernelParam.mSolverCoreDescd, KernelParam.mSharedDescd] st)
  else
    pure st

/-- The extended-body block of a position iteration: articulation
`outputVelocity`, particle-system solves, cloth solve, soft-body solve, then
particle `updateParticles` (source lines 1309-1338). -/
def solveContactMultiBlockParallel_positionExtendedBodies (core : SolverCore)
    (context : PxgIslandContext) (b : Nat) (st : SolverState) : SolverState :=
  let st :=
    if core.softbodyCore ∨ core.numParticleSystemCores > 0 ∨ core.femClothCore then
      issue (Op.outputVelocity Stream.mStream false) st
    else st
  let st := forEach core.numParticleSystemCores
    (fun i => issue (Op.particleSystemSolve i Stream.mStream)) st
  let st :=
    if core.femClothCore then
      issue (Op.femClothSolve Stream.mStream (b : Int) context.mNumPositionIterations false) st
    else st
  let st :=
    if core.softbodyCore then issue (Op.softBodySolve Stream.mStream (decide (b = 0))) st else st
  forEach core.numParticleSystemCores (fun i => issue (Op.particleSystemUpdateParticles i)) st

/-- The extended-body block of a velocity iteration; there is no cloth solve
("no velocity iteration support for FEM cloth", source lines 1515-1537). -/
def solveContactMultiBlockParallel_velocityExtendedBodies (core : SolverCore)
    (st : SolverState) : SolverState :=
  let st :=
    if core.softbodyCore ∨ core.numParticleSystemCores > 0 ∨ core.femClothCore then
      issue (Op.outputVelocity Stream.mStream false) st
    else st
  let st := forEach core.numParticleSystemCores
    (fun i => issue (Op.particleSystemSolve i Stream.mStream)) st
  let st :=
    if core.softbodyCore then issue (Op.softBodySolve Stream.mStream false) st else st
  forEach core.numParticleSystemCores (fun i => issue (Op.particleSystemUpdateParticles i)) st

/-- Body of the position-iteration loop of `solveContactMultiBlockParallel`
(source lines 1288-1384), for island `a` and iteration `b`. -/
def solveContactMultiBlockParallel_positionIteration (core : SolverCore)
    (islandContexts : Nat → PxgIslandContext)
    (constraintsPerPartition artiConstraintsPerPartition : Nat → Int)
    (a : Nat) (anyArticulationConstraints isTgs : Bool) (b : Nat)
    (st : SolverState) : Option SolverState := do
  let context := islandContexts a
  let st := if core.residualReportingEnabled then zeroErrorAccumulators core st else st
  let doFriction : Bool :=
    if core.mFrictionEveryIteration then true
    else decide (context.mNumPositionIterations - (b : Int) ≤ 3)
  let st ← solvePartitions core islandContexts constraintsPerPartition artiConstraintsPerPartition
    a doFriction anyArticulationConstraints st
  let st := issue
    (Op.propagateRigidBodyImpulsesAndSolveInternalConstraints false doFriction isTgs
      core.residualReportingEnabled) st
  let st := solveContactMultiBlockParallel_positionExtendedBodies core context b st
  let st ← solveStaticConstraints core context a doFriction st
  propagateBodyVelocity core context st

/-- The conclude and body write-back blocks between the two iteration loops
(source lines 1386-1434). -/
def solveContactMultiBlockParallel_concludeAndWriteBack (core : SolverCore)
    (context : PxgIslandContext) (a : Nat) (st : SolverState) : Option SolverState := do
  let nbBatches := u32add (u32add (u32add (u32add context.mArtiBatchCount context.mBatchCount)
    context.mStaticArtiBatchCount) context.mSelfArtiBatchCount) context.mStaticRigidBatchCount
  let nbBlocksRequired ← u32div
    (u32sub (u32add (u32mul nbBatches PXG_BATCH_SIZE) core.blockDim.CONCLUDE_BLOCKS) 1)
    (u32 core.blockDim.CONCLUDE_BLOCKS)
  let st :=
    if nbBlocksRequired ≠ 0 then
      launchKernelChecked core KernelId.CONCLUDE_BLOCKS nbBlocksRequired
        core.blockDim.CONCLUDE_BLOCKS 1 Stream.mStream
        [KernelParam.mSolverCoreDescd, KernelParam.mSharedDescd, KernelParam.u32 a] st
    else st
  let nbBlocksRequired ← u32div
    (u32sub (u32add context.mBodyCount core.blockDim.WRITE_BACK_BODIES) 1)
    (u32 core.blockDim.WRITE_BACK_BODIES)
  let st :=
    if nbBlocksRequired ≠ 0 then
      launchKernelChecked core KernelId.WRITE_BACK_BODIES nbBlocksRequired
        core.blockDim.WRITE_BACK_BODIES 1 Stream.mStream
        [KernelParam.mSolverCoreDescd, KernelParam.mSharedDescd, KernelParam.u32 a] st
    else st
  pure (issue Op.saveVelocities st)

/-- The residual read-back block, executed when residual reporting is enabled
(source lines 1436-1491). -/
def solveContactMultiBlockParallel_residualReport (core : SolverCore)
    (context : PxgIslandContext) (a : Nat) (posIterResidualPinnedMemSize : Nat)
    (st : SolverState) : Option SolverState := do
  let st ← writeBackBlock core a context st
  let st :=
    if posIterResidualPinnedMemSize > 0 then
      let threadBlockSize := 256
      let gridSize := u32sub (u32add posIterResidualPinnedMemSize threadBlockSize) 1 / threadBlockSize
      launchKernelChecked core KernelId.DMA_CONSTRAINT_RESIDUAL gridSize threadBlockSize 1
        Stream.mStream
        [KernelParam.mConstraintWriteBackBuffer, KernelParam.posIterResidualPinnedMem,
          KernelParam.u32 posIterResidualPinnedMemSize] st
    else st
  let st :=
    if core.nbArticulations > 0 then
      let threadBlockSize := 256
      let gridSize := u32sub (u32add core.nbArticulations threadBlockSize) 1 / threadBlockSize
      launchKernelChecked core KernelId.DMA_ARTICULATION_RESIDUAL gridSize threadBlockSize 1
        Stream.mStream [KernelParam.artiDescd, KernelParam.perArticulationInternalError] st
    else st
  let st := issue (Op.memcpyDtoHAsync HostPtr.posIterError
    ErrorAccumulatorPtr.solverCoreContactErrorAccumulator core.sizeofErrorAccumulator
    Stream.mStream) st
  pure (issue (Op.memcpyDtoHAsync HostPtr.artiContactPosIterError
    ErrorAccumulatorPtr.articulationContactErrorAccumulator core.sizeofErrorAccumulator
    Stream.mStream) st)

/-- Body of the velocity-iteration loop of `solveContactMultiBlockParallel`
(source lines 1496-1587), for island `a` and iteration `b`; `doFriction` is
the local set to `true` before the loop. -/
def solveContactMultiBlockParallel_velocityIteration (core : SolverCore)
    (islandContexts : Nat → PxgIslandContext)
    (constraintsPerPartition artiConstraintsPerPartition : Nat → Int)
    (a : Nat) (anyArticulationConstraints isTgs doFriction : Bool) (b : Nat)
    (st : SolverState) : Option SolverState := do
  let context := islandContexts a
  let st := if core.residualReportingEnabled then zeroErrorAccumulators core st else st
  let st ← solvePartitions core islandContexts constraintsPerPartition artiConstraintsPerPartition
    a doFriction anyArticulationConstraints st
  let st := issue
    (Op.propagateRigidBodyImpulsesAndSolveInternalConstraints true doFriction isTgs
      core.residualReportingEnabled) st
  let st := solveContactMultiBlockParallel_velocityExtendedBodies core st
  let st ← solveStaticConstraints core context a doFriction st
  if context.mNumVelocityIterations - (b : Int) ≠ 1 then
    propagateBodyVelocity core context st
  else
    pure st

/-- The tail of the island loop body after the velocity iterations
(source lines 1589-1601). -/
def solveContactMultiBlockParallel_finalWriteBack (core : SolverCore)
    (context : PxgIslandContext) (a : Nat) (st : SolverState) : Option SolverState := do
  let st ← writeBackBlock core a context st
  let st :=
    if core.softbodyCore then
      issue (Op.softBodyFinalizeVelocities false) (issue Op.softBodyCopyContactCountsToHost st)
    else st
  let st :=
    if core.femClothCore then
      issue Op.femClothFinalizeVelocities (issue Op.femClothCopyContactCountsToHost st)
    else st
  pure st

/-- Body of the island loop `for (a = 0; a < numIslands; ++a)` of
`solveContactMultiBlockParallel` (source lines 1280-1602). -/
def solveContactMultiBlockParallel_island (core : SolverCore)
    (islandContexts : Nat → PxgIslandContext)
    (constraintsPerPartition artiConstraintsPerPartition : Nat → Int)
    (posIterResidualPinnedMemSize : Nat) (a : Nat) (st : SolverState) : Option SolverState := do
  let context := islandContexts a
  let anyArticulationConstraints : Bool :=
    decide (u32add (u32add context.mArtiBatchCount context.mStaticArtiBatchCount)
      context.mSelfArtiBatchCount > 0)
  let isTgs := false
  let st ← forLoop context.mNumPositionIterations.toNat
    (solveContactMultiBlockParallel_positionIteration core islandContexts constraintsPerPartition
      artiConstraintsPerPartition a anyArticulationConstraints isTgs) st
  let st ← solveContactMultiBlockParallel_concludeAndWriteBack core context a st
  let st ←
    (if core.residualReportingEnabled then
      solveContactMultiBlockParallel_residualReport core context a posIterResidualPinnedMemSize st
    else pure st)
  let doFriction := true
  let st ← forLoop context.mNumVelocityIterations.toNat
    (solveContactMultiBlockParallel_velocityIteration core islandContexts constraintsPerPartition
      artiConstraintsPerPartition a anyArticulationConstraints isTgs doFriction) st
  solveContactMultiBlockParallel_finalWriteBack core context a st

/-- Member `solveContactMultiBlockParallel` (source lines 1232-1609). -/
def solveContactMultiBlockParallel (core : SolverCore)
    (islandContexts : Nat → PxgIslandContext) (numIslands : Nat)
    (constraintsPerPartition artiConstraintsPerPartition : Nat → Int)
    (posIterResidualPinnedMemSize : Nat) (st : SolverState) : Option SolverState := do
  let st := zeroErrorAccumulators core st
  forLoop numIslands
    (solveContactMultiBlockParallel_island core islandContexts constraintsPerPartition
      artiConstraintsPerPartition posIterResidualPinnedMemSize) st

/-! ## Issue traces in closed form

The operations a member function issues do not depend on what was issued
before it nor on the driver's answers (which only feed the error channel).
The definitions below give, for each function of the solve stage, the list
of operations it appends; the `*_issues` lemmas prove that the embedded
code issues exactly these. -/

/-- The block sizes read by the solve stage are usable: each is a positive
32-bit value, and an articulation block holds at least one warp. -/
def SolveBlockDimsValid (d : PxgKernelBlockDim) : Prop :=
  (0 < d.SOLVE_BLOCK_PARTITION ∧ d.SOLVE_BLOCK_PARTITION < 4294967296) ∧
  (0 < d.COMPUTE_BODIES_AVERAGE_VELOCITY ∧ d.COMPUTE_BODIES_AVERAGE_VELOCITY < 4294967296) ∧
  (0 < d.CONCLUDE_BLOCKS ∧ d.CONCLUDE_BLOCKS < 4294967296) ∧
  (0 < d.WRITEBACK_BLOCKS ∧ d.WRITEBACK_BLOCKS < 4294967296) ∧
  (0 < d.WRITE_BACK_BODIES ∧ d.WRITE_BACK_BODIES < 4294967296) ∧
  (32 ≤ d.COMPUTE_UNCONSTRAINED_VELOCITES ∧ d.COMPUTE_UNCONSTRAINED_VELOCITES < 4294967296)

instance (d : PxgKernelBlockDim) : Decidable (SolveBlockDimsValid d) := by
  unfold SolveBlockDimsValid; infer_instance

/-- A function `f` always returns and appends exactly `ops` to the issue log. -/
def Issues (f : SolverState → Option SolverState) (ops : List Op) : Prop :=
  ∀ st, ∃ st1, f st = some st1 ∧ st1.issued = st.issued ++ ops

/-- Value of the local `startIndex` / `startArtic` on entry to iteration `c`
of the partition loop: `0` at first, then the previous end index. -/
def partitionStart (endIndices : Nat → Int) (c : Nat) : Nat :=
  if c = 0 then 0 else i32ToU32 (endIndices (c - 1))

/-- Number of rigid batches the loop attributes to partition `c`
(`endIndex - startIndex`). -/
def partitionBatchCount (endIndices : Nat → Int) (c : Nat) : Nat :=
  u32sub (i32ToU32 (endIndices c)) (partitionStart endIndices c)

/-- Grid size `nbBlocks` of the rigid partition kernel for partition `c`. -/
def nbBlocks (core : SolverCore) (constraintsPerPartition : Nat → Int) (c : Nat) : Nat :=
  u32sub (u32add (u32mul (partitionBatchCount constraintsPerPartition c) PXG_BATCH_SIZE)
    core.blockDim.SOLVE_BLOCK_PARTITION) 1 / u32 core.blockDim.SOLVE_BLOCK_PARTITION

/-- The local `numWarpsPerBlock` of `solvePartitions`. -/
def numWarpsPerBlock (core : SolverCore) : Nat :=
  u32 core.blockDim.COMPUTE_UNCONSTRAINED_VELOCITES / WARP_SIZE

/-- Grid size `nbArtiBlocks` of the articulation partition kernel for partition `c`. -/
def nbArtiBlocks (core : SolverCore) (artiConstraintsPerPartition : Nat → Int) (c : Nat) : Nat :=
  u32sub (u32add (partitionBatchCount artiConstraintsPerPartition c) (numWarpsPerBlock core)) 1 /
    numWarpsPerBlock core

/-- Operations issued by iteration `c` of the partition loop. -/
def partitionOps (core : SolverCore) (constraintsPerPartition artiConstraintsPerPartition : Nat → Int)
    (islandIndex : Nat) (doFriction anyArticulationConstraints : Bool) (c : Nat) : List Op :=
  (if nbArtiBlocks core artiConstraintsPerPartition c > 0 ∨
      (c = 0 ∧ anyArticulationConstraints = true) then
    [Op.averageDeltaV core.mNbArticSlabs Stream.mStream c false] else []) ++
  (if c = 0 then [Op.precomputeReferenceCount islandIndex false] else []) ++
  (if nbBlocks core constraintsPerPartition c > 0 then
    [Op.launchKernel KernelId.SOLVE_BLOCK_PARTITION (nbBlocks core constraintsPerPartition c)
      core.blockDim.SOLVE_BLOCK_PARTITION 1 Stream.mStream
      [KernelParam.mSolverCoreDescd, KernelParam.mSharedDescd, KernelParam.u32 islandIndex,
        KernelParam.u32 c, KernelParam.bool doFriction]] else []) ++
  (if nbArtiBlocks core artiConstraintsPerPartition c > 0 then
    [Op.launchKernel KernelId.ARTI_SOLVE_BLOCK_PARTITION
      (nbArtiBlocks core artiConstraintsPerPartition c) WARP_SIZE (numWarpsPerBlock core)
      Stream.mStream
      [KernelParam.mSolverCoreDescd, KernelParam.mSharedDescd, KernelParam.u32 islandIndex,
        KernelParam.u32 c, KernelParam.bool doFriction, KernelParam.artiDescd]] else [])

/-- Grid size of the two kernels that average body velocities across slabs. -/
def nbAverageBlocks (core : SolverCore) (context : PxgIslandContext) : Nat :=
  u32sub (u32add (u32mul 32 context.mBodyCount) core.blockDim.COMPUTE_BODIES_AVERAGE_VELOCITY) 1 /
    u32 core.blockDim.COMPUTE_BODIES_AVERAGE_VELOCITY

/-- Operations issued by the averaging block that ends `solvePartitions`. -/
def averageVelocityOps (core : SolverCore) (context : PxgIslandContext) : List Op :=
  if nbAverageBlocks core context > 0 then
    [Op.launchKernel KernelId.COMPUTE_AVERAGE_VELOCITY (nbAverageBlocks core context) 32
      (u32 core.blockDim.COMPUTE_BODIES_AVERAGE_VELOCITY / 32) Stream.mStream
      [KernelParam.mSolverCoreDescd, KernelParam.mSharedDescd]]
  else []

/-- Operations issued by one call of `solvePartitions`. -/
def solvePartitionsOps (core : SolverCore) (islandContexts : Nat → PxgIslandContext)
    (constraintsPerPartition artiConstraintsPerPartition : Nat → Int)
    (islandIndex : Nat) (doFriction anyArticulationConstraints : Bool) : List Op :=
  (List.range (islandContexts islandIndex).mNumPartitions).flatMap
    (partitionOps core constraintsPerPartition artiConstraintsPerPartition islandIndex doFriction
      anyArticulationConstraints) ++
  averageVelocityOps core (islandContexts islandIndex)

/-- The sum of the five batch counts of an island, as computed (in `PxU32`)
by `writeBackBlock` and by the conclude block. -/
def totalBatchCount (context : PxgIslandContext) : Nat :=
  u32add (u32add (u32add (u32add context.mArtiBatchCount context.mBatchCount)
    context.mStaticArtiBatchCount) context.mSelfArtiBatchCount) context.mStaticRigidBatchCount

/-- Operations issued by `writeBackBlock`. -/
def writeBackBlockOps (core : SolverCore) (a : Nat) (context : PxgIslandContext) : List Op :=
  if u32sub (u32add (u32mul (totalBatchCount context) PXG_BATCH_SIZE)
      core.blockDim.WRITEBACK_BLOCKS) 1 / u32 core.blockDim.WRITEBACK_BLOCKS ≠ 0 then
    [Op.launchKernel KernelId.WRITEBACK_BLOCKS
      (u32sub (u32add (u32mul (totalBatchCount context) PXG_BATCH_SIZE)
        core.blockDim.WRITEBACK_BLOCKS) 1 / u32 core.blockDim.WRITEBACK_BLOCKS)
      core.blockDim.WRITEBACK_BLOCKS 1 Stream.mStream
      [KernelParam.mSolverCoreDescd, KernelParam.mSharedDescd, KernelParam.u32 a]]
  else []

/-- Operations issued by `zeroErrorAccumulators`. -/
def zeroErrorAccumulatorsOps (core : SolverCore) : List Op :=
  [Op.memsetD32Async ErrorAccumulatorPtr.solverCoreContactErrorAccumulator
      (clearValue core) (core.sizeofErrorAccumulator / 4) Stream.mStream,
    Op.memsetD32Async ErrorAccumulatorPtr.articulationContactErrorAccumulator
      (clearValue core) (core.sizeofErrorAccumulator / 4) Stream.mStream]

/-- Grid size of the two static-constraint kernels. -/
def nbStaticBlocks (core : SolverCore) (context : PxgIslandContext) : Nat :=
  u32mul (u32sub (u32add context.mBodyCount core.blockDim.SOLVE_BLOCK_PARTITION) 1 /
    u32 core.blockDim.SOLVE_BLOCK_PARTITION) core.mNbStaticRigidSlabs

/-- Operations issued by `solveStaticConstraints`. -/
def staticConstraintsOps (core : SolverCore) (context : PxgIslandContext) (a : Nat)
    (doFriction : Bool) : List Op :=
  if nbStaticBlocks core context ≠ 0 then
    [Op.launchKernel KernelId.RIGID_SOLVE_STATIC_CONSTRAINTS (nbStaticBlocks core context)
        core.blockDim.SOLVE_BLOCK_PARTITION 1 Stream.mStream
        [KernelParam.mSolverCoreDescd, KernelParam.mSharedDescd, KernelParam.u32 a,
          KernelParam.u32 core.mNbStaticRigidSlabs, KernelParam.u32 core.mMaxNumStaticPartitions,
          KernelParam.bool doFriction],
      Op.launchKernel KernelId.PROPAGATE_STATIC_SOLVER_VELOCITIES (nbStaticBlocks core context)
        core.blockDim.SOLVE_BLOCK_PARTITION 1 Stream.mStream
        [KernelParam.mSolverCoreDescd, KernelParam.mSharedDescd, KernelParam.u32 a,
          KernelParam.u32 core.mNbStaticRigidSlabs, KernelParam.u32 core.mMaxNumStaticPartitions,
          KernelParam.bool doFriction]]
  else []

/-- Grid size of the propagate-body-velocity kernel. -/
def nbPropagateBlocks (core : SolverCore) (context : PxgIslandContext) : Nat :=
  u32sub (u32add (u32mul context.mBodyCount 32) core.blockDim.COMPUTE_BODIES_AVERAGE_VELOCITY) 1 /
    u32 core.blockDim.COMPUTE_BODIES_AVERAGE_VELOCITY

/-- Operations issued by `propagateBodyVelocity`. -/
def propagateBodyVelocityOps (core : SolverCore) (context : PxgIslandContext) : List Op :=
  if nbPropagateBlocks core context ≠ 0 then
    [Op.launchKernel KernelId.PROPAGATE_BODY_VELOCITY (nbPropagateBlocks core context)
      core.blockDim.COMPUTE_BODIES_AVERAGE_VELOCITY 1 Stream.mStream
      [KernelParam.mSolverCoreDescd, KernelParam.mSharedDescd]]
  else []

/-- Operations issued by the extended-body block of position iteration `b`. -/
def positionExtendedBodiesOps (core : SolverCore) (context : PxgIslandContext) (b : Nat) :
    List Op :=
  (if core.softbodyCore ∨ core.numParticleSystemCores > 0 ∨ core.femClothCore then
    [Op.outputVelocity Stream.mStream false] else []) ++
  (List.range core.numParticleSystemCores).map (fun i => Op.particleSystemSolve i Stream.mStream) ++
  (if core.femClothCore then
    [Op.femClothSolve Stream.mStream (b : Int) context.mNumPositionIterations false] else []) ++
  (if core.softbodyCore then [Op.softBodySolve Stream.mStream (decide (b = 0))] else []) ++
  (List.range core.numParticleSystemCores).map (fun i => Op.particleSystemUpdateParticles i)

/-- Operations issued by the extended-body block of a velocity iteration. -/
def velocityExtendedBodiesOps (core : SolverCore) : List Op :=
  (if core.softbodyCore ∨ core.numParticleSystemCores > 0 ∨ core.femClothCore then
    [Op.outputVelocity Stream.mStream false] else []) ++
  (List.range core.numParticleSystemCores).map (fun i => Op.particleSystemSolve i Stream.mStream) ++
  (if core.softbodyCore then [Op.softBodySolve Stream.mStream false] else []) ++
  (List.range core.numParticleSystemCores).map (fun i => Op.particleSystemUpdateParticles i)

/-- The local `doFriction` of position iteration `b`
(`mFrictionEveryIteration ? true : (mNumPositionIterations - b) <= 3`). -/
def positionDoFriction (core : SolverCore) (context : PxgIslandContext) (b : Nat) : Bool :=
  if core.mFrictionEveryIteration then true
  else decide (context.mNumPositionIterations - (b : Int) ≤ 3)

/-- Operations issued by position iteration `b` of island `a`. -/
def positionIterationOps (core : SolverCore) (islandContexts : Nat → PxgIslandContext)
    (constraintsPerPartition artiConstraintsPerPartition : Nat → Int)
    (a : Nat) (anyArticulationConstraints isTgs : Bool) (b : Nat) : List Op :=
  (if core.residualReportingEnabled then zeroErrorAccumulatorsOps core else []) ++
  solvePartitionsOps core islandContexts constraintsPerPartition artiConstraintsPerPartition a
    (positionDoFriction core (islandContexts a) b) anyArticulationConstraints ++
  [Op.propagateRigidBodyImpulsesAndSolveInternalConstraints false
    (positionDoFriction core (islandContexts a) b) isTgs core.residualReportingEnabled] ++
  positionExtendedBodiesOps core (islandContexts a) b ++
  staticConstraintsOps core (islandContexts a) a (positionDoFriction core (islandContexts a) b) ++
  propagateBodyVelocityOps core (islandContexts a)

/-- Operations issued by velocity iteration `b` of island `a`. -/
def velocityIterationOps (core : SolverCore) (islandContexts : Nat → PxgIslandContext)
    (constraintsPerPartition artiConstraintsPerPartition : Nat → Int)
    (a : Nat) (anyArticulationConstraints isTgs doFriction : Bool) (b : Nat) : List Op :=
  (if core.residualReportingEnabled then zeroErrorAccumulatorsOps core else []) ++
  solvePartitionsOps core islandContexts constraintsPerPartition artiConstraintsPerPartition a
    doFriction anyArticulationConstraints ++
  [Op.propagateRigidBodyImpulsesAndSolveInternalConstraints true doFriction isTgs
    core.residualReportingEnabled] ++
  velocityExtendedBodiesOps core ++
  staticConstraintsOps core (islandContexts a) a doFriction ++
  (if (islandContexts a).mNumVelocityIterations - (b : Int) ≠ 1 then
    propagateBodyVelocityOps core (islandContexts a) else [])

/-- Operations issued by the conclude and body write-back blocks. -/
def concludeAndWriteBackOps (core : SolverCore) (context : PxgIslandContext) (a : Nat) : List Op :=
  (if u32sub (u32add (u32mul (totalBatchCount context) PXG_BATCH_SIZE)
      core.blockDim.CONCLUDE_BLOCKS) 1 / u32 core.blockDim.CONCLUDE_BLOCKS ≠ 0 then
    [Op.launchKernel KernelId.CONCLUDE_BLOCKS
      (u32sub (u32add (u32mul (totalBatchCount context) PXG_BATCH_SIZE)
        core.blockDim.CONCLUDE_BLOCKS) 1 / u32 core.blockDim.CONCLUDE_BLOCKS)
      core.blockDim.CONCLUDE_BLOCKS 1 Stream.mStream
      [KernelParam.mSolverCoreDescd, KernelParam.mSharedDescd, KernelParam.u32 a]]
  else []) ++
  (if u32sub (u32add context.mBodyCount core.blockDim.WRITE_BACK_BODIES) 1 /
      u32 core.blockDim.WRITE_BACK_BODIES ≠ 0 then
    [Op.launchKernel KernelId.WRITE_BACK_BODIES
      (u32sub (u32add context.mBodyCount core.blockDim.WRITE_BACK_BODIES) 1 /
        u32 core.blockDim.WRITE_BACK_BODIES)
      core.blockDim.WRITE_BACK_BODIES 1 Stream.mStream
      [KernelParam.mSolverCoreDescd, KernelParam.mSharedDescd, KernelParam.u32 a]]
  else []) ++
  [Op.saveVelocities]

/-- Operations issued by the residual read-back block. -/
def residualReportOps (core : SolverCore) (context : PxgIslandContext) (a : Nat)
    (posIterResidualPinnedMemSize : Nat) : List Op :=
  writeBackBlockOps core a context ++
  (if posIterResidualPinnedMemSize > 0 then
    [Op.launchKernel KernelId.DMA_CONSTRAINT_RESIDUAL
      (u32sub (u32add posIterResidualPinnedMemSize 256) 1 / 256) 256 1 Stream.mStream
      [KernelParam.mConstraintWriteBackBuffer, KernelParam.posIterResidualPinnedMem,
        KernelParam.u32 posIterResidualPinnedMemSize]]
  else []) ++
  (if core.nbArticulations > 0 then
    [Op.launchKernel KernelId.DMA_ARTICULATION_RESIDUAL
      (u32sub (u32add core.nbArticulations 256) 1 / 256) 256 1 Stream.mStream
      [KernelParam.artiDescd, KernelParam.perArticulationInternalError]]
  else []) ++
  [Op.memcpyDtoHAsync HostPtr.posIterError ErrorAccumulatorPtr.solverCoreContactErrorAccumulator
      core.sizeofErrorAccumulator Stream.mStream,
    Op.memcpyDtoHAsync HostPtr.artiContactPosIterError
      ErrorAccumulatorPtr.articulationContactErrorAccumulator core.sizeofErrorAccumulator
      Stream.mStream]

/-- Operations issued by the tail of the island loop body. -/
def finalWriteBackOps (core : SolverCore) (context : PxgIslandContext) (a : Nat) : List Op :=
  writeBackBlockOps core a context ++
  (if core.softbodyCore then
    [Op.softBodyCopyContactCountsToHost, Op.softBodyFinalizeVelocities false] else []) ++
  (if core.femClothCore then
    [Op.femClothCopyContactCountsToHost, Op.femClothFinalizeVelocities] else [])

/-- The local `anyArticulationConstraints` of the island loop. -/
def anyArticulationConstraints (context : PxgIslandContext) : Bool :=
  decide (u32add (u32add context.mArtiBatchCount context.mStaticArtiBatchCount)
    context.mSelfArtiBatchCount > 0)

/-- Operations issued for island `a`. -/
def islandOps (core : SolverCore) (islandContexts : Nat → PxgIslandContext)
    (constraintsPerPartition artiConstraintsPerPartition : Nat → Int)
    (posIterResidualPinnedMemSize : Nat) (a : Nat) : List Op :=
  (List.range (islandContexts a).mNumPositionIterations.toNat).flatMap
    (positionIterationOps core islandContexts constraintsPerPartition artiConstraintsPerPartition a
      (anyArticulationConstraints (islandContexts a)) false) ++
  concludeAndWriteBackOps core (islandContexts a) a ++
  (if core.residualReportingEnabled then
    residualReportOps core (islandContexts a) a posIterResidualPinnedMemSize else []) ++
  (List.range (islandContexts a).mNumVelocityIterations.toNat).flatMap
    (velocityIterationOps core islandContexts constraintsPerPartition artiConstraintsPerPartition a
      (anyArticulationConstraints (islandContexts a)) false true) ++
  finalWriteBackOps core (islandContexts a) a

/-- Operations issued by one call of `solveContactMultiBlockParallel`. -/
def solveContactMultiBlockParallelOps (core : SolverCore)
    (islandContexts : Nat → PxgIslandContext) (numIslands : Nat)
    (constraintsPerPartition artiConstraintsPerPartition : Nat → Int)
    (posIterResidualPinnedMemSize : Nat) : List Op :=
  zeroErrorAccumulatorsOps core ++
  (List.range numIslands).flatMap
    (islandOps core islandContexts constraintsPerPartition artiConstraintsPerPartition
      posIterResidualPinnedMemSize)

/-! ## Observations on issued operations -/

/-- The `doFriction` argument of the operations that take one: the rigid and
articulation partition kernels, the two static-constraint kernels and the
articulation internal solve. -/
def frictionFlag : Op → Option Bool
  | Op.launchKernel KernelId.SOLVE_BLOCK_PARTITION _ _ _ _ [_, _, _, _, KernelParam.bool f] =>
    some f
  | Op.launchKernel KernelId.ARTI_SOLVE_BLOCK_PARTITION _ _ _ _
      [_, _, _, _, KernelParam.bool f, _] => some f
  | Op.launchKernel KernelId.RIGID_SOLVE_STATIC_CONSTRAINTS _ _ _ _
      [_, _, _, _, _, KernelParam.bool f] => some f
  | Op.launchKernel KernelId.PROPAGATE_STATIC_SOLVER_VELOCITIES _ _ _ _
      [_, _, _, _, _, KernelParam.bool f] => some f
  | Op.propagateRigidBodyImpulsesAndSolveInternalConstraints _ f _ _ => some f
  | _ => none

/-- The `isVelocityIteration` argument of the articulation internal solve. -/
def velocityIterationFlag : Op → Option Bool
  | Op.propagateRigidBodyImpulsesAndSolveInternalConstraints v _ _ _ => some v
  | _ => none

/-- Whether an operation is a launch of kernel `k`. -/
def isLaunchOf (k : KernelId) : Op → Bool
  | Op.launchKernel f _ _ _ _ _ => decide (f = k)
  | _ => false

/-- The partition index `c` an operation of the partition sweep is issued for:
the `partitionId` of `averageDeltaV` and the kernel argument `c` of the rigid
and articulation partition kernels. -/
def partitionIndex : Op → Option Nat
  | Op.averageDeltaV _ _ c _ => some c
  | Op.launchKernel KernelId.SOLVE_BLOCK_PARTITION _ _ _ _ [_, _, _, KernelParam.u32 c, _] =>
    some c
  | Op.launchKernel KernelId.ARTI_SOLVE_BLOCK_PARTITION _ _ _ _
      [_, _, _, KernelParam.u32 c, _, _] => some c
  | _ => none

/-- The partition index passed to a launch of the rigid partition kernel. -/
def rigidPartition : Op → Option Nat
  | Op.launchKernel KernelId.SOLVE_BLOCK_PARTITION _ _ _ _ [_, _, _, KernelParam.u32 c, _] =>
    some c
  | _ => none

/-- The partition index passed to a launch of the articulation partition kernel. -/
def artiPartition : Op → Option Nat
  | Op.launchKernel KernelId.ARTI_SOLVE_BLOCK_PARTITION _ _ _ _
      [_, _, _, KernelParam.u32 c, _, _] => some c
  | _ => none

/-- The partition index an `averageDeltaV` call is issued for. -/
def averageDeltaVPartition : Op → Option Nat
  | Op.averageDeltaV _ _ c _ => some c
  | _ => none

/-- The queue an operation is issued on, for the operations that name one. -/
def streamOf : Op → Option Stream
  | Op.launchKernel _ _ _ _ s _ => some s
  | Op.memsetD32Async _ _ _ s => some s
  | Op.memcpyDtoHAsync _ _ _ s => some s
  | Op.averageDeltaV _ s _ _ => some s
  | Op.outputVelocity s _ => some s
  | Op.particleSystemSolve _ s => some s
  | Op.femClothSolve s _ _ _ => some s
  | Op.softBodySolve s _ => some s
  | Op.softBodyConstraintPrep s _ _ _ => some s
  | Op.femClothConstraintPrep s _ _ => some s
  | Op.particleSystemConstraintPrep _ s _ _ => some s
  | _ => none

/-- Position of an operation inside the partition sweep: for partition `c`,
`averageDeltaV` has rank `4c`, the rigid kernel `4c + 2`, the articulation
kernel `4c + 3`; the reference-count recomputation has rank `1`, between the
`averageDeltaV` and the rigid kernel of partition `0`. -/
def sweepRank : Op → Option Nat
  | Op.averageDeltaV _ _ c _ => some (4 * c)
  | Op.precomputeReferenceCount _ _ => some 1
  | Op.launchKernel KernelId.SOLVE_BLOCK_PARTITION _ _ _ _ [_, _, _, KernelParam.u32 c, _] =>
    some (4 * c + 2)
  | Op.launchKernel KernelId.ARTI_SOLVE_BLOCK_PARTITION _ _ _ _
      [_, _, _, KernelParam.u32 c, _, _] => some (4 * c + 3)
  | _ => none

/-- Whether an operation is the reference-count recomputation. -/
def isPrecomputeReferenceCount : Op → Bool
  | Op.precomputeReferenceCount _ _ => true
  | _ => false

/-- Step of an iteration an operation belongs to, as a two-digit code: the
tens digit is the step (1 partition sweep, 2 cross-slab average, 3 articulation
internal solve, 4 extended bodies, 5 static constraints, 6 re-averaging), the
units digit the place inside the step (extended bodies: 0 `outputVelocity`,
1 particle solve, 2 cloth solve, 3 soft-body solve, 4 `updateParticles`;
static constraints: 0 solve, 1 propagate).  The accumulator resets that open
an iteration belong to no step. -/
def iterationStep : Op → Option Nat
  | Op.averageDeltaV _ _ _ _ => some 10
  | Op.precomputeReferenceCount _ _ => some 10
  | Op.launchKernel KernelId.SOLVE_BLOCK_PARTITION _ _ _ _ _ => some 10
  | Op.launchKernel KernelId.ARTI_SOLVE_BLOCK_PARTITION _ _ _ _ _ => some 10
  | Op.launchKernel KernelId.COMPUTE_AVERAGE_VELOCITY _ _ _ _ _ => some 20
  | Op.propagateRigidBodyImpulsesAndSolveInternalConstraints _ _ _ _ => some 30
  | Op.outputVelocity _ _ => some 40
  | Op.particleSystemSolve _ _ => some 41
  | Op.femClothSolve _ _ _ _ => some 42
  | Op.softBodySolve _ _ => some 43
  | Op.particleSystemUpdateParticles _ => some 44
  | Op.launchKernel KernelId.RIGID_SOLVE_STATIC_CONSTRAINTS _ _ _ _ _ => some 50
  | Op.launchKernel KernelId.PROPAGATE_STATIC_SOLVER_VELOCITIES _ _ _ _ _ => some 51
  | Op.launchKernel KernelId.PROPAGATE_BODY_VELOCITY _ _ _ _ _ => some 60
  | _ => none

/-- A well-formed array of cumulative end indices for `n` partitions:
non-negative `PxI32` values that never decrease. -/
def CumulativeEndIndices (endIndices : Nat → Int) (n : Nat) : Prop :=
  (∀ c, c < n → 0 ≤ endIndices c ∧ endIndices c < 2147483648) ∧
  (∀ c, c < n → c + 1 < n → endIndices c ≤ endIndices (c + 1))

instance (endIndices : Nat → Int) (n : Nat) : Decidable (CumulativeEndIndices endIndices n) := by
  unfold CumulativeEndIndices; infer_instance

/-- Number of batches of partition `c` according to a cumulative end-index
array: the end index of `c` minus the end index of `c - 1` (`0` for `c = 0`). -/
def batchesInPartition (endIndices : Nat → Int) (c : Nat) : Int :=
  endIndices c - (if c = 0 then 0 else endIndices (c - 1))

/-- The island index an operation is issued for: the `islandIndex` of the
reference-count recomputation and the island argument (`islandIndex` / `a`,
third kernel parameter) of the partition, static-constraint, conclude and
write-back kernels. -/
def islandOf : Op → Option Nat
  | Op.precomputeReferenceCount i _ => some i
  | Op.launchKernel KernelId.SOLVE_BLOCK_PARTITION _ _ _ _ (_ :: _ :: KernelParam.u32 i :: _) =>
    some i
  | Op.launchKernel KernelId.ARTI_SOLVE_BLOCK_PARTITION _ _ _ _
      (_ :: _ :: KernelParam.u32 i :: _) => some i
  | Op.launchKernel KernelId.RIGID_SOLVE_STATIC_CONSTRAINTS _ _ _ _
      (_ :: _ :: KernelParam.u32 i :: _) => some i
  | Op.launchKernel KernelId.PROPAGATE_STATIC_SOLVER_VELOCITIES _ _ _ _
      (_ :: _ :: KernelParam.u32 i :: _) => some i
  | Op.launchKernel KernelId.CONCLUDE_BLOCKS _ _ _ _ (_ :: _ :: KernelParam.u32 i :: _) => some i
  | Op.launchKernel KernelId.WRITE_BACK_BODIES _ _ _ _ (_ :: _ :: KernelParam.u32 i :: _) =>
    some i
  | Op.launchKernel KernelId.WRITEBACK_BLOCKS _ _ _ _ (_ :: _ :: KernelParam.u32 i :: _) => some i
  | _ => none

/-- An operation of island `a` that is neither the articulation internal
solve, nor the reference-count recomputation, nor one of the two kernels that
average body velocities across slabs. -/
def PlainFor (a : Nat) (op : Op) : Prop :=
  velocityIterationFlag op = none ∧ isPrecomputeReferenceCount op = false ∧
  isLaunchOf KernelId.PROPAGATE_BODY_VELOCITY op = false ∧
  isLaunchOf KernelId.COMPUTE_AVERAGE_VELOCITY op = false ∧
  ∀ i, islandOf op = some i → i = a

/-- The step codes of the operations in `l` are in non-decreasing order and
lie between `lo` and `hi`. -/
def StepsWithin (l : List Op) (lo hi : Nat) : Prop :=
  (l.filterMap iterationStep).Pairwise (· ≤ ·) ∧
  ∀ x ∈ l.filterMap iterationStep, lo ≤ x ∧ x ≤ hi

/-! ## Extended-body preparation and classification of operations -/

/-- Member `nonRigidConstraintPrepare` (source lines 1049-1072);
`numSolverBodies` is `mGpuContext->mSolverBodyPool.size()`. -/
def nonRigidConstraintPrepare (core : SolverCore) (numSolverBodies numArticulations : Nat)
    (st : SolverState) : SolverState :=
  let st :=
    if core.softbodyCore then
      issue (Op.softBodyConstraintPrep Stream.mStream false numSolverBodies numArticulations) st
    else st
  let st :=
    if core.femClothCore then
      issue (Op.femClothConstraintPrep Stream.mStream numSolverBodies numArticulations) st
    else st
  forEach core.numParticleSystemCores
    (fun i => issue (Op.particleSystemConstraintPrep i Stream.mStream false numSolverBodies)) st

/-- What an operation of the solve stage is for. -/
inductive OpKind where
  | solve
  | extendedBody
  | accumulatorFill
  | residualReadBack
  deriving DecidableEq, Repr

/-- Classification of the operations of the solve stage: calls into the
extended-body solvers (soft body, cloth, particle systems) together with the
articulation `outputVelocity` call made on their behalf; fills of the error
accumulators; the residual read-back (the two residual kernels and the
device-to-host copies of the accumulators); everything else belongs to the
rigid and articulation solve itself. -/
def opKind : Op → OpKind
  | Op.memsetD32Async _ _ _ _ => OpKind.accumulatorFill
  | Op.memcpyDtoHAsync _ _ _ _ => OpKind.residualReadBack
  | Op.launchKernel KernelId.DMA_CONSTRAINT_RESIDUAL _ _ _ _ _ => OpKind.residualReadBack
  | Op.launchKernel KernelId.DMA_ARTICULATION_RESIDUAL _ _ _ _ _ => OpKind.residualReadBack
  | Op.outputVelocity _ _ => OpKind.extendedBody
  | Op.particleSystemSolve _ _ => OpKind.extendedBody
  | Op.particleSystemUpdateParticles _ => OpKind.extendedBody
  | Op.femClothSolve _ _ _ _ => OpKind.extendedBody
  | Op.softBodySolve _ _ => OpKind.extendedBody
  | Op.softBodyCopyContactCountsToHost => OpKind.extendedBody
  | Op.softBodyFinalizeVelocities _ => OpKind.extendedBody
  | Op.femClothCopyContactCountsToHost => OpKind.extendedBody
  | Op.femClothFinalizeVelocities => OpKind.extendedBody
  | Op.softBodyConstraintPrep _ _ _ _ => OpKind.extendedBody
  | Op.femClothConstraintPrep _ _ _ => OpKind.extendedBody
  | Op.particleSystemConstraintPrep _ _ _ _ => OpKind.extendedBody
  | _ => OpKind.solve

/-- Whether an operation has kind `k`. -/
def hasKind (k : OpKind) (op : Op) : Bool := decide (opKind op = k)

/-- Whether an operation is the soft-body `solve` call. -/
def isSoftBodySolve : Op → Bool
  | Op.softBodySolve _ _ => true
  | _ => false

/-- Whether an operation is the cloth `solve` call. -/
def isFemClothSolve : Op → Bool
  | Op.femClothSolve _ _ _ _ => true
  | _ => false

/-- Whether an operation is the `solve` call of particle-system core `i`. -/
def isParticleSystemSolve (i : Nat) : Op → Bool
  | Op.particleSystemSolve j _ => decide (j = i)
  | _ => false

/-- The core with every extended-body solver unregistered (no soft-body core,
no cloth core, zero particle-system cores) and everything else unchanged. -/
def withoutExtendedBodies (core : SolverCore) : SolverCore :=
  { core with softbodyCore := false, femClothCore := false, numParticleSystemCores := 0 }

/-- Operations of the residual read-back block after its `writeBackBlock`
call: the two residual kernels (each only when there is something to report)
and the copies of both error accumulators to host memory. -/
def residualTransferOps (core : SolverCore) (posIterResidualPinnedMemSize : Nat) : List Op :=
  (if posIterResidualPinnedMemSize > 0 then
    [Op.launchKernel KernelId.DMA_CONSTRAINT_RESIDUAL
      (u32sub (u32add posIterResidualPinnedMemSize 256) 1 / 256) 256 1 Stream.mStream
      [KernelParam.mConstraintWriteBackBuffer, KernelParam.posIterResidualPinnedMem,
        KernelParam.u32 posIterResidualPinnedMemSize]]
  else []) ++
  (if core.nbArticulations > 0 then
    [Op.launchKernel KernelId.DMA_ARTICULATION_RESIDUAL
      (u32sub (u32add core.nbArticulations 256) 1 / 256) 256 1 Stream.mStream
      [KernelParam.artiDescd, KernelParam.perArticulationInternalError]]
  else []) ++
  [Op.memcpyDtoHAsync HostPtr.posIterError ErrorAccumulatorPtr.solverCoreContactErrorAccumulator
      core.sizeofErrorAccumulator Stream.mStream,
    Op.memcpyDtoHAsync HostPtr.artiContactPosIterError
      ErrorAccumulatorPtr.articulationContactErrorAccumulator core.sizeofErrorAccumulator
      Stream.mStream]

/-! ## Transfer and force-threshold stages

The upload (`gpuMemDMAUp*`), download (`gpuMemDMAbackSolverData`,
`syncDmaBack`) and force-threshold (`accumulatedForceThresholdStream`,
`radixSort`) members issue allocations, asynchronous copies and kernel
launches with fixed launch dimensions.  They are embedded over a state of
their own that also holds the data members these functions assign. -/

/-- Reduction of a natural number to the range of `size_t` (64 bits). -/
def usize (n : Nat) : Nat := n % 18446744073709551616

/-- Multiplication in `size_t` (wraps modulo `2^64`). -/
def usizeMul (a b : Nat) : Nat := (a * b) % 18446744073709551616

/-- Addition in `size_t` (wraps modulo `2^64`). -/
def usizeAdd (a b : Nat) : Nat := (a + b) % 18446744073709551616

/-- Subtraction in `size_t` (wraps modulo `2^64`). -/
def usizeSub (a b : Nat) : Nat :=
  (18446744073709551616 - b % 18446744073709551616 + a % 18446744073709551616) %
    18446744073709551616

/-- Further device buffers of the core: those addressed by the integration
kernels and those allocated by `gpuMemDMAUp`. -/
inductive MemberBuffer where
  | mIslandNodeIndices2
  | mSolverBodyIndices
  | mSolverBodySleepDataPool
  | bodySimBuffer
  | mOutBody2WorldPool
  | mOutVelocityPool
  | mNodeInteractionCounts
  | mDataBuffer
  | mArtiOrderedStaticContacts
  | mArtiOrderedStaticConstraints
  | mBlockConstraintBatches
  | mConstraint1DBatchIndices
  | mContactBatchIndices
  | mArtiContactBatchIndices
  | mArtiConstraint1dBatchIndices
  | mSolverBodyReferences
  | mBlockWorkUnits
  | mConstraintsPerPartition
  | mArtiConstraintsPerPartition
  | mConstraintContactPrepBlockPool
  | mConstraint1DPrepBlockPool
  | mConstraint1DPrepBlockPoolVel
  | mConstraint1DPrepBlockPoolPar
  | mConstraintDataPool
  | mConstraintRowPool
  | mArtiConstraintDataPool
  | mArtiConstraintRowPool
  | mJointHeaderBlockStream
  | mJointRowBlockStreamCon
  | mJointRowBlockStreamMod
  | mContactHeaderBlockStream
  | mFrictionHeaderBlockStream
  | mContactBlockStream
  | mFrictionBlockStream
  | mGpuContactBlockBuffer
  | mContactHeaderStream
  | mFrictionHeaderStream
  | mContactStream
  | mFrictionStream
  | mArtiConstraintBlockResponse
  | mRigidStaticContactIndices
  | mRigidStaticJointIndices
  | mRigidStaticContactCounts
  | mRigidStaticJointCounts
  | mRigidStaticContactStartIndices
  | mRigidStaticJointStartIndices
  | mTempContactUniqueIndicesBlockBuffer
  | mTempConstraintUniqueIndicesBlockBuffer
  | mTempContactHeaderBlockBuffer
  | mTempConstraintHeaderBlockBuffer
  | mArtiStaticContactIndices
  | mArtiStaticJointIndices
  | mArtiStaticContactCounts
  | mArtiStaticJointCounts
  | mArtiSelfContactIndices
  | mArtiSelfJointIndices
  | mArtiSelfContactCounts
  | mArtiSelfJointCounts
  deriving DecidableEq, Repr

/-- Device buffers (data members of the core) and device arrays reached
through the solver descriptor that the transfer stages address. -/
inductive DeviceBuffer where
  | mCompressedContacts
  | mCompressedPatches
  | mDestroyedEdgeIndices
  | mConstraintWriteBackBuffer
  | mForceThresholdStream
  | mTmpForceThresholdStream
  | mPartitionIndexData
  | mPartitionNodeData
  | mSolverConstantData
  | mPartitionStartBatchIndices
  | mPartitionArticulationStartBatchIndices
  | mPartitionJointBatchCounts
  | mPartitionArtiJointBatchCounts
  | mNpIndexArray
  | mIslandIds
  | mIslandStaticTouchCount
  | mFrictionPatchCounts (index : Nat)
  | mSolverBodyDataPool
  | mSolverTxIDataPool
  | mSolverBodyPool
  | mTempStaticBodyOutputPool
  | mSolverEncodedReferenceCount
  | mThresholdStreamAccumulatedForce
  | mBlocksThresholdStreamAccumulatedForce
  | mAccumulatedForceObjectPairs
  | mExceededForceElements (index : Nat)
  | mThresholdStreamWriteIndex
  | mBlocksThresholdStreamWriteIndex
  | mThresholdStreamWriteable
  | mForceChangeThresholdElements
  | mSolverCoreDescd
  | mForceBuffer
  | mFrictionPatches
  | thresholdStream
  | tmpThresholdStream
  | member (buffer : MemberBuffer)
  deriving DecidableEq, Repr

/-- Host memory blocks that are the source or destination of a copy. -/
inductive HostBuffer where
  | compressedContactsHostMemoryAllocator
  | compressedPatchesHostMemoryAllocator
  | partitionIndexData
  | partitionNodeData
  | constantData
  | partitionConstraintBatchStartIndices
  | partitionArticConstraintBatchStartIndices
  | partitionJointBatchCounts
  | partitionArtiJointBatchCounts
  | npIndexArray
  | islandIds
  | islandStaticTouchCount
  | destroyedEdges
  | solverBodyDataPool
  | solverTxIDataPool
  | mSolverCoreDesc
  | constraintWriteBack
  | forceBufferPool
  | frictionPatchesDataStream
  | changedElems
  | rigidStaticContactIndices
  | rigidStaticJointIndices
  | rigidStaticContactCounts
  | rigidStaticJointCounts
  | artiStaticContactIndices
  | artiStaticJointIndices
  | artiStaticContactCounts
  | artiStaticJointCounts
  | artiSelfContactIndices
  | artiSelfJointIndices
  | artiSelfContactCounts
  | artiSelfJointCounts
  | constraintsPerPartition
  | artiConstraintsPerPartition
  | constraint1DBatchIndices
  | constraintContactBatchIndices
  | artiConstraintContactBatchIndices
  | artiConstraint1dBatchindices
  | hostAllocator
  deriving DecidableEq, Repr

/-- Kernel identifiers (`PxgKernelIds`) used by the transfer and
force-threshold stages. -/
inductive TransferKernelId where
  | CLEAR_FRICTION_PATCH_COUNTS
  | DMA_CHANGED_ELEMS
  | INITIALIZE_INPUT_AND_RANKS_B
  | INITIALIZE_INPUT_AND_RANKS_A
  | RADIXSORT_SINGLEBLOCK
  | RADIXSORT_CALCULATERANKS
  | REORGANIZE_THRESHOLDSTREAM
  | COMPUTE_ACCUMULATED_THRESHOLDSTREAM
  | OUTPUT_ACCUMULATED_THRESHOLDSTREAM
  | WRITEOUT_ACCUMULATEDFORCEPEROBJECT
  | COMPUTE_EXCEEDEDFORCE_THRESHOLDELEMENT_INDICE
  | OUTPUT_EXCEEDEDFORCE_THRESHOLDELEMENT_INDICE
  | SET_THRESHOLDELEMENT_MASK
  | COMPUTE_THRESHOLDELEMENT_MASK_INDICES
  | OUTPUT_THRESHOLDELEMENT_MASK_INDICES
  | CREATE_FORCECHANGE_THRESHOLDELEMENTS
  | PRE_INTEGRATION
  | INIT_STATIC_KINEMATICS
  | INTEGRATE_CORE_PARALLEL
  deriving DecidableEq, Repr

/-- Enumerators of `PxgKernelGridDim` and `PxgKernelBlockDim` read by the
transfer and force-threshold stages. -/
inductive KernelDim where
  | CLEAR_FRICTION_PATCH_COUNTS
  | DMA_CHANGED_ELEMS
  | INITIALIZE_INPUT_AND_RANKS
  | RADIXSORT
  | REORGANIZE_THRESHOLDSTREAM
  | COMPUTE_ACCUMULATED_THRESHOLDSTREAM
  | OUTPUT_ACCUMULATED_THRESHOLDSTREAM
  | WRITEOUT_ACCUMULATEDFORCEPEROBJECT
  | COMPUTE_EXCEEDEDFORCE_THRESHOLDELEMENT_INDICE
  | OUTPUT_EXCEEDEDFORCE_THRESHOLDELEMENT_INDICE
  | SET_THRESHOLDELEMENT_MASK
  | COMPUTE_THRESHOLDELEMENT_MASK_INDICES
  | OUTPUT_THRESHOLDELEMENT_MASK_INDICES
  | CREATE_FORCECHANGE_THRESHOLDELEMENTS
  | PRE_INTEGRATION
  | INTEGRATE_CORE_PARALLEL
  deriving DecidableEq, Repr

/-- Events (`CUevent` members) used to order the two queues. -/
inductive Event where
  | mEventDmaBack
  deriving DecidableEq, Repr

/-- One entry of a `PxCudaKernelParam` array of the transfer stages. -/
inductive TransferParam where
  | mSolverCoreDescd
  | mSharedDescd
  | mRadixSortDescd (descIndex : Nat)
  | devicePtr (buffer : DeviceBuffer)
  | hostDevicePointer (host : HostBuffer)
  | u32 (value : Nat)
  | dt
  | gravity
  deriving DecidableEq, Repr

/-- An operation issued by a transfer or force-threshold member function. -/
inductive TransferOp where
  | allocate (buffer : DeviceBuffer) (byteSize : Nat)
  | allocateNodeInteractionCounts (nbNodes : Nat)
  | uploadNodeInteractionCounts (nbNodes : Nat)
  | radixSortAllocate (count : Nat)
  | memcpyHtoDAsync (dst : DeviceBuffer) (dstOffset : Nat) (src : HostBuffer) (srcOffset : Nat)
      (byteCount : Nat) (hStream : Stream)
  | memcpyDtoHAsync (dst : HostBuffer) (dstOffset : Nat) (src : DeviceBuffer) (srcOffset : Nat)
      (byteCount : Nat) (hStream : Stream)
  | memcpyDtoDAsync (dst src : DeviceBuffer) (byteCount : Nat) (hStream : Stream)
  | memsetD32Async (dst : DeviceBuffer) (value count : Nat) (hStream : Stream)
  | launchKernel (f : TransferKernelId) (gridDimX blockDimX : Nat) (hStream : Stream)
      (kernelParams : List TransferParam)
  | synchronizeStreams (dependency dependent : Stream) (event : Event)
  | memHostGetDevicePointer (host : HostBuffer)
  | streamFlush (hStream : Stream)
  | streamSynchronize (hStream : Stream)
  | acquireContext
  | releaseContext
  deriving DecidableEq, Repr

/-- Sizes in bytes (`sizeof`) of the record types the transfer stages move.
The types are declared outside the given sources, so their sizes are
parameters of the model. -/
structure TypeSizes where
  ThresholdStreamElement : Nat
  PxgConstraintWriteback : Nat
  ConstraintWriteback : Nat
  PartitionIndexData : Nat
  PartitionNodeData : Nat
  PxgSolverConstraintManagerConstants : Nat
  PxgSolverBodyData : Nat
  PxgSolverTxIData : Nat
  PxgSolverCoreDesc : Nat
  deriving DecidableEq, Repr

/-- What the transfer stages read from their environment: the sizes of the
record types, the launch dimension tables (`PxgKernelGridDim`,
`PxgKernelBlockDim`, declared outside the given sources) and the answer of
the driver to each kernel launch. -/
structure TransferCore where
  sizes : TypeSizes
  gridDim : KernelDim → Nat
  blockDim : KernelDim → Nat
  launchResult : List TransferOp → CUresult

/-- The part of the core the transfer stages act on: the operations issued
(in order), the internal errors reported, and the data members they assign
or read. -/
structure TransferState where
  issued : List TransferOp
  errors : List TransferKernelId
  mTotalContactManagers : Nat
  mNbPrevExceededForceElements : Nat
  mSolverBodyOutputVelocityOffset : Nat
  mNbStaticRigidSlabs : Nat
  mMaxNumStaticPartitions : Nat
  mCurrentIndex : Nat
  deriving DecidableEq, Repr

/-- A freshly constructed core: nothing issued, all counters `0`. -/
def TransferState.empty : TransferState := ⟨[], [], 0, 0, 0, 0, 0, 0⟩

/-- Append one operation to the issue log of the transfer stages. -/
def TransferState.issue (op : TransferOp) (st : TransferState) : TransferState :=
  { st with issued := st.issued ++ [op] }

/-- Arguments of `gpuMemDMAUpContactData` that are sizes or counts (the
pointer arguments are named by `HostBuffer`). -/
structure ContactDataArgs where
  compressedContactsTotalSize : Nat
  compressedContactStreamUpperPartSize : Nat
  compressedPatchesTotalSize : Nat
  compressedPatchStreamUpperPartSize : Nat
  totalContactManagers : Nat
  constantDataCount : Nat
  partitionIndexDataCount : Nat
  nbPartitions : Nat
  nbDestroyedEdges : Nat
  npIndexArraySize : Nat
  totalNumJoints : Nat
  nbNodes : Nat
  nbIslands : Nat
  deriving DecidableEq, Repr

/-- The allocations that open `gpuMemDMAUpContactData` (source lines 313-335). -/
def gpuMemDMAUpContactData_allocate (core : TransferCore) (args : ContactDataArgs)
    (st : TransferState) : TransferState :=
  let st := st.issue (.allocate .mDestroyedEdgeIndices (usizeMul 4 args.nbDestroyedEdges))
  let st := st.issue (.allocate .mConstraintWriteBackBuffer
    (usizeMul core.sizes.PxgConstraintWriteback args.totalNumJoints))
  let st := st.issue (.allocate .mForceThresholdStream
    (usizeMul core.sizes.ThresholdStreamElement args.totalContactManagers))
  let st := st.issue (.allocate .mTmpForceThresholdStream
    (usizeMul core.sizes.ThresholdStreamElement args.totalContactManagers))
  let st := st.issue (.allocate .mPartitionIndexData
    (usizeMul core.sizes.PartitionIndexData args.partitionIndexDataCount))
  let st := st.issue (.allocate .mPartitionNodeData
    (usizeMul core.sizes.PartitionNodeData args.partitionIndexDataCount))
  let st := st.issue (.allocate .mSolverConstantData
    (usizeMul core.sizes.PxgSolverConstraintManagerConstants args.constantDataCount))
  let st := st.issue (.allocate .mPartitionStartBatchIndices (usizeMul 4 args.nbPartitions))
  let st := st.issue (.allocate .mPartitionArticulationStartBatchIndices
    (usizeMul 4 args.nbPartitions))
  let st := st.issue (.allocate .mPartitionJointBatchCounts (usizeMul 4 args.nbPartitions))
  let st := st.issue (.allocate .mPartitionArtiJointBatchCounts (usizeMul 4 args.nbPartitions))
  let st := st.issue (.allocate .mNpIndexArray (usizeMul 4 args.npIndexArraySize))
  let st := st.issue (.allocate .mIslandIds (usizeMul args.nbNodes 4))
  let st := st.issue (.allocate .mIslandStaticTouchCount (usizeMul args.nbIslands 4))
  let st := st.issue (.allocateNodeInteractionCounts args.nbNodes)
  { st with mTotalContactManagers := args.totalContactManagers }

/-- The host-to-device copies of `gpuMemDMAUpContactData` up to and including
the copy of the destroyed-edge indices (source lines 340-367). -/
def gpuMemDMAUpContactData_upload (core : TransferCore) (args : ContactDataArgs)
    (st : TransferState) : TransferState :=
  let contactsOffset :=
    usizeSub args.compressedContactsTotalSize args.compressedContactStreamUpperPartSize
  let st := st.issue (.memcpyHtoDAsync .mCompressedContacts contactsOffset
    .compressedContactsHostMemoryAllocator contactsOffset
    args.compressedContactStreamUpperPartSize .mStream)
  let patchesOffset :=
    usizeSub args.compressedPatchesTotalSize args.compressedPatchStreamUpperPartSize
  let st := st.issue (.memcpyHtoDAsync .mCompressedPatches patchesOffset
    .compressedPatchesHostMemoryAllocator patchesOffset
    args.compressedPatchStreamUpperPartSize .mStream)
  let st := st.issue (.memcpyHtoDAsync .mPartitionIndexData 0 .partitionIndexData 0
    (usizeMul core.sizes.PartitionIndexData args.partitionIndexDataCount) .mStream)
  let st := st.issue (.memcpyHtoDAsync .mPartitionNodeData 0 .partitionNodeData 0
    (usizeMul core.sizes.PartitionNodeData args.partitionIndexDataCount) .mStream)
  let st := st.issue (.memcpyHtoDAsync .mSolverConstantData 0 .constantData 0
    (usizeMul core.sizes.PxgSolverConstraintManagerConstants args.constantDataCount) .mStream)
  let st := st.issue (.memcpyHtoDAsync .mPartitionStartBatchIndices 0
    .partitionConstraintBatchStartIndices 0 (usizeMul 4 args.nbPartitions) .mStream)
  let st := st.issue (.memcpyHtoDAsync .mPartitionArticulationStartBatchIndices 0
    .partitionArticConstraintBatchStartIndices 0 (usizeMul 4 args.nbPartitions) .mStream)
  let st := st.issue (.memcpyHtoDAsync .mPartitionJointBatchCounts 0
    .partitionJointBatchCounts 0 (usizeMul 4 args.nbPartitions) .mStream)
  let st := st.issue (.memcpyHtoDAsync .mPartitionArtiJointBatchCounts 0
    .partitionArtiJointBatchCounts 0 (usizeMul 4 args.nbPartitions) .mStream)
  let st := st.issue (.memcpyHtoDAsync .mNpIndexArray 0 .npIndexArray 0
    (usizeMul args.npIndexArraySize 4) .mStream)
  let st := st.issue (.memcpyHtoDAsync .mIslandIds 0 .islandIds 0
    (usizeMul args.nbNodes 4) .mStream)
  let st := st.issue (.memcpyHtoDAsync .mIslandStaticTouchCount 0 .islandStaticTouchCount 0
    (usizeMul 4 args.nbIslands) .mStream)
  let st := st.issue (.uploadNodeInteractionCounts args.nbNodes)
  st.issue (.memcpyHtoDAsync .mDestroyedEdgeIndices 0 .destroyedEdges 0
    (usizeMul args.nbDestroyedEdges 4) .mStream)

/-- Member `gpuMemDMAUpContactData` (source lines 292-402).  The result of
the launch is only asserted (`PX_ASSERT`), so nothing is reported. -/
def gpuMemDMAUpContactData (core : TransferCore) (args : ContactDataArgs)
    (st : TransferState) : Option TransferState := do
  let st := gpuMemDMAUpContactData_allocate core args st
  let st := gpuMemDMAUpContactData_upload core args st
  let nbBlocksRequired ← u32div
    (u32sub (u32add args.nbDestroyedEdges (core.blockDim .CLEAR_FRICTION_PATCH_COUNTS)) 1)
    (u32 (core.blockDim .CLEAR_FRICTION_PATCH_COUNTS))
  let st :=
    if nbBlocksRequired > 0 then
      st.issue (.launchKernel .CLEAR_FRICTION_PATCH_COUNTS nbBlocksRequired
        (core.blockDim .CLEAR_FRICTION_PATCH_COUNTS) .mStream
        [.devicePtr (.mFrictionPatchCounts (u32sub 1 st.mCurrentIndex)),
          .devicePtr .mDestroyedEdgeIndices, .u32 args.nbDestroyedEdges])
    else st
  pure (st.issue (.streamFlush .mStream))

/-- Arguments of `gpuMemDmaUpBodyData` that are sizes or counts;
`nbStaticKinematic` is `solverBodyDataPool.size()`. -/
structure BodyDataArgs where
  nbStaticKinematic : Nat
  numSolverBodies : Nat
  totalNumRigidBatches : Nat
  totalNumArticBatches : Nat
  nbSlabs : Nat
  nbStaticSlabs : Nat
  maxNumStaticPartitions : Nat
  deriving DecidableEq, Repr

/-- The expression `(x + 31) & (~31)` on `PxU32`: `x + 31` with its low five
bits cleared. -/
def roundUp32 (x : Nat) : Nat := Nat.land (u32add x 31) 4294967264

/-- The local `numEncodedReferenceCount` of `gpuMemDmaUpBodyData`
(`numSolverBodies * ((PxMax(1u, nbSlabs) + 31) / 32)`, source line 440). -/
def numEncodedReferenceCount (numSolverBodies nbSlabs : Nat) : Nat :=
  u32mul numSolverBodies (u32add (max 1 nbSlabs) 31 / 32)

/-- Member `gpuMemDmaUpBodyData` (source lines 404-456). -/
def gpuMemDmaUpBodyData (core : TransferCore) (args : BodyDataArgs) (st : TransferState) :
    TransferState :=
  let st := st.issue (.memcpyHtoDAsync .mSolverBodyDataPool 0 .solverBodyDataPool 0
    (usizeMul core.sizes.PxgSolverBodyData args.nbStaticKinematic) .mStream)
  let st := st.issue (.memcpyHtoDAsync .mSolverTxIDataPool 0 .solverTxIDataPool 0
    (usizeMul core.sizes.PxgSolverTxIData args.nbStaticKinematic) .mStream)
  let numRigidBodyMirrorBodies := u32mul (u32mul (u32mul args.totalNumRigidBatches 2) 2) 32
  let numArticConstraintMirrorBodies := u32mul (u32mul (u32mul args.totalNumArticBatches 2) 2) 32
  let numAccumulationBodies := u32mul (roundUp32 (u32mul args.nbSlabs args.numSolverBodies)) 2
  let numBodyOutputBuffers := u32mul (roundUp32 args.numSolverBodies) 2
  let offset := u32add (u32add numRigidBodyMirrorBodies numArticConstraintMirrorBodies)
    numAccumulationBodies
  let st := { st with mSolverBodyOutputVelocityOffset := offset }
  let st := st.issue (.allocate .mSolverBodyPool (usizeMul 16 (u32add offset numBodyOutputBuffers)))
  let st := st.issue (.allocate .mTempStaticBodyOutputPool
    (usizeMul (usizeMul (usizeMul 16 args.numSolverBodies) args.nbStaticSlabs) 2))
  let n := numEncodedReferenceCount args.numSolverBodies args.nbSlabs
  let st := st.issue (.allocate .mSolverEncodedReferenceCount (usizeMul 4 n))
  let st := st.issue (.memsetD32Async .mSolverEncodedReferenceCount 0 (usizeMul n (4 / 4))
    .mStream)
  let st := { st with mNbStaticRigidSlabs := args.nbStaticSlabs,
                      mMaxNumStaticPartitions := args.maxNumStaticPartitions }
  st.issue (.streamFlush .mStream)

/-- Modelled from the spec: `PxgConstraintPrePrepData` is declared outside the
given sources.  These are the per-step batch and joint counts `gpuMemDMAUp`
reads from its argument `data`: the contact batch counts first, then the
1-D constraint batch counts and the joint totals. -/
structure PxgConstraintPrePrepData where
  numContactBatches : Nat
  numStaticContactBatches : Nat
  numArtiContactsBatches : Nat
  numArtiStaticContactsBatches : Nat
  numArtiSelfContactsBatches : Nat
  num1dConstraintBatches : Nat
  numStatic1dConstraintBatches : Nat
  numArti1dConstraintBatches : Nat
  numArtiStatic1dConstraintBatches : Nat
  numArtiSelf1dConstraintBatches : Nat
  nbTotalRigidJoints : Nat
  nbTotalArtiJoints : Nat
  deriving DecidableEq, Repr

/-- The local `totalContactBatches` of `gpuMemDMAUp` (source lines 535-544):
rigid contact batches (dynamic and static) plus articulation contact batches
(dynamic, static and self). -/
def totalContactBatches (data : PxgConstraintPrePrepData) : Nat :=
  let numDynamicContactBatches := data.numContactBatches
  let numTotalRigidContactBatches := u32add numDynamicContactBatches data.numStaticContactBatches
  let numArtiContactBatches := u32add
    (u32add data.numArtiContactsBatches data.numArtiStaticContactsBatches)
    data.numArtiSelfContactsBatches
  u32add numTotalRigidContactBatches numArtiContactBatches

/-- The block of `gpuMemDMAUp` that allocates the force-threshold buffers
(source lines 606-623); `sizeof(bool)` and `sizeof(PxReal)`, `sizeof(PxU32)`
are `1` and `4`. -/
def gpuMemDMAUp_forceThresholdBuffers (core : TransferCore) (data : PxgConstraintPrePrepData)
    (hasForceThresholds : Bool) (st : TransferState) : TransferState :=
  let totalContactBatches := totalContactBatches data
  if hasForceThresholds then
    let st := st.issue (.allocate .mThresholdStreamAccumulatedForce
      (usizeMul (usizeMul 4 totalContactBatches) 32))
    let st := st.issue (.allocate .mBlocksThresholdStreamAccumulatedForce
      (usizeMul (core.gridDim .COMPUTE_ACCUMULATED_THRESHOLDSTREAM) 4))
    let st := st.issue (.allocate .mAccumulatedForceObjectPairs
      (usizeMul (usizeMul 4 totalContactBatches) 32))
    let st := st.issue (.allocate (.mExceededForceElements st.mCurrentIndex)
      (usizeMul (usizeMul core.sizes.ThresholdStreamElement totalContactBatches) 32))
    let st := st.issue (.allocate .mThresholdStreamWriteIndex
      (usizeMul 4 (u32add (u32mul totalContactBatches 32)
        (u32mul st.mNbPrevExceededForceElements 2))))
    let st := st.issue (.allocate .mBlocksThresholdStreamWriteIndex
      (usizeMul (core.gridDim .COMPUTE_ACCUMULATED_THRESHOLDSTREAM) 4))
    let st := st.issue (.allocate .mThresholdStreamWriteable
      (usizeMul 1 (u32add (u32mul totalContactBatches 32)
        (u32mul st.mNbPrevExceededForceElements 2))))
    let st := st.issue (.allocate .mForceChangeThresholdElements
      (usizeMul core.sizes.ThresholdStreamElement (u32add (u32mul totalContactBatches 32)
        (u32mul st.mNbPrevExceededForceElements 2))))
    st.issue (.radixSortAllocate totalContactBatches)
  else st

/-- Locals carried around the pass loop of `radixSort`. -/
structure RadixLoopState where
  startBit : Nat
  st : TransferState

/-- Body of the loop `for (i = 0; i < nbPasses; ++i)` of `radixSort`
(source lines 1622-1644); `i & 1` is `i % 2`. -/
def radixSort_pass (core : TransferCore) (i : Nat) (s : RadixLoopState) : RadixLoopState :=
  let descIndex := i % 2
  let radixSortKernelParams :=
    [TransferParam.mSolverCoreDescd, .mRadixSortDescd descIndex, .u32 s.startBit]
  let st := s.st.issue (.launchKernel .RADIXSORT_SINGLEBLOCK (core.gridDim .RADIXSORT)
    (core.blockDim .RADIXSORT) .mStream radixSortKernelParams)
  let st := st.issue (.launchKernel .RADIXSORT_CALCULATERANKS (core.gridDim .RADIXSORT)
    (core.blockDim .RADIXSORT) .mStream radixSortKernelParams)
  ⟨u32add s.startBit 4, st⟩

/-- Member `radixSort` (source lines 1613-1645).  The launch results are only
asserted. -/
def radixSort (core : TransferCore) (nbPasses : Nat) (st : TransferState) : TransferState :=
  ((List.range nbPasses).foldl (fun s i => radixSort_pass core i s) ⟨0, st⟩).st

/-- Modelled from the spec: `PxHighestSetBit` is declared outside the given
sources; it returns the index of the most significant set bit of a 32-bit
word (`0` is returned here for the word `0`, for which the source leaves the
result unspecified). -/
def PxHighestSetBit (v : Nat) : Nat :=
  (List.range 32).foldl (fun acc i => if v / 2 ^ i % 2 = 1 then i else acc) 0

/-- The local `nbPasses` of `accumulatedForceThresholdStream`
(source lines 1652-1656). -/
def nbPasses (maxNodes : Nat) : Nat :=
  let highestBit := u32add (PxHighestSetBit maxNodes) 1
  let nbPasses := u32add highestBit 3 / 4
  if nbPasses % 2 = 1 then u32add nbPasses 1 else nbPasses

/-- Modelled from the spec: `PxgConstraintPrepareDesc` is declared outside the
given sources.  These are its integer members that
`constructConstraitPrepareDesc` assigns (the device pointers and the
floating-point thresholds are left out); `accumulatedForceThresholdStream`
reads `numContactBatches` and `numStaticContactBatches`. -/
structure PxgConstraintPrepareDesc where
  numBatches : Nat
  numStaticBatches : Nat
  num1dConstraintBatches : Nat
  numContactBatches : Nat
  numStatic1dConstraintBatches : Nat
  numStaticContactBatches : Nat
  numArtiStatic1dConstraintBatches : Nat
  numArtiStaticContactBatches : Nat
  numArtiSelf1dConstraintBatches : Nat
  numArtiSelfContactBatches : Nat
  numArtiContactBatches : Nat
  numArti1dConstraintBatches : Nat
  totalPreviousEdges : Nat
  totalCurrentEdges : Nat
  articContactIndex : Nat
  articJointIndex : Nat
  totalBodyCount : Nat
  nbElementsPerBody : Nat
  deriving DecidableEq, Repr

/-- A launch with the fixed grid and block dimensions `dim` on `mStream`
whose result is only asserted. -/
def launchFixed (core : TransferCore) (f : TransferKernelId) (dim : KernelDim)
    (kernelParams : List TransferParam) (st : TransferState) : TransferState :=
  st.issue (.launchKernel f (core.gridDim dim) (core.blockDim dim) .mStream kernelParams)

/-- Member `accumulatedForceThresholdStream` (source lines 1648-1792). -/
def accumulatedForceThresholdStream (core : TransferCore)
    (mPrepareDesc : PxgConstraintPrepareDesc) (maxNodes : Nat) (st : TransferState) :
    TransferState :=
  let nbPasses := nbPasses maxNodes
  let st := st.issue (.memcpyDtoDAsync .tmpThresholdStream .thresholdStream
    (usizeMul core.sizes.ThresholdStreamElement st.mTotalContactManagers) .mStream)
  let kernelParams0 := [TransferParam.mSolverCoreDescd, .mRadixSortDescd 0]
  let st := launchFixed core .INITIALIZE_INPUT_AND_RANKS_B .INITIALIZE_INPUT_AND_RANKS
    kernelParams0 st
  let st := radixSort core nbPasses st
  let st := launchFixed core .INITIALIZE_INPUT_AND_RANKS_A .INITIALIZE_INPUT_AND_RANKS
    kernelParams0 st
  let st := radixSort core nbPasses st
  let st := launchFixed core .REORGANIZE_THRESHOLDSTREAM .REORGANIZE_THRESHOLDSTREAM
    kernelParams0 st
  let kernelParams := [TransferParam.mSolverCoreDescd]
  let st := launchFixed core .COMPUTE_ACCUMULATED_THRESHOLDSTREAM
    .COMPUTE_ACCUMULATED_THRESHOLDSTREAM kernelParams st
  let st := launchFixed core .OUTPUT_ACCUMULATED_THRESHOLDSTREAM
    .OUTPUT_ACCUMULATED_THRESHOLDSTREAM kernelParams st
  let st := launchFixed core .WRITEOUT_ACCUMULATEDFORCEPEROBJECT
    .WRITEOUT_ACCUMULATEDFORCEPEROBJECT kernelParams st
  let st := launchFixed core .COMPUTE_EXCEEDEDFORCE_THRESHOLDELEMENT_INDICE
    .COMPUTE_EXCEEDEDFORCE_THRESHOLDELEMENT_INDICE [.mSolverCoreDescd, .mSharedDescd] st
  let st := launchFixed core .OUTPUT_EXCEEDEDFORCE_THRESHOLDELEMENT_INDICE
    .OUTPUT_EXCEEDEDFORCE_THRESHOLDELEMENT_INDICE kernelParams st
  let st := st.issue (.memsetD32Async .mThresholdStreamWriteIndex 1
    (u32add (u32mul st.mNbPrevExceededForceElements 2)
      (u32mul (u32add mPrepareDesc.numContactBatches mPrepareDesc.numStaticContactBatches) 32))
    .mStream)
  let st :=
    if st.mNbPrevExceededForceElements > 0 then
      launchFixed core .SET_THRESHOLDELEMENT_MASK .SET_THRESHOLDELEMENT_MASK kernelParams st
    else st
  let st := launchFixed core .COMPUTE_THRESHOLDELEMENT_MASK_INDICES
    .COMPUTE_THRESHOLDELEMENT_MASK_INDICES kernelParams st
  let st := launchFixed core .OUTPUT_THRESHOLDELEMENT_MASK_INDICES
    .OUTPUT_THRESHOLDELEMENT_MASK_INDICES kernelParams st
  launchFixed core .CREATE_FORCECHANGE_THRESHOLDELEMENTS .CREATE_FORCECHANGE_THRESHOLDELEMENTS
    kernelParams st

/-- Arguments of `gpuMemDMAbackSolverData` that are sizes, counts or flags;
the last three are the members of the friction-patch stream pool
(`PxcDataStreamPool`) the function reads. -/
structure DmaBackArgs where
  forceBufferOffset : Nat
  forceBufferUpperPartSize : Nat
  forceBufferLowerPartSize : Nat
  hasForceThresholds : Bool
  writeBackSize : Nat
  copyAllToHost : Bool
  mSharedDataIndexGPU : Nat
  mSharedDataIndex : Nat
  mDataStreamSize : Nat
  deriving DecidableEq, Repr

/-- Member `gpuMemDMAbackSolverData` (source lines 704-773).
`synchronizeStreams(mCudaContext, mStream, mStream2, mEventDmaBack)` is
defined outside the given sources ("Make mStream2 wait for mStream to finish
its work before continuing"); the call is recorded as one operation that
names the queue waited for, the waiting queue and the event.  Only the
launch of the changed-elements kernel has its result checked and reported.  The reference argument `contactError` receives
the address of the accumulator inside the pinned descriptor; no operation is
issued for it. -/
def gpuMemDMAbackSolverData (core : TransferCore) (args : DmaBackArgs) (st : TransferState) :
    TransferState :=
  let st := st.issue (.synchronizeStreams .mStream .mStream2 .mEventDmaBack)
  let st := st.issue (.memcpyDtoHAsync .mSolverCoreDesc 0 .mSolverCoreDescd 0
    core.sizes.PxgSolverCoreDesc .mStream2)
  let st :=
    if args.copyAllToHost then
      let st :=
        if args.writeBackSize ≠ 0 then
          st.issue (.memcpyDtoHAsync .constraintWriteBack 0 .mConstraintWriteBackBuffer 0
            (usizeMul args.writeBackSize core.sizes.ConstraintWriteback) .mStream2)
        else st
      let st :=
        if args.forceBufferUpperPartSize ≠ 0 then
          st.issue (.memcpyDtoHAsync .forceBufferPool args.forceBufferOffset .mForceBuffer
            args.forceBufferOffset args.forceBufferUpperPartSize .mStream2)
        else st
      if args.forceBufferLowerPartSize ≠ 0 then
        st.issue (.memcpyDtoHAsync .forceBufferPool 0 .mForceBuffer 0
          args.forceBufferLowerPartSize .mStream2)
      else st
    else st
  let st :=
    if args.hasForceThresholds then
      let st := st.issue (.memHostGetDevicePointer .changedElems)
      let st := st.issue (.launchKernel .DMA_CHANGED_ELEMS (core.gridDim .DMA_CHANGED_ELEMS)
        (core.blockDim .DMA_CHANGED_ELEMS) .mStream2
        [.mSolverCoreDescd, .hostDevicePointer .changedElems])
      if core.launchResult st.issued ≠ CUDA_SUCCESS then
        { st with errors := st.errors ++ [.DMA_CHANGED_ELEMS] }
      else st
    else st
  let st :=
    if args.copyAllToHost then
      let st :=
        if args.mSharedDataIndexGPU > 0 then
          st.issue (.memcpyDtoHAsync .frictionPatchesDataStream 0 .mFrictionPatches 0
            args.mSharedDataIndexGPU .mStream2)
        else st
      if args.mSharedDataIndex > 0 then
        st.issue (.memcpyDtoHAsync .frictionPatchesDataStream
          (usizeSub args.mDataStreamSize args.mSharedDataIndex) .mFrictionPatches
          (usizeSub args.mDataStreamSize args.mSharedDataIndex) args.mSharedDataIndex .mStream2)
      else st
    else st
  st.issue (.streamFlush .mStream2)

/-- Modelled from the spec: `PxgSolverCoreDesc` is declared outside the given
sources.  These are the counters the device writes into the pinned
descriptor and `syncDmaBack` reads after the download. -/
structure PxgSolverCoreDesc where
  nbForceChangeElements : Nat
  nbExceededThresholdElements : Nat
  sharedThresholdStreamIndex : Int
  deriving DecidableEq, Repr

/-- Member `syncDmaBack` (source lines 775-803).  The first component of the
result is the value left in the reference argument
`nbChangedThresholdElements`.  `spinWaitSucceeded` is the answer of
`spinWait(*pEvent, 0.1f)` and `isInAbortMode` the answer of
`mCudaContext->isInAbortMode()`; the `PX_ASSERT` has no effect. -/
def syncDmaBack (mSolverCoreDesc : PxgSolverCoreDesc) (spinWaitSucceeded isInAbortMode : Bool)
    (st : TransferState) : Nat × TransferState :=
  let st := st.issue .acquireContext
  let st := if !spinWaitSucceeded then st.issue (.streamSynchronize .mStream) else st
  let nbChangedThresholdElements := mSolverCoreDesc.nbForceChangeElements
  let st := { st with mNbPrevExceededForceElements := mSolverCoreDesc.nbExceededThresholdElements }
  let r : Nat × TransferState :=
    if isInAbortMode then (0, { st with mNbPrevExceededForceElements := 0 })
    else (nbChangedThresholdElements, st)
  (r.1, r.2.issue .releaseContext)

/-- The byte sizes of the allocations of `buffer` among `ops`, in issue order. -/
def allocations (buffer : DeviceBuffer) (ops : List TransferOp) : List Nat :=
  ops.filterMap fun op =>
    match op with
    | .allocate b n => if b = buffer then some n else none
    | _ => none

/-- The word counts of the 32-bit fills of `buffer` with `value` among `ops`. -/
def fills (buffer : DeviceBuffer) (value : Nat) (ops : List TransferOp) : List Nat :=
  ops.filterMap fun op =>
    match op with
    | .memsetD32Async b v n _ => if b = buffer ∧ v = value then some n else none
    | _ => none

/-- The kernel of a launch. -/
def TransferOp.kernel : TransferOp → Option TransferKernelId
  | .launchKernel f _ _ _ _ => some f
  | _ => none

/-- The queue an operation of the transfer stages is issued on, for the
copies, fills, launches and flushes. -/
def TransferOp.stream : TransferOp → Option Stream
  | .memcpyHtoDAsync _ _ _ _ _ s => some s
  | .memcpyDtoHAsync _ _ _ _ _ s => some s
  | .memcpyDtoDAsync _ _ _ s => some s
  | .memsetD32Async _ _ _ s => some s
  | .launchKernel _ _ _ s _ => some s
  | .streamFlush s => some s
  | .streamSynchronize s => some s
  | _ => none

/-- Whether an operation is a device-to-host copy or a kernel launch. -/
def TransferOp.isCopyBackOrLaunch : TransferOp → Bool
  | .memcpyDtoHAsync _ _ _ _ _ _ => true
  | .launchKernel _ _ _ _ _ => true
  | _ => false

/-- Whether an operation is a launch of one of the two radix-sort kernels. -/
def TransferOp.isRadixSortLaunch : TransferOp → Bool
  | .launchKernel .RADIXSORT_SINGLEBLOCK _ _ _ _ => true
  | .launchKernel .RADIXSORT_CALCULATERANKS _ _ _ _ => true
  | _ => false

/-- Operations issued by pass `i` of `radixSort`: the start bit is `4 * i`
(in `PxU32`) and the sort descriptor alternates. -/
def radixSortPassOps (core : TransferCore) (i : Nat) : List TransferOp :=
  [.launchKernel .RADIXSORT_SINGLEBLOCK (core.gridDim .RADIXSORT) (core.blockDim .RADIXSORT)
      .mStream [.mSolverCoreDescd, .mRadixSortDescd (i % 2), .u32 (u32 (4 * i))],
    .launchKernel .RADIXSORT_CALCULATERANKS (core.gridDim .RADIXSORT) (core.blockDim .RADIXSORT)
      .mStream [.mSolverCoreDescd, .mRadixSortDescd (i % 2), .u32 (u32 (4 * i))]]

/-- Operations issued by one call `radixSort(nbPasses)`. -/
def radixSortOps (core : TransferCore) (nbPasses : Nat) : List TransferOp :=
  (List.range nbPasses).flatMap (radixSortPassOps core)

/-- Operations issued by the force-threshold allocation block of
`gpuMemDMAUp` when `hasForceThresholds` is set. -/
def forceThresholdBuffersOps (core : TransferCore) (data : PxgConstraintPrePrepData)
    (mCurrentIndex mNbPrevExceededForceElements : Nat) : List TransferOp :=
  [.allocate .mThresholdStreamAccumulatedForce (usizeMul (usizeMul 4 (totalContactBatches data)) 32),
    .allocate .mBlocksThresholdStreamAccumulatedForce
      (usizeMul (core.gridDim .COMPUTE_ACCUMULATED_THRESHOLDSTREAM) 4),
    .allocate .mAccumulatedForceObjectPairs (usizeMul (usizeMul 4 (totalContactBatches data)) 32),
    .allocate (.mExceededForceElements mCurrentIndex)
      (usizeMul (usizeMul core.sizes.ThresholdStreamElement (totalContactBatches data)) 32),
    .allocate .mThresholdStreamWriteIndex
      (usizeMul 4 (u32add (u32mul (totalContactBatches data) 32)
        (u32mul mNbPrevExceededForceElements 2))),
    .allocate .mBlocksThresholdStreamWriteIndex
      (usizeMul (core.gridDim .COMPUTE_ACCUMULATED_THRESHOLDSTREAM) 4),
    .allocate .mThresholdStreamWriteable
      (usizeMul 1 (u32add (u32mul (totalContactBatches data) 32)
        (u32mul mNbPrevExceededForceElements 2))),
    .allocate .mForceChangeThresholdElements
      (usizeMul core.sizes.ThresholdStreamElement (u32add (u32mul (totalContactBatches data) 32)
        (u32mul mNbPrevExceededForceElements 2))),
    .radixSortAllocate (totalContactBatches data)]

/-- Operations issued by `gpuMemDMAbackSolverData` after the join of the two
queues. -/
def dmaBackOps (core : TransferCore) (args : DmaBackArgs) : List TransferOp :=
  [.memcpyDtoHAsync .mSolverCoreDesc 0 .mSolverCoreDescd 0 core.sizes.PxgSolverCoreDesc
    .mStream2] ++
  (if args.copyAllToHost = true ∧ args.writeBackSize ≠ 0 then
    [.memcpyDtoHAsync .constraintWriteBack 0 .mConstraintWriteBackBuffer 0
      (usizeMul args.writeBackSize core.sizes.ConstraintWriteback) .mStream2] else []) ++
  (if args.copyAllToHost = true ∧ args.forceBufferUpperPartSize ≠ 0 then
    [.memcpyDtoHAsync .forceBufferPool args.forceBufferOffset .mForceBuffer
      args.forceBufferOffset args.forceBufferUpperPartSize .mStream2] else []) ++
  (if args.copyAllToHost = true ∧ args.forceBufferLowerPartSize ≠ 0 then
    [.memcpyDtoHAsync .forceBufferPool 0 .mForceBuffer 0 args.forceBufferLowerPartSize
      .mStream2] else []) ++
  (if args.hasForceThresholds = true then
    [.memHostGetDevicePointer .changedElems,
      .launchKernel .DMA_CHANGED_ELEMS (core.gridDim .DMA_CHANGED_ELEMS)
        (core.blockDim .DMA_CHANGED_ELEMS) .mStream2
        [.mSolverCoreDescd, .hostDevicePointer .changedElems]] else []) ++
  (if args.copyAllToHost = true ∧ args.mSharedDataIndexGPU > 0 then
    [.memcpyDtoHAsync .frictionPatchesDataStream 0 .mFrictionPatches 0 args.mSharedDataIndexGPU
      .mStream2] else []) ++
  (if args.copyAllToHost = true ∧ args.mSharedDataIndex > 0 then
    [.memcpyDtoHAsync .frictionPatchesDataStream
      (usizeSub args.mDataStreamSize args.mSharedDataIndex) .mFrictionPatches
      (usizeSub args.mDataStreamSize args.mSharedDataIndex) args.mSharedDataIndex .mStream2]
    else []) ++
  [.streamFlush .mStream2]

/-- Operations issued by `accumulatedForceThresholdStream` after the two
sorts: reorganise, accumulate, exceeded-force and force-change kernels with
the fill of the write-index buffer between them. -/
def thresholdReduceOps (core : TransferCore) (mPrepareDesc : PxgConstraintPrepareDesc)
    (mNbPrevExceededForceElements : Nat) : List TransferOp :=
  [.launchKernel .REORGANIZE_THRESHOLDSTREAM (core.gridDim .REORGANIZE_THRESHOLDSTREAM)
      (core.blockDim .REORGANIZE_THRESHOLDSTREAM) .mStream
      [.mSolverCoreDescd, .mRadixSortDescd 0],
    .launchKernel .COMPUTE_ACCUMULATED_THRESHOLDSTREAM
      (core.gridDim .COMPUTE_ACCUMULATED_THRESHOLDSTREAM)
      (core.blockDim .COMPUTE_ACCUMULATED_THRESHOLDSTREAM) .mStream [.mSolverCoreDescd],
    .launchKernel .OUTPUT_ACCUMULATED_THRESHOLDSTREAM
      (core.gridDim .OUTPUT_ACCUMULATED_THRESHOLDSTREAM)
      (core.blockDim .OUTPUT_ACCUMULATED_THRESHOLDSTREAM) .mStream [.mSolverCoreDescd],
    .launchKernel .WRITEOUT_ACCUMULATEDFORCEPEROBJECT
      (core.gridDim .WRITEOUT_ACCUMULATEDFORCEPEROBJECT)
      (core.blockDim .WRITEOUT_ACCUMULATEDFORCEPEROBJECT) .mStream [.mSolverCoreDescd],
    .launchKernel .COMPUTE_EXCEEDEDFORCE_THRESHOLDELEMENT_INDICE
      (core.gridDim .COMPUTE_EXCEEDEDFORCE_THRESHOLDELEMENT_INDICE)
      (core.blockDim .COMPUTE_EXCEEDEDFORCE_THRESHOLDELEMENT_INDICE) .mStream
      [.mSolverCoreDescd, .mSharedDescd],
    .launchKernel .OUTPUT_EXCEEDEDFORCE_THRESHOLDELEMENT_INDICE
      (core.gridDim .OUTPUT_EXCEEDEDFORCE_THRESHOLDELEMENT_INDICE)
      (core.blockDim .OUTPUT_EXCEEDEDFORCE_THRESHOLDELEMENT_INDICE) .mStream [.mSolverCoreDescd],
    .memsetD32Async .mThresholdStreamWriteIndex 1
      (u32add (u32mul mNbPrevExceededForceElements 2)
        (u32mul (u32add mPrepareDesc.numContactBatches mPrepareDesc.numStaticContactBatches) 32))
      .mStream] ++
  (if mNbPrevExceededForceElements > 0 then
    [.launchKernel .SET_THRESHOLDELEMENT_MASK (core.gridDim .SET_THRESHOLDELEMENT_MASK)
      (core.blockDim .SET_THRESHOLDELEMENT_MASK) .mStream [.mSolverCoreDescd]] else []) ++
  [.launchKernel .COMPUTE_THRESHOLDELEMENT_MASK_INDICES
      (core.gridDim .COMPUTE_THRESHOLDELEMENT_MASK_INDICES)
      (core.blockDim .COMPUTE_THRESHOLDELEMENT_MASK_INDICES) .mStream [.mSolverCoreDescd],
    .launchKernel .OUTPUT_THRESHOLDELEMENT_MASK_INDICES
      (core.gridDim .OUTPUT_THRESHOLDELEMENT_MASK_INDICES)
      (core.blockDim .OUTPUT_THRESHOLDELEMENT_MASK_INDICES) .mStream [.mSolverCoreDescd],
    .launchKernel .CREATE_FORCECHANGE_THRESHOLDELEMENTS
      (core.gridDim .CREATE_FORCECHANGE_THRESHOLDELEMENTS)
      (core.blockDim .CREATE_FORCECHANGE_THRESHOLDELEMENTS) .mStream [.mSolverCoreDescd]]

/-- Operations issued by `gpuMemDmaUpBodyData` before the allocation of the
encoded reference-count buffer. -/
def bodyDataPrefixOps (core : TransferCore) (args : BodyDataArgs) : List TransferOp :=
  [.memcpyHtoDAsync .mSolverBodyDataPool 0 .solverBodyDataPool 0
      (usizeMul core.sizes.PxgSolverBodyData args.nbStaticKinematic) .mStream,
    .memcpyHtoDAsync .mSolverTxIDataPool 0 .solverTxIDataPool 0
      (usizeMul core.sizes.PxgSolverTxIData args.nbStaticKinematic) .mStream,
    .allocate .mSolverBodyPool (usizeMul 16
      (u32add
        (u32add
          (u32add (u32mul (u32mul (u32mul args.totalNumRigidBatches 2) 2) 32)
            (u32mul (u32mul (u32mul args.totalNumArticBatches 2) 2) 32))
          (u32mul (roundUp32 (u32mul args.nbSlabs args.numSolverBodies)) 2))
        (u32mul (roundUp32 args.numSolverBodies) 2))),
    .allocate .mTempStaticBodyOutputPool
      (usizeMul (usizeMul (usizeMul 16 args.numSolverBodies) args.nbStaticSlabs) 2)]

/-- The local `(PxMax(1u, nbSlabs) + 31) / 32` without wrap-around: the
number of 32-bit words that hold one activation bit per slab, at least one. -/
def wordsPerBody (nbSlabs : Nat) : Nat := (max 1 nbSlabs + 31) / 32

/-- Operations issued by `gpuMemDMAUpContactData` before the copy of the
destroyed-edge indices: the allocations and the other uploads. -/
def contactDataPrefixOps (core : TransferCore) (args : ContactDataArgs) : List TransferOp :=
  [.allocate .mDestroyedEdgeIndices (usizeMul 4 args.nbDestroyedEdges),
    .allocate .mConstraintWriteBackBuffer
      (usizeMul core.sizes.PxgConstraintWriteback args.totalNumJoints),
    .allocate .mForceThresholdStream
      (usizeMul core.sizes.ThresholdStreamElement args.totalContactManagers),
    .allocate .mTmpForceThresholdStream
      (usizeMul core.sizes.ThresholdStreamElement args.totalContactManagers),
    .allocate .mPartitionIndexData
      (usizeMul core.sizes.PartitionIndexData args.partitionIndexDataCount),
    .allocate .mPartitionNodeData
      (usizeMul core.sizes.PartitionNodeData args.partitionIndexDataCount),
    .allocate .mSolverConstantData
      (usizeMul core.sizes.PxgSolverConstraintManagerConstants args.constantDataCount),
    .allocate .mPartitionStartBatchIndices (usizeMul 4 args.nbPartitions),
    .allocate .mPartitionArticulationStartBatchIndices (usizeMul 4 args.nbPartitions),
    .allocate .mPartitionJointBatchCounts (usizeMul 4 args.nbPartitions),
    .allocate .mPartitionArtiJointBatchCounts (usizeMul 4 args.nbPartitions),
    .allocate .mNpIndexArray (usizeMul 4 args.npIndexArraySize),
    .allocate .mIslandIds (usizeMul args.nbNodes 4),
    .allocate .mIslandStaticTouchCount (usizeMul args.nbIslands 4),
    .allocateNodeInteractionCounts args.nbNodes,
    .memcpyHtoDAsync .mCompressedContacts
      (usizeSub args.compressedContactsTotalSize args.compressedContactStreamUpperPartSize)
      .compressedContactsHostMemoryAllocator
      (usizeSub args.compressedContactsTotalSize args.compressedContactStreamUpperPartSize)
      args.compressedContactStreamUpperPartSize .mStream,
    .memcpyHtoDAsync .mCompressedPatches
      (usizeSub args.compressedPatchesTotalSize args.compressedPatchStreamUpperPartSize)
      .compressedPatchesHostMemoryAllocator
      (usizeSub args.compressedPatchesTotalSize args.compressedPatchStreamUpperPartSize)
      args.compressedPatchStreamUpperPartSize .mStream,
    .memcpyHtoDAsync .mPartitionIndexData 0 .partitionIndexData 0
      (usizeMul core.sizes.PartitionIndexData args.partitionIndexDataCount) .mStream,
    .memcpyHtoDAsync .mPartitionNodeData 0 .partitionNodeData 0
      (usizeMul core.sizes.PartitionNodeData args.partitionIndexDataCount) .mStream,
    .memcpyHtoDAsync .mSolverConstantData 0 .constantData 0
      (usizeMul core.sizes.PxgSolverConstraintManagerConstants args.constantDataCount) .mStream,
    .memcpyHtoDAsync .mPartitionStartBatchIndices 0 .partitionConstraintBatchStartIndices 0
      (usizeMul 4 args.nbPartitions) .mStream,
    .memcpyHtoDAsync .mPartitionArticulationStartBatchIndices 0
      .partitionArticConstraintBatchStartIndices 0 (usizeMul 4 args.nbPartitions) .mStream,
    .memcpyHtoDAsync .mPartitionJointBatchCounts 0 .partitionJointBatchCounts 0
      (usizeMul 4 args.nbPartitions) .mStream,
    .memcpyHtoDAsync .mPartitionArtiJointBatchCounts 0 .partitionArtiJointBatchCounts 0
      (usizeMul 4 args.nbPartitions) .mStream,
    .memcpyHtoDAsync .mNpIndexArray 0 .npIndexArray 0 (usizeMul args.npIndexArraySize 4) .mStream,
    .memcpyHtoDAsync .mIslandIds 0 .islandIds 0 (usizeMul args.nbNodes 4) .mStream,
    .memcpyHtoDAsync .mIslandStaticTouchCount 0 .islandStaticTouchCount 0
      (usizeMul 4 args.nbIslands) .mStream,
    .uploadNodeInteractionCounts args.nbNodes]

/-- The copy of the destroyed-edge indices to the device. -/
def destroyedEdgesUpload (args : ContactDataArgs) : TransferOp :=
  .memcpyHtoDAsync .mDestroyedEdgeIndices 0 .destroyedEdges 0
    (usizeMul args.nbDestroyedEdges 4) .mStream

/-- The launch of the patch-count reset kernel with `blocks` blocks. -/
def clearFrictionPatchCountsLaunch (core : TransferCore) (args : ContactDataArgs)
    (mCurrentIndex blocks : Nat) : TransferOp :=
  .launchKernel .CLEAR_FRICTION_PATCH_COUNTS blocks
    (core.blockDim .CLEAR_FRICTION_PATCH_COUNTS) .mStream
    [.devicePtr (.mFrictionPatchCounts (u32sub 1 mCurrentIndex)),
      .devicePtr .mDestroyedEdgeIndices, .u32 args.nbDestroyedEdges]

/-! ## Integration stage -/

/-- Member `preIntegration` (source lines 815-897); `if(nbBlocks)` is
`nbBlocks ≠ 0`.  The results of both launches are only asserted
(`PX_ASSERT`, `PX_UNUSED`), so nothing is reported.  The division is by the
block dimension and is undefined for a zero dimension. -/
def preIntegration (core : TransferCore) (offset nbSolverBodies : Nat) (st : TransferState) :
    Option TransferState := do
  let islandNodeIndices := TransferParam.devicePtr (.member .mIslandNodeIndices2)
  let solverBodyIndices := TransferParam.devicePtr (.member .mSolverBodyIndices)
  let nbBlocks ← u32div
    (u32sub (u32add (u32sub nbSolverBodies offset) (core.blockDim .PRE_INTEGRATION)) 1)
    (u32 (core.blockDim .PRE_INTEGRATION))
  let st :=
    if nbBlocks ≠ 0 then
      st.issue (.launchKernel .PRE_INTEGRATION nbBlocks (core.blockDim .PRE_INTEGRATION) .mStream
        [.u32 offset, .u32 nbSolverBodies, .dt, .gravity, .devicePtr .mSolverBodyDataPool,
          .devicePtr (.member .mSolverBodySleepDataPool), .devicePtr .mSolverTxIDataPool,
          .devicePtr (.member .bodySimBuffer), islandNodeIndices,
          .devicePtr (.member .mOutBody2WorldPool), .devicePtr (.member .mOutVelocityPool),
          solverBodyIndices])
    else st
  let nbStaticBlocks ← u32div
    (u32sub (u32add offset (core.blockDim .PRE_INTEGRATION)) 1)
    (u32 (core.blockDim .PRE_INTEGRATION))
  let st :=
    if nbStaticBlocks ≠ 0 then
      st.issue (.launchKernel .INIT_STATIC_KINEMATICS nbStaticBlocks
        (core.blockDim .PRE_INTEGRATION) .mStream
        [.u32 offset, .u32 nbSolverBodies, .devicePtr .mSolverBodyDataPool,
          .devicePtr .mSolverTxIDataPool, .devicePtr (.member .mOutBody2WorldPool),
          .devicePtr (.member .mOutVelocityPool), islandNodeIndices, solverBodyIndices])
    else st
  pure st

/-- Member `integrateCoreParallel` (source lines 1800-1836).  The result of
the launch is checked and a failure is reported. -/
def integrateCoreParallel (core : TransferCore) (offset nbSolverBodies : Nat)
    (st : TransferState) : Option TransferState := do
  let kernelParams :=
    [TransferParam.u32 offset, .mSolverCoreDescd, .mSharedDescd, .devicePtr .mIslandIds,
      .devicePtr .mIslandStaticTouchCount, .devicePtr (.member .mNodeInteractionCounts)]
  let nbBlocks ← u32div
    (u32sub (u32add (u32sub nbSolverBodies offset) (core.blockDim .INTEGRATE_CORE_PARALLEL)) 1)
    (u32 (core.blockDim .INTEGRATE_CORE_PARALLEL))
  let st :=
    if nbBlocks ≠ 0 then
      let st := st.issue (.launchKernel .INTEGRATE_CORE_PARALLEL nbBlocks
        (core.blockDim .INTEGRATE_CORE_PARALLEL) .mStream kernelParams)
      if core.launchResult st.issued ≠ CUDA_SUCCESS then
        { st with errors := st.errors ++ [.INTEGRATE_CORE_PARALLEL] }
      else st
    else st
  pure (st.issue (.streamFlush .mStream))

/-- The grid and block dimensions of the launches of kernel `k` among `ops`,
in issue order. -/
def launchDims (k : TransferKernelId) (ops : List TransferOp) : List (Nat × Nat) :=
  ops.filterMap fun op =>
    match op with
    | .launchKernel f g b _ _ => if f = k then some (g, b) else none
    | _ => none

/-- The least number of blocks of `blockDim` threads that cover `count`
indices: `count / blockDim` rounded up. -/
def blocksToCover (count blockDim : Nat) : Nat := (count + blockDim - 1) / blockDim

/-! ## Constraint upload (`gpuMemDMAUp`) -/

/-- Sizes in bytes (`sizeof`) of the record types `gpuMemDMAUp` allocates
buffers of, and the constant `Dy::MAX_CONSTRAINT_ROWS` (a `PxU32`).  They are
declared outside the given sources, so they are parameters of the model. -/
structure DmaUpSizes where
  PxgBlockConstraintBatch : Nat
  PxgSolverReferences : Nat
  PxgBlockWorkUnit : Nat
  PxgBlockContactData : Nat
  PxgBlockConstraint1DData : Nat
  PxgBlockConstraint1DVelocities : Nat
  PxgBlockConstraint1DParameters : Nat
  PxgConstraintData : Nat
  Px1DConstraint : Nat
  PxgBlockSolverConstraint1DHeader : Nat
  PxgBlockSolverConstraint1DCon : Nat
  PxgBlockSolverConstraint1DMod : Nat
  PxgBlockSolverContactHeader : Nat
  PxgBlockSolverFrictionHeader : Nat
  PxgBlockSolverContactPoint : Nat
  PxgBlockSolverContactFriction : Nat
  PxgBlockContactPoint : Nat
  PxgSolverContactHeader : Nat
  PxgSolverFrictionHeader : Nat
  PxgSolverContactPointExt : Nat
  PxgSolverContactFrictionExt : Nat
  PxgArticulationBlockResponse : Nat
  MAX_CONSTRAINT_ROWS : Nat
  deriving DecidableEq, Repr

/-- Arguments of `gpuMemDMAUp` that are sizes, counts or flags (the pointer
arguments are named by `HostBuffer`).  `mCurrentSize` is
`hostAllocator.mCurrentSize`, `islandBodyCount` is
`islandContextPool->mBodyCount`, and the two partition counts are
`pData.numConstraintsPerPartition` and `pData.numArtiConstraintsPerPartition`. -/
structure DmaUpArgs where
  mCurrentSize : Nat
  data : PxgConstraintPrePrepData
  numSolverBodies : Nat
  islandBodyCount : Nat
  numIslands : Nat
  numConstraintsPerPartition : Nat
  numArtiConstraintsPerPartition : Nat
  numConstraintBatchHeader : Nat
  numStaticConstraintBatchHeader : Nat
  numArticConstraintBatchHeader : Nat
  numStaticArtiBatchHeader : Nat
  numSelfArtiBatchHeader : Nat
  numContactBlockes : Nat
  numFrictionBlockes : Nat
  numArtiContactBlocks : Nat
  numArtiFrictionBlocks : Nat
  totalCurrentEdges : Nat
  totalPreviousEdges : Nat
  numSlabs : Nat
  maxNbPartitions : Nat
  enableStabilization : Bool
  totalActiveBodyCount : Nat
  activeBodyStartIndex : Nat
  nbArticulations : Nat
  artiStaticContactIndSize : Nat
  artiStaticJointSize : Nat
  artiSelfContactIndSize : Nat
  artiSelfJointSize : Nat
  rigidStaticContactIndSize : Nat
  rigidStaticJointSize : Nat
  hasForceThresholds : Bool
  deriving DecidableEq, Repr

/-- Member `constructConstraitPrepareDesc` (source lines 194-264), restricted
to the integer members of the descriptor; the parameters are in the order of
the source signature (the reference `cData` is left out). -/
def constructConstraitPrepareDesc
    (numDynamicConstraintBatchHeader numStaticConstraintBatchHeaders
      numDynamic1dConstraintBatches numStatic1dConstraintBatches
      numDynamicContactBatches numStaticContactBatches
      numArti1dConstraintBatches numArtiContactBatches
      numArtiStatic1dConstraintBatches numArtiStaticContactBatches
      numArtiSelf1dConstraintBatches numArtiSelfContactBatches
      totalCurrentEdges totalPreviousEdges totalBodies : Nat) : PxgConstraintPrepareDesc :=
  { numBatches := numDynamicConstraintBatchHeader
    numStaticBatches := numStaticConstraintBatchHeaders
    num1dConstraintBatches := numDynamic1dConstraintBatches
    numContactBatches := numDynamicContactBatches
    numStatic1dConstraintBatches := numStatic1dConstraintBatches
    numStaticContactBatches := numStaticContactBatches
    numArtiStatic1dConstraintBatches := numArtiStatic1dConstraintBatches
    numArtiStaticContactBatches := numArtiStaticContactBatches
    numArtiSelf1dConstraintBatches := numArtiSelf1dConstraintBatches
    numArtiSelfContactBatches := numArtiSelfContactBatches
    numArtiContactBatches := numArtiContactBatches
    numArti1dConstraintBatches := numArti1dConstraintBatches
    totalPreviousEdges := totalPreviousEdges
    totalCurrentEdges := totalCurrentEdges
    articContactIndex := 0
    articJointIndex := 0
    totalBodyCount := totalBodies
    nbElementsPerBody := 2 }

/-- The allocations of `gpuMemDMAUp` before the force-threshold block
(source lines 516-604).  The assignments of device addresses inside
`mDataBuffer` issue no operation. -/
def gpuMemDMAUp_allocate (sizes : DmaUpSizes) (args : DmaUpArgs) (st : TransferState) :
    TransferState :=
  let data := args.data
  let totalContactBlocks := u32add args.numContactBlockes args.numArtiContactBlocks
  let totalFrictionBlocks := u32add args.numFrictionBlockes args.numArtiFrictionBlocks
  let st := st.issue (.allocate (.member .mDataBuffer) (u32 args.mCurrentSize))
  let numDynamicContactBatches := data.numContactBatches
  let numTotalRigidContactBatches := u32add numDynamicContactBatches data.numStaticContactBatches
  let numDynamic1DConstraintBatches := data.num1dConstraintBatches
  let numTotalRigid1DConstraintBatches :=
    u32add numDynamic1DConstraintBatches data.numStatic1dConstraintBatches
  let numArtiContactBatches := u32add
    (u32add data.numArtiContactsBatches data.numArtiStaticContactsBatches)
    data.numArtiSelfContactsBatches
  let numArti1dConstraintBatches := u32add
    (u32add data.numArti1dConstraintBatches data.numArtiStatic1dConstraintBatches)
    data.numArtiSelf1dConstraintBatches
  let totalNum1DConstraintBatches :=
    u32add numTotalRigid1DConstraintBatches numArti1dConstraintBatches
  let totalContactBatches := u32add numTotalRigidContactBatches numArtiContactBatches
  let st := st.issue (.allocate (.member .mArtiOrderedStaticContacts)
    (usizeMul 4 data.numArtiStaticContactsBatches))
  let st := st.issue (.allocate (.member .mArtiOrderedStaticConstraints)
    (usizeMul 4 data.numArtiStatic1dConstraintBatches))
  let st := st.issue (.allocate (.member .mBlockConstraintBatches)
    (usizeMul sizes.PxgBlockConstraintBatch
      (u32add totalContactBatches totalNum1DConstraintBatches)))
  let st := st.issue (.allocate (.member .mConstraint1DBatchIndices)
    (usizeMul numTotalRigid1DConstraintBatches 4))
  let st := st.issue (.allocate (.member .mContactBatchIndices)
    (usizeMul numTotalRigidContactBatches 4))
  let st := st.issue (.allocate (.member .mArtiContactBatchIndices)
    (usizeMul numArtiContactBatches 4))
  let st := st.issue (.allocate (.member .mArtiConstraint1dBatchIndices)
    (usizeMul numArti1dConstraintBatches 4))
  let st := st.issue (.allocate (.member .mSolverBodyReferences)
    (usizeMul (u32mul args.totalActiveBodyCount args.numSlabs) sizes.PxgSolverReferences))
  let st := st.issue (.allocate (.member .mBlockWorkUnits)
    (usizeMul sizes.PxgBlockWorkUnit totalContactBatches))
  let st := st.issue (.allocate (.member .mConstraintsPerPartition)
    (usizeMul 4 args.numConstraintsPerPartition))
  let st := st.issue (.allocate (.member .mArtiConstraintsPerPartition)
    (usizeMul 4 args.numArtiConstraintsPerPartition))
  let st := st.issue (.allocate (.member .mConstraintContactPrepBlockPool)
    (usizeMul sizes.PxgBlockContactData totalContactBatches))
  let st := st.issue (.allocate (.member .mConstraint1DPrepBlockPool)
    (usizeMul sizes.PxgBlockConstraint1DData totalNum1DConstraintBatches))
  let st := st.issue (.allocate (.member .mConstraint1DPrepBlockPoolVel)
    (usizeMul (u32mul sizes.MAX_CONSTRAINT_ROWS totalNum1DConstraintBatches)
      sizes.PxgBlockConstraint1DVelocities))
  let st := st.issue (.allocate (.member .mConstraint1DPrepBlockPoolPar)
    (usizeMul (u32mul sizes.MAX_CONSTRAINT_ROWS totalNum1DConstraintBatches)
      sizes.PxgBlockConstraint1DParameters))
  let st := st.issue (.allocate (.member .mConstraintDataPool)
    (usizeMul data.nbTotalRigidJoints sizes.PxgConstraintData))
  let st := st.issue (.allocate (.member .mConstraintRowPool)
    (usizeMul (usizeMul data.nbTotalRigidJoints sizes.Px1DConstraint)
      sizes.MAX_CONSTRAINT_ROWS))
  let st := st.issue (.allocate (.member .mArtiConstraintDataPool)
    (usizeMul data.nbTotalArtiJoints sizes.PxgConstraintData))
  let st := st.issue (.allocate (.member .mArtiConstraintRowPool)
    (usizeMul (usizeMul data.nbTotalArtiJoints sizes.Px1DConstraint)
      sizes.MAX_CONSTRAINT_ROWS))
  let st := st.issue (.allocate (.member .mJointHeaderBlockStream)
    (usizeMul totalNum1DConstraintBatches sizes.PxgBlockSolverConstraint1DHeader))
  let st := st.issue (.allocate (.member .mJointRowBlockStreamCon)
    (usizeMul (u32mul sizes.MAX_CONSTRAINT_ROWS totalNum1DConstraintBatches)
      sizes.PxgBlockSolverConstraint1DCon))
  let st := st.issue (.allocate (.member .mJointRowBlockStreamMod)
    (usizeMul (u32mul sizes.MAX_CONSTRAINT_ROWS totalNum1DConstraintBatches)
      sizes.PxgBlockSolverConstraint1DMod))
  let st := st.issue (.allocate (.member .mContactHeaderBlockStream)
    (usizeMul totalContactBatches sizes.PxgBlockSolverContactHeader))
  let st := st.issue (.allocate (.member .mFrictionHeaderBlockStream)
    (usizeMul totalContactBatches sizes.PxgBlockSolverFrictionHeader))
  let st := st.issue (.allocate (.member .mContactBlockStream)
    (usizeMul totalContactBlocks sizes.PxgBlockSolverContactPoint))
  let st := st.issue (.allocate (.member .mFrictionBlockStream)
    (usizeMul totalFrictionBlocks sizes.PxgBlockSolverContactFriction))
  let st := st.issue (.allocate (.member .mGpuContactBlockBuffer)
    (usizeMul totalContactBlocks sizes.PxgBlockContactPoint))
  let st := st.issue (.allocate (.member .mContactHeaderStream)
    (usizeMul numArtiContactBatches sizes.PxgSolverContactHeader))
  let st := st.issue (.allocate (.member .mFrictionHeaderStream)
    (usizeMul numArtiContactBatches sizes.PxgSolverFrictionHeader))
  let st := st.issue (.allocate (.member .mContactStream)
    (usizeMul args.numArtiContactBlocks sizes.PxgSolverContactPointExt))
  let st := st.issue (.allocate (.member .mFrictionStream)
    (usizeMul args.numArtiContactBlocks sizes.PxgSolverContactFrictionExt))
  st.issue (.allocate (.member .mArtiConstraintBlockResponse)
    (usizeMul
      (u32add (u32add args.numArtiContactBlocks args.numArtiFrictionBlocks)
        (u32mul sizes.MAX_CONSTRAINT_ROWS numArti1dConstraintBatches))
      sizes.PxgArticulationBlockResponse))

/-- The block of `gpuMemDMAUp` that allocates and uploads the static-contact
and static-joint index tables (source lines 625-662).  The results of the
copies are discarded. -/
def gpuMemDMAUp_staticIndices (args : DmaUpArgs) (st : TransferState) : TransferState :=
  let st := st.issue (.allocate (.member .mRigidStaticContactIndices)
    (usizeMul args.rigidStaticContactIndSize 4))
  let st := st.issue (.allocate (.member .mRigidStaticJointIndices)
    (usizeMul args.rigidStaticJointSize 4))
  let st := st.issue (.allocate (.member .mRigidStaticContactCounts)
    (usizeMul args.islandBodyCount 4))
  let st := st.issue (.allocate (.member .mRigidStaticJointCounts)
    (usizeMul args.islandBodyCount 4))
  let st := st.issue (.allocate (.member .mRigidStaticContactStartIndices)
    (usizeMul args.islandBodyCount 4))
  let st := st.issue (.allocate (.member .mRigidStaticJointStartIndices)
    (usizeMul args.islandBodyCount 4))
  let numBlocks := 32
  let st := st.issue (.allocate (.member .mTempContactUniqueIndicesBlockBuffer)
    (usizeMul numBlocks 4))
  let st := st.issue (.allocate (.member .mTempConstraintUniqueIndicesBlockBuffer)
    (usizeMul numBlocks 4))
  let st := st.issue (.allocate (.member .mTempContactHeaderBlockBuffer) (usizeMul numBlocks 4))
  let st := st.issue (.allocate (.member .mTempConstraintHeaderBlockBuffer)
    (usizeMul numBlocks 4))
  let st := st.issue (.memcpyHtoDAsync (.member .mRigidStaticContactIndices) 0
    .rigidStaticContactIndices 0 (usizeMul 4 args.rigidStaticContactIndSize) .mStream)
  let st := st.issue (.memcpyHtoDAsync (.member .mRigidStaticJointIndices) 0
    .rigidStaticJointIndices 0 (usizeMul 4 args.rigidStaticJointSize) .mStream)
  let st := st.issue (.memcpyHtoDAsync (.member .mRigidStaticContactCounts) 0
    .rigidStaticContactCounts 0 (usizeMul 4 args.islandBodyCount) .mStream)
  let st := st.issue (.memcpyHtoDAsync (.member .mRigidStaticJointCounts) 0
    .rigidStaticJointCounts 0 (usizeMul 4 args.islandBodyCount) .mStream)
  let st := st.issue (.allocate (.member .mArtiStaticContactIndices)
    (usizeMul args.artiStaticContactIndSize 4))
  let st := st.issue (.allocate (.member .mArtiStaticJointIndices)
    (usizeMul args.artiStaticJointSize 4))
  let st := st.issue (.allocate (.member .mArtiStaticContactCounts)
    (usizeMul args.nbArticulations 4))
  let st := st.issue (.allocate (.member .mArtiStaticJointCounts)
    (usizeMul args.nbArticulations 4))
  let st := st.issue (.allocate (.member .mArtiSelfContactIndices)
    (usizeMul args.artiSelfContactIndSize 4))
  let st := st.issue (.allocate (.member .mArtiSelfJointIndices)
    (usizeMul args.artiSelfJointSize 4))
  let st := st.issue (.allocate (.member .mArtiSelfContactCounts)
    (usizeMul args.nbArticulations 4))
  let st := st.issue (.allocate (.member .mArtiSelfJointCounts)
    (usizeMul args.nbArticulations 4))
  let st := st.issue (.memcpyHtoDAsync (.member .mArtiStaticContactIndices) 0
    .artiStaticContactIndices 0 (usizeMul 4 args.artiStaticContactIndSize) .mStream)
  let st := st.issue (.memcpyHtoDAsync (.member .mArtiStaticJointIndices) 0
    .artiStaticJointIndices 0 (usizeMul 4 args.artiStaticJointSize) .mStream)
  let st := st.issue (.memcpyHtoDAsync (.member .mArtiStaticContactCounts) 0
    .artiStaticContactCounts 0 (usizeMul 4 args.nbArticulations) .mStream)
  let st := st.issue (.memcpyHtoDAsync (.member .mArtiStaticJointCounts) 0
    .artiStaticJointCounts 0 (usizeMul 4 args.nbArticulations) .mStream)
  let st := st.issue (.memcpyHtoDAsync (.member .mArtiSelfContactIndices) 0
    .artiSelfContactIndices 0 (usizeMul 4 args.artiSelfContactIndSize) .mStream)
  let st := st.issue (.memcpyHtoDAsync (.member .mArtiSelfJointIndices) 0
    .artiSelfJointIndices 0 (usizeMul 4 args.artiSelfJointSize) .mStream)
  let st := st.issue (.memcpyHtoDAsync (.member .mArtiSelfContactCounts) 0
    .artiSelfContactCounts 0 (usizeMul 4 args.nbArticulations) .mStream)
  st.issue (.memcpyHtoDAsync (.member .mArtiSelfJointCounts) 0
    .artiSelfJointCounts 0 (usizeMul 4 args.nbArticulations) .mStream)

/-- The uploads that close `gpuMemDMAUp` (source lines 682-695): six index
tables, the pinned data buffer, the fill of the body references with
`0xFFFFFFFF` and the flush.  The results of the copies are discarded. -/
def gpuMemDMAUp_upload (args : DmaUpArgs) (st : TransferState) : TransferState :=
  let data := args.data
  let numDynamicContactBatches := data.numContactBatches
  let numDynamic1DConstraintBatches := data.num1dConstraintBatches
  let numArtiContactBatches := u32add
    (u32add data.numArtiContactsBatches data.numArtiStaticContactsBatches)
    data.numArtiSelfContactsBatches
  let numArti1dConstraintBatches := u32add
    (u32add data.numArti1dConstraintBatches data.numArtiStatic1dConstraintBatches)
    data.numArtiSelf1dConstraintBatches
  let st := st.issue (.memcpyHtoDAsync (.member .mConstraintsPerPartition) 0
    .constraintsPerPartition 0 (usizeMul 4 args.numConstraintsPerPartition) .mStream)
  let st := st.issue (.memcpyHtoDAsync (.member .mArtiConstraintsPerPartition) 0
    .artiConstraintsPerPartition 0 (usizeMul 4 args.numArtiConstraintsPerPartition) .mStream)
  let st := st.issue (.memcpyHtoDAsync (.member .mConstraint1DBatchIndices) 0
    .constraint1DBatchIndices 0 (usizeMul 4 numDynamic1DConstraintBatches) .mStream)
  let st := st.issue (.memcpyHtoDAsync (.member .mContactBatchIndices) 0
    .constraintContactBatchIndices 0 (usizeMul 4 numDynamicContactBatches) .mStream)
  let st := st.issue (.memcpyHtoDAsync (.member .mArtiContactBatchIndices) 0
    .artiConstraintContactBatchIndices 0 (usizeMul 4 numArtiContactBatches) .mStream)
  let st := st.issue (.memcpyHtoDAsync (.member .mArtiConstraint1dBatchIndices) 0
    .artiConstraint1dBatchindices 0 (usizeMul 4 numArti1dConstraintBatches) .mStream)
  let st := st.issue (.memcpyHtoDAsync (.member .mDataBuffer) 0 .hostAllocator 0
    (usize args.mCurrentSize) .mStream)
  let st := st.issue (.memsetD32Async (.member .mSolverBodyReferences) 4294967295
    (u32mul args.totalActiveBodyCount args.numSlabs) .mStream)
  st.issue (.streamFlush .mStream)

/-- What `gpuMemDMAUp` leaves behind: the state of the transfer stages, the
integer members of the pinned constraint-prepare descriptor `*mPrepareDesc`,
and the member `mNbArticSlabs`. -/
structure DmaUpResult where
  st : TransferState
  mPrepareDesc : PxgConstraintPrepareDesc
  mNbArticSlabs : Nat
  deriving DecidableEq, Repr

/-- Member `gpuMemDMAUp` (source lines 491-702).  Of the descriptors written
into pinned host memory (source lines 664-680) only the constraint-prepare
descriptor is kept; writing them issues no operation.  No result of a copy or
fill is inspected, and the only check of the queue is compiled under
`GPU_DEBUG`, which is `0`. -/
def gpuMemDMAUp (core : TransferCore) (sizes : DmaUpSizes) (args : DmaUpArgs)
    (st : TransferState) : DmaUpResult :=
  let data := args.data
  let numDynamicContactBatches := data.numContactBatches
  let numDynamic1DConstraintBatches := data.num1dConstraintBatches
  let st := gpuMemDMAUp_allocate sizes args st
  let st := gpuMemDMAUp_forceThresholdBuffers core data args.hasForceThresholds st
  let st := gpuMemDMAUp_staticIndices args st
  let mPrepareDesc := constructConstraitPrepareDesc args.numConstraintBatchHeader
    args.numStaticConstraintBatchHeader numDynamic1DConstraintBatches
    data.numStatic1dConstraintBatches numDynamicContactBatches data.numStaticContactBatches
    data.numArti1dConstraintBatches data.numArtiContactsBatches
    data.numArtiStatic1dConstraintBatches data.numArtiStaticContactsBatches
    data.numArtiSelf1dConstraintBatches data.numArtiSelfContactsBatches
    args.totalCurrentEdges args.totalPreviousEdges args.numSolverBodies
  let st := gpuMemDMAUp_upload args st
  ⟨st, mPrepareDesc, args.numSlabs⟩

/-! ## Serialization utilities (`SnSerialUtils.h`) -/

/-- Function `Sn::getPadding` (`SnSerialUtils.h`, lines 45-50).  `value` is a
`size_t` and is narrowed to `PxU32`; `alignment`, `mask`, `overhead` and the
result are `PxU32`; `&` is `Nat.land`. -/
def Sn.getPadding (value alignment : Nat) : Nat :=
  let mask := u32sub alignment 1
  let overhead := Nat.land (u32 value) mask
  Nat.land (u32sub alignment overhead) mask

/-! ## Further observations on issued operations -/

/-- The sort descriptor index named by a radix-sort launch. -/
def TransferOp.sortDescriptor : TransferOp → Option Nat
  | .launchKernel _ _ _ _ [_, .mRadixSortDescd d, _] => some d
  | _ => none

/-- The start bit passed to a radix-sort launch. -/
def TransferOp.startBit : TransferOp → Option Nat
  | .launchKernel _ _ _ _ [_, _, .u32 b] => some b
  | _ => none

/-- Partition index, grid size and block dimension of a launch of the rigid
partition kernel. -/
def rigidLaunch : Op → Option (Nat × Nat × Nat)
  | Op.launchKernel KernelId.SOLVE_BLOCK_PARTITION g bx _ _ [_, _, _, KernelParam.u32 c, _] =>
    some (c, g, bx)
  | _ => none

/-- Partition index, grid size and the two block dimensions (threads per
warp, warps per block) of a launch of the articulation partition kernel. -/
def artiLaunch : Op → Option (Nat × Nat × Nat × Nat)
  | Op.launchKernel KernelId.ARTI_SOLVE_BLOCK_PARTITION g bx bw _
      [_, _, _, KernelParam.u32 c, _, _] => some (c, g, bx, bw)
  | _ => none

/-- The operation with its island index erased (set to `0`): the
`islandIndex` of the reference-count recomputation and the third argument of
the two partition kernels. -/
def withoutIslandIndex : Op → Op
  | Op.precomputeReferenceCount _ t => Op.precomputeReferenceCount 0 t
  | Op.launchKernel KernelId.SOLVE_BLOCK_PARTITION g bx bw s
      (p0 :: p1 :: KernelParam.u32 _ :: rest) =>
    Op.launchKernel KernelId.SOLVE_BLOCK_PARTITION g bx bw s (p0 :: p1 :: KernelParam.u32 0 :: rest)
  | Op.launchKernel KernelId.ARTI_SOLVE_BLOCK_PARTITION g bx bw s
      (p0 :: p1 :: KernelParam.u32 _ :: rest) =>
    Op.launchKernel KernelId.ARTI_SOLVE_BLOCK_PARTITION g bx bw s
      (p0 :: p1 :: KernelParam.u32 0 :: rest)
  | op => op

/-- Kernel, grid size and block dimensions of a launch. -/
def launchShape : Op → Option (KernelId × Nat × Nat × Nat)
  | Op.launchKernel f g bx bw _ _ => some (f, g, bx, bw)
  | _ => none

/-! ## Error reports of the solve stage -/

/-- The internal error reported for operation `op`, given the issue log
`log` up to and including `op`: the kernel of a launch whose result, the
answer of the driver to `log`, is not `CUDA_SUCCESS`. -/
def reportOf (core : SolverCore) (log : List Op) : Op → List KernelId
  | Op.launchKernel f _ _ _ _ _ => if core.launchResult log ≠ CUDA_SUCCESS then [f] else []
  | _ => []

/-- The internal errors reported for the operations `ops` issued after
`prev`: the kernels of the failed launches, in issue order. -/
def reportsOf (core : SolverCore) : List Op → List Op → List KernelId
  | _, [] => []
  | prev, op :: rest => reportOf core (prev ++ [op]) op ++ reportsOf core (prev ++ [op]) rest

/-- State `st1` is reached from `st` by issuing further operations and
reporting exactly the failed launches among them. -/
def Extends (core : SolverCore) (st st1 : SolverState) : Prop :=
  ∃ ops, st1.issued = st.issued ++ ops ∧ st1.errors = st.errors ++ reportsOf core st.issued ops

/-- Whenever `f` returns, it has issued further operations and reported
exactly the failed launches among them. -/
def Reports (core : SolverCore) (f : SolverState → Option SolverState) : Prop :=
  ∀ st st1, f st = some st1 → Extends core st st1

/-! ## Force-threshold pipeline across steps

The kernels of the force-threshold pipeline run on the device and are not
part of the given sources; what they compute is modelled from the
specification (section 4.5).  The host side, which carries the count of
exceeded elements from one step to the next, is `syncDmaBack`. -/

/-- Modelled from the spec: a record of the threshold stream, "(body-pair
key, accumulated normal force)".  The force is an exact number here. -/
structure ThresholdStreamElement where
  key : Nat
  accumulatedForce : Int
  deriving DecidableEq, Repr

/-- Modelled from the spec: step (3) of section 4.5, "reduce the sorted stream
into one accumulated-force-per-object-pair": the sum of the forces of the
records of a pair. -/
def accumulatedForcePerPair (stream : List ThresholdStreamElement) (key : Nat) : Int :=
  ((stream.filter (fun e => e.key = key)).map (fun e => e.accumulatedForce)).sum

/-- Modelled from the spec: step (3) of section 4.5, "write exceeded-threshold
indices": the pairs of the stream, each once, whose accumulated force is
above the threshold configured for the pair. -/
def exceededPairs (threshold : Nat → Int) (stream : List ThresholdStreamElement) : List Nat :=
  ((stream.map (fun e => e.key)).dedup).filter
    (fun k => threshold k < accumulatedForcePerPair stream k)

/-- Modelled from the spec: steps (4) and (5) of section 4.5, "merge the newly
exceeded set with the previous step's set" and "emit only the pairs whose
force state transitioned": the pairs exceeded now but not before, then the
pairs exceeded before but not now. -/
def forceChangedPairs (previous current : List Nat) : List Nat :=
  current.filter (fun k => k ∉ previous) ++ previous.filter (fun k => k ∉ current)

/-- Modelled from the spec: what one step leaves for the next ("threshold-stream
history carried forward for next-step force-change detection"): the
exceeded-force buffer it wrote and the host state, whose member
`mNbPrevExceededForceElements` tells how many entries of that buffer are valid. -/
structure ThresholdHistory where
  exceeded : List Nat
  st : TransferState
  deriving DecidableEq, Repr

/-- Modelled from the spec: one step of the force-threshold pipeline.  The
device reads as previous set the first `mNbPrevExceededForceElements` entries
of the buffer written by the step before, computes the exceeded and the
changed pairs, and writes their counts into the pinned descriptor; the host
then runs `syncDmaBack` (from the source), which returns the number of changed
elements to report and stores the number of exceeded elements for the next
step.  The first component is the force-changed output of the step. -/
def forceThresholdStep (threshold : Nat → Int) (stream : List ThresholdStreamElement)
    (spinWaitSucceeded isInAbortMode : Bool) (h : ThresholdHistory) :
    List Nat × ThresholdHistory :=
  let previous := h.exceeded.take h.st.mNbPrevExceededForceElements
  let exceeded := exceededPairs threshold stream
  let changed := forceChangedPairs previous exceeded
  let mSolverCoreDesc : PxgSolverCoreDesc := ⟨changed.length, exceeded.length, 0⟩
  let r := syncDmaBack mSolverCoreDesc spinWaitSucceeded isInAbortMode h.st
  (changed.take r.1, ⟨exceeded, r.2⟩)

/-! ## Concrete configurations used to exercise the theorems -/

/-- Block sizes of the shipped kernels (all multiples of the warp size). -/
def exampleBlockDim : PxgKernelBlockDim := ⟨128, 64, 64, 64, 256, 256, 256, 256, 64⟩

/-- A core with residual reporting on, one registered solver of each
extended-body kind and two particle-system cores; every launch succeeds. -/
def exampleCore : SolverCore :=
  ⟨exampleBlockDim, fun _ => CUDA_SUCCESS, false, 2, 1, 1, true, true, true, 2, 1, 32⟩

/-- An island with two partitions, three bodies, four position and two
velocity iterations. -/
def exampleIsland : PxgIslandContext := ⟨2, 3, 5, 1, 0, 0, 1, 4, 2⟩

/-- Rigid end indices: partition 0 holds batches `0..2`, partition 1 batches `3..4`. -/
def exampleConstraintsPerPartition : Nat → Int := fun c => [3, 5].getD c 0

/-- Articulation end indices: partition 0 is empty, partition 1 holds one batch. -/
def exampleArtiConstraintsPerPartition : Nat → Int := fun c => [0, 1].getD c 0

/-- An island whose body count is `2^27`, so that the 32-bit product
`mBodyCount * 32` wraps to `0`; no partitions, two velocity iterations. -/
def overflowIsland : PxgIslandContext := ⟨0, 134217728, 0, 0, 0, 0, 0, 0, 2⟩

/-- An island with one partition, one body, one rigid batch, one position
and one velocity iteration. -/
def smallIsland : PxgIslandContext := ⟨1, 1, 1, 0, 0, 0, 0, 1, 1⟩

/-- The core of `exampleCore` with residual reporting off. -/
def quietCore : SolverCore :=
  ⟨exampleBlockDim, fun _ => CUDA_SUCCESS, false, 2, 1, 1, false, true, true, 2, 1, 32⟩

/-- Sizes of the record types on a 64-bit build. -/
def exampleSizes : TypeSizes := ⟨32, 16, 16, 8, 8, 32, 64, 64, 512⟩

/-- Launch tables with 32 blocks of 256 threads for every kernel; every
launch succeeds. -/
def exampleTransferCore : TransferCore :=
  ⟨exampleSizes, fun _ => 32, fun _ => 256, fun _ => CUDA_SUCCESS⟩

/-- A step with one dynamic rigid contact batch and no other contact batch. -/
def oneContactBatch : PxgConstraintPrePrepData := ⟨1, 0, 0, 0, 0, 0, 0, 0, 0, 0, 0, 0⟩

/-- A step with 5 solver bodies and 40 slabs (two words per body). -/
def exampleBodyDataArgs : BodyDataArgs := ⟨2, 5, 3, 1, 40, 2, 1⟩

/-- An upload with three destroyed edges. -/
def exampleContactDataArgs : ContactDataArgs := ⟨4096, 1024, 2048, 512, 7, 7, 9, 2, 3, 5, 4, 6, 1⟩

/-- An upload whose number of destroyed edges is the largest `PxU32`. -/
def overflowContactDataArgs : ContactDataArgs :=
  ⟨4096, 1024, 2048, 512, 7, 7, 9, 2, 4294967295, 5, 4, 6, 1⟩

/-- A step with twelve pairwise different batch counts, two joints and no
contact blocks, with force thresholds requested. -/
def exampleDmaUpArgs : DmaUpArgs :=
  { mCurrentSize := 4096
    data := ⟨4, 6, 8, 10, 12, 3, 5, 7, 9, 11, 2, 1⟩
    numSolverBodies := 20
    islandBodyCount := 20
    numIslands := 1
    numConstraintsPerPartition := 2
    numArtiConstraintsPerPartition := 2
    numConstraintBatchHeader := 13
    numStaticConstraintBatchHeader := 14
    numArticConstraintBatchHeader := 15
    numStaticArtiBatchHeader := 16
    numSelfArtiBatchHeader := 17
    numContactBlockes := 0
    numFrictionBlockes := 0
    numArtiContactBlocks := 0
    numArtiFrictionBlocks := 0
    totalCurrentEdges := 30
    totalPreviousEdges := 29
    numSlabs := 1
    maxNbPartitions := 2
    enableStabilization := false
    totalActiveBodyCount := 20
    activeBodyStartIndex := 0
    nbArticulations := 1
    artiStaticContactIndSize := 0
    artiStaticJointSize := 0
    artiSelfContactIndSize := 0
    artiSelfJointSize := 0
    rigidStaticContactIndSize := 0
    rigidStaticJointSize := 0
    hasForceThresholds := true }

/-- Record sizes for the constraint upload (all `16` bytes, twenty rows). -/
def exampleDmaUpSizes : DmaUpSizes :=
  ⟨16, 16, 16, 16, 16, 16, 16, 16, 16, 16, 16, 16, 16, 16, 16, 16, 16, 16, 16, 16, 16, 16, 20⟩

/-- A `TransferCore` whose driver rejects every kernel launch. -/
def failingTransferCore : TransferCore :=
  ⟨exampleSizes, fun _ => 32, fun _ => 256, fun _ => 1⟩

/-- A table of two islands with the same number of partitions and bodies but
different batch and iteration counts. -/
def twoIslands : Nat → PxgIslandContext := fun a =>
  if a = 0 then exampleIsland else ⟨2, 3, 9, 2, 1, 1, 0, 8, 1⟩

/-- The core of `exampleCore` with a driver that rejects every launch. -/
def failingCore : SolverCore := { exampleCore with launchResult := fun _ => 1 }

/-- A stream with one record of pair `7` carrying force `f`. -/
def singleContact (f : Int) : List ThresholdStreamElement := [⟨7, f⟩]

/-! ## Basic lemmas -/

@[simp] theorem issue_issued (op : Op) (st : SolverState) :
    (issue op st).issued = st.issued ++ [op] := rfl

@[simp] theorem launchKernelChecked_issued (core : SolverCore) (f : KernelId) (g bx bY : Nat)
    (s : Stream) (p : List KernelParam) (st : SolverState) :
    (launchKernelChecked core f g bx bY s p st).issued =
      st.issued ++ [Op.launchKernel f g bx bY s p] := by
  unfold launchKernelChecked reportIfFailed launchKernel
  dsimp only
  split <;> rfl

theorem forLoop_zero {σ : Type} (body : Nat → σ → Option σ) (s : σ) :
    forLoop 0 body s = some s := rfl

theorem forLoop_succ {σ : Type} (n : Nat) (body : Nat → σ → Option σ) (s : σ) :
    forLoop (n + 1) body s = (forLoop n body s).bind (body n) := by
  unfold forLoop
  rw [List.range_succ, List.foldlM_append]
  simp

theorem u32_of_lt {b : Nat} (h : b < 4294967296) : u32 b = b := by
  unfold u32; omega

theorem u32div_bind {α : Type} {a b : Nat} (h : 0 < b) (f : Nat → Option α) :
    (u32div a b >>= f) = f (a / b) := by
  unfold u32div
  rw [if_neg (by omega)]
  rfl

theorem u32_pos {b : Nat} (h : 0 < b) (h' : b < 4294967296) : 0 < u32 b := by
  rw [u32_of_lt h']; exact h

theorem solvePartitions_partition_eq (core : SolverCore) (hv : SolveBlockDimsValid core.blockDim)
    (cpp acpp : Nat → Int) (islandIndex : Nat) (doFriction anyArti : Bool) (c : Nat)
    (st : SolverState) :
    ∃ st1, solvePartitions_partition core cpp acpp islandIndex doFriction anyArti WARP_SIZE
        (numWarpsPerBlock core) c ⟨partitionStart cpp c, partitionStart acpp c, st⟩ =
        some ⟨partitionStart cpp (c + 1), partitionStart acpp (c + 1), st1⟩ ∧
      st1.issued = st.issued ++ partitionOps core cpp acpp islandIndex doFriction anyArti c := by
  obtain ⟨⟨h1, h1'⟩, -, -, -, -, h6, h6'⟩ := hv
  have hw : 0 < numWarpsPerBlock core := by
    unfold numWarpsPerBlock WARP_SIZE u32; omega
  unfold solvePartitions_partition
  rw [u32div_bind (u32_pos h1 h1'), u32div_bind hw]
  refine ⟨_, ⟨rfl, ?_⟩⟩
  simp only [partitionOps, nbArtiBlocks, nbBlocks, partitionBatchCount]
  split_ifs <;> simp

theorem solvePartitions_loop_eq (core : SolverCore) (hv : SolveBlockDimsValid core.blockDim)
    (cpp acpp : Nat → Int) (islandIndex : Nat) (doFriction anyArti : Bool) (st : SolverState)
    (n : Nat) :
    ∃ st1, forLoop n (solvePartitions_partition core cpp acpp islandIndex doFriction anyArti
        WARP_SIZE (numWarpsPerBlock core)) ⟨0, 0, st⟩ =
        some ⟨partitionStart cpp n, partitionStart acpp n, st1⟩ ∧
      st1.issued = st.issued ++
        (List.range n).flatMap (partitionOps core cpp acpp islandIndex doFriction anyArti) := by
  induction n with
  | zero => exact ⟨st, rfl, by simp⟩
  | succ n ih =>
    obtain ⟨st1, h1, h2⟩ := ih
    obtain ⟨st2, h3, h4⟩ :=
      solvePartitions_partition_eq core hv cpp acpp islandIndex doFriction anyArti n st1
    refine ⟨st2, ?_, ?_⟩
    · rw [forLoop_succ, h1]; exact h3
    · rw [h4, h2, List.range_succ, List.flatMap_append]; simp

theorem solvePartitions_averageVelocity_issues (core : SolverCore)
    (hv : SolveBlockDimsValid core.blockDim) (context : PxgIslandContext) :
    Issues (solvePartitions_averageVelocity core context) (averageVelocityOps core context) := by
  intro st
  obtain ⟨-, ⟨h2, h2'⟩, -⟩ := hv
  unfold solvePartitions_averageVelocity
  dsimp only
  rw [u32div_bind (u32_pos h2 h2')]
  simp only [averageVelocityOps, nbAverageBlocks, Option.pure_def]
  split_ifs
  · exact ⟨_, rfl, by simp⟩
  · exact ⟨_, rfl, by simp⟩

theorem solvePartitions_issues (core : SolverCore) (hv : SolveBlockDimsValid core.blockDim)
    (islandContexts : Nat → PxgIslandContext) (cpp acpp : Nat → Int) (islandIndex : Nat)
    (doFriction anyArti : Bool) :
    Issues (solvePartitions core islandContexts cpp acpp islandIndex doFriction anyArti)
      (solvePartitionsOps core islandContexts cpp acpp islandIndex doFriction anyArti) := by
  intro st
  obtain ⟨st1, h1, h2⟩ := solvePartitions_loop_eq core hv cpp acpp islandIndex doFriction anyArti
    st (islandContexts islandIndex).mNumPartitions
  obtain ⟨st2, h3, h4⟩ :=
    solvePartitions_averageVelocity_issues core hv (islandContexts islandIndex) st1
  refine ⟨st2, ?_, ?_⟩
  · unfold solvePartitions
    dsimp only
    have e : u32 core.blockDim.COMPUTE_UNCONSTRAINED_VELOCITES / WARP_SIZE =
        numWarpsPerBlock core := rfl
    rw [e, h1]
    exact h3
  · rw [h4, h2, solvePartitionsOps, List.append_assoc]

theorem Issues.bind {f g : SolverState → Option SolverState} {o1 o2 : List Op}
    (hf : Issues f o1) (hg : Issues g o2) : Issues (fun st => (f st).bind g) (o1 ++ o2) := by
  intro st
  obtain ⟨st1, h1, h2⟩ := hf st
  obtain ⟨st2, h3, h4⟩ := hg st1
  exact ⟨st2, by simp [h1, h3], by rw [h4, h2, List.append_assoc]⟩

theorem Issues.after {g : SolverState → SolverState} {f : SolverState → Option SolverState}
    {o1 o2 : List Op} (hg : ∀ st, (g st).issued = st.issued ++ o1) (hf : Issues f o2) :
    Issues (fun st => f (g st)) (o1 ++ o2) := by
  intro st
  obtain ⟨st1, h1, h2⟩ := hf (g st)
  exact ⟨st1, h1, by rw [h2, hg, List.append_assoc]⟩

theorem Issues.pure {g : SolverState → SolverState} {o : List Op}
    (hg : ∀ st, (g st).issued = st.issued ++ o) : Issues (fun st => some (g st)) o :=
  fun st => ⟨g st, rfl, hg st⟩

theorem Issues.nil : Issues (fun st => some st) [] :=
  fun st => ⟨st, rfl, by simp⟩

theorem Issues.forLoop {body : Nat → SolverState → Option SolverState} {ops : Nat → List Op}
    (h : ∀ i, Issues (body i) (ops i)) (n : Nat) :
    Issues (forLoop n body) ((List.range n).flatMap ops) := by
  induction n with
  | zero => intro st; exact ⟨st, rfl, by simp⟩
  | succ n ih =>
    intro st
    obtain ⟨st1, h1, h2⟩ := ih st
    obtain ⟨st2, h3, h4⟩ := h n st1
    refine ⟨st2, ?_, ?_⟩
    · rw [forLoop_succ, h1]; exact h3
    · rw [h4, h2, List.range_succ, List.flatMap_append]; simp

theorem Issues.congr {f : SolverState → Option SolverState} {o1 o2 : List Op}
    (h : Issues f o1) (e : o1 = o2) : Issues f o2 := e ▸ h

@[simp] theorem forEach_issue_issued (n : Nat) (g : Nat → Op) (st : SolverState) :
    (forEach n (fun i => issue (g i)) st).issued = st.issued ++ (List.range n).map g := by
  unfold forEach
  induction n with
  | zero => simp
  | succ n ih => rw [List.range_succ, List.foldl_append]; simp [ih]

@[simp] theorem zeroErrorAccumulators_issued (core : SolverCore) (st : SolverState) :
    (zeroErrorAccumulators core st).issued = st.issued ++ zeroErrorAccumulatorsOps core := by
  simp [zeroErrorAccumulators, zeroErrorAccumulatorsOps]

theorem positionExtendedBodies_issued (core : SolverCore) (context : PxgIslandContext) (b : Nat)
    (st : SolverState) :
    (solveContactMultiBlockParallel_positionExtendedBodies core context b st).issued =
      st.issued ++ positionExtendedBodiesOps core context b := by
  unfold solveContactMultiBlockParallel_positionExtendedBodies positionExtendedBodiesOps
  dsimp only
  rw [forEach_issue_issued]
  split_ifs <;> simp

theorem velocityExtendedBodies_issued (core : SolverCore) (st : SolverState) :
    (solveContactMultiBlockParallel_velocityExtendedBodies core st).issued =
      st.issued ++ velocityExtendedBodiesOps core := by
  unfold solveContactMultiBlockParallel_velocityExtendedBodies velocityExtendedBodiesOps
  dsimp only
  rw [forEach_issue_issued]
  split_ifs <;> simp

theorem writeBackBlock_issues (core : SolverCore) (hv : SolveBlockDimsValid core.blockDim)
    (a : Nat) (context : PxgIslandContext) :
    Issues (writeBackBlock core a context) (writeBackBlockOps core a context) := by
  intro st
  obtain ⟨-, -, -, ⟨h4, h4'⟩, -⟩ := hv
  unfold writeBackBlock
  dsimp only
  rw [u32div_bind (u32_pos h4 h4')]
  simp only [writeBackBlockOps, totalBatchCount, Option.pure_def]
  split_ifs
  · exact ⟨_, rfl, by simp⟩
  · exact ⟨_, rfl, by simp⟩

theorem solveStaticConstraints_issues (core : SolverCore)
    (hv : SolveBlockDimsValid core.blockDim) (context : PxgIslandContext) (a : Nat)
    (doFriction : Bool) :
    Issues (solveStaticConstraints core context a doFriction)
      (staticConstraintsOps core context a doFriction) := by
  intro st
  obtain ⟨⟨h1, h1'⟩, -⟩ := hv
  unfold solveStaticConstraints
  rw [u32div_bind (u32_pos h1 h1')]
  simp only [staticConstraintsOps, nbStaticBlocks, Option.pure_def]
  split_ifs
  · exact ⟨_, rfl, by simp⟩
  · exact ⟨_, rfl, by simp⟩

theorem propagateBodyVelocity_issues (core : SolverCore)
    (hv : SolveBlockDimsValid core.blockDim) (context : PxgIslandContext) :
    Issues (propagateBodyVelocity core context) (propagateBodyVelocityOps core context) := by
  intro st
  obtain ⟨-, ⟨h2, h2'⟩, -⟩ := hv
  unfold propagateBodyVelocity
  rw [u32div_bind (u32_pos h2 h2')]
  simp only [propagateBodyVelocityOps, nbPropagateBlocks, Option.pure_def]
  split_ifs
  · exact ⟨_, rfl, by simp⟩
  · exact ⟨_, rfl, by simp⟩

theorem positionIteration_issues (core : SolverCore) (hv : SolveBlockDimsValid core.blockDim)
    (islandContexts : Nat → PxgIslandContext) (cpp acpp : Nat → Int) (a : Nat)
    (anyArti isTgs : Bool) (b : Nat) :
    Issues (solveContactMultiBlockParallel_positionIteration core islandContexts cpp acpp a
        anyArti isTgs b)
      (positionIterationOps core islandContexts cpp acpp a anyArti isTgs b) := by
  have hpre : ∀ st : SolverState,
      (if core.residualReportingEnabled then zeroErrorAccumulators core st else st).issued =
        st.issued ++ (if core.residualReportingEnabled then zeroErrorAccumulatorsOps core
          else []) := by
    intro st; split_ifs <;> simp
  have hmid : ∀ st : SolverState,
      (solveContactMultiBlockParallel_positionExtendedBodies core (islandContexts a) b
        (issue (Op.propagateRigidBodyImpulsesAndSolveInternalConstraints false
          (positionDoFriction core (islandContexts a) b) isTgs core.residualReportingEnabled)
          st)).issued = st.issued ++
        ([Op.propagateRigidBodyImpulsesAndSolveInternalConstraints false
          (positionDoFriction core (islandContexts a) b) isTgs core.residualReportingEnabled] ++
          positionExtendedBodiesOps core (islandContexts a) b) := by
    intro st; rw [positionExtendedBodies_issued]; simp
  have h := (Issues.after hpre (solvePartitions_issues core hv islandContexts cpp acpp a
      (positionDoFriction core (islandContexts a) b) anyArti)).bind
    (Issues.after hmid ((solveStaticConstraints_issues core hv (islandContexts a) a
      (positionDoFriction core (islandContexts a) b)).bind
        (propagateBodyVelocity_issues core hv (islandContexts a))))
  intro st
  obtain ⟨st1, e, i⟩ := h st
  refine ⟨st1, e, ?_⟩
  rw [i]
  simp [positionIterationOps]

theorem velocityIteration_issues (core : SolverCore) (hv : SolveBlockDimsValid core.blockDim)
    (islandContexts : Nat → PxgIslandContext) (cpp acpp : Nat → Int) (a : Nat)
    (anyArti isTgs doFriction : Bool) (b : Nat) :
    Issues (solveContactMultiBlockParallel_velocityIteration core islandContexts cpp acpp a
        anyArti isTgs doFriction b)
      (velocityIterationOps core islandContexts cpp acpp a anyArti isTgs doFriction b) := by
  have hpre : ∀ st : SolverState,
      (if core.residualReportingEnabled then zeroErrorAccumulators core st else st).issued =
        st.issued ++ (if core.residualReportingEnabled then zeroErrorAccumulatorsOps core
          else []) := by
    intro st; split_ifs <;> simp
  have hmid : ∀ st : SolverState,
      (solveContactMultiBlockParallel_velocityExtendedBodies core
        (issue (Op.propagateRigidBodyImpulsesAndSolveInternalConstraints true
          doFriction isTgs core.residualReportingEnabled) st)).issued = st.issued ++
        ([Op.propagateRigidBodyImpulsesAndSolveInternalConstraints true
          doFriction isTgs core.residualReportingEnabled] ++
          velocityExtendedBodiesOps core) := by
    intro st; rw [velocityExtendedBodies_issued]; simp
  have hlast : Issues (fun st =>
      if (islandContexts a).mNumVelocityIterations - (b : Int) ≠ 1 then
        propagateBodyVelocity core (islandContexts a) st else some st)
      (if (islandContexts a).mNumVelocityIterations - (b : Int) ≠ 1 then
        propagateBodyVelocityOps core (islandContexts a) else []) := by
    split_ifs
    · exact propagateBodyVelocity_issues core hv (islandContexts a)
    · exact Issues.nil
  have h := (Issues.after hpre (solvePartitions_issues core hv islandContexts cpp acpp a
      doFriction anyArti)).bind
    (Issues.after hmid ((solveStaticConstraints_issues core hv (islandContexts a) a
      doFriction).bind hlast))
  intro st
  obtain ⟨st1, e, i⟩ := h st
  refine ⟨st1, e, ?_⟩
  rw [i]
  simp [velocityIterationOps]

theorem concludeAndWriteBack_issues (core : SolverCore)
    (hv : SolveBlockDimsValid core.blockDim) (context : PxgIslandContext) (a : Nat) :
    Issues (solveContactMultiBlockParallel_concludeAndWriteBack core context a)
      (concludeAndWriteBackOps core context a) := by
  intro st
  obtain ⟨-, -, ⟨h3, h3'⟩, -, ⟨h5, h5'⟩, -⟩ := hv
  unfold solveContactMultiBlockParallel_concludeAndWriteBack
  dsimp only
  rw [u32div_bind (u32_pos h3 h3'), u32div_bind (u32_pos h5 h5')]
  simp only [concludeAndWriteBackOps, totalBatchCount, Option.pure_def]
  refine ⟨_, rfl, ?_⟩
  split_ifs <;> simp

theorem residualReport_issues (core : SolverCore)
    (hv : SolveBlockDimsValid core.blockDim) (context : PxgIslandContext) (a n : Nat) :
    Issues (solveContactMultiBlockParallel_residualReport core context a n)
      (residualReportOps core context a n) := by
  intro st
  obtain ⟨st1, h1, h2⟩ := writeBackBlock_issues core hv a context st
  unfold solveContactMultiBlockParallel_residualReport
  simp only [h1, Option.pure_def, Option.bind_eq_bind, Option.some_bind]
  simp only [residualReportOps]
  split_ifs <;> simp [h2]

theorem finalWriteBack_issues (core : SolverCore)
    (hv : SolveBlockDimsValid core.blockDim) (context : PxgIslandContext) (a : Nat) :
    Issues (solveContactMultiBlockParallel_finalWriteBack core context a)
      (finalWriteBackOps core context a) := by
  intro st
  obtain ⟨st1, h1, h2⟩ := writeBackBlock_issues core hv a context st
  unfold solveContactMultiBlockParallel_finalWriteBack
  simp only [h1, Option.pure_def, Option.bind_eq_bind, Option.some_bind]
  simp only [finalWriteBackOps]
  split_ifs <;> simp [h2]

theorem island_issues (core : SolverCore) (hv : SolveBlockDimsValid core.blockDim)
    (islandContexts : Nat → PxgIslandContext) (cpp acpp : Nat → Int) (n a : Nat) :
    Issues (solveContactMultiBlockParallel_island core islandContexts cpp acpp n a)
      (islandOps core islandContexts cpp acpp n a) := by
  have hres : Issues (fun st =>
      if core.residualReportingEnabled then
        solveContactMultiBlockParallel_residualReport core (islandContexts a) a n st
      else some st)
      (if core.residualReportingEnabled then residualReportOps core (islandContexts a) a n
        else []) := by
    split_ifs
    · exact residualReport_issues core hv (islandContexts a) a n
    · exact Issues.nil
  have h := (Issues.forLoop (fun b => positionIteration_issues core hv islandContexts cpp acpp a
      (anyArticulationConstraints (islandContexts a)) false b)
      (islandContexts a).mNumPositionIterations.toNat).bind
    ((concludeAndWriteBack_issues core hv (islandContexts a) a).bind
      (hres.bind
        ((Issues.forLoop (fun b => velocityIteration_issues core hv islandContexts cpp acpp a
          (anyArticulationConstraints (islandContexts a)) false true b)
          (islandContexts a).mNumVelocityIterations.toNat).bind
          (finalWriteBack_issues core hv (islandContexts a) a))))
  intro st
  obtain ⟨st1, e, i⟩ := h st
  refine ⟨st1, ?_, ?_⟩
  · unfold solveContactMultiBlockParallel_island
    dsimp only
    exact e
  · rw [i]
    simp [islandOps]

theorem solveContactMultiBlockParallel_issues (core : SolverCore)
    (hv : SolveBlockDimsValid core.blockDim)
    (islandContexts : Nat → PxgIslandContext) (numIslands : Nat) (cpp acpp : Nat → Int)
    (n : Nat) :
    Issues (solveContactMultiBlockParallel core islandContexts numIslands cpp acpp n)
      (solveContactMultiBlockParallelOps core islandContexts numIslands cpp acpp n) :=
  @Issues.after (zeroErrorAccumulators core) _ _ _ (zeroErrorAccumulators_issued core)
    (Issues.forLoop (fun a => island_issues core hv islandContexts cpp acpp n a) numIslands)

/-! ## Properties of the closed-form traces -/

theorem partitionOps_frictionFlag (core : SolverCore) (cpp acpp : Nat → Int) (a : Nat)
    (d anyArti : Bool) (c : Nat) (op : Op) (h : op ∈ partitionOps core cpp acpp a d anyArti c)
    (f : Bool) (hf : frictionFlag op = some f) : f = d := by
  unfold partitionOps at h
  simp only [List.mem_append] at h
  rcases h with ((h | h) | h) | h <;> split_ifs at h <;>
    simp only [List.mem_singleton, List.not_mem_nil] at h <;> subst h <;>
    simp_all [frictionFlag]

theorem solvePartitionsOps_frictionFlag (core : SolverCore)
    (islandContexts : Nat → PxgIslandContext) (cpp acpp : Nat → Int) (a : Nat)
    (d anyArti : Bool) (op : Op)
    (h : op ∈ solvePartitionsOps core islandContexts cpp acpp a d anyArti)
    (f : Bool) (hf : frictionFlag op = some f) : f = d := by
  unfold solvePartitionsOps at h
  rw [List.mem_append, List.mem_flatMap] at h
  rcases h with ⟨c, -, h⟩ | h
  · exact partitionOps_frictionFlag core cpp acpp a d anyArti c op h f hf
  · unfold averageVelocityOps at h
    split_ifs at h <;> simp only [List.mem_singleton, List.not_mem_nil] at h
    subst h
    simp [frictionFlag] at hf

theorem staticConstraintsOps_frictionFlag (core : SolverCore) (context : PxgIslandContext)
    (a : Nat) (d : Bool) (op : Op) (h : op ∈ staticConstraintsOps core context a d)
    (f : Bool) (hf : frictionFlag op = some f) : f = d := by
  unfold staticConstraintsOps at h
  split_ifs at h
  · simp only [List.mem_cons, List.mem_singleton, List.not_mem_nil, or_false] at h
    rcases h with h | h <;> subst h <;> simp_all [frictionFlag]
  · simp at h

theorem frictionFlag_none_of_mem_zero (core : SolverCore) (op : Op)
    (h : op ∈ zeroErrorAccumulatorsOps core) : frictionFlag op = none := by
  unfold zeroErrorAccumulatorsOps at h
  simp only [List.mem_cons, List.mem_singleton, List.not_mem_nil, or_false] at h
  rcases h with h | h <;> subst h <;> rfl

theorem frictionFlag_none_of_mem_propagateBodyVelocity (core : SolverCore)
    (context : PxgIslandContext) (op : Op) (h : op ∈ propagateBodyVelocityOps core context) :
    frictionFlag op = none := by
  unfold propagateBodyVelocityOps at h
  split_ifs at h <;> simp only [List.mem_singleton, List.not_mem_nil] at h
  subst h; rfl

theorem frictionFlag_none_of_mem_positionExtended (core : SolverCore)
    (context : PxgIslandContext) (b : Nat) (op : Op)
    (h : op ∈ positionExtendedBodiesOps core context b) : frictionFlag op = none := by
  unfold positionExtendedBodiesOps at h
  simp only [List.mem_append, List.mem_map] at h
  rcases h with (((h | ⟨i, -, h⟩) | h) | h) | ⟨i, -, h⟩
  · split_ifs at h <;> simp only [List.mem_singleton, List.not_mem_nil] at h
    subst h; rfl
  · subst h; rfl
  · split_ifs at h <;> simp only [List.mem_singleton, List.not_mem_nil] at h
    subst h; rfl
  · split_ifs at h <;> simp only [List.mem_singleton, List.not_mem_nil] at h
    subst h; rfl
  · subst h; rfl

theorem frictionFlag_none_of_mem_velocityExtended (core : SolverCore) (op : Op)
    (h : op ∈ velocityExtendedBodiesOps core) : frictionFlag op = none := by
  unfold velocityExtendedBodiesOps at h
  simp only [List.mem_append, List.mem_map] at h
  rcases h with ((h | ⟨i, -, h⟩) | h) | ⟨i, -, h⟩
  · split_ifs at h <;> simp only [List.mem_singleton, List.not_mem_nil] at h
    subst h; rfl
  · subst h; rfl
  · split_ifs at h <;> simp only [List.mem_singleton, List.not_mem_nil] at h
    subst h; rfl
  · subst h; rfl

theorem positionIterationOps_frictionFlag (core : SolverCore)
    (islandContexts : Nat → PxgIslandContext) (cpp acpp : Nat → Int) (a : Nat)
    (anyArti isTgs : Bool) (b : Nat) (op : Op)
    (h : op ∈ positionIterationOps core islandContexts cpp acpp a anyArti isTgs b)
    (f : Bool) (hf : frictionFlag op = some f) :
    f = positionDoFriction core (islandContexts a) b := by
  unfold positionIterationOps at h
  simp only [List.mem_append] at h
  rcases h with ((((h | h) | h) | h) | h) | h
  · split_ifs at h
    · rw [frictionFlag_none_of_mem_zero core op h] at hf; cases hf
    · simp at h
  · exact solvePartitionsOps_frictionFlag core islandContexts cpp acpp a _ anyArti op h f hf
  · simp only [List.mem_singleton] at h
    subst h
    simpa [frictionFlag] using hf.symm
  · rw [frictionFlag_none_of_mem_positionExtended core _ b op h] at hf; cases hf
  · exact staticConstraintsOps_frictionFlag core _ a _ op h f hf
  · rw [frictionFlag_none_of_mem_propagateBodyVelocity core _ op h] at hf; cases hf

theorem velocityIterationOps_frictionFlag (core : SolverCore)
    (islandContexts : Nat → PxgIslandContext) (cpp acpp : Nat → Int) (a : Nat)
    (anyArti isTgs d : Bool) (b : Nat) (op : Op)
    (h : op ∈ velocityIterationOps core islandContexts cpp acpp a anyArti isTgs d b)
    (f : Bool) (hf : frictionFlag op = some f) : f = d := by
  unfold velocityIterationOps at h
  simp only [List.mem_append] at h
  rcases h with ((((h | h) | h) | h) | h) | h
  · split_ifs at h
    · rw [frictionFlag_none_of_mem_zero core op h] at hf; cases hf
    · simp at h
  · exact solvePartitionsOps_frictionFlag core islandContexts cpp acpp a _ anyArti op h f hf
  · simp only [List.mem_singleton] at h
    subst h
    simpa [frictionFlag] using hf.symm
  · rw [frictionFlag_none_of_mem_velocityExtended core op h] at hf; cases hf
  · exact staticConstraintsOps_frictionFlag core _ a _ op h f hf
  · split_ifs at h
    · rw [frictionFlag_none_of_mem_propagateBodyVelocity core _ op h] at hf; cases hf
    · simp at h

theorem flatMap_ite_singleton (p : Nat → Prop) [DecidablePred p] (l : List Nat) :
    l.flatMap (fun c => if p c then [c] else []) = l.filter (fun c => decide (p c)) := by
  induction l with
  | nil => rfl
  | cons x xs ih =>
    rw [List.flatMap_cons, ih, List.filter_cons]
    by_cases h : p x <;> simp [h]

theorem pairwise_flatMap_range {g : Nat → List Nat} {k : Nat}
    (hs : ∀ c, (g c).Pairwise (· < ·)) (hb : ∀ c, ∀ x ∈ g c, k * c ≤ x ∧ x < k * c + k)
    (n : Nat) : ((List.range n).flatMap g).Pairwise (· < ·) := by
  rw [List.pairwise_flatMap]
  refine ⟨fun c _ => hs c, (List.pairwise_lt_range n).imp ?_⟩
  intro c1 c2 hc x hx y hy
  have h1 := (hb c1 x hx).2
  have h2 := (hb c2 y hy).1
  have h3 : k * c1 + k ≤ k * c2 := by
    calc k * c1 + k = k * (c1 + 1) := by ring
      _ ≤ k * c2 := Nat.mul_le_mul_left k hc
  omega

theorem pairwise_le_flatMap_range {g : Nat → List Nat}
    (hb : ∀ c, ∀ x ∈ g c, x = c) (n : Nat) :
    ((List.range n).flatMap g).Pairwise (· ≤ ·) := by
  rw [List.pairwise_flatMap]
  refine ⟨fun c _ => ?_, (List.pairwise_lt_range n).imp ?_⟩
  · rw [List.pairwise_iff_forall_sublist]
    intro x y hxy
    have hx := hb c x (hxy.subset (by simp))
    have hy := hb c y (hxy.subset (by simp))
    omega
  · intro c1 c2 hc x hx y hy
    have h1 := hb c1 x hx
    have h2 := hb c2 y hy
    omega

theorem partitionOps_partitionIndex (core : SolverCore) (cpp acpp : Nat → Int) (a : Nat)
    (d anyArti : Bool) (c : Nat) :
    ∀ x ∈ (partitionOps core cpp acpp a d anyArti c).filterMap partitionIndex, x = c := by
  unfold partitionOps
  simp only [List.filterMap_append]
  split_ifs <;> simp [partitionIndex]

theorem partitionOps_rigidPartition (core : SolverCore) (cpp acpp : Nat → Int) (a : Nat)
    (d anyArti : Bool) (c : Nat) :
    (partitionOps core cpp acpp a d anyArti c).filterMap rigidPartition =
      if 0 < nbBlocks core cpp c then [c] else [] := by
  unfold partitionOps
  simp only [List.filterMap_append]
  split_ifs <;> simp_all [rigidPartition]

theorem partitionOps_artiPartition (core : SolverCore) (cpp acpp : Nat → Int) (a : Nat)
    (d anyArti : Bool) (c : Nat) :
    (partitionOps core cpp acpp a d anyArti c).filterMap artiPartition =
      if 0 < nbArtiBlocks core acpp c then [c] else [] := by
  unfold partitionOps
  simp only [List.filterMap_append]
  split_ifs <;> simp_all [artiPartition]

theorem partitionOps_sweepRank_sorted (core : SolverCore) (cpp acpp : Nat → Int) (a : Nat)
    (d anyArti : Bool) (c : Nat) :
    ((partitionOps core cpp acpp a d anyArti c).filterMap sweepRank).Pairwise (· < ·) := by
  unfold partitionOps
  simp only [List.filterMap_append]
  split_ifs <;> simp_all [sweepRank]

theorem partitionOps_sweepRank_bound (core : SolverCore) (cpp acpp : Nat → Int) (a : Nat)
    (d anyArti : Bool) (c : Nat) :
    ∀ x ∈ (partitionOps core cpp acpp a d anyArti c).filterMap sweepRank,
      4 * c ≤ x ∧ x < 4 * c + 4 := by
  unfold partitionOps
  simp only [List.filterMap_append]
  split_ifs <;> simp_all [sweepRank]

theorem partitionOps_stream (core : SolverCore) (cpp acpp : Nat → Int) (a : Nat)
    (d anyArti : Bool) (c : Nat) :
    ∀ op ∈ partitionOps core cpp acpp a d anyArti c, ∀ s, streamOf op = some s →
      s = Stream.mStream := by
  unfold partitionOps
  intro op h
  simp only [List.mem_append] at h
  rcases h with ((h | h) | h) | h <;> split_ifs at h <;>
    simp only [List.mem_singleton, List.not_mem_nil] at h <;> subst h <;>
    simp [streamOf]

theorem averageVelocityOps_observations (core : SolverCore) (context : PxgIslandContext) :
    (averageVelocityOps core context).filterMap partitionIndex = [] ∧
    (averageVelocityOps core context).filterMap rigidPartition = [] ∧
    (averageVelocityOps core context).filterMap artiPartition = [] ∧
    (averageVelocityOps core context).filterMap sweepRank = [] ∧
    (averageVelocityOps core context).filter isPrecomputeReferenceCount = [] ∧
    (∀ op ∈ averageVelocityOps core context, ∀ s, streamOf op = some s → s = Stream.mStream) := by
  unfold averageVelocityOps
  split_ifs <;>
    simp [partitionIndex, rigidPartition, artiPartition, sweepRank, isPrecomputeReferenceCount,
      streamOf]

theorem solvePartitionsOps_sweepRank_sorted (core : SolverCore)
    (islandContexts : Nat → PxgIslandContext) (cpp acpp : Nat → Int) (a : Nat)
    (d anyArti : Bool) :
    ((solvePartitionsOps core islandContexts cpp acpp a d anyArti).filterMap
      sweepRank).Pairwise (· < ·) := by
  unfold solvePartitionsOps
  rw [List.filterMap_append, List.filterMap_flatMap,
    (averageVelocityOps_observations core (islandContexts a)).2.2.2.1, List.append_nil]
  exact pairwise_flatMap_range
    (fun c => partitionOps_sweepRank_sorted core cpp acpp a d anyArti c)
    (fun c => partitionOps_sweepRank_bound core cpp acpp a d anyArti c) _

theorem sweepRank_of_rigidPartition {op : Op} {c : Nat} (h : rigidPartition op = some c) :
    sweepRank op = some (4 * c + 2) := by
  unfold rigidPartition at h
  split at h
  · cases h; rfl
  · cases h

theorem sweepRank_of_artiPartition {op : Op} {c : Nat} (h : artiPartition op = some c) :
    sweepRank op = some (4 * c + 3) := by
  unfold artiPartition at h
  split at h
  · cases h; rfl
  · cases h

theorem sweepRank_of_averageDeltaVPartition {op : Op} {c : Nat}
    (h : averageDeltaVPartition op = some c) : sweepRank op = some (4 * c) := by
  unfold averageDeltaVPartition at h
  split at h
  · cases h; rfl
  · cases h

theorem partitionOps_averageDeltaVPartition (core : SolverCore) (cpp acpp : Nat → Int) (a : Nat)
    (d anyArti : Bool) (c : Nat) :
    (partitionOps core cpp acpp a d anyArti c).filterMap averageDeltaVPartition =
      if 0 < nbArtiBlocks core acpp c ∨ (c = 0 ∧ anyArti = true) then [c] else [] := by
  unfold partitionOps
  simp only [List.filterMap_append]
  split_ifs <;> simp_all [averageDeltaVPartition]

theorem solvePartitionsOps_averageDeltaVPartition (core : SolverCore)
    (islandContexts : Nat → PxgIslandContext) (cpp acpp : Nat → Int) (a : Nat)
    (d anyArti : Bool) :
    (solvePartitionsOps core islandContexts cpp acpp a d anyArti).filterMap
      averageDeltaVPartition =
      (List.range (islandContexts a).mNumPartitions).filter
        (fun c => decide (0 < nbArtiBlocks core acpp c ∨ (c = 0 ∧ anyArti = true))) := by
  have e : (averageVelocityOps core (islandContexts a)).filterMap averageDeltaVPartition = [] := by
    unfold averageVelocityOps
    split_ifs <;> simp [averageDeltaVPartition]
  unfold solvePartitionsOps
  rw [List.filterMap_append, List.filterMap_flatMap, e, List.append_nil,
    ← flatMap_ite_singleton]
  congr 1
  funext c
  exact partitionOps_averageDeltaVPartition core cpp acpp a d anyArti c

theorem nbArtiBlocks_pos_iff (core : SolverCore) (hv : SolveBlockDimsValid core.blockDim)
    (acpp : Nat → Int) (n c : Nat) (hw : CumulativeEndIndices acpp n) (hc : c < n) :
    0 < nbArtiBlocks core acpp c ↔ 0 < batchesInPartition acpp c := by
  obtain ⟨-, -, -, -, -, h6, h6'⟩ := hv
  obtain ⟨hr, hm⟩ := hw
  have hw1 : 0 < numWarpsPerBlock core := by
    unfold numWarpsPerBlock WARP_SIZE u32; omega
  have hw2 : numWarpsPerBlock core < 134217728 := by
    unfold numWarpsPerBlock WARP_SIZE u32; omega
  unfold nbArtiBlocks
  rw [Nat.div_pos_iff hw1.ne']
  unfold partitionBatchCount partitionStart batchesInPartition u32sub u32add i32ToU32
  have hcur := hr c hc
  by_cases h0 : c = 0
  · subst h0
    simp only [if_true]
    omega
  · simp only [if_neg h0]
    have hprev := hr (c - 1) (by omega)
    have hmono := hm (c - 1) (by omega) (by omega)
    rw [Nat.sub_add_cancel (by omega)] at hmono
    omega

theorem plainFor_zero (core : SolverCore) (a : Nat) :
    ∀ op ∈ zeroErrorAccumulatorsOps core, PlainFor a op := by
  unfold zeroErrorAccumulatorsOps
  intro op h
  simp only [List.mem_cons, List.mem_singleton, List.not_mem_nil, or_false] at h
  rcases h with h | h <;> subst h <;>
    simp [PlainFor, velocityIterationFlag, isPrecomputeReferenceCount, isLaunchOf, islandOf]

theorem plainFor_static (core : SolverCore) (context : PxgIslandContext) (a : Nat) (d : Bool) :
    ∀ op ∈ staticConstraintsOps core context a d, PlainFor a op := by
  unfold staticConstraintsOps
  intro op h
  split_ifs at h
  · simp only [List.mem_cons, List.mem_singleton, List.not_mem_nil, or_false] at h
    rcases h with h | h <;> subst h <;>
      simp [PlainFor, velocityIterationFlag, isPrecomputeReferenceCount, isLaunchOf, islandOf]
  · simp at h

theorem plainFor_positionExtended (core : SolverCore) (context : PxgIslandContext) (a b : Nat) :
    ∀ op ∈ positionExtendedBodiesOps core context b, PlainFor a op := by
  unfold positionExtendedBodiesOps
  intro op h
  simp only [List.mem_append, List.mem_map] at h
  rcases h with (((h | ⟨i, -, h⟩) | h) | h) | ⟨i, -, h⟩
  · split_ifs at h <;> simp only [List.mem_singleton, List.not_mem_nil] at h
    subst h
    simp [PlainFor, velocityIterationFlag, isPrecomputeReferenceCount, isLaunchOf, islandOf]
  · subst h
    simp [PlainFor, velocityIterationFlag, isPrecomputeReferenceCount, isLaunchOf, islandOf]
  · split_ifs at h <;> simp only [List.mem_singleton, List.not_mem_nil] at h
    subst h
    simp [PlainFor, velocityIterationFlag, isPrecomputeReferenceCount, isLaunchOf, islandOf]
  · split_ifs at h <;> simp only [List.mem_singleton, List.not_mem_nil] at h
    subst h
    simp [PlainFor, velocityIterationFlag, isPrecomputeReferenceCount, isLaunchOf, islandOf]
  · subst h
    simp [PlainFor, velocityIterationFlag, isPrecomputeReferenceCount, isLaunchOf, islandOf]

theorem plainFor_velocityExtended (core : SolverCore) (a : Nat) :
    ∀ op ∈ velocityExtendedBodiesOps core, PlainFor a op := by
  unfold velocityExtendedBodiesOps
  intro op h
  simp only [List.mem_append, List.mem_map] at h
  rcases h with ((h | ⟨i, -, h⟩) | h) | ⟨i, -, h⟩
  · split_ifs at h <;> simp only [List.mem_singleton, List.not_mem_nil] at h
    subst h
    simp [PlainFor, velocityIterationFlag, isPrecomputeReferenceCount, isLaunchOf, islandOf]
  · subst h
    simp [PlainFor, velocityIterationFlag, isPrecomputeReferenceCount, isLaunchOf, islandOf]
  · split_ifs at h <;> simp only [List.mem_singleton, List.not_mem_nil] at h
    subst h
    simp [PlainFor, velocityIterationFlag, isPrecomputeReferenceCount, isLaunchOf, islandOf]
  · subst h
    simp [PlainFor, velocityIterationFlag, isPrecomputeReferenceCount, isLaunchOf, islandOf]

theorem plainFor_writeBackBlock (core : SolverCore) (context : PxgIslandContext) (a : Nat) :
    ∀ op ∈ writeBackBlockOps core a context, PlainFor a op := by
  unfold writeBackBlockOps
  intro op h
  split_ifs at h <;> simp only [List.mem_singleton, List.not_mem_nil] at h
  subst h
  simp [PlainFor, velocityIterationFlag, isPrecomputeReferenceCount, isLaunchOf, islandOf]

theorem plainFor_conclude (core : SolverCore) (context : PxgIslandContext) (a : Nat) :
    ∀ op ∈ concludeAndWriteBackOps core context a, PlainFor a op := by
  unfold concludeAndWriteBackOps
  intro op h
  simp only [List.mem_append] at h
  rcases h with (h | h) | h
  · split_ifs at h <;> simp only [List.mem_singleton, List.not_mem_nil] at h
    subst h
    simp [PlainFor, velocityIterationFlag, isPrecomputeReferenceCount, isLaunchOf, islandOf]
  · split_ifs at h <;> simp only [List.mem_singleton, List.not_mem_nil] at h
    subst h
    simp [PlainFor, velocityIterationFlag, isPrecomputeReferenceCount, isLaunchOf, islandOf]
  · simp only [List.mem_singleton] at h
    subst h
    simp [PlainFor, velocityIterationFlag, isPrecomputeReferenceCount, isLaunchOf, islandOf]

theorem plainFor_residual (core : SolverCore) (context : PxgIslandContext) (a n : Nat) :
    ∀ op ∈ residualReportOps core context a n, PlainFor a op := by
  unfold residualReportOps
  intro op h
  simp only [List.mem_append] at h
  rcases h with ((h | h) | h) | h
  · exact plainFor_writeBackBlock core context a op h
  · split_ifs at h <;> simp only [List.mem_singleton, List.not_mem_nil] at h
    subst h
    simp [PlainFor, velocityIterationFlag, isPrecomputeReferenceCount, isLaunchOf, islandOf]
  · split_ifs at h <;> simp only [List.mem_singleton, List.not_mem_nil] at h
    subst h
    simp [PlainFor, velocityIterationFlag, isPrecomputeReferenceCount, isLaunchOf, islandOf]
  · simp only [List.mem_cons, List.mem_singleton, List.not_mem_nil, or_false] at h
    rcases h with h | h <;> subst h <;>
      simp [PlainFor, velocityIterationFlag, isPrecomputeReferenceCount, isLaunchOf, islandOf]

theorem plainFor_finalWriteBack (core : SolverCore) (context : PxgIslandContext) (a : Nat) :
    ∀ op ∈ finalWriteBackOps core context a, PlainFor a op := by
  unfold finalWriteBackOps
  intro op h
  simp only [List.mem_append] at h
  rcases h with (h | h) | h
  · exact plainFor_writeBackBlock core context a op h
  · split_ifs at h
    · simp only [List.mem_cons, List.mem_singleton, List.not_mem_nil, or_false] at h
      rcases h with h | h <;> subst h <;>
        simp [PlainFor, velocityIterationFlag, isPrecomputeReferenceCount, isLaunchOf, islandOf]
    · simp at h
  · split_ifs at h
    · simp only [List.mem_cons, List.mem_singleton, List.not_mem_nil, or_false] at h
      rcases h with h | h <;> subst h <;>
        simp [PlainFor, velocityIterationFlag, isPrecomputeReferenceCount, isLaunchOf, islandOf]
    · simp at h

theorem plain_filters {a : Nat} {l : List Op} (h : ∀ op ∈ l, PlainFor a op) :
    l.filterMap velocityIterationFlag = [] ∧ l.filter isPrecomputeReferenceCount = [] ∧
    l.filter (isLaunchOf KernelId.PROPAGATE_BODY_VELOCITY) = [] ∧
    l.filter (isLaunchOf KernelId.COMPUTE_AVERAGE_VELOCITY) = [] ∧
    ∀ op ∈ l, ∀ i, islandOf op = some i → i = a := by
  refine ⟨?_, ?_, ?_, ?_, fun op hop => (h op hop).2.2.2.2⟩
  · rw [List.filterMap_eq_nil_iff]
    exact fun op hop => (h op hop).1
  · rw [List.filter_eq_nil_iff]
    intro op hop
    rw [(h op hop).2.1]
    exact Bool.false_ne_true
  · rw [List.filter_eq_nil_iff]
    intro op hop
    rw [(h op hop).2.2.1]
    exact Bool.false_ne_true
  · rw [List.filter_eq_nil_iff]
    intro op hop
    rw [(h op hop).2.2.2.1]
    exact Bool.false_ne_true

theorem partitionOps_obs (core : SolverCore) (cpp acpp : Nat → Int) (a : Nat)
    (d anyArti : Bool) (c : Nat) :
    (partitionOps core cpp acpp a d anyArti c).filterMap velocityIterationFlag = [] ∧
    (partitionOps core cpp acpp a d anyArti c).filter isPrecomputeReferenceCount =
      (if c = 0 then [Op.precomputeReferenceCount a false] else []) ∧
    (partitionOps core cpp acpp a d anyArti c).filter
      (isLaunchOf KernelId.PROPAGATE_BODY_VELOCITY) = [] ∧
    (partitionOps core cpp acpp a d anyArti c).filter
      (isLaunchOf KernelId.COMPUTE_AVERAGE_VELOCITY) = [] ∧
    ∀ op ∈ partitionOps core cpp acpp a d anyArti c, ∀ i, islandOf op = some i → i = a := by
  unfold partitionOps
  refine ⟨?_, ?_, ?_, ?_, ?_⟩
  · simp only [List.filterMap_append]
    split_ifs <;> simp_all [velocityIterationFlag]
  · simp only [List.filter_append]
    split_ifs <;> simp_all [isPrecomputeReferenceCount]
  · simp only [List.filter_append]
    split_ifs <;> simp_all [isLaunchOf]
  · simp only [List.filter_append]
    split_ifs <;> simp_all [isLaunchOf]
  · intro op h
    simp only [List.mem_append] at h
    rcases h with ((h | h) | h) | h <;> split_ifs at h <;>
      simp only [List.mem_singleton, List.not_mem_nil] at h <;> subst h <;>
      simp [islandOf]

theorem averageVelocityOps_obs (core : SolverCore) (context : PxgIslandContext) (a : Nat) :
    (averageVelocityOps core context).filterMap velocityIterationFlag = [] ∧
    (averageVelocityOps core context).filter isPrecomputeReferenceCount = [] ∧
    (averageVelocityOps core context).filter
      (isLaunchOf KernelId.PROPAGATE_BODY_VELOCITY) = [] ∧
    (averageVelocityOps core context).filter
      (isLaunchOf KernelId.COMPUTE_AVERAGE_VELOCITY) = averageVelocityOps core context ∧
    ∀ op ∈ averageVelocityOps core context, ∀ i, islandOf op = some i → i = a := by
  unfold averageVelocityOps
  split_ifs <;>
    simp [velocityIterationFlag, isPrecomputeReferenceCount, isLaunchOf, islandOf]

theorem propagateBodyVelocityOps_obs (core : SolverCore) (context : PxgIslandContext) (a : Nat) :
    (propagateBodyVelocityOps core context).filterMap velocityIterationFlag = [] ∧
    (propagateBodyVelocityOps core context).filter isPrecomputeReferenceCount = [] ∧
    (propagateBodyVelocityOps core context).filter
      (isLaunchOf KernelId.PROPAGATE_BODY_VELOCITY) = propagateBodyVelocityOps core context ∧
    (propagateBodyVelocityOps core context).filter
      (isLaunchOf KernelId.COMPUTE_AVERAGE_VELOCITY) = [] ∧
    ∀ op ∈ propagateBodyVelocityOps core context, ∀ i, islandOf op = some i → i = a := by
  unfold propagateBodyVelocityOps
  split_ifs <;>
    simp [velocityIterationFlag, isPrecomputeReferenceCount, isLaunchOf, islandOf]

theorem flatMap_ite_zero {α : Type} (x : List α) (n : Nat) :
    (List.range n).flatMap (fun c => if c = 0 then x else []) = if 0 < n then x else [] := by
  cases n with
  | zero => rfl
  | succ n =>
    rw [List.range_succ_eq_map, List.flatMap_cons, List.flatMap_map]
    have e : ((List.range n).flatMap fun c => if Nat.succ c = 0 then x else []) = [] :=
      List.flatMap_eq_nil_iff.mpr (fun c _ => if_neg (Nat.succ_ne_zero c))
    rw [e, if_pos rfl, if_pos (Nat.succ_pos n), List.append_nil]

theorem solvePartitionsOps_obs (core : SolverCore) (islandContexts : Nat → PxgIslandContext)
    (cpp acpp : Nat → Int) (a : Nat) (d anyArti : Bool) :
    (solvePartitionsOps core islandContexts cpp acpp a d anyArti).filterMap
      velocityIterationFlag = [] ∧
    (solvePartitionsOps core islandContexts cpp acpp a d anyArti).filter
      isPrecomputeReferenceCount =
      (if 0 < (islandContexts a).mNumPartitions then [Op.precomputeReferenceCount a false]
        else []) ∧
    (solvePartitionsOps core islandContexts cpp acpp a d anyArti).filter
      (isLaunchOf KernelId.PROPAGATE_BODY_VELOCITY) = [] ∧
    (solvePartitionsOps core islandContexts cpp acpp a d anyArti).filter
      (isLaunchOf KernelId.COMPUTE_AVERAGE_VELOCITY) = averageVelocityOps core (islandContexts a) ∧
    ∀ op ∈ solvePartitionsOps core islandContexts cpp acpp a d anyArti, ∀ i,
      islandOf op = some i → i = a := by
  obtain ⟨v1, v2, v3, v4, v5⟩ := averageVelocityOps_obs core (islandContexts a) a
  unfold solvePartitionsOps
  refine ⟨?_, ?_, ?_, ?_, ?_⟩
  · rw [List.filterMap_append, List.filterMap_flatMap, v1, List.append_nil,
      List.flatMap_eq_nil_iff]
    exact fun c _ => (partitionOps_obs core cpp acpp a d anyArti c).1
  · rw [List.filter_append, List.filter_flatMap, v2, List.append_nil, ← flatMap_ite_zero]
    congr 1
    funext c
    exact (partitionOps_obs core cpp acpp a d anyArti c).2.1
  · rw [List.filter_append, List.filter_flatMap, v3, List.append_nil, List.flatMap_eq_nil_iff]
    exact fun c _ => (partitionOps_obs core cpp acpp a d anyArti c).2.2.1
  · rw [List.filter_append, List.filter_flatMap, v4,
      List.flatMap_eq_nil_iff.mpr
        (fun c _ => (partitionOps_obs core cpp acpp a d anyArti c).2.2.2.1),
      List.nil_append]
  · intro op h
    rw [List.mem_append, List.mem_flatMap] at h
    rcases h with ⟨c, -, h⟩ | h
    · exact (partitionOps_obs core cpp acpp a d anyArti c).2.2.2.2 op h
    · exact v5 op h

theorem plainFor_optionalZero (core : SolverCore) (a : Nat) :
    ∀ op ∈ (if core.residualReportingEnabled then zeroErrorAccumulatorsOps core else []),
      PlainFor a op := by
  intro op h
  split_ifs at h
  · exact plainFor_zero core a op h
  · simp at h

theorem positionIterationOps_obs (core : SolverCore) (islandContexts : Nat → PxgIslandContext)
    (cpp acpp : Nat → Int) (a : Nat) (anyArti isTgs : Bool) (b : Nat) :
    (positionIterationOps core islandContexts cpp acpp a anyArti isTgs b).filterMap
      velocityIterationFlag = [false] ∧
    (positionIterationOps core islandContexts cpp acpp a anyArti isTgs b).filter
      isPrecomputeReferenceCount =
      (if 0 < (islandContexts a).mNumPartitions then [Op.precomputeReferenceCount a false]
        else []) ∧
    (positionIterationOps core islandContexts cpp acpp a anyArti isTgs b).filter
      (isLaunchOf KernelId.PROPAGATE_BODY_VELOCITY) =
      propagateBodyVelocityOps core (islandContexts a) ∧
    (positionIterationOps core islandContexts cpp acpp a anyArti isTgs b).filter
      (isLaunchOf KernelId.COMPUTE_AVERAGE_VELOCITY) = averageVelocityOps core (islandContexts a) ∧
    ∀ op ∈ positionIterationOps core islandContexts cpp acpp a anyArti isTgs b, ∀ i,
      islandOf op = some i → i = a := by
  obtain ⟨z1, z2, z3, z4, z5⟩ := plain_filters (plainFor_optionalZero core a)
  obtain ⟨s1, s2, s3, s4, s5⟩ := solvePartitionsOps_obs core islandContexts cpp acpp a
    (positionDoFriction core (islandContexts a) b) anyArti
  obtain ⟨e1, e2, e3, e4, e5⟩ :=
    plain_filters (plainFor_positionExtended core (islandContexts a) a b)
  obtain ⟨t1, t2, t3, t4, t5⟩ := plain_filters
    (plainFor_static core (islandContexts a) a (positionDoFriction core (islandContexts a) b))
  obtain ⟨p1, p2, p3, p4, p5⟩ := propagateBodyVelocityOps_obs core (islandContexts a) a
  unfold positionIterationOps
  refine ⟨?_, ?_, ?_, ?_, ?_⟩
  · rw [List.filterMap_append, List.filterMap_append, List.filterMap_append,
      List.filterMap_append, List.filterMap_append, z1, s1, e1, t1, p1]
    rfl
  · rw [List.filter_append, List.filter_append, List.filter_append, List.filter_append,
      List.filter_append, z2, s2, e2, t2, p2]
    simp [isPrecomputeReferenceCount]
  · rw [List.filter_append, List.filter_append, List.filter_append, List.filter_append,
      List.filter_append, z3, s3, e3, t3, p3]
    simp [isLaunchOf]
  · rw [List.filter_append, List.filter_append, List.filter_append, List.filter_append,
      List.filter_append, z4, s4, e4, t4, p4]
    simp [isLaunchOf]
  · intro op h
    simp only [List.mem_append, List.mem_singleton] at h
    rcases h with ((((h | h) | h) | h) | h) | h
    · exact z5 op h
    · exact s5 op h
    · subst h; intro i hi; cases hi
    · exact e5 op h
    · exact t5 op h
    · exact p5 op h

theorem velocityIterationOps_obs (core : SolverCore) (islandContexts : Nat → PxgIslandContext)
    (cpp acpp : Nat → Int) (a : Nat) (anyArti isTgs d : Bool) (b : Nat) :
    (velocityIterationOps core islandContexts cpp acpp a anyArti isTgs d b).filterMap
      velocityIterationFlag = [true] ∧
    (velocityIterationOps core islandContexts cpp acpp a anyArti isTgs d b).filter
      isPrecomputeReferenceCount =
      (if 0 < (islandContexts a).mNumPartitions then [Op.precomputeReferenceCount a false]
        else []) ∧
    (velocityIterationOps core islandContexts cpp acpp a anyArti isTgs d b).filter
      (isLaunchOf KernelId.PROPAGATE_BODY_VELOCITY) =
      (if (islandContexts a).mNumVelocityIterations - (b : Int) ≠ 1 then
        propagateBodyVelocityOps core (islandContexts a) else []) ∧
    (velocityIterationOps core islandContexts cpp acpp a anyArti isTgs d b).filter
      (isLaunchOf KernelId.COMPUTE_AVERAGE_VELOCITY) = averageVelocityOps core (islandContexts a) ∧
    ∀ op ∈ velocityIterationOps core islandContexts cpp acpp a anyArti isTgs d b, ∀ i,
      islandOf op = some i → i = a := by
  obtain ⟨z1, z2, z3, z4, z5⟩ := plain_filters (plainFor_optionalZero core a)
  obtain ⟨s1, s2, s3, s4, s5⟩ := solvePartitionsOps_obs core islandContexts cpp acpp a d anyArti
  obtain ⟨e1, e2, e3, e4, e5⟩ := plain_filters (plainFor_velocityExtended core a)
  obtain ⟨t1, t2, t3, t4, t5⟩ := plain_filters (plainFor_static core (islandContexts a) a d)
  obtain ⟨p1, p2, p3, p4, p5⟩ := propagateBodyVelocityOps_obs core (islandContexts a) a
  unfold velocityIterationOps
  refine ⟨?_, ?_, ?_, ?_, ?_⟩
  · rw [List.filterMap_append, List.filterMap_append, List.filterMap_append,
      List.filterMap_append, List.filterMap_append, z1, s1, e1, t1]
    split_ifs
    · rw [p1]; rfl
    · rfl
  · rw [List.filter_append, List.filter_append, List.filter_append, List.filter_append,
      List.filter_append, z2, s2, e2, t2]
    split_ifs <;> simp [isPrecomputeReferenceCount, p2]
  · rw [List.filter_append, List.filter_append, List.filter_append, List.filter_append,
      List.filter_append, z3, s3, e3, t3]
    split_ifs <;> simp [isLaunchOf, p3]
  · rw [List.filter_append, List.filter_append, List.filter_append, List.filter_append,
      List.filter_append, z4, s4, e4, t4]
    split_ifs <;> simp [isLaunchOf, p4]
  · intro op h
    simp only [List.mem_append, List.mem_singleton] at h
    rcases h with ((((h | h) | h) | h) | h) | h
    · exact z5 op h
    · exact s5 op h
    · subst h; intro i hi; cases hi
    · exact e5 op h
    · exact t5 op h
    · split_ifs at h
      · exact p5 op h
      · simp at h

theorem stepsWithin_of_forall {l : List Op} {k : Nat}
    (h : ∀ op ∈ l, iterationStep op = some k) : StepsWithin l k k := by
  have hx : ∀ x ∈ l.filterMap iterationStep, x = k := by
    intro x hx
    rw [List.mem_filterMap] at hx
    obtain ⟨op, hop, e⟩ := hx
    rw [h op hop] at e
    exact (Option.some.inj e).symm
  refine ⟨?_, fun x hx' => by rw [hx x hx']; exact ⟨le_refl k, le_refl k⟩⟩
  rw [List.pairwise_iff_forall_sublist]
  intro x y hxy
  rw [hx x (hxy.subset (by simp)), hx y (hxy.subset (by simp))]

theorem stepsWithin_of_none {l : List Op} (lo hi : Nat)
    (h : ∀ op ∈ l, iterationStep op = none) : StepsWithin l lo hi := by
  have e : l.filterMap iterationStep = [] := List.filterMap_eq_nil_iff.mpr h
  unfold StepsWithin
  rw [e]
  exact ⟨List.Pairwise.nil, fun x hx => by cases hx⟩

theorem StepsWithin.append {l1 l2 : List Op} {a b c d : Nat}
    (h1 : StepsWithin l1 a b) (h2 : StepsWithin l2 c d) (hab : a ≤ b) (hbc : b ≤ c)
    (hcd : c ≤ d) : StepsWithin (l1 ++ l2) a d := by
  unfold StepsWithin
  rw [List.filterMap_append]
  refine ⟨List.pairwise_append.mpr ⟨h1.1, h2.1, ?_⟩, ?_⟩
  · intro x hx y hy
    have := h1.2 x hx
    have := h2.2 y hy
    omega
  · intro x hx
    rw [List.mem_append] at hx
    rcases hx with hx | hx
    · have := h1.2 x hx; omega
    · have := h2.2 x hx; omega

theorem StepsWithin.mono {l : List Op} {a b c d : Nat} (h : StepsWithin l a b)
    (hca : c ≤ a) (hbd : b ≤ d) : StepsWithin l c d :=
  ⟨h.1, fun x hx => by have := h.2 x hx; omega⟩

theorem stepsWithin_optional {c : Prop} [Decidable c] {op : Op} {k : Nat}
    (h : iterationStep op = some k) : StepsWithin (if c then [op] else []) k k := by
  apply stepsWithin_of_forall
  intro x hx
  split_ifs at hx <;> simp only [List.mem_singleton, List.not_mem_nil] at hx
  subst hx
  exact h

theorem stepsWithin_partitionOps (core : SolverCore) (cpp acpp : Nat → Int) (a : Nat)
    (d anyArti : Bool) (c : Nat) :
    ∀ op ∈ partitionOps core cpp acpp a d anyArti c, iterationStep op = some 10 := by
  unfold partitionOps
  intro op h
  simp only [List.mem_append] at h
  rcases h with ((h | h) | h) | h <;> split_ifs at h <;>
    simp only [List.mem_singleton, List.not_mem_nil] at h <;> subst h <;> rfl

theorem stepsWithin_solvePartitionsOps (core : SolverCore)
    (islandContexts : Nat → PxgIslandContext) (cpp acpp : Nat → Int) (a : Nat)
    (d anyArti : Bool) :
    StepsWithin (solvePartitionsOps core islandContexts cpp acpp a d anyArti) 10 20 := by
  unfold solvePartitionsOps
  refine StepsWithin.append (b := 10) (c := 20) (stepsWithin_of_forall ?_) ?_ (by omega)
    (by omega) (by omega)
  · intro op h
    rw [List.mem_flatMap] at h
    obtain ⟨c, -, h⟩ := h
    exact stepsWithin_partitionOps core cpp acpp a d anyArti c op h
  · unfold averageVelocityOps
    exact stepsWithin_optional rfl

theorem stepsWithin_positionExtended (core : SolverCore) (context : PxgIslandContext)
    (b : Nat) : StepsWithin (positionExtendedBodiesOps core context b) 40 44 := by
  unfold positionExtendedBodiesOps
  refine StepsWithin.append (b := 43) (c := 44)
    (StepsWithin.append (b := 42) (c := 43)
      (StepsWithin.append (b := 41) (c := 42)
        (StepsWithin.append (b := 40) (c := 41) (stepsWithin_optional rfl)
          (stepsWithin_of_forall ?_) (by omega) (by omega) (by omega))
        (stepsWithin_optional rfl) (by omega) (by omega) (by omega))
      (stepsWithin_optional rfl) (by omega) (by omega) (by omega))
    (stepsWithin_of_forall ?_) (by omega) (by omega) (by omega)
  · intro op h
    rw [List.mem_map] at h
    obtain ⟨i, -, h⟩ := h
    subst h; rfl
  · intro op h
    rw [List.mem_map] at h
    obtain ⟨i, -, h⟩ := h
    subst h; rfl

theorem stepsWithin_static (core : SolverCore) (context : PxgIslandContext) (a : Nat)
    (d : Bool) : StepsWithin (staticConstraintsOps core context a d) 50 51 := by
  unfold staticConstraintsOps StepsWithin
  split_ifs <;> simp [iterationStep]

theorem stepsWithin_propagateBodyVelocity (core : SolverCore) (context : PxgIslandContext) :
    StepsWithin (propagateBodyVelocityOps core context) 60 60 := by
  unfold propagateBodyVelocityOps
  exact stepsWithin_optional rfl

theorem stepsWithin_positionIterationOps (core : SolverCore)
    (islandContexts : Nat → PxgIslandContext) (cpp acpp : Nat → Int) (a : Nat)
    (anyArti isTgs : Bool) (b : Nat) :
    StepsWithin (positionIterationOps core islandContexts cpp acpp a anyArti isTgs b) 10 60 := by
  unfold positionIterationOps
  have hz : StepsWithin (if core.residualReportingEnabled then zeroErrorAccumulatorsOps core
      else []) 10 10 := by
    apply stepsWithin_of_none
    intro op h
    split_ifs at h
    · unfold zeroErrorAccumulatorsOps at h
      simp only [List.mem_cons, List.mem_singleton, List.not_mem_nil, or_false] at h
      rcases h with h | h <;> subst h <;> rfl
    · simp at h
  have hp : StepsWithin [Op.propagateRigidBodyImpulsesAndSolveInternalConstraints false
      (positionDoFriction core (islandContexts a) b) isTgs core.residualReportingEnabled]
      30 30 := by
    apply stepsWithin_of_forall
    intro op h
    simp only [List.mem_singleton] at h
    subst h; rfl
  exact StepsWithin.append (b := 51) (c := 60)
    (StepsWithin.append (b := 44) (c := 50)
      (StepsWithin.append (b := 30) (c := 40)
        (StepsWithin.append (b := 20) (c := 30)
          (StepsWithin.append (b := 10) (c := 10) hz
            (stepsWithin_solvePartitionsOps core islandContexts cpp acpp a _ anyArti)
            (by omega) (by omega) (by omega))
          hp (by omega) (by omega) (by omega))
        (stepsWithin_positionExtended core (islandContexts a) b)
        (by omega) (by omega) (by omega))
      (stepsWithin_static core (islandContexts a) a _) (by omega) (by omega) (by omega))
    (stepsWithin_propagateBodyVelocity core (islandContexts a)) (by omega) (by omega) (by omega)

theorem filterMap_flatMap_range_singleton {β : Type} (f : Op → Option β) (ops : Nat → List Op)
    (v : β) (h : ∀ b, (ops b).filterMap f = [v]) (n : Nat) :
    ((List.range n).flatMap ops).filterMap f = List.replicate n v := by
  induction n with
  | zero => rfl
  | succ n ih =>
    rw [List.range_succ, List.flatMap_append, List.filterMap_append, ih, List.flatMap_singleton,
      h n, List.replicate_succ']

theorem filter_flatMap_range_const (p : Op → Bool) (ops : Nat → List Op) (l : List Op)
    (h : ∀ b, (ops b).filter p = l) (n : Nat) :
    (((List.range n).flatMap ops).filter p).length = n * l.length := by
  induction n with
  | zero => simp
  | succ n ih =>
    rw [List.range_succ, List.flatMap_append, List.filter_append, List.length_append, ih,
      List.flatMap_singleton, h n]
    ring

theorem positionLoopOps_obs (core : SolverCore) (islandContexts : Nat → PxgIslandContext)
    (cpp acpp : Nat → Int) (a : Nat) (anyArti isTgs : Bool) (n : Nat) :
    ((List.range n).flatMap
      (positionIterationOps core islandContexts cpp acpp a anyArti isTgs)).filterMap
      velocityIterationFlag = List.replicate n false ∧
    (((List.range n).flatMap
      (positionIterationOps core islandContexts cpp acpp a anyArti isTgs)).filter
      isPrecomputeReferenceCount).length =
      n * (if 0 < (islandContexts a).mNumPartitions then 1 else 0) ∧
    ∀ op ∈ (List.range n).flatMap
      (positionIterationOps core islandContexts cpp acpp a anyArti isTgs), ∀ i,
      islandOf op = some i → i = a := by
  refine ⟨?_, ?_, ?_⟩
  · exact filterMap_flatMap_range_singleton _ _ _
      (fun b => (positionIterationOps_obs core islandContexts cpp acpp a anyArti isTgs b).1) n
  · rw [filter_flatMap_range_const _ _ _
      (fun b => (positionIterationOps_obs core islandContexts cpp acpp a anyArti isTgs b).2.1) n]
    split_ifs <;> rfl
  · intro op h
    rw [List.mem_flatMap] at h
    obtain ⟨b, -, h⟩ := h
    exact (positionIterationOps_obs core islandContexts cpp acpp a anyArti isTgs b).2.2.2.2 op h

theorem velocityLoopOps_obs (core : SolverCore) (islandContexts : Nat → PxgIslandContext)
    (cpp acpp : Nat → Int) (a : Nat) (anyArti isTgs d : Bool) (n : Nat) :
    ((List.range n).flatMap
      (velocityIterationOps core islandContexts cpp acpp a anyArti isTgs d)).filterMap
      velocityIterationFlag = List.replicate n true ∧
    (((List.range n).flatMap
      (velocityIterationOps core islandContexts cpp acpp a anyArti isTgs d)).filter
      isPrecomputeReferenceCount).length =
      n * (if 0 < (islandContexts a).mNumPartitions then 1 else 0) ∧
    ∀ op ∈ (List.range n).flatMap
      (velocityIterationOps core islandContexts cpp acpp a anyArti isTgs d), ∀ i,
      islandOf op = some i → i = a := by
  refine ⟨?_, ?_, ?_⟩
  · exact filterMap_flatMap_range_singleton _ _ _
      (fun b => (velocityIterationOps_obs core islandContexts cpp acpp a anyArti isTgs d b).1) n
  · rw [filter_flatMap_range_const _ _ _
      (fun b => (velocityIterationOps_obs core islandContexts cpp acpp a anyArti isTgs d b).2.1)
      n]
    split_ifs <;> rfl
  · intro op h
    rw [List.mem_flatMap] at h
    obtain ⟨b, -, h⟩ := h
    exact (velocityIterationOps_obs core islandContexts cpp acpp a anyArti isTgs d b).2.2.2.2
      op h

theorem plainFor_middle (core : SolverCore) (context : PxgIslandContext) (a n : Nat) :
    ∀ op ∈ concludeAndWriteBackOps core context a ++
      (if core.residualReportingEnabled then residualReportOps core context a n else []),
      PlainFor a op := by
  intro op h
  rw [List.mem_append] at h
  rcases h with h | h
  · exact plainFor_conclude core context a op h
  · split_ifs at h
    · exact plainFor_residual core context a n op h
    · simp at h

theorem islandOps_obs (core : SolverCore) (islandContexts : Nat → PxgIslandContext)
    (cpp acpp : Nat → Int) (n a : Nat) :
    (islandOps core islandContexts cpp acpp n a).filterMap velocityIterationFlag =
      List.replicate (islandContexts a).mNumPositionIterations.toNat false ++
      List.replicate (islandContexts a).mNumVelocityIterations.toNat true ∧
    (0 < (islandContexts a).mNumPartitions →
      ((islandOps core islandContexts cpp acpp n a).filter isPrecomputeReferenceCount).length =
        (islandContexts a).mNumPositionIterations.toNat +
        (islandContexts a).mNumVelocityIterations.toNat) ∧
    ∀ op ∈ islandOps core islandContexts cpp acpp n a, ∀ i, islandOf op = some i → i = a := by
  obtain ⟨p1, p2, p3⟩ := positionLoopOps_obs core islandContexts cpp acpp a
    (anyArticulationConstraints (islandContexts a)) false
    (islandContexts a).mNumPositionIterations.toNat
  obtain ⟨v1, v2, v3⟩ := velocityLoopOps_obs core islandContexts cpp acpp a
    (anyArticulationConstraints (islandContexts a)) false true
    (islandContexts a).mNumVelocityIterations.toNat
  obtain ⟨c1, c2, -, -, c5⟩ := plain_filters (plainFor_conclude core (islandContexts a) a)
  have hr : ∀ op ∈ (if core.residualReportingEnabled then
      residualReportOps core (islandContexts a) a n else []), PlainFor a op := by
    intro op h
    split_ifs at h
    · exact plainFor_residual core (islandContexts a) a n op h
    · simp at h
  obtain ⟨r1, r2, -, -, r5⟩ := plain_filters hr
  obtain ⟨f1, f2, -, -, f5⟩ := plain_filters (plainFor_finalWriteBack core (islandContexts a) a)
  unfold islandOps
  refine ⟨?_, ?_, ?_⟩
  · rw [List.filterMap_append, List.filterMap_append, List.filterMap_append,
      List.filterMap_append, p1, c1, r1, v1, f1]
    simp
  · intro hP
    rw [List.filter_append, List.filter_append, List.filter_append, List.filter_append,
      c2, r2, f2, List.append_nil, List.append_nil, List.append_nil, List.length_append, p2, v2,
      if_pos hP]
    omega
  · intro op h
    simp only [List.mem_append] at h
    rcases h with (((h | h) | h) | h) | h
    · exact p3 op h
    · exact c5 op h
    · exact r5 op h
    · exact v3 op h
    · exact f5 op h

theorem propagateBodyVelocityOps_length (core : SolverCore)
    (hv : SolveBlockDimsValid core.blockDim) (context : PxgIslandContext)
    (hbody : 1 ≤ context.mBodyCount)
    (hno : context.mBodyCount * 32 + core.blockDim.COMPUTE_BODIES_AVERAGE_VELOCITY - 1 <
      4294967296) :
    (propagateBodyVelocityOps core context).length = 1 := by
  obtain ⟨-, ⟨h2, h2'⟩, -⟩ := hv
  have hpos : 0 < nbPropagateBlocks core context := by
    unfold nbPropagateBlocks
    rw [Nat.div_pos_iff (by unfold u32; omega)]
    unfold u32sub u32add u32mul u32
    omega
  unfold propagateBodyVelocityOps
  rw [if_pos (by omega)]
  rfl

theorem averageVelocityOps_length (core : SolverCore)
    (hv : SolveBlockDimsValid core.blockDim) (context : PxgIslandContext)
    (hbody : 1 ≤ context.mBodyCount)
    (hno : context.mBodyCount * 32 + core.blockDim.COMPUTE_BODIES_AVERAGE_VELOCITY - 1 <
      4294967296) :
    (averageVelocityOps core context).length = 1 := by
  obtain ⟨-, ⟨h2, h2'⟩, -⟩ := hv
  have hpos : 0 < nbAverageBlocks core context := by
    unfold nbAverageBlocks
    rw [Nat.div_pos_iff (by unfold u32; omega)]
    unfold u32sub u32add u32mul u32
    omega
  unfold averageVelocityOps
  rw [if_pos hpos]
  rfl

theorem velocityLoop_propagate_count (core : SolverCore)
    (islandContexts : Nat → PxgIslandContext) (cpp acpp : Nat → Int) (a : Nat)
    (anyArti isTgs d : Bool)
    (hlen : (propagateBodyVelocityOps core (islandContexts a)).length = 1) (m : Nat)
    (hm : m ≤ (islandContexts a).mNumVelocityIterations.toNat) :
    (((List.range m).flatMap
      (velocityIterationOps core islandContexts cpp acpp a anyArti isTgs d)).filter
      (isLaunchOf KernelId.PROPAGATE_BODY_VELOCITY)).length =
      min m ((islandContexts a).mNumVelocityIterations.toNat - 1) := by
  induction m with
  | zero => simp
  | succ m ih =>
    rw [List.range_succ, List.flatMap_append, List.filter_append, List.length_append,
      ih (by omega), List.flatMap_singleton,
      (velocityIterationOps_obs core islandContexts cpp acpp a anyArti isTgs d m).2.2.1]
    split_ifs with h
    · rw [hlen]; omega
    · rw [List.length_nil]
      have : (islandContexts a).mNumVelocityIterations - (m : Int) = 1 := by
        by_contra hc; exact h hc
      omega

/-! ## Kinds of the operations of the closed-form traces -/

theorem filter_hasKind_eq_self {l : List Op} {k : OpKind} (h : ∀ op ∈ l, opKind op = k) :
    l.filter (hasKind k) = l := by
  rw [List.filter_eq_self]
  intro op hop
  simp [hasKind, h op hop]

theorem filter_hasKind_eq_nil {l : List Op} {k k' : OpKind} (h : ∀ op ∈ l, opKind op = k')
    (hk : k' ≠ k) : l.filter (hasKind k) = [] := by
  rw [List.filter_eq_nil_iff]
  intro op hop
  simp [hasKind, h op hop, hk]

theorem filter_not_hasKind_eq_self {l : List Op} {k k' : OpKind}
    (h : ∀ op ∈ l, opKind op = k') (hk : k' ≠ k) :
    l.filter (fun op => !hasKind k op) = l := by
  rw [List.filter_eq_self]
  intro op hop
  simp [hasKind, h op hop, hk]

theorem filter_not_hasKind_eq_nil {l : List Op} {k : OpKind} (h : ∀ op ∈ l, opKind op = k) :
    l.filter (fun op => !hasKind k op) = [] := by
  rw [List.filter_eq_nil_iff]
  intro op hop
  simp [hasKind, h op hop]

theorem kind_zero (core : SolverCore) :
    ∀ op ∈ zeroErrorAccumulatorsOps core, opKind op = OpKind.accumulatorFill := by
  unfold zeroErrorAccumulatorsOps
  intro op h
  simp only [List.mem_cons, List.mem_singleton, List.not_mem_nil, or_false] at h
  rcases h with h | h <;> subst h <;> rfl

theorem kind_partitionOps (core : SolverCore) (cpp acpp : Nat → Int) (a : Nat)
    (d anyArti : Bool) (c : Nat) :
    ∀ op ∈ partitionOps core cpp acpp a d anyArti c, opKind op = OpKind.solve := by
  unfold partitionOps
  intro op h
  simp only [List.mem_append] at h
  rcases h with ((h | h) | h) | h <;>
    (split_ifs at h <;> simp only [List.mem_singleton, List.not_mem_nil] at h) <;>
    (subst h; rfl)

theorem kind_averageVelocity (core : SolverCore) (context : PxgIslandContext) :
    ∀ op ∈ averageVelocityOps core context, opKind op = OpKind.solve := by
  unfold averageVelocityOps
  intro op h
  split_ifs at h <;> simp only [List.mem_singleton, List.not_mem_nil] at h
  subst h
  rfl

theorem kind_solvePartitions (core : SolverCore) (islandContexts : Nat → PxgIslandContext)
    (cpp acpp : Nat → Int) (a : Nat) (d anyArti : Bool) :
    ∀ op ∈ solvePartitionsOps core islandContexts cpp acpp a d anyArti,
      opKind op = OpKind.solve := by
  unfold solvePartitionsOps
  intro op h
  simp only [List.mem_append, List.mem_flatMap] at h
  rcases h with ⟨c, -, h⟩ | h
  · exact kind_partitionOps core cpp acpp a d anyArti c op h
  · exact kind_averageVelocity core _ op h

theorem kind_static (core : SolverCore) (context : PxgIslandContext) (a : Nat) (d : Bool) :
    ∀ op ∈ staticConstraintsOps core context a d, opKind op = OpKind.solve := by
  unfold staticConstraintsOps
  intro op h
  split_ifs at h
  · simp only [List.mem_cons, List.mem_singleton, List.not_mem_nil, or_false] at h
    rcases h with h | h <;> subst h <;> rfl
  · simp at h

theorem kind_propagate (core : SolverCore) (context : PxgIslandContext) :
    ∀ op ∈ propagateBodyVelocityOps core context, opKind op = OpKind.solve := by
  unfold propagateBodyVelocityOps
  intro op h
  split_ifs at h <;> simp only [List.mem_singleton, List.not_mem_nil] at h
  subst h
  rfl

theorem kind_writeBackBlock (core : SolverCore) (context : PxgIslandContext) (a : Nat) :
    ∀ op ∈ writeBackBlockOps core a context, opKind op = OpKind.solve := by
  unfold writeBackBlockOps
  intro op h
  split_ifs at h <;> simp only [List.mem_singleton, List.not_mem_nil] at h
  subst h
  rfl

theorem kind_conclude (core : SolverCore) (context : PxgIslandContext) (a : Nat) :
    ∀ op ∈ concludeAndWriteBackOps core context a, opKind op = OpKind.solve := by
  unfold concludeAndWriteBackOps
  intro op h
  simp only [List.mem_append] at h
  rcases h with (h | h) | h
  · split_ifs at h <;> simp only [List.mem_singleton, List.not_mem_nil] at h
    subst h
    rfl
  · split_ifs at h <;> simp only [List.mem_singleton, List.not_mem_nil] at h
    subst h
    rfl
  · simp only [List.mem_singleton] at h
    subst h
    rfl

theorem kind_positionExtended (core : SolverCore) (context : PxgIslandContext) (b : Nat) :
    ∀ op ∈ positionExtendedBodiesOps core context b, opKind op = OpKind.extendedBody := by
  unfold positionExtendedBodiesOps
  intro op h
  simp only [List.mem_append, List.mem_map] at h
  rcases h with (((h | ⟨i, -, h⟩) | h) | h) | ⟨i, -, h⟩
  · split_ifs at h <;> simp only [List.mem_singleton, List.not_mem_nil] at h
    subst h
    rfl
  · subst h
    rfl
  · split_ifs at h <;> simp only [List.mem_singleton, List.not_mem_nil] at h
    subst h
    rfl
  · split_ifs at h <;> simp only [List.mem_singleton, List.not_mem_nil] at h
    subst h
    rfl
  · subst h
    rfl

theorem kind_velocityExtended (core : SolverCore) :
    ∀ op ∈ velocityExtendedBodiesOps core, opKind op = OpKind.extendedBody := by
  unfold velocityExtendedBodiesOps
  intro op h
  simp only [List.mem_append, List.mem_map] at h
  rcases h with ((h | ⟨i, -, h⟩) | h) | ⟨i, -, h⟩
  · split_ifs at h <;> simp only [List.mem_singleton, List.not_mem_nil] at h
    subst h
    rfl
  · subst h
    rfl
  · split_ifs at h <;> simp only [List.mem_singleton, List.not_mem_nil] at h
    subst h
    rfl
  · subst h
    rfl

theorem residualReportOps_eq (core : SolverCore) (context : PxgIslandContext) (a n : Nat) :
    residualReportOps core context a n =
      writeBackBlockOps core a context ++ residualTransferOps core n := by
  unfold residualReportOps residualTransferOps
  simp only [List.append_assoc]

theorem kind_residualTransfer (core : SolverCore) (n : Nat) :
    ∀ op ∈ residualTransferOps core n, opKind op = OpKind.residualReadBack := by
  unfold residualTransferOps
  intro op h
  simp only [List.mem_append] at h
  rcases h with (h | h) | h
  · split_ifs at h <;> simp only [List.mem_singleton, List.not_mem_nil] at h
    subst h
    rfl
  · split_ifs at h <;> simp only [List.mem_singleton, List.not_mem_nil] at h
    subst h
    rfl
  · simp only [List.mem_cons, List.mem_singleton, List.not_mem_nil, or_false] at h
    rcases h with h | h <;> subst h <;> rfl

/-! ## The solve stage without extended-body solvers -/

theorem solvePartitionsOps_without (core : SolverCore) (islandContexts : Nat → PxgIslandContext)
    (cpp acpp : Nat → Int) (a : Nat) (d anyArti : Bool) :
    solvePartitionsOps (withoutExtendedBodies core) islandContexts cpp acpp a d anyArti =
      solvePartitionsOps core islandContexts cpp acpp a d anyArti := rfl

theorem positionExtendedBodiesOps_without (core : SolverCore) (context : PxgIslandContext)
    (b : Nat) : positionExtendedBodiesOps (withoutExtendedBodies core) context b = [] := by
  simp [positionExtendedBodiesOps, withoutExtendedBodies]

theorem velocityExtendedBodiesOps_without (core : SolverCore) :
    velocityExtendedBodiesOps (withoutExtendedBodies core) = [] := by
  simp [velocityExtendedBodiesOps, withoutExtendedBodies]

theorem positionIterationOps_without (core : SolverCore)
    (islandContexts : Nat → PxgIslandContext) (cpp acpp : Nat → Int) (a : Nat)
    (anyArti isTgs : Bool) (b : Nat) :
    (positionIterationOps core islandContexts cpp acpp a anyArti isTgs b).filter
        (fun op => !hasKind OpKind.extendedBody op) =
      positionIterationOps (withoutExtendedBodies core) islandContexts cpp acpp a anyArti isTgs
        b := by
  have hz : (if core.residualReportingEnabled then zeroErrorAccumulatorsOps core else []).filter
      (fun op => !hasKind OpKind.extendedBody op) =
      (if core.residualReportingEnabled then zeroErrorAccumulatorsOps core else []) := by
    split_ifs
    · exact filter_not_hasKind_eq_self (kind_zero core) (by decide)
    · rfl
  unfold positionIterationOps
  simp only [List.filter_append]
  rw [hz, filter_not_hasKind_eq_self (kind_solvePartitions _ _ _ _ _ _ _) (by decide),
    filter_not_hasKind_eq_nil (kind_positionExtended _ _ _),
    filter_not_hasKind_eq_self (kind_static _ _ _ _) (by decide),
    filter_not_hasKind_eq_self (kind_propagate _ _) (by decide),
    positionExtendedBodiesOps_without]
  rfl

theorem velocityIterationOps_without (core : SolverCore)
    (islandContexts : Nat → PxgIslandContext) (cpp acpp : Nat → Int) (a : Nat)
    (anyArti isTgs d : Bool) (b : Nat) :
    (velocityIterationOps core islandContexts cpp acpp a anyArti isTgs d b).filter
        (fun op => !hasKind OpKind.extendedBody op) =
      velocityIterationOps (withoutExtendedBodies core) islandContexts cpp acpp a anyArti isTgs
        d b := by
  have hz : (if core.residualReportingEnabled then zeroErrorAccumulatorsOps core else []).filter
      (fun op => !hasKind OpKind.extendedBody op) =
      (if core.residualReportingEnabled then zeroErrorAccumulatorsOps core else []) := by
    split_ifs
    · exact filter_not_hasKind_eq_self (kind_zero core) (by decide)
    · rfl
  have hp : (if (islandContexts a).mNumVelocityIterations - (b : Int) ≠ 1 then
      propagateBodyVelocityOps core (islandContexts a) else []).filter
      (fun op => !hasKind OpKind.extendedBody op) =
      (if (islandContexts a).mNumVelocityIterations - (b : Int) ≠ 1 then
        propagateBodyVelocityOps core (islandContexts a) else []) := by
    split_ifs
    · exact filter_not_hasKind_eq_self (kind_propagate _ _) (by decide)
    · rfl
  unfold velocityIterationOps
  simp only [List.filter_append]
  rw [hz, hp, filter_not_hasKind_eq_self (kind_solvePartitions _ _ _ _ _ _ _) (by decide),
    filter_not_hasKind_eq_nil (kind_velocityExtended _),
    filter_not_hasKind_eq_self (kind_static _ _ _ _) (by decide),
    velocityExtendedBodiesOps_without]
  rfl

theorem finalWriteBackOps_without (core : SolverCore) (context : PxgIslandContext) (a : Nat) :
    (finalWriteBackOps core context a).filter (fun op => !hasKind OpKind.extendedBody op) =
      finalWriteBackOps (withoutExtendedBodies core) context a := by
  have h1 : (if core.softbodyCore then
      [Op.softBodyCopyContactCountsToHost, Op.softBodyFinalizeVelocities false] else []).filter
      (fun op => !hasKind OpKind.extendedBody op) = [] := by
    split_ifs <;> rfl
  have h2 : (if core.femClothCore then
      [Op.femClothCopyContactCountsToHost, Op.femClothFinalizeVelocities] else []).filter
      (fun op => !hasKind OpKind.extendedBody op) = [] := by
    split_ifs <;> rfl
  unfold finalWriteBackOps
  simp only [List.filter_append]
  rw [h1, h2, filter_not_hasKind_eq_self (kind_writeBackBlock _ _ _) (by decide)]
  rfl

theorem residualReportOps_filter_not_extended (core : SolverCore) (context : PxgIslandContext)
    (a n : Nat) :
    (residualReportOps core context a n).filter (fun op => !hasKind OpKind.extendedBody op) =
      residualReportOps core context a n := by
  rw [residualReportOps_eq, List.filter_append,
    filter_not_hasKind_eq_self (kind_writeBackBlock _ _ _) (by decide),
    filter_not_hasKind_eq_self (kind_residualTransfer _ _) (by decide)]

theorem islandOps_without (core : SolverCore) (islandContexts : Nat → PxgIslandContext)
    (cpp acpp : Nat → Int) (n a : Nat) :
    (islandOps core islandContexts cpp acpp n a).filter
        (fun op => !hasKind OpKind.extendedBody op) =
      islandOps (withoutExtendedBodies core) islandContexts cpp acpp n a := by
  have hr : (if core.residualReportingEnabled then
      residualReportOps core (islandContexts a) a n else []).filter
      (fun op => !hasKind OpKind.extendedBody op) =
      (if core.residualReportingEnabled then
        residualReportOps core (islandContexts a) a n else []) := by
    split_ifs
    · exact residualReportOps_filter_not_extended _ _ _ _
    · rfl
  unfold islandOps
  simp only [List.filter_append, List.filter_flatMap, positionIterationOps_without,
    velocityIterationOps_without, finalWriteBackOps_without]
  rw [hr, filter_not_hasKind_eq_self (kind_conclude _ _ _) (by decide)]
  rfl

theorem solveContactMultiBlockParallelOps_without (core : SolverCore)
    (islandContexts : Nat → PxgIslandContext) (numIslands : Nat) (cpp acpp : Nat → Int)
    (n : Nat) :
    (solveContactMultiBlockParallelOps core islandContexts numIslands cpp acpp n).filter
        (fun op => !hasKind OpKind.extendedBody op) =
      solveContactMultiBlockParallelOps (withoutExtendedBodies core) islandContexts numIslands
        cpp acpp n := by
  unfold solveContactMultiBlockParallelOps
  simp only [List.filter_append, List.filter_flatMap, islandOps_without]
  rw [filter_not_hasKind_eq_self (kind_zero core) (by decide)]
  rfl

theorem filter_hasKind_filter_not (l : List Op) (k : OpKind) :
    (l.filter (fun op => !hasKind k op)).filter (hasKind k) = [] := by
  rw [List.filter_eq_nil_iff]
  intro op h
  have := (List.mem_filter.mp h).2
  simpa using this

theorem forEach_zero (body : Nat → SolverState → SolverState) (st : SolverState) :
    forEach 0 body st = st := rfl

/-! ## Solve calls of the extended-body solvers -/

theorem kind_of_isSoftBodySolve (op : Op) (h : isSoftBodySolve op = true) :
    opKind op = OpKind.extendedBody := by
  cases op <;> first | rfl | exact absurd h (by simp [isSoftBodySolve])

theorem kind_of_isFemClothSolve (op : Op) (h : isFemClothSolve op = true) :
    opKind op = OpKind.extendedBody := by
  cases op <;> first | rfl | exact absurd h (by simp [isFemClothSolve])

theorem kind_of_isParticleSystemSolve (i : Nat) (op : Op)
    (h : isParticleSystemSolve i op = true) : opKind op = OpKind.extendedBody := by
  cases op <;> first | rfl | exact absurd h (by simp [isParticleSystemSolve])

theorem filter_eq_nil_of_kind {p : Op → Bool}
    (hp : ∀ op, p op = true → opKind op = OpKind.extendedBody) {l : List Op} {k : OpKind}
    (h : ∀ op ∈ l, opKind op = k) (hk : k ≠ OpKind.extendedBody) : l.filter p = [] := by
  rw [List.filter_eq_nil_iff]
  intro op hop hpo
  exact hk ((h op hop).symm.trans (hp op hpo))

theorem filter_optional_zero (core : SolverCore) {p : Op → Bool}
    (hp : ∀ op, p op = true → opKind op = OpKind.extendedBody) :
    (if core.residualReportingEnabled then zeroErrorAccumulatorsOps core else []).filter p
      = [] := by
  split_ifs
  · exact filter_eq_nil_of_kind hp (kind_zero core) (by decide)
  · rfl

theorem range_filter_eq_length (n i : Nat) :
    ((List.range n).filter (fun j => decide (j = i))).length = if i < n then 1 else 0 := by
  induction n with
  | zero => simp
  | succ k ih =>
    rw [List.range_succ, List.filter_append, List.length_append, ih]
    by_cases h : k = i
    · subst h
      simp
    · have : (List.filter (fun j => decide (j = i)) [k]) = [] := by simp [h]
      rw [this]
      by_cases h2 : i < k
      · rw [if_pos h2, if_pos (by omega)]
        rfl
      · rw [if_neg h2, if_neg (by omega)]
        rfl

theorem particleSolves_filter_length (n i : Nat) :
    (((List.range n).map (fun j => Op.particleSystemSolve j Stream.mStream)).filter
      (isParticleSystemSolve i)).length = if i < n then 1 else 0 := by
  rw [List.filter_map, List.length_map]
  exact range_filter_eq_length n i

theorem positionExtendedBodiesOps_solves (core : SolverCore) (context : PxgIslandContext)
    (b : Nat) :
    ((positionExtendedBodiesOps core context b).filter isSoftBodySolve).length =
      (if core.softbodyCore then 1 else 0) ∧
    ((positionExtendedBodiesOps core context b).filter isFemClothSolve).length =
      (if core.femClothCore then 1 else 0) ∧
    ∀ i, ((positionExtendedBodiesOps core context b).filter (isParticleSystemSolve i)).length =
      if i < core.numParticleSystemCores then 1 else 0 := by
  unfold positionExtendedBodiesOps
  refine ⟨?_, ?_, ?_⟩
  · simp only [List.filter_append, List.filter_map, List.length_append, List.length_map]
    have h1 : ∀ l : List Nat, l.filter (isSoftBodySolve ∘ fun i =>
        Op.particleSystemSolve i Stream.mStream) = [] := fun l => by
      rw [List.filter_eq_nil_iff]; intro x _; simp [isSoftBodySolve]
    have h2 : ∀ l : List Nat, l.filter (isSoftBodySolve ∘ fun i =>
        Op.particleSystemUpdateParticles i) = [] := fun l => by
      rw [List.filter_eq_nil_iff]; intro x _; simp [isSoftBodySolve]
    rw [h1, h2]
    split_ifs <;> simp [isSoftBodySolve]
  · simp only [List.filter_append, List.filter_map, List.length_append, List.length_map]
    have h1 : ∀ l : List Nat, l.filter (isFemClothSolve ∘ fun i =>
        Op.particleSystemSolve i Stream.mStream) = [] := fun l => by
      rw [List.filter_eq_nil_iff]; intro x _; simp [isFemClothSolve]
    have h2 : ∀ l : List Nat, l.filter (isFemClothSolve ∘ fun i =>
        Op.particleSystemUpdateParticles i) = [] := fun l => by
      rw [List.filter_eq_nil_iff]; intro x _; simp [isFemClothSolve]
    rw [h1, h2]
    split_ifs <;> simp [isFemClothSolve]
  · intro i
    simp only [List.filter_append, List.length_append, particleSolves_filter_length]
    have h2 : (List.map (fun i => Op.particleSystemUpdateParticles i)
        (List.range core.numParticleSystemCores)).filter (isParticleSystemSolve i) = [] := by
      rw [List.filter_eq_nil_iff]
      intro x hx
      obtain ⟨j, -, rfl⟩ := List.mem_map.mp hx
      simp [isParticleSystemSolve]
    rw [h2]
    split_ifs <;> simp [isParticleSystemSolve]

theorem velocityExtendedBodiesOps_solves (core : SolverCore) :
    ((velocityExtendedBodiesOps core).filter isSoftBodySolve).length =
      (if core.softbodyCore then 1 else 0) ∧
    (velocityExtendedBodiesOps core).filter isFemClothSolve = [] ∧
    ∀ i, ((velocityExtendedBodiesOps core).filter (isParticleSystemSolve i)).length =
      if i < core.numParticleSystemCores then 1 else 0 := by
  unfold velocityExtendedBodiesOps
  refine ⟨?_, ?_, ?_⟩
  · simp only [List.filter_append, List.filter_map, List.length_append, List.length_map]
    have h1 : ∀ l : List Nat, l.filter (isSoftBodySolve ∘ fun i =>
        Op.particleSystemSolve i Stream.mStream) = [] := fun l => by
      rw [List.filter_eq_nil_iff]; intro x _; simp [isSoftBodySolve]
    have h2 : ∀ l : List Nat, l.filter (isSoftBodySolve ∘ fun i =>
        Op.particleSystemUpdateParticles i) = [] := fun l => by
      rw [List.filter_eq_nil_iff]; intro x _; simp [isSoftBodySolve]
    rw [h1, h2]
    split_ifs <;> simp [isSoftBodySolve]
  · rw [List.filter_eq_nil_iff]
    intro op hop
    simp only [List.mem_append, List.mem_map] at hop
    rcases hop with ((h | ⟨i, -, h⟩) | h) | ⟨i, -, h⟩
    · split_ifs at h <;> simp only [List.mem_singleton, List.not_mem_nil] at h
      subst h
      simp [isFemClothSolve]
    · subst h
      simp [isFemClothSolve]
    · split_ifs at h <;> simp only [List.mem_singleton, List.not_mem_nil] at h
      subst h
      simp [isFemClothSolve]
    · subst h
      simp [isFemClothSolve]
  · intro i
    simp only [List.filter_append, List.length_append, particleSolves_filter_length]
    have h2 : (List.map (fun i => Op.particleSystemUpdateParticles i)
        (List.range core.numParticleSystemCores)).filter (isParticleSystemSolve i) = [] := by
      rw [List.filter_eq_nil_iff]
      intro x hx
      obtain ⟨j, -, rfl⟩ := List.mem_map.mp hx
      simp [isParticleSystemSolve]
    rw [h2]
    split_ifs <;> simp [isParticleSystemSolve]

/-- In an iteration only the extended-body block contains calls selected by
a predicate `p` that holds of extended-body operations only. -/
theorem positionIterationOps_filter (core : SolverCore) (islandContexts : Nat → PxgIslandContext)
    (cpp acpp : Nat → Int) (a : Nat) (anyArti isTgs : Bool) (b : Nat) {p : Op → Bool}
    (hp : ∀ op, p op = true → opKind op = OpKind.extendedBody) :
    (positionIterationOps core islandContexts cpp acpp a anyArti isTgs b).filter p =
      (positionExtendedBodiesOps core (islandContexts a) b).filter p := by
  have harti : ∀ v d t r, [Op.propagateRigidBodyImpulsesAndSolveInternalConstraints v d t r].filter
      p = [] := by
    intro v d t r
    exact filter_eq_nil_of_kind (k := OpKind.solve) hp
      (by intro op h; rw [List.mem_singleton.mp h]; rfl) (by decide)
  unfold positionIterationOps
  simp only [List.filter_append]
  rw [filter_optional_zero core hp,
    filter_eq_nil_of_kind hp (kind_solvePartitions _ _ _ _ _ _ _) (by decide), harti,
    filter_eq_nil_of_kind hp (kind_static _ _ _ _) (by decide),
    filter_eq_nil_of_kind hp (kind_propagate _ _) (by decide)]
  simp

theorem velocityIterationOps_filter (core : SolverCore) (islandContexts : Nat → PxgIslandContext)
    (cpp acpp : Nat → Int) (a : Nat) (anyArti isTgs d : Bool) (b : Nat) {p : Op → Bool}
    (hp : ∀ op, p op = true → opKind op = OpKind.extendedBody) :
    (velocityIterationOps core islandContexts cpp acpp a anyArti isTgs d b).filter p =
      (velocityExtendedBodiesOps core).filter p := by
  have harti : ∀ v d t r, [Op.propagateRigidBodyImpulsesAndSolveInternalConstraints v d t r].filter
      p = [] := by
    intro v d t r
    exact filter_eq_nil_of_kind (k := OpKind.solve) hp
      (by intro op h; rw [List.mem_singleton.mp h]; rfl) (by decide)
  have hprop : (if (islandContexts a).mNumVelocityIterations - (b : Int) ≠ 1 then
      propagateBodyVelocityOps core (islandContexts a) else []).filter p = [] := by
    split_ifs
    · exact filter_eq_nil_of_kind hp (kind_propagate _ _) (by decide)
    · rfl
  unfold velocityIterationOps
  simp only [List.filter_append]
  rw [filter_optional_zero core hp,
    filter_eq_nil_of_kind hp (kind_solvePartitions _ _ _ _ _ _ _) (by decide), harti,
    filter_eq_nil_of_kind hp (kind_static _ _ _ _) (by decide), hprop]
  simp

/-! ## Accumulator fills and residual read-back in the closed-form traces -/

theorem positionIterationOps_kinds (core : SolverCore) (islandContexts : Nat → PxgIslandContext)
    (cpp acpp : Nat → Int) (a : Nat) (anyArti isTgs : Bool) (b : Nat) :
    ∀ op ∈ positionIterationOps core islandContexts cpp acpp a anyArti isTgs b,
      (opKind op = OpKind.solve ∨ opKind op = OpKind.extendedBody) ∨
      (core.residualReportingEnabled = true ∧ opKind op = OpKind.accumulatorFill) := by
  unfold positionIterationOps
  intro op h
  simp only [List.mem_append, List.mem_singleton] at h
  rcases h with ((((h | h) | h) | h) | h) | h
  · split_ifs at h with hr
    · exact Or.inr ⟨hr, kind_zero core op h⟩
    · simp at h
  · exact Or.inl (Or.inl (kind_solvePartitions _ _ _ _ _ _ _ op h))
  · subst h
    exact Or.inl (Or.inl rfl)
  · exact Or.inl (Or.inr (kind_positionExtended _ _ _ op h))
  · exact Or.inl (Or.inl (kind_static _ _ _ _ op h))
  · exact Or.inl (Or.inl (kind_propagate _ _ op h))

theorem velocityIterationOps_kinds (core : SolverCore) (islandContexts : Nat → PxgIslandContext)
    (cpp acpp : Nat → Int) (a : Nat) (anyArti isTgs d : Bool) (b : Nat) :
    ∀ op ∈ velocityIterationOps core islandContexts cpp acpp a anyArti isTgs d b,
      (opKind op = OpKind.solve ∨ opKind op = OpKind.extendedBody) ∨
      (core.residualReportingEnabled = true ∧ opKind op = OpKind.accumulatorFill) := by
  unfold velocityIterationOps
  intro op h
  simp only [List.mem_append, List.mem_singleton] at h
  rcases h with ((((h | h) | h) | h) | h) | h
  · split_ifs at h with hr
    · exact Or.inr ⟨hr, kind_zero core op h⟩
    · simp at h
  · exact Or.inl (Or.inl (kind_solvePartitions _ _ _ _ _ _ _ op h))
  · subst h
    exact Or.inl (Or.inl rfl)
  · exact Or.inl (Or.inr (kind_velocityExtended _ op h))
  · exact Or.inl (Or.inl (kind_static _ _ _ _ op h))
  · split_ifs at h
    · exact Or.inl (Or.inl (kind_propagate _ _ op h))
    · simp at h

theorem finalWriteBackOps_kinds (core : SolverCore) (context : PxgIslandContext) (a : Nat) :
    ∀ op ∈ finalWriteBackOps core context a,
      opKind op = OpKind.solve ∨ opKind op = OpKind.extendedBody := by
  unfold finalWriteBackOps
  intro op h
  simp only [List.mem_append] at h
  rcases h with (h | h) | h
  · exact Or.inl (kind_writeBackBlock _ _ _ op h)
  · split_ifs at h
    · simp only [List.mem_cons, List.mem_singleton, List.not_mem_nil, or_false] at h
      rcases h with h | h <;> subst h <;> exact Or.inr rfl
    · simp at h
  · split_ifs at h
    · simp only [List.mem_cons, List.mem_singleton, List.not_mem_nil, or_false] at h
      rcases h with h | h <;> subst h <;> exact Or.inr rfl
    · simp at h

/-- With residual reporting enabled the operations of island `a` are: the
position iterations, the conclude and body write-back block and the
constraint write-back that opens the read-back block; then the residual
transfers; then the velocity iterations and the final write-back. -/
theorem islandOps_split (core : SolverCore) (islandContexts : Nat → PxgIslandContext)
    (cpp acpp : Nat → Int) (n a : Nat) (hrr : core.residualReportingEnabled = true) :
    islandOps core islandContexts cpp acpp n a =
      ((List.range (islandContexts a).mNumPositionIterations.toNat).flatMap
          (positionIterationOps core islandContexts cpp acpp a
            (anyArticulationConstraints (islandContexts a)) false) ++
        concludeAndWriteBackOps core (islandContexts a) a ++
        writeBackBlockOps core a (islandContexts a)) ++
      residualTransferOps core n ++
      ((List.range (islandContexts a).mNumVelocityIterations.toNat).flatMap
          (velocityIterationOps core islandContexts cpp acpp a
            (anyArticulationConstraints (islandContexts a)) false true) ++
        finalWriteBackOps core (islandContexts a) a) := by
  unfold islandOps
  rw [if_pos hrr, residualReportOps_eq]
  simp only [List.append_assoc]

theorem islandOps_before_noReadBack (core : SolverCore)
    (islandContexts : Nat → PxgIslandContext) (cpp acpp : Nat → Int) (a : Nat) :
    ((List.range (islandContexts a).mNumPositionIterations.toNat).flatMap
        (positionIterationOps core islandContexts cpp acpp a
          (anyArticulationConstraints (islandContexts a)) false) ++
      concludeAndWriteBackOps core (islandContexts a) a ++
      writeBackBlockOps core a (islandContexts a)).filter (hasKind OpKind.residualReadBack)
      = [] := by
  rw [List.filter_eq_nil_iff]
  intro op h
  simp only [List.mem_append, List.mem_flatMap] at h
  rcases h with (⟨b, -, h⟩ | h) | h
  · rcases positionIterationOps_kinds _ _ _ _ _ _ _ _ op h with (k | k) | ⟨-, k⟩ <;>
      simp [hasKind, k]
  · simp [hasKind, kind_conclude _ _ _ op h]
  · simp [hasKind, kind_writeBackBlock _ _ _ op h]

theorem islandOps_after_noReadBack (core : SolverCore)
    (islandContexts : Nat → PxgIslandContext) (cpp acpp : Nat → Int) (a : Nat) :
    ((List.range (islandContexts a).mNumVelocityIterations.toNat).flatMap
        (velocityIterationOps core islandContexts cpp acpp a
          (anyArticulationConstraints (islandContexts a)) false true) ++
      finalWriteBackOps core (islandContexts a) a).filter (hasKind OpKind.residualReadBack)
      = [] := by
  rw [List.filter_eq_nil_iff]
  intro op h
  simp only [List.mem_append, List.mem_flatMap] at h
  rcases h with ⟨b, -, h⟩ | h
  · rcases velocityIterationOps_kinds _ _ _ _ _ _ _ _ _ op h with (k | k) | ⟨-, k⟩ <;>
      simp [hasKind, k]
  · rcases finalWriteBackOps_kinds _ _ _ op h with k | k <;> simp [hasKind, k]

theorem islandOps_quiet (core : SolverCore) (islandContexts : Nat → PxgIslandContext)
    (cpp acpp : Nat → Int) (n a : Nat) (hrr : core.residualReportingEnabled = false) :
    ∀ op ∈ islandOps core islandContexts cpp acpp n a,
      opKind op = OpKind.solve ∨ opKind op = OpKind.extendedBody := by
  unfold islandOps
  intro op h
  rw [hrr] at h
  simp only [List.mem_append, List.mem_flatMap, Bool.false_eq_true, if_false,
    List.not_mem_nil, or_false] at h
  rcases h with ((⟨b, -, h⟩ | h) | ⟨b, -, h⟩) | h
  · rcases positionIterationOps_kinds _ _ _ _ _ _ _ _ op h with k | ⟨k, -⟩
    · exact k
    · rw [hrr] at k
      exact absurd k (by decide)
  · exact Or.inl (kind_conclude _ _ _ op h)
  · rcases velocityIterationOps_kinds _ _ _ _ _ _ _ _ _ op h with k | ⟨k, -⟩
    · exact k
    · rw [hrr] at k
      exact absurd k (by decide)
  · exact finalWriteBackOps_kinds _ _ _ op h

/-! ## Lemmas on the transfer stages -/

@[simp] theorem TransferState.issued_of_issue (op : TransferOp) (st : TransferState) :
    (st.issue op).issued = st.issued ++ [op] := rfl

@[simp] theorem TransferState.issue_mNbPrev (op : TransferOp) (st : TransferState) :
    (st.issue op).mNbPrevExceededForceElements = st.mNbPrevExceededForceElements := rfl

@[simp] theorem TransferState.issue_mCurrentIndex (op : TransferOp) (st : TransferState) :
    (st.issue op).mCurrentIndex = st.mCurrentIndex := rfl

@[simp] theorem TransferState.issue_mTotalContactManagers (op : TransferOp)
    (st : TransferState) :
    (st.issue op).mTotalContactManagers = st.mTotalContactManagers := rfl

theorem radixSort_fold (core : TransferCore) (n : Nat) (st : TransferState) :
    (List.range n).foldl (fun s i => radixSort_pass core i s) ⟨0, st⟩ =
      ⟨u32 (4 * n), { st with issued := st.issued ++ radixSortOps core n }⟩ := by
  induction n with
  | zero => simp [radixSortOps, u32]
  | succ k ih =>
    rw [List.range_succ, List.foldl_append, ih]
    simp only [List.foldl_cons, List.foldl_nil, radixSort_pass, TransferState.issue,
      radixSortOps, List.range_succ, List.flatMap_append, List.flatMap_cons, List.flatMap_nil,
      List.append_nil, radixSortPassOps, List.append_assoc, List.cons_append, List.nil_append]
    congr 1
    unfold u32add u32
    omega

theorem radixSort_eq (core : TransferCore) (n : Nat) (st : TransferState) :
    radixSort core n st = { st with issued := st.issued ++ radixSortOps core n } := by
  unfold radixSort
  rw [radixSort_fold]

theorem radixSortOps_length (core : TransferCore) (n : Nat) :
    (radixSortOps core n).length = 2 * n := by
  induction n with
  | zero => rfl
  | succ k ih =>
    simp only [radixSortOps, List.range_succ, List.flatMap_append, List.length_append] at ih ⊢
    rw [ih]
    simp [radixSortPassOps]
    omega

theorem radixSortOps_all (core : TransferCore) (n : Nat) :
    ∀ op ∈ radixSortOps core n, op.isRadixSortLaunch = true ∧ op.stream = some Stream.mStream := by
  intro op h
  simp only [radixSortOps, List.mem_flatMap, List.mem_range, radixSortPassOps] at h
  obtain ⟨i, -, hi⟩ := h
  simp only [List.mem_cons, List.mem_singleton, List.not_mem_nil, or_false] at hi
  rcases hi with rfl | rfl <;> exact ⟨rfl, rfl⟩

theorem forceThresholdBuffers_issued (core : TransferCore) (data : PxgConstraintPrePrepData)
    (st : TransferState) :
    (gpuMemDMAUp_forceThresholdBuffers core data true st).issued =
      st.issued ++ forceThresholdBuffersOps core data st.mCurrentIndex
        st.mNbPrevExceededForceElements := by
  simp [gpuMemDMAUp_forceThresholdBuffers, forceThresholdBuffersOps, TransferState.issue]

theorem gpuMemDMAbackSolverData_issued (core : TransferCore) (args : DmaBackArgs)
    (st : TransferState) :
    (gpuMemDMAbackSolverData core args st).issued =
      st.issued ++ TransferOp.synchronizeStreams Stream.mStream Stream.mStream2
        Event.mEventDmaBack :: dmaBackOps core args := by
  obtain ⟨o, u, l, t, w, c, g, s, d⟩ := args
  simp only [gpuMemDMAbackSolverData, dmaBackOps, TransferState.issue]
  cases c <;> cases t <;> by_cases h1 : w = 0 <;> by_cases h2 : u = 0 <;>
    by_cases h3 : l = 0 <;> by_cases h4 : g = 0 <;> by_cases h5 : s = 0 <;>
    simp [h1, h2, h3, h4, h5, apply_ite TransferState.issued, Nat.pos_iff_ne_zero]

theorem accumulatedForceThresholdStream_issued (core : TransferCore)
    (mPrepareDesc : PxgConstraintPrepareDesc) (maxNodes : Nat) (st : TransferState) :
    (accumulatedForceThresholdStream core mPrepareDesc maxNodes st).issued =
      st.issued ++
        TransferOp.memcpyDtoDAsync DeviceBuffer.tmpThresholdStream DeviceBuffer.thresholdStream
          (usizeMul core.sizes.ThresholdStreamElement st.mTotalContactManagers) Stream.mStream ::
        TransferOp.launchKernel TransferKernelId.INITIALIZE_INPUT_AND_RANKS_B
          (core.gridDim KernelDim.INITIALIZE_INPUT_AND_RANKS)
          (core.blockDim KernelDim.INITIALIZE_INPUT_AND_RANKS) Stream.mStream
          [TransferParam.mSolverCoreDescd, TransferParam.mRadixSortDescd 0] ::
        radixSortOps core (nbPasses maxNodes) ++
        TransferOp.launchKernel TransferKernelId.INITIALIZE_INPUT_AND_RANKS_A
          (core.gridDim KernelDim.INITIALIZE_INPUT_AND_RANKS)
          (core.blockDim KernelDim.INITIALIZE_INPUT_AND_RANKS) Stream.mStream
          [TransferParam.mSolverCoreDescd, TransferParam.mRadixSortDescd 0] ::
        radixSortOps core (nbPasses maxNodes) ++
        thresholdReduceOps core mPrepareDesc st.mNbPrevExceededForceElements := by
  simp only [accumulatedForceThresholdStream, launchFixed, radixSort_eq, TransferState.issue,
    thresholdReduceOps]
  split_ifs <;> simp

theorem gpuMemDmaUpBodyData_issued (core : TransferCore) (args : BodyDataArgs)
    (st : TransferState) :
    (gpuMemDmaUpBodyData core args st).issued =
      st.issued ++ bodyDataPrefixOps core args ++
        [TransferOp.allocate DeviceBuffer.mSolverEncodedReferenceCount
            (usizeMul 4 (numEncodedReferenceCount args.numSolverBodies args.nbSlabs)),
          TransferOp.memsetD32Async DeviceBuffer.mSolverEncodedReferenceCount 0
            (usizeMul (numEncodedReferenceCount args.numSolverBodies args.nbSlabs) (4 / 4))
            Stream.mStream,
          TransferOp.streamFlush Stream.mStream] := by
  simp [gpuMemDmaUpBodyData, bodyDataPrefixOps, TransferState.issue]

theorem numEncodedReferenceCount_lt (numSolverBodies nbSlabs : Nat) :
    numEncodedReferenceCount numSolverBodies nbSlabs < 4294967296 := by
  unfold numEncodedReferenceCount u32mul
  omega

theorem gpuMemDMAUpContactData_allocate_issued (core : TransferCore) (args : ContactDataArgs)
    (st : TransferState) :
    (gpuMemDMAUpContactData_allocate core args st).issued =
      st.issued ++ (contactDataPrefixOps core args).take 15 := by
  simp only [gpuMemDMAUpContactData_allocate, contactDataPrefixOps, TransferState.issued_of_issue,
    List.append_assoc, List.cons_append, List.nil_append, List.take_succ_cons, List.take_zero]

theorem gpuMemDMAUpContactData_upload_issued (core : TransferCore) (args : ContactDataArgs)
    (st : TransferState) :
    (gpuMemDMAUpContactData_upload core args st).issued =
      st.issued ++ (contactDataPrefixOps core args).drop 15 ++ [destroyedEdgesUpload args] := by
  simp only [gpuMemDMAUpContactData_upload, contactDataPrefixOps, destroyedEdgesUpload,
    TransferState.issued_of_issue, List.append_assoc, List.cons_append, List.nil_append,
    List.drop_succ_cons, List.drop_zero]

theorem gpuMemDMAUpContactData_prefix_issued (core : TransferCore) (args : ContactDataArgs)
    (st : TransferState) :
    (gpuMemDMAUpContactData_upload core args
        (gpuMemDMAUpContactData_allocate core args st)).issued =
      st.issued ++ contactDataPrefixOps core args ++ [destroyedEdgesUpload args] := by
  rw [gpuMemDMAUpContactData_upload_issued, gpuMemDMAUpContactData_allocate_issued,
    List.append_assoc st.issued, List.take_append_drop]

theorem gpuMemDMAUpContactData_prefix_mCurrentIndex (core : TransferCore)
    (args : ContactDataArgs) (st : TransferState) :
    (gpuMemDMAUpContactData_upload core args
        (gpuMemDMAUpContactData_allocate core args st)).mCurrentIndex = st.mCurrentIndex := by
  simp only [gpuMemDMAUpContactData_upload, gpuMemDMAUpContactData_allocate,
    TransferState.issue_mCurrentIndex]

/-! ## Lemmas on the integration stage -/

theorem blocksToCover_spec (count blockDim : Nat) (hpos : 0 < blockDim) :
    count ≤ blocksToCover count blockDim * blockDim ∧
    blocksToCover count blockDim * blockDim < count + blockDim ∧
    (blocksToCover count blockDim = 0 ↔ count = 0) := by
  unfold blocksToCover
  have hdiv : (count + blockDim - 1) / blockDim * blockDim ≤ count + blockDim - 1 :=
    Nat.div_mul_le_self _ _
  have hlt : count + blockDim - 1 < ((count + blockDim - 1) / blockDim + 1) * blockDim := by
    have := Nat.lt_div_mul_add (a := count + blockDim - 1) hpos
    rw [Nat.add_mul, Nat.one_mul]
    exact this
  rw [Nat.add_mul, Nat.one_mul] at hlt
  refine ⟨by omega, by omega, ?_, ?_⟩
  · intro h
    rw [h] at hlt
    omega
  · intro h
    subst h
    exact Nat.div_eq_of_lt (by omega)

theorem coverBlocks_eq (count B : Nat) (hpos : 0 < B) (hB : B < 4294967296)
    (hc : count < 4294967296) (hno : count + B - 1 < 4294967296) :
    u32div (u32sub (u32add count B) 1) (u32 B) = some (blocksToCover count B) := by
  have hq : u32sub (u32add count B) 1 = count + B - 1 := by
    unfold u32sub u32add
    omega
  rw [hq, u32_of_lt hB]
  unfold u32div blocksToCover
  rw [if_neg (by omega)]

theorem u32sub_of_le {a b : Nat} (h : b ≤ a) (ha : a < 4294967296) : u32sub a b = a - b := by
  unfold u32sub
  omega

theorem blocksToCover_ne_zero (count B : Nat) (hpos : 0 < B) :
    blocksToCover count B ≠ 0 ↔ 0 < count := by
  rw [Ne, (blocksToCover_spec count B hpos).2.2]
  omega

theorem preIntegration_eq (core : TransferCore) (offset nbSolverBodies : Nat)
    (st : TransferState)
    (hpos : 0 < core.blockDim KernelDim.PRE_INTEGRATION)
    (hdim : core.blockDim KernelDim.PRE_INTEGRATION < 4294967296)
    (hle : offset ≤ nbSolverBodies) (hn : nbSolverBodies < 4294967296)
    (hno : nbSolverBodies - offset + core.blockDim KernelDim.PRE_INTEGRATION - 1 < 4294967296)
    (hnoStatic : offset + core.blockDim KernelDim.PRE_INTEGRATION - 1 < 4294967296) :
    ∃ st1, preIntegration core offset nbSolverBodies st = some st1 ∧
      st1.errors = st.errors ∧
      st1.issued = st.issued ++
        (if offset < nbSolverBodies then
          [TransferOp.launchKernel .PRE_INTEGRATION
            (blocksToCover (nbSolverBodies - offset) (core.blockDim KernelDim.PRE_INTEGRATION))
            (core.blockDim KernelDim.PRE_INTEGRATION) .mStream
            [.u32 offset, .u32 nbSolverBodies, .dt, .gravity, .devicePtr .mSolverBodyDataPool,
              .devicePtr (.member .mSolverBodySleepDataPool), .devicePtr .mSolverTxIDataPool,
              .devicePtr (.member .bodySimBuffer), .devicePtr (.member .mIslandNodeIndices2),
              .devicePtr (.member .mOutBody2WorldPool), .devicePtr (.member .mOutVelocityPool),
              .devicePtr (.member .mSolverBodyIndices)]]
        else []) ++
        (if 0 < offset then
          [TransferOp.launchKernel .INIT_STATIC_KINEMATICS
            (blocksToCover offset (core.blockDim KernelDim.PRE_INTEGRATION))
            (core.blockDim KernelDim.PRE_INTEGRATION) .mStream
            [.u32 offset, .u32 nbSolverBodies, .devicePtr .mSolverBodyDataPool,
              .devicePtr .mSolverTxIDataPool, .devicePtr (.member .mOutBody2WorldPool),
              .devicePtr (.member .mOutVelocityPool), .devicePtr (.member .mIslandNodeIndices2),
              .devicePtr (.member .mSolverBodyIndices)]]
        else []) := by
  generalize hB : core.blockDim KernelDim.PRE_INTEGRATION = B at hpos hdim hno hnoStatic ⊢
  have e1 : u32div (u32sub (u32add (u32sub nbSolverBodies offset) B) 1) (u32 B) =
      some (blocksToCover (nbSolverBodies - offset) B) := by
    rw [u32sub_of_le hle hn]
    exact coverBlocks_eq _ B hpos hdim (by omega) hno
  have e2 : u32div (u32sub (u32add offset B) 1) (u32 B) = some (blocksToCover offset B) :=
    coverBlocks_eq _ B hpos hdim (by omega) hnoStatic
  unfold preIntegration
  rw [hB, e1, e2]
  simp only [Option.some_bind, Option.bind_eq_bind, Option.pure_def, blocksToCover_ne_zero _ _ hpos]
  refine ⟨_, rfl, ?_, ?_⟩
  · by_cases h1 : 0 < nbSolverBodies - offset <;> by_cases h2 : 0 < offset <;>
      simp [h1, h2, TransferState.issue]
  · have h1' : 0 < nbSolverBodies - offset ↔ offset < nbSolverBodies := by omega
    by_cases h1 : offset < nbSolverBodies <;> by_cases h2 : 0 < offset <;>
      simp [h1', h1, h2, TransferState.issue]

theorem integrateCoreParallel_eq (core : TransferCore) (offset nbSolverBodies : Nat)
    (st : TransferState)
    (hpos : 0 < core.blockDim KernelDim.INTEGRATE_CORE_PARALLEL)
    (hdim : core.blockDim KernelDim.INTEGRATE_CORE_PARALLEL < 4294967296)
    (hle : offset ≤ nbSolverBodies) (hn : nbSolverBodies < 4294967296)
    (hno : nbSolverBodies - offset + core.blockDim KernelDim.INTEGRATE_CORE_PARALLEL - 1 <
      4294967296) :
    ∃ st1, integrateCoreParallel core offset nbSolverBodies st = some st1 ∧
      st1.issued = st.issued ++
        (if offset < nbSolverBodies then
          [TransferOp.launchKernel .INTEGRATE_CORE_PARALLEL
            (blocksToCover (nbSolverBodies - offset)
              (core.blockDim KernelDim.INTEGRATE_CORE_PARALLEL))
            (core.blockDim KernelDim.INTEGRATE_CORE_PARALLEL) .mStream
            [.u32 offset, .mSolverCoreDescd, .mSharedDescd, .devicePtr .mIslandIds,
              .devicePtr .mIslandStaticTouchCount,
              .devicePtr (.member .mNodeInteractionCounts)]]
        else []) ++ [TransferOp.streamFlush .mStream] := by
  generalize hB : core.blockDim KernelDim.INTEGRATE_CORE_PARALLEL = B at hpos hdim hno ⊢
  have e1 : u32div (u32sub (u32add (u32sub nbSolverBodies offset) B) 1) (u32 B) =
      some (blocksToCover (nbSolverBodies - offset) B) := by
    rw [u32sub_of_le hle hn]
    exact coverBlocks_eq _ B hpos hdim (by omega) hno
  unfold integrateCoreParallel
  rw [hB, e1]
  simp only [Option.some_bind, Option.bind_eq_bind, Option.pure_def, blocksToCover_ne_zero _ _ hpos]
  refine ⟨_, rfl, ?_⟩
  have h1' : 0 < nbSolverBodies - offset ↔ offset < nbSolverBodies := by omega
  by_cases h1 : offset < nbSolverBodies
  · simp only [h1', h1, if_true, TransferState.issued_of_issue]
    split_ifs <;> simp [TransferState.issue]
  · simp [h1', h1, TransferState.issue]

/-! ## Lemmas on the constraint upload -/

@[simp] theorem TransferState.issue_errors (op : TransferOp) (st : TransferState) :
    (st.issue op).errors = st.errors := rfl

theorem allocations_append (b : DeviceBuffer) (l1 l2 : List TransferOp) :
    allocations b (l1 ++ l2) = allocations b l1 ++ allocations b l2 := by
  simp [allocations, List.filterMap_append]

theorem fills_append (b : DeviceBuffer) (v : Nat) (l1 l2 : List TransferOp) :
    fills b v (l1 ++ l2) = fills b v l1 ++ fills b v l2 := by
  simp [fills, List.filterMap_append]

theorem gpuMemDMAUp_allocate_errors (sizes : DmaUpSizes) (args : DmaUpArgs)
    (st : TransferState) : (gpuMemDMAUp_allocate sizes args st).errors = st.errors := by
  simp only [gpuMemDMAUp_allocate, TransferState.issue_errors]

theorem gpuMemDMAUp_allocate_mNbPrev (sizes : DmaUpSizes) (args : DmaUpArgs)
    (st : TransferState) :
    (gpuMemDMAUp_allocate sizes args st).mNbPrevExceededForceElements =
      st.mNbPrevExceededForceElements := by
  simp only [gpuMemDMAUp_allocate, TransferState.issue_mNbPrev]

theorem gpuMemDMAUp_allocate_writeIndex (sizes : DmaUpSizes) (args : DmaUpArgs)
    (st : TransferState) :
    allocations DeviceBuffer.mThresholdStreamWriteIndex
        (gpuMemDMAUp_allocate sizes args st).issued =
      allocations DeviceBuffer.mThresholdStreamWriteIndex st.issued := by
  simp [gpuMemDMAUp_allocate, allocations_append, allocations]

theorem gpuMemDMAUp_staticIndices_errors (args : DmaUpArgs) (st : TransferState) :
    (gpuMemDMAUp_staticIndices args st).errors = st.errors := by
  simp only [gpuMemDMAUp_staticIndices, TransferState.issue_errors]

theorem gpuMemDMAUp_staticIndices_writeIndex (args : DmaUpArgs) (st : TransferState) :
    allocations DeviceBuffer.mThresholdStreamWriteIndex
        (gpuMemDMAUp_staticIndices args st).issued =
      allocations DeviceBuffer.mThresholdStreamWriteIndex st.issued := by
  simp [gpuMemDMAUp_staticIndices, allocations_append, allocations]

theorem gpuMemDMAUp_upload_errors (args : DmaUpArgs) (st : TransferState) :
    (gpuMemDMAUp_upload args st).errors = st.errors := by
  simp only [gpuMemDMAUp_upload, TransferState.issue_errors]

theorem gpuMemDMAUp_upload_writeIndex (args : DmaUpArgs) (st : TransferState) :
    allocations DeviceBuffer.mThresholdStreamWriteIndex
        (gpuMemDMAUp_upload args st).issued =
      allocations DeviceBuffer.mThresholdStreamWriteIndex st.issued := by
  simp [gpuMemDMAUp_upload, allocations_append, allocations]

theorem forceThresholdBuffers_errors (core : TransferCore) (data : PxgConstraintPrePrepData)
    (h : Bool) (st : TransferState) :
    (gpuMemDMAUp_forceThresholdBuffers core data h st).errors = st.errors := by
  cases h <;> simp [gpuMemDMAUp_forceThresholdBuffers]

theorem gpuMemDMAUp_errors (core : TransferCore) (sizes : DmaUpSizes) (args : DmaUpArgs)
    (st : TransferState) : (gpuMemDMAUp core sizes args st).st.errors = st.errors := by
  simp only [gpuMemDMAUp, gpuMemDMAUp_upload_errors, gpuMemDMAUp_staticIndices_errors,
    forceThresholdBuffers_errors, gpuMemDMAUp_allocate_errors]

theorem gpuMemDMAUp_writeIndex (core : TransferCore) (sizes : DmaUpSizes) (args : DmaUpArgs)
    (st : TransferState) (h : args.hasForceThresholds = true) :
    allocations DeviceBuffer.mThresholdStreamWriteIndex (gpuMemDMAUp core sizes args st).st.issued =
      allocations DeviceBuffer.mThresholdStreamWriteIndex st.issued ++
        [usizeMul 4 (u32add (u32mul (totalContactBatches args.data) 32)
          (u32mul st.mNbPrevExceededForceElements 2))] := by
  simp only [gpuMemDMAUp, gpuMemDMAUp_upload_writeIndex, gpuMemDMAUp_staticIndices_writeIndex, h,
    forceThresholdBuffers_issued, allocations_append, gpuMemDMAUp_allocate_writeIndex,
    gpuMemDMAUp_allocate_mNbPrev]
  simp [allocations, forceThresholdBuffersOps]

theorem accumulatedForceThresholdStream_fills (core : TransferCore)
    (mPrepareDesc : PxgConstraintPrepareDesc) (maxNodes : Nat) (st : TransferState) :
    fills DeviceBuffer.mThresholdStreamWriteIndex 1
        (accumulatedForceThresholdStream core mPrepareDesc maxNodes st).issued =
      fills DeviceBuffer.mThresholdStreamWriteIndex 1 st.issued ++
        [u32add (u32mul st.mNbPrevExceededForceElements 2)
          (u32mul (u32add mPrepareDesc.numContactBatches mPrepareDesc.numStaticContactBatches)
            32)] := by
  have hr : ∀ n, fills DeviceBuffer.mThresholdStreamWriteIndex 1 (radixSortOps core n) = [] := by
    intro n
    simp only [fills, List.filterMap_eq_nil_iff]
    intro op hop
    simp only [radixSortOps, List.mem_flatMap, List.mem_range, radixSortPassOps] at hop
    obtain ⟨i, -, hi⟩ := hop
    simp only [List.mem_cons, List.mem_singleton, List.not_mem_nil, or_false] at hi
    rcases hi with rfl | rfl <;> rfl
  have hl : ∀ f g bd s p l, fills DeviceBuffer.mThresholdStreamWriteIndex 1
      (TransferOp.launchKernel f g bd s p :: l) =
      fills DeviceBuffer.mThresholdStreamWriteIndex 1 l := fun _ _ _ _ _ _ => rfl
  have hc : ∀ a b n s l, fills DeviceBuffer.mThresholdStreamWriteIndex 1
      (TransferOp.memcpyDtoDAsync a b n s :: l) =
      fills DeviceBuffer.mThresholdStreamWriteIndex 1 l := fun _ _ _ _ _ => rfl
  rw [accumulatedForceThresholdStream_issued]
  simp only [fills_append, hl, hc, hr, thresholdReduceOps, List.nil_append]
  split_ifs <;> simp [fills]

theorem gpuMemDMAUp_staticIndices_mNbPrev (args : DmaUpArgs) (st : TransferState) :
    (gpuMemDMAUp_staticIndices args st).mNbPrevExceededForceElements =
      st.mNbPrevExceededForceElements := by
  simp only [gpuMemDMAUp_staticIndices, TransferState.issue_mNbPrev]

theorem gpuMemDMAUp_upload_mNbPrev (args : DmaUpArgs) (st : TransferState) :
    (gpuMemDMAUp_upload args st).mNbPrevExceededForceElements =
      st.mNbPrevExceededForceElements := by
  simp only [gpuMemDMAUp_upload, TransferState.issue_mNbPrev]

theorem forceThresholdBuffers_mNbPrev (core : TransferCore) (data : PxgConstraintPrePrepData)
    (h : Bool) (st : TransferState) :
    (gpuMemDMAUp_forceThresholdBuffers core data h st).mNbPrevExceededForceElements =
      st.mNbPrevExceededForceElements := by
  cases h <;> simp [gpuMemDMAUp_forceThresholdBuffers]

theorem gpuMemDMAUp_mNbPrev (core : TransferCore) (sizes : DmaUpSizes) (args : DmaUpArgs)
    (st : TransferState) :
    (gpuMemDMAUp core sizes args st).st.mNbPrevExceededForceElements =
      st.mNbPrevExceededForceElements := by
  simp only [gpuMemDMAUp, gpuMemDMAUp_upload_mNbPrev, gpuMemDMAUp_staticIndices_mNbPrev,
    forceThresholdBuffers_mNbPrev, gpuMemDMAUp_allocate_mNbPrev]

theorem gpuMemDmaUpBodyData_errors (core : TransferCore) (args : BodyDataArgs)
    (st : TransferState) : (gpuMemDmaUpBodyData core args st).errors = st.errors := by
  simp only [gpuMemDmaUpBodyData, TransferState.issue_errors]

theorem gpuMemDMAUpContactData_allocate_errors (core : TransferCore) (args : ContactDataArgs)
    (st : TransferState) :
    (gpuMemDMAUpContactData_allocate core args st).errors = st.errors := rfl

theorem gpuMemDMAUpContactData_upload_errors (core : TransferCore) (args : ContactDataArgs)
    (st : TransferState) :
    (gpuMemDMAUpContactData_upload core args st).errors = st.errors := rfl

theorem gpuMemDMAUpContactData_errors (core : TransferCore) (args : ContactDataArgs)
    (st : TransferState)
    (hdim : u32 (core.blockDim KernelDim.CLEAR_FRICTION_PATCH_COUNTS) ≠ 0) :
    ∃ st1, gpuMemDMAUpContactData core args st = some st1 ∧ st1.errors = st.errors := by
  have h1 := gpuMemDMAUpContactData_allocate_errors core args st
  have h2 := gpuMemDMAUpContactData_upload_errors core args
    (gpuMemDMAUpContactData_allocate core args st)
  unfold gpuMemDMAUpContactData
  rw [u32div_bind (Nat.pos_of_ne_zero hdim)]
  refine ⟨_, rfl, ?_⟩
  rw [TransferState.issue_errors]
  split_ifs
  · rw [TransferState.issue_errors, h2, h1]
  · rw [h2, h1]

/-! ## Lemmas on the radix-sort passes -/

theorem highestSetBit_fold (v n : Nat) :
    (v % 2 ^ n = 0 →
      (List.range n).foldl (fun acc i => if v / 2 ^ i % 2 = 1 then i else acc) 0 = 0) ∧
    (0 < v % 2 ^ n →
      2 ^ (List.range n).foldl (fun acc i => if v / 2 ^ i % 2 = 1 then i else acc) 0 ≤
        v % 2 ^ n ∧
      v % 2 ^ n <
        2 ^ ((List.range n).foldl (fun acc i => if v / 2 ^ i % 2 = 1 then i else acc) 0 + 1) ∧
      (List.range n).foldl (fun acc i => if v / 2 ^ i % 2 = 1 then i else acc) 0 < n) := by
  induction n with
  | zero =>
    refine ⟨fun _ => rfl, fun h => ?_⟩
    simp [Nat.mod_one] at h
  | succ n ih =>
    rw [List.range_succ, List.foldl_append]
    simp only [List.foldl_cons, List.foldl_nil]
    have hsplit : v % 2 ^ (n + 1) = v % 2 ^ n + 2 ^ n * (v / 2 ^ n % 2) := by
      rw [pow_succ, Nat.mod_mul]
    have hpos : 0 < 2 ^ n := Nat.pow_pos (by decide)
    have hlt : v % 2 ^ n < 2 ^ n := Nat.mod_lt _ hpos
    have hbit : v / 2 ^ n % 2 = 0 ∨ v / 2 ^ n % 2 = 1 := by omega
    rcases hbit with hb | hb
    · have hne : ¬ v / 2 ^ n % 2 = 1 := by omega
      rw [if_neg hne, hsplit, hb, Nat.mul_zero, Nat.add_zero]
      refine ⟨ih.1, fun h => ?_⟩
      obtain ⟨h1, h2, h3⟩ := ih.2 h
      exact ⟨h1, h2, by omega⟩
    · rw [if_pos hb, hsplit, hb, Nat.mul_one]
      refine ⟨fun h => by omega, fun _ => ⟨by omega, ?_, by omega⟩⟩
      rw [pow_succ]
      omega

theorem PxHighestSetBit_spec (v : Nat) (h1 : 1 ≤ v) (h2 : v < 4294967296) :
    2 ^ PxHighestSetBit v ≤ v ∧ v < 2 ^ (PxHighestSetBit v + 1) ∧ PxHighestSetBit v < 32 := by
  have h := (highestSetBit_fold v 32).2
  have hv : v % 2 ^ 32 = v := Nat.mod_eq_of_lt (by norm_num; exact h2)
  rw [hv] at h
  exact h h1

theorem nbPasses_spec (maxNodes : Nat) (h1 : 1 ≤ maxNodes) (h2 : maxNodes < 4294967296) :
    nbPasses maxNodes % 2 = 0 ∧ 2 ≤ nbPasses maxNodes ∧ nbPasses maxNodes ≤ 8 ∧
    maxNodes < 2 ^ (4 * nbPasses maxNodes) ∧
    ∀ m, m % 2 = 0 → maxNodes < 2 ^ (4 * m) → nbPasses maxNodes ≤ m := by
  obtain ⟨ha, hb, hc⟩ := PxHighestSetBit_spec maxNodes h1 h2
  generalize hh : PxHighestSetBit maxNodes = h at ha hb hc
  have hn : nbPasses maxNodes = if (h + 4) / 4 % 2 = 1 then (h + 4) / 4 + 1 else (h + 4) / 4 := by
    unfold nbPasses
    rw [hh]
    unfold u32add
    dsimp only
    have e1 : (h + 1) % 4294967296 = h + 1 := by omega
    have e2 : (h + 1 + 3) % 4294967296 = h + 4 := by omega
    rw [e1, e2]
    split_ifs <;> omega
  have hge : h + 1 ≤ 4 * nbPasses maxNodes := by
    rw [hn]
    split_ifs <;> omega
  refine ⟨?_, ?_, ?_, ?_, ?_⟩
  · rw [hn]
    split_ifs <;> omega
  · rw [hn]
    split_ifs <;> omega
  · rw [hn]
    split_ifs <;> omega
  · exact lt_of_lt_of_le hb (Nat.pow_le_pow_right (by decide) hge)
  · intro m hm hlt
    have hlt2 : 2 ^ h < 2 ^ (4 * m) := lt_of_le_of_lt ha hlt
    have hh4 : h < 4 * m := (Nat.pow_lt_pow_iff_right (by decide)).1 hlt2
    rw [hn]
    split_ifs <;> omega

theorem radixSortOps_observed (core : TransferCore) (n : Nat) (hn : n ≤ 8) :
    (radixSortOps core n).map (fun op => (op.kernel, op.sortDescriptor, op.startBit)) =
      (List.range n).flatMap (fun i =>
        [(some TransferKernelId.RADIXSORT_SINGLEBLOCK, some (i % 2), some (4 * i)),
          (some TransferKernelId.RADIXSORT_CALCULATERANKS, some (i % 2), some (4 * i))]) := by
  unfold radixSortOps
  rw [List.map_flatMap]
  apply List.flatMap_congr
  intro i hi
  have hi' : i < n := List.mem_range.1 hi
  have h4 : u32 (4 * i) = 4 * i := u32_of_lt (by omega)
  simp only [radixSortPassOps, List.map_cons, List.map_nil, TransferOp.kernel,
    TransferOp.sortDescriptor, TransferOp.startBit, h4]

theorem radixSortOps_last (core : TransferCore) (n : Nat) (hn : n % 2 = 0) (hpos : 0 < n) :
    (radixSortOps core n).getLast?.bind TransferOp.sortDescriptor = some 1 := by
  obtain ⟨k, rfl⟩ : ∃ k, n = k + 1 := ⟨n - 1, by omega⟩
  have hk : k % 2 = 1 := by omega
  simp only [radixSortOps, List.range_succ, List.flatMap_append, List.flatMap_cons,
    List.flatMap_nil, List.append_nil, radixSortPassOps]
  rw [List.getLast?_append_of_ne_nil _ (by simp)]
  simp [TransferOp.sortDescriptor, hk]

/-! ## Lemmas on the serialization padding -/

theorem land_pow_two_sub_one (x k : Nat) : Nat.land x (2 ^ k - 1) = x % 2 ^ k :=
  Nat.and_pow_two_sub_one_eq_mod x k

theorem getPadding_pow_two (value k : Nat) (hk : k ≤ 31) :
    Sn.getPadding value (2 ^ k) = (2 ^ k - value % 2 ^ k) % 2 ^ k := by
  have hpos : 0 < 2 ^ k := Nat.pow_pos (by decide)
  have hle : 2 ^ k ≤ 2 ^ 31 := Nat.pow_le_pow_right (by decide) hk
  have h31 : (2:Nat) ^ 31 = 2147483648 := by norm_num
  have hmask : u32sub (2 ^ k) 1 = 2 ^ k - 1 := by
    unfold u32sub
    omega
  have hdvd : 2 ^ k ∣ 4294967296 := by
    have : (4294967296 : Nat) = 2 ^ 32 := by norm_num
    rw [this]
    exact Nat.pow_dvd_pow 2 (by omega)
  have hover : Nat.land (u32 value) (2 ^ k - 1) = value % 2 ^ k := by
    rw [land_pow_two_sub_one]
    unfold u32
    exact Nat.mod_mod_of_dvd value hdvd
  have hlt : value % 2 ^ k < 2 ^ k := Nat.mod_lt _ hpos
  have hsub : u32sub (2 ^ k) (value % 2 ^ k) = 2 ^ k - value % 2 ^ k := by
    unfold u32sub
    omega
  unfold Sn.getPadding
  simp only [hmask, hover, hsub, land_pow_two_sub_one]

/-! ## Lemmas on the partition dispatch -/

theorem partitionBatchCount_eq (cpp : Nat → Int) (n c : Nat)
    (hw : CumulativeEndIndices cpp n) (hc : c < n) :
    (partitionBatchCount cpp c : Int) = batchesInPartition cpp c ∧
    partitionBatchCount cpp c < 2147483648 := by
  obtain ⟨hr, hm⟩ := hw
  unfold partitionBatchCount partitionStart batchesInPartition u32sub i32ToU32
  have hcur := hr c hc
  by_cases h0 : c = 0
  · subst h0
    simp only [if_true]
    omega
  · simp only [if_neg h0]
    have hprev := hr (c - 1) (by omega)
    have hmono := hm (c - 1) (by omega) (by omega)
    rw [Nat.sub_add_cancel (by omega)] at hmono
    omega

theorem cumulativeEndIndices_init {cpp : Nat → Int} {n : Nat}
    (hw : CumulativeEndIndices cpp (n + 1)) : CumulativeEndIndices cpp n :=
  ⟨fun c hc => hw.1 c (by omega), fun c hc hc' => hw.2 c (by omega) (by omega)⟩

theorem partitionBatchCount_sum (cpp : Nat → Int) (n : Nat) (hw : CumulativeEndIndices cpp n) :
    (((List.range n).map (partitionBatchCount cpp)).sum : Int) =
      if n = 0 then 0 else cpp (n - 1) := by
  induction n with
  | zero => simp
  | succ n ih =>
    have h1 := ih (cumulativeEndIndices_init hw)
    have h2 := (partitionBatchCount_eq cpp (n + 1) n hw (by omega)).1
    rw [List.range_succ, List.map_append, List.sum_append, List.map_cons, List.map_nil,
      List.sum_cons, List.sum_nil, Nat.add_zero]
    rw [Nat.cast_add, h1, h2]
    unfold batchesInPartition
    simp only [Nat.add_sub_cancel, if_neg (Nat.succ_ne_zero n)]
    split_ifs <;> omega

theorem nbBlocks_spec (core : SolverCore) (hv : SolveBlockDimsValid core.blockDim)
    (cpp : Nat → Int) (c : Nat)
    (hno : partitionBatchCount cpp c * 32 + core.blockDim.SOLVE_BLOCK_PARTITION - 1 <
      4294967296) :
    (0 < nbBlocks core cpp c ↔ 0 < partitionBatchCount cpp c) ∧
    partitionBatchCount cpp c * 32 ≤ nbBlocks core cpp c * core.blockDim.SOLVE_BLOCK_PARTITION ∧
    nbBlocks core cpp c * core.blockDim.SOLVE_BLOCK_PARTITION <
      partitionBatchCount cpp c * 32 + core.blockDim.SOLVE_BLOCK_PARTITION := by
  obtain ⟨⟨h1, h1'⟩, -⟩ := hv
  have e : nbBlocks core cpp c = (partitionBatchCount cpp c * 32 +
      core.blockDim.SOLVE_BLOCK_PARTITION - 1) / core.blockDim.SOLVE_BLOCK_PARTITION := by
    unfold nbBlocks
    rw [u32_of_lt h1']
    congr 1
    unfold u32sub u32add u32mul PXG_BATCH_SIZE
    omega
  rw [e]
  generalize partitionBatchCount cpp c = n at hno ⊢
  generalize core.blockDim.SOLVE_BLOCK_PARTITION = B at h1 h1' hno ⊢
  have hdiv : (n * 32 + B - 1) / B * B ≤ n * 32 + B - 1 := Nat.div_mul_le_self _ _
  have hlt : n * 32 + B - 1 < ((n * 32 + B - 1) / B + 1) * B := by
    have := Nat.lt_div_mul_add (a := n * 32 + B - 1) h1
    rw [Nat.add_mul, Nat.one_mul]
    exact this
  rw [Nat.add_mul, Nat.one_mul] at hlt
  refine ⟨?_, by omega, by omega⟩
  rw [Nat.div_pos_iff h1.ne']
  omega

theorem nbArtiBlocks_spec (core : SolverCore) (hv : SolveBlockDimsValid core.blockDim)
    (acpp : Nat → Int) (c : Nat) (hlt : partitionBatchCount acpp c < 2147483648) :
    (0 < nbArtiBlocks core acpp c ↔ 0 < partitionBatchCount acpp c) ∧
    partitionBatchCount acpp c ≤ nbArtiBlocks core acpp c * numWarpsPerBlock core ∧
    nbArtiBlocks core acpp c * numWarpsPerBlock core <
      partitionBatchCount acpp c + numWarpsPerBlock core := by
  obtain ⟨-, -, -, -, -, h6, h6'⟩ := hv
  have hw1 : 0 < numWarpsPerBlock core := by
    unfold numWarpsPerBlock WARP_SIZE u32; omega
  have hw2 : numWarpsPerBlock core < 134217728 := by
    unfold numWarpsPerBlock WARP_SIZE u32; omega
  have e : nbArtiBlocks core acpp c = (partitionBatchCount acpp c + numWarpsPerBlock core - 1) /
      numWarpsPerBlock core := by
    unfold nbArtiBlocks
    congr 1
    unfold u32sub u32add
    omega
  rw [e]
  generalize partitionBatchCount acpp c = n at hlt ⊢
  generalize numWarpsPerBlock core = W at hw1 hw2 ⊢
  have hdiv : (n + W - 1) / W * W ≤ n + W - 1 := Nat.div_mul_le_self _ _
  have hlt2 : n + W - 1 < ((n + W - 1) / W + 1) * W := by
    have := Nat.lt_div_mul_add (a := n + W - 1) hw1
    rw [Nat.add_mul, Nat.one_mul]
    exact this
  rw [Nat.add_mul, Nat.one_mul] at hlt2
  refine ⟨?_, by omega, by omega⟩
  rw [Nat.div_pos_iff hw1.ne']
  omega

theorem partitionOps_rigidLaunch (core : SolverCore) (cpp acpp : Nat → Int) (a : Nat)
    (d anyArti : Bool) (c : Nat) :
    (partitionOps core cpp acpp a d anyArti c).filterMap rigidLaunch =
      if 0 < nbBlocks core cpp c then
        [(c, nbBlocks core cpp c, core.blockDim.SOLVE_BLOCK_PARTITION)] else [] := by
  unfold partitionOps
  simp only [List.filterMap_append]
  split_ifs <;> simp_all [rigidLaunch]

theorem partitionOps_artiLaunch (core : SolverCore) (cpp acpp : Nat → Int) (a : Nat)
    (d anyArti : Bool) (c : Nat) :
    (partitionOps core cpp acpp a d anyArti c).filterMap artiLaunch =
      if 0 < nbArtiBlocks core acpp c then
        [(c, nbArtiBlocks core acpp c, WARP_SIZE, numWarpsPerBlock core)] else [] := by
  unfold partitionOps
  simp only [List.filterMap_append]
  split_ifs <;> simp_all [artiLaunch]

theorem averageVelocityOps_noPartitionLaunch (core : SolverCore) (context : PxgIslandContext) :
    (averageVelocityOps core context).filterMap rigidLaunch = [] ∧
    (averageVelocityOps core context).filterMap artiLaunch = [] := by
  unfold averageVelocityOps
  split_ifs <;> simp [rigidLaunch, artiLaunch]

theorem launchShape_withoutIslandIndex (op : Op) :
    launchShape (withoutIslandIndex op) = launchShape op := by
  unfold withoutIslandIndex
  split <;> rfl

theorem partitionOps_withoutIslandIndex (core : SolverCore) (cpp acpp : Nat → Int) (a : Nat)
    (d anyArti : Bool) (c : Nat) :
    (partitionOps core cpp acpp a d anyArti c).map withoutIslandIndex =
      partitionOps core cpp acpp 0 d anyArti c := by
  unfold partitionOps
  simp only [List.map_append]
  split_ifs <;> simp [withoutIslandIndex]

theorem averageVelocityOps_withoutIslandIndex (core : SolverCore) (context : PxgIslandContext) :
    (averageVelocityOps core context).map withoutIslandIndex =
      averageVelocityOps core context := by
  unfold averageVelocityOps
  split_ifs <;> simp [withoutIslandIndex]

theorem averageVelocityOps_congr (core : SolverCore) (c1 c2 : PxgIslandContext)
    (h : c1.mBodyCount = c2.mBodyCount) :
    averageVelocityOps core c1 = averageVelocityOps core c2 := by
  unfold averageVelocityOps nbAverageBlocks
  rw [h]

theorem partitionStart_congr (e1 e2 : Nat → Int) (n c : Nat) (hc : c < n)
    (h : ∀ i, i < n → e1 i = e2 i) : partitionStart e1 c = partitionStart e2 c := by
  unfold partitionStart
  split_ifs with h0
  · rfl
  · rw [h (c - 1) (by omega)]

theorem partitionOps_congr (core : SolverCore) (cpp acpp cpp2 acpp2 : Nat → Int) (a : Nat)
    (d anyArti : Bool) (n c : Nat) (hc : c < n)
    (h1 : ∀ i, i < n → cpp i = cpp2 i) (h2 : ∀ i, i < n → acpp i = acpp2 i) :
    partitionOps core cpp acpp a d anyArti c = partitionOps core cpp2 acpp2 a d anyArti c := by
  have e1 : nbBlocks core cpp c = nbBlocks core cpp2 c := by
    unfold nbBlocks partitionBatchCount
    rw [h1 c hc, partitionStart_congr cpp cpp2 n c hc h1]
  have e2 : nbArtiBlocks core acpp c = nbArtiBlocks core acpp2 c := by
    unfold nbArtiBlocks partitionBatchCount
    rw [h2 c hc, partitionStart_congr acpp acpp2 n c hc h2]
  unfold partitionOps
  rw [e1, e2]

theorem solvePartitionsOps_withoutIslandIndex (core : SolverCore)
    (islandContexts : Nat → PxgIslandContext) (cpp acpp : Nat → Int) (a : Nat)
    (d anyArti : Bool) :
    (solvePartitionsOps core islandContexts cpp acpp a d anyArti).map withoutIslandIndex =
      (List.range (islandContexts a).mNumPartitions).flatMap
        (partitionOps core cpp acpp 0 d anyArti) ++
      averageVelocityOps core (islandContexts a) := by
  unfold solvePartitionsOps
  rw [List.map_append, List.map_flatMap, averageVelocityOps_withoutIslandIndex]
  congr 1
  apply List.flatMap_congr
  intro c _
  exact partitionOps_withoutIslandIndex core cpp acpp a d anyArti c

theorem solvePartitionsOps_islandOf (core : SolverCore)
    (islandContexts : Nat → PxgIslandContext) (cpp acpp : Nat → Int) (a : Nat)
    (d anyArti : Bool) :
    ∀ op ∈ solvePartitionsOps core islandContexts cpp acpp a d anyArti,
      ∀ i, islandOf op = some i → i = a := by
  intro op hop i hi
  unfold solvePartitionsOps at hop
  rw [List.mem_append, List.mem_flatMap] at hop
  rcases hop with ⟨c, -, hc⟩ | hop
  · unfold partitionOps at hc
    simp only [List.mem_append] at hc
    rcases hc with ((h | h) | h) | h <;> split_ifs at h <;>
      simp only [List.mem_singleton, List.not_mem_nil] at h <;>
      subst h <;> simp [islandOf] at hi <;> omega
  · unfold averageVelocityOps at hop
    split_ifs at hop <;> simp only [List.mem_singleton, List.not_mem_nil] at hop
    subst hop
    simp [islandOf] at hi

/-! ## Lemmas on the error reports of the solve stage -/

theorem reportsOf_cons (core : SolverCore) (prev : List Op) (op : Op) (rest : List Op) :
    reportsOf core prev (op :: rest) =
      reportOf core (prev ++ [op]) op ++ reportsOf core (prev ++ [op]) rest := rfl

theorem reportsOf_append (core : SolverCore) (prev a b : List Op) :
    reportsOf core prev (a ++ b) = reportsOf core prev a ++ reportsOf core (prev ++ a) b := by
  induction a generalizing prev with
  | nil => simp [reportsOf]
  | cons x xs ih =>
    have e := ih (prev ++ [x])
    rw [List.append_assoc, List.singleton_append] at e
    show _ ++ reportsOf core (prev ++ [x]) (xs ++ b) =
      (_ ++ reportsOf core (prev ++ [x]) xs) ++ _
    rw [e, List.append_assoc]

theorem extends_refl (core : SolverCore) (st : SolverState) : Extends core st st :=
  ⟨[], by simp, by simp [reportsOf]⟩

theorem extends_trans {core : SolverCore} {a b c : SolverState}
    (h1 : Extends core a b) (h2 : Extends core b c) : Extends core a c := by
  obtain ⟨o1, i1, e1⟩ := h1
  obtain ⟨o2, i2, e2⟩ := h2
  refine ⟨o1 ++ o2, ?_, ?_⟩
  · rw [i2, i1, List.append_assoc]
  · rw [e2, e1, i1, reportsOf_append, List.append_assoc]

theorem extends_issue {core : SolverCore} {st st1 : SolverState} {op : Op}
    (h : Extends core st st1) (hop : reportsOf core st1.issued [op] = []) :
    Extends core st (issue op st1) :=
  extends_trans h ⟨[op], rfl, by rw [hop]; simp [issue]⟩

theorem extends_launch {core : SolverCore} {st st1 : SolverState} {f : KernelId}
    {g bx bw : Nat} {s : Stream} {p : List KernelParam} (h : Extends core st st1) :
    Extends core st (launchKernelChecked core f g bx bw s p st1) := by
  refine extends_trans h ⟨[Op.launchKernel f g bx bw s p], ?_, ?_⟩
  · unfold launchKernelChecked launchKernel reportIfFailed
    dsimp only
    split_ifs <;> rfl
  · unfold launchKernelChecked launchKernel reportIfFailed
    simp only [reportsOf, reportOf, issue, List.append_nil]
    split_ifs <;> simp

theorem extends_forEach {core : SolverCore} {st st1 : SolverState} {n : Nat}
    {body : Nat → SolverState → SolverState}
    (hb : ∀ i s, Extends core s (body i s)) (h : Extends core st st1) :
    Extends core st (forEach n body st1) := by
  unfold forEach
  induction n with
  | zero => simpa using h
  | succ k ih =>
    rw [List.range_succ, List.foldl_append]
    exact extends_trans ih (hb _ _)

theorem extends_forLoop {core : SolverCore} {σ : Type} (proj : σ → SolverState)
    {body : Nat → σ → Option σ}
    (hb : ∀ i s s1, body i s = some s1 → Extends core (proj s) (proj s1)) (n : Nat) :
    ∀ s s1, forLoop n body s = some s1 → Extends core (proj s) (proj s1) := by
  induction n with
  | zero =>
    intro s s1 h
    rw [forLoop_zero] at h
    cases h
    exact extends_refl core _
  | succ k ih =>
    intro s s1 h
    rw [forLoop_succ] at h
    cases hk : forLoop k body s with
    | none => rw [hk] at h; cases h
    | some s2 =>
      rw [hk] at h
      exact extends_trans (ih s s2 hk) (hb k s2 s1 h)

theorem reports_forLoop {core : SolverCore} {body : Nat → SolverState → Option SolverState}
    (hb : ∀ i, Reports core (body i)) (n : Nat) : Reports core (forLoop n body) :=
  extends_forLoop id hb n

theorem solvePartitions_partition_reports (core : SolverCore) (cpp acpp : Nat → Int) (a : Nat)
    (d anyArti : Bool) (tpw wpb c : Nat) (s s1 : PartitionLoopState)
    (h : solvePartitions_partition core cpp acpp a d anyArti tpw wpb c s = some s1) :
    Extends core s.st s1.st := by
  unfold solvePartitions_partition at h
  simp only [Option.bind_eq_bind, Option.bind_eq_some, Option.pure_def, Option.some.injEq] at h
  obtain ⟨nb, -, nba, -, rfl⟩ := h
  dsimp only
  split_ifs <;>
    repeat (first | exact extends_refl core _ | apply extends_launch |
      refine extends_issue ?_ rfl)

theorem solvePartitions_averageVelocity_reports (core : SolverCore)
    (context : PxgIslandContext) : Reports core (solvePartitions_averageVelocity core context) := by
  intro st st1 h
  unfold solvePartitions_averageVelocity at h
  simp only [Option.bind_eq_bind, Option.bind_eq_some, Option.pure_def] at h
  obtain ⟨nb, -, h⟩ := h
  split_ifs at h <;> cases h <;>
    repeat (first | exact extends_refl core _ | apply extends_launch)

theorem solvePartitions_reports (core : SolverCore) (islandContexts : Nat → PxgIslandContext)
    (cpp acpp : Nat → Int) (a : Nat) (d anyArti : Bool) :
    Reports core (solvePartitions core islandContexts cpp acpp a d anyArti) := by
  intro st st1 h
  unfold solvePartitions at h
  simp only [Option.bind_eq_bind, Option.bind_eq_some] at h
  obtain ⟨s, hs, h⟩ := h
  exact extends_trans
    (extends_forLoop PartitionLoopState.st
      (fun c s s1 => solvePartitions_partition_reports core cpp acpp a d anyArti _ _ c s s1)
      _ _ _ hs)
    (solvePartitions_averageVelocity_reports core _ _ _ h)

theorem writeBackBlock_reports (core : SolverCore) (a : Nat) (context : PxgIslandContext) :
    Reports core (writeBackBlock core a context) := by
  intro st st1 h
  unfold writeBackBlock at h
  simp only [Option.bind_eq_bind, Option.bind_eq_some, Option.pure_def] at h
  obtain ⟨nb, -, h⟩ := h
  split_ifs at h <;> cases h <;>
    repeat (first | exact extends_refl core _ | apply extends_launch)

theorem zeroErrorAccumulators_extends (core : SolverCore) (st : SolverState) :
    Extends core st (zeroErrorAccumulators core st) := by
  unfold zeroErrorAccumulators
  repeat (first | exact extends_refl core _ | refine extends_issue ?_ rfl)

theorem solveStaticConstraints_reports (core : SolverCore) (context : PxgIslandContext)
    (a : Nat) (d : Bool) : Reports core (solveStaticConstraints core context a d) := by
  intro st st1 h
  unfold solveStaticConstraints at h
  simp only [Option.bind_eq_bind, Option.bind_eq_some, Option.pure_def] at h
  obtain ⟨q, -, h⟩ := h
  split_ifs at h <;> cases h <;>
    repeat (first | exact extends_refl core _ | apply extends_launch)

theorem propagateBodyVelocity_reports (core : SolverCore) (context : PxgIslandContext) :
    Reports core (propagateBodyVelocity core context) := by
  intro st st1 h
  unfold propagateBodyVelocity at h
  simp only [Option.bind_eq_bind, Option.bind_eq_some, Option.pure_def] at h
  obtain ⟨q, -, h⟩ := h
  split_ifs at h <;> cases h <;>
    repeat (first | exact extends_refl core _ | apply extends_launch)

theorem positionExtendedBodies_extends (core : SolverCore) (context : PxgIslandContext)
    (b : Nat) (st : SolverState) :
    Extends core st (solveContactMultiBlockParallel_positionExtendedBodies core context b st) := by
  unfold solveContactMultiBlockParallel_positionExtendedBodies
  dsimp only
  split_ifs <;>
    repeat (first | exact extends_refl core _ | refine extends_issue ?_ rfl |
      refine extends_forEach (fun i s => extends_issue (extends_refl core s) rfl) ?_)

theorem velocityExtendedBodies_extends (core : SolverCore) (st : SolverState) :
    Extends core st (solveContactMultiBlockParallel_velocityExtendedBodies core st) := by
  unfold solveContactMultiBlockParallel_velocityExtendedBodies
  dsimp only
  split_ifs <;>
    repeat (first | exact extends_refl core _ | refine extends_issue ?_ rfl |
      refine extends_forEach (fun i s => extends_issue (extends_refl core s) rfl) ?_)

theorem positionIteration_reports (core : SolverCore) (islandContexts : Nat → PxgIslandContext)
    (cpp acpp : Nat → Int) (a : Nat) (anyArti isTgs : Bool) (b : Nat) :
    Reports core (solveContactMultiBlockParallel_positionIteration core islandContexts cpp acpp
      a anyArti isTgs b) := by
  intro st st1 h
  unfold solveContactMultiBlockParallel_positionIteration at h
  simp only [Option.bind_eq_bind, Option.bind_eq_some] at h
  obtain ⟨s1, h1, s2, h2, h3⟩ := h
  have e0 : Extends core st
      (if core.residualReportingEnabled then zeroErrorAccumulators core st else st) := by
    split_ifs
    · exact zeroErrorAccumulators_extends core st
    · exact extends_refl core st
  have e1 := solvePartitions_reports core islandContexts cpp acpp a _ anyArti _ _ h1
  have e2 := solveStaticConstraints_reports core _ a _ _ _ h2
  have e3 := propagateBodyVelocity_reports core _ _ _ h3
  refine extends_trans (extends_trans (extends_trans e0 e1) ?_) (extends_trans e2 e3)
  refine extends_trans ?_ (positionExtendedBodies_extends core _ b _)
  exact extends_issue (extends_refl core _) rfl

theorem velocityIteration_reports (core : SolverCore) (islandContexts : Nat → PxgIslandContext)
    (cpp acpp : Nat → Int) (a : Nat) (anyArti isTgs d : Bool) (b : Nat) :
    Reports core (solveContactMultiBlockParallel_velocityIteration core islandContexts cpp acpp
      a anyArti isTgs d b) := by
  intro st st1 h
  unfold solveContactMultiBlockParallel_velocityIteration at h
  simp only [Option.bind_eq_bind, Option.bind_eq_some] at h
  obtain ⟨s1, h1, s2, h2, h3⟩ := h
  have e0 : Extends core st
      (if core.residualReportingEnabled then zeroErrorAccumulators core st else st) := by
    split_ifs
    · exact zeroErrorAccumulators_extends core st
    · exact extends_refl core st
  have e1 := solvePartitions_reports core islandContexts cpp acpp a _ anyArti _ _ h1
  have e2 := solveStaticConstraints_reports core _ a _ _ _ h2
  have e3 : Extends core s2 st1 := by
    split_ifs at h3
    · exact propagateBodyVelocity_reports core _ _ _ h3
    · cases h3
      exact extends_refl core _
  refine extends_trans (extends_trans (extends_trans e0 e1) ?_) (extends_trans e2 e3)
  refine extends_trans ?_ (velocityExtendedBodies_extends core _)
  exact extends_issue (extends_refl core _) rfl

theorem concludeAndWriteBack_reports (core : SolverCore) (context : PxgIslandContext)
    (a : Nat) : Reports core (solveContactMultiBlockParallel_concludeAndWriteBack core context a) := by
  intro st st1 h
  unfold solveContactMultiBlockParallel_concludeAndWriteBack at h
  simp only [Option.bind_eq_bind, Option.bind_eq_some, Option.pure_def, Option.some.injEq] at h
  obtain ⟨nb, -, nb2, -, rfl⟩ := h
  split_ifs <;>
    repeat (first | exact extends_refl core _ | apply extends_launch |
      refine extends_issue ?_ rfl)

theorem residualReport_reports (core : SolverCore) (context : PxgIslandContext) (a n : Nat) :
    Reports core (solveContactMultiBlockParallel_residualReport core context a n) := by
  intro st st1 h
  unfold solveContactMultiBlockParallel_residualReport at h
  simp only [Option.bind_eq_bind, Option.bind_eq_some, Option.pure_def, Option.some.injEq] at h
  obtain ⟨s1, h1, rfl⟩ := h
  refine extends_trans (writeBackBlock_reports core a context _ _ h1) ?_
  split_ifs <;>
    repeat (first | exact extends_refl core _ | apply extends_launch |
      refine extends_issue ?_ rfl)

theorem finalWriteBack_reports (core : SolverCore) (context : PxgIslandContext) (a : Nat) :
    Reports core (solveContactMultiBlockParallel_finalWriteBack core context a) := by
  intro st st1 h
  unfold solveContactMultiBlockParallel_finalWriteBack at h
  simp only [Option.bind_eq_bind, Option.bind_eq_some, Option.pure_def, Option.some.injEq] at h
  obtain ⟨s1, h1, rfl⟩ := h
  refine extends_trans (writeBackBlock_reports core a context _ _ h1) ?_
  split_ifs <;>
    repeat (first | exact extends_refl core _ | refine extends_issue ?_ rfl)

theorem island_reports (core : SolverCore) (islandContexts : Nat → PxgIslandContext)
    (cpp acpp : Nat → Int) (n a : Nat) :
    Reports core (solveContactMultiBlockParallel_island core islandContexts cpp acpp n a) := by
  intro st st1 h
  unfold solveContactMultiBlockParallel_island at h
  simp only [Option.bind_eq_bind, Option.bind_eq_some] at h
  obtain ⟨s1, h1, s2, h2, s3, h3, s4, h4, h5⟩ := h
  have e1 := reports_forLoop (fun b => positionIteration_reports core islandContexts cpp acpp a
    _ false b) _ _ _ h1
  have e2 := concludeAndWriteBack_reports core _ a _ _ h2
  have e3 : Extends core s2 s3 := by
    split_ifs at h3
    · exact residualReport_reports core _ a n _ _ h3
    · cases h3
      exact extends_refl core _
  have e4 := reports_forLoop (fun b => velocityIteration_reports core islandContexts cpp acpp a
    _ false true b) _ _ _ h4
  have e5 := finalWriteBack_reports core _ a _ _ h5
  exact extends_trans (extends_trans (extends_trans (extends_trans e1 e2) e3) e4) e5

theorem solveContactMultiBlockParallel_reports (core : SolverCore)
    (islandContexts : Nat → PxgIslandContext) (numIslands : Nat) (cpp acpp : Nat → Int)
    (n : Nat) :
    Reports core (solveContactMultiBlockParallel core islandContexts numIslands cpp acpp n) := by
  intro st st1 h
  unfold solveContactMultiBlockParallel at h
  exact extends_trans (zeroErrorAccumulators_extends core st)
    (reports_forLoop (fun a => island_reports core islandContexts cpp acpp n a) _ _ _ h)

theorem reportsOf_of_issues {core : SolverCore} {f : SolverState → Option SolverState}
    {ops : List Op} (hi : Issues f ops) (hr : Reports core f) (st : SolverState) :
    ∃ st1, f st = some st1 ∧ st1.issued = st.issued ++ ops ∧
      st1.errors = st.errors ++ reportsOf core st.issued ops := by
  obtain ⟨st1, h1, h2⟩ := hi st
  obtain ⟨ops2, h3, h4⟩ := hr st st1 h1
  have : ops2 = ops := List.append_cancel_left (h3.symm.trans h2)
  subst this
  exact ⟨st1, h1, h2, h4⟩

theorem mem_reportsOf (core : SolverCore) (prev ops : List Op) (f : KernelId) :
    f ∈ reportsOf core prev ops ↔
      ∃ pre g bx bw s p post, ops = pre ++ Op.launchKernel f g bx bw s p :: post ∧
        core.launchResult (prev ++ pre ++ [Op.launchKernel f g bx bw s p]) ≠ CUDA_SUCCESS := by
  constructor
  · intro h
    induction ops generalizing prev with
    | nil => simp [reportsOf] at h
    | cons op rest ih =>
      rw [reportsOf_cons, List.mem_append] at h
      rcases h with h | h
      · cases op with
        | launchKernel f2 g bx bw s p =>
          simp only [reportOf] at h
          split_ifs at h with hc
          · rw [List.mem_singleton] at h
            subst h
            exact ⟨[], g, bx, bw, s, p, rest, rfl, by simpa using hc⟩
          · simp at h
        | _ => simp [reportOf] at h
      · obtain ⟨pre, g, bx, bw, s, p, post, h1, h2⟩ := ih _ h
        refine ⟨op :: pre, g, bx, bw, s, p, post, by rw [h1]; rfl, ?_⟩
        simpa [List.append_assoc] using h2
  · rintro ⟨pre, g, bx, bw, s, p, post, rfl, h⟩
    rw [reportsOf_append, List.mem_append]
    right
    rw [reportsOf_cons, List.mem_append]
    left
    simp only [reportOf]
    rw [if_pos h]
    exact List.mem_singleton_self f

/-! ## Lemmas on the force-threshold pipeline -/

theorem exceededPairs_nodup (threshold : Nat → Int) (stream : List ThresholdStreamElement) :
    (exceededPairs threshold stream).Nodup :=
  (List.nodup_dedup _).filter _

theorem mem_exceededPairs (threshold : Nat → Int) (stream : List ThresholdStreamElement)
    (c : Nat) :
    c ∈ exceededPairs threshold stream ↔
      c ∈ stream.map (fun e => e.key) ∧ threshold c < accumulatedForcePerPair stream c := by
  simp [exceededPairs]

theorem syncDmaBack_carry (desc : PxgSolverCoreDesc) (w : Bool) (st : TransferState) :
    (syncDmaBack desc w false st).1 = desc.nbForceChangeElements ∧
    (syncDmaBack desc w false st).2.mNbPrevExceededForceElements =
      desc.nbExceededThresholdElements := by
  cases w <;> exact ⟨rfl, rfl⟩

theorem forceChangedPairs_count_new (previous current : List Nat) (c : Nat)
    (hn : current.Nodup) (hc : c ∈ current) (hp : c ∉ previous) :
    (forceChangedPairs previous current).count c = 1 := by
  unfold forceChangedPairs
  rw [List.count_append]
  have h1 : (current.filter (fun k => k ∉ previous)).count c = 1 := by
    apply List.count_eq_one_of_mem (hn.filter _)
    simp [hc, hp]
  have h2 : (previous.filter (fun k => k ∉ current)).count c = 0 := by
    apply List.count_eq_zero_of_not_mem
    simp [hp]
  rw [h1, h2]

theorem forceChangedPairs_not_mem (previous current : List Nat) (c : Nat)
    (hc : c ∈ current) (hp : c ∈ previous) : c ∉ forceChangedPairs previous current := by
  simp [forceChangedPairs, hc, hp]

/-! ## Claims -/

/-- C1: in position iteration `b` of island `a` every friction flag that is
passed on (to the rigid and articulation partition kernels, to the
articulation internal solve and to the static-constraint kernels) is true
if and only if `mFrictionEveryIteration` is set or `N - b <= 3`, where `N` is
the island's number of position iterations; with `mFrictionEveryIteration`
off this is the case exactly for the iterations `b >= N - min(N, 3)`, the
last `min(N, 3)` ones.  The articulation internal solve is always issued, so
the flag is passed at least once. -/
theorem C1_position_iteration_friction (core : SolverCore)
    (hv : SolveBlockDimsValid core.blockDim) (islandContexts : Nat → PxgIslandContext)
    (constraintsPerPartition artiConstraintsPerPartition : Nat → Int) (a : Nat)
    (anyArti isTgs : Bool) (b : Nat) (st : SolverState) :
    ∃ st1 ops,
      solveContactMultiBlockParallel_positionIteration core islandContexts
        constraintsPerPartition artiConstraintsPerPartition a anyArti isTgs b st = some st1 ∧
      st1.issued = st.issued ++ ops ∧
      (∃ f, Op.propagateRigidBodyImpulsesAndSolveInternalConstraints false f isTgs
        core.residualReportingEnabled ∈ ops) ∧
      ∀ op ∈ ops, ∀ f, frictionFlag op = some f →
        (f = true ↔ (core.mFrictionEveryIteration = true ∨
          (islandContexts a).mNumPositionIterations - (b : Int) ≤ 3)) ∧
        (core.mFrictionEveryIteration = false →
          (f = true ↔ (islandContexts a).mNumPositionIterations -
            min (islandContexts a).mNumPositionIterations 3 ≤ (b : Int))) := by
  obtain ⟨st1, h1, h2⟩ := positionIteration_issues core hv islandContexts
    constraintsPerPartition artiConstraintsPerPartition a anyArti isTgs b st
  refine ⟨st1, _, h1, h2, ⟨positionDoFriction core (islandContexts a) b, ?_⟩, ?_⟩
  · simp [positionIterationOps]
  · intro op hop f hf
    have e := positionIterationOps_frictionFlag core islandContexts constraintsPerPartition
      artiConstraintsPerPartition a anyArti isTgs b op hop f hf
    subst e
    unfold positionDoFriction
    constructor
    · cases hfe : core.mFrictionEveryIteration <;> simp
    · intro hfe
      rw [hfe]
      simp only [Bool.false_eq_true, if_false, decide_eq_true_eq]
      omega

/-- C1 exercised on the example island (four position iterations), at
iteration `b = 1`, the first one in which friction is solved. -/
theorem C1_position_iteration_friction_witness :
    SolveBlockDimsValid exampleCore.blockDim ∧
    ∃ st1 ops,
      solveContactMultiBlockParallel_positionIteration exampleCore (fun _ => exampleIsland)
        exampleConstraintsPerPartition exampleArtiConstraintsPerPartition 0 true false 1
        SolverState.empty = some st1 ∧
      st1.issued = SolverState.empty.issued ++ ops ∧
      (∃ f, Op.propagateRigidBodyImpulsesAndSolveInternalConstraints false f false
        exampleCore.residualReportingEnabled ∈ ops) ∧
      ∀ op ∈ ops, ∀ f, frictionFlag op = some f →
        (f = true ↔ (exampleCore.mFrictionEveryIteration = true ∨
          ((fun _ => exampleIsland) 0).mNumPositionIterations - ((1 : Nat) : Int) ≤ 3)) ∧
        (exampleCore.mFrictionEveryIteration = false →
          (f = true ↔ ((fun _ => exampleIsland) 0).mNumPositionIterations -
            min ((fun _ => exampleIsland) 0).mNumPositionIterations 3 ≤ ((1 : Nat) : Int))) :=
  ⟨by decide, C1_position_iteration_friction exampleCore (by decide) (fun _ => exampleIsland)
    exampleConstraintsPerPartition exampleArtiConstraintsPerPartition 0 true false 1
    SolverState.empty⟩

/-- C2: within one call of `solvePartitions` for an island with `P`
partitions, the operations issued for the partitions (`averageDeltaV` and the
rigid and articulation partition kernels) appear in non-decreasing order of
their partition index, so every operation for partition `c` precedes every
operation for a later partition; the indices passed to the rigid kernel, and
likewise those passed to the articulation kernel, are strictly increasing
(no partition is dispatched twice) and are exactly the indices `c < P` whose
grid size is not zero, in the order `0, 1, ..., P-1`; and every operation
that names a queue names `mStream`. -/
theorem C2_partitions_in_index_order (core : SolverCore)
    (hv : SolveBlockDimsValid core.blockDim) (islandContexts : Nat → PxgIslandContext)
    (constraintsPerPartition artiConstraintsPerPartition : Nat → Int) (islandIndex : Nat)
    (doFriction anyArti : Bool) (st : SolverState) :
    ∃ st1 ops,
      solvePartitions core islandContexts constraintsPerPartition artiConstraintsPerPartition
        islandIndex doFriction anyArti st = some st1 ∧
      st1.issued = st.issued ++ ops ∧
      (ops.filterMap partitionIndex).Pairwise (· ≤ ·) ∧
      (∀ c ∈ ops.filterMap partitionIndex, c < (islandContexts islandIndex).mNumPartitions) ∧
      (ops.filterMap rigidPartition).Pairwise (· < ·) ∧
      (ops.filterMap artiPartition).Pairwise (· < ·) ∧
      ops.filterMap rigidPartition =
        (List.range (islandContexts islandIndex).mNumPartitions).filter
          (fun c => decide (0 < nbBlocks core constraintsPerPartition c)) ∧
      ops.filterMap artiPartition =
        (List.range (islandContexts islandIndex).mNumPartitions).filter
          (fun c => decide (0 < nbArtiBlocks core artiConstraintsPerPartition c)) ∧
      ∀ op ∈ ops, ∀ s, streamOf op = some s → s = Stream.mStream := by
  obtain ⟨st1, h1, h2⟩ := solvePartitions_issues core hv islandContexts
    constraintsPerPartition artiConstraintsPerPartition islandIndex doFriction anyArti st
  obtain ⟨a1, a2, a3, -, -, a6⟩ := averageVelocityOps_observations core
    (islandContexts islandIndex)
  have er : (solvePartitionsOps core islandContexts constraintsPerPartition
      artiConstraintsPerPartition islandIndex doFriction anyArti).filterMap rigidPartition =
      (List.range (islandContexts islandIndex).mNumPartitions).filter
        (fun c => decide (0 < nbBlocks core constraintsPerPartition c)) := by
    unfold solvePartitionsOps
    rw [List.filterMap_append, List.filterMap_flatMap, a2, List.append_nil,
      ← flatMap_ite_singleton]
    congr 1
    funext c
    exact partitionOps_rigidPartition core _ _ islandIndex doFriction anyArti c
  have ea : (solvePartitionsOps core islandContexts constraintsPerPartition
      artiConstraintsPerPartition islandIndex doFriction anyArti).filterMap artiPartition =
      (List.range (islandContexts islandIndex).mNumPartitions).filter
        (fun c => decide (0 < nbArtiBlocks core artiConstraintsPerPartition c)) := by
    unfold solvePartitionsOps
    rw [List.filterMap_append, List.filterMap_flatMap, a3, List.append_nil,
      ← flatMap_ite_singleton]
    congr 1
    funext c
    exact partitionOps_artiPartition core _ _ islandIndex doFriction anyArti c
  have ep : (solvePartitionsOps core islandContexts constraintsPerPartition
      artiConstraintsPerPartition islandIndex doFriction anyArti).filterMap partitionIndex =
      (List.range (islandContexts islandIndex).mNumPartitions).flatMap
        (fun c => (partitionOps core constraintsPerPartition artiConstraintsPerPartition
          islandIndex doFriction anyArti c).filterMap partitionIndex) := by
    unfold solvePartitionsOps
    rw [List.filterMap_append, List.filterMap_flatMap, a1, List.append_nil]
  refine ⟨st1, _, h1, h2, ?_, ?_, ?_, ?_, er, ea, ?_⟩
  · rw [ep]
    exact pairwise_le_flatMap_range
      (fun c => partitionOps_partitionIndex core _ _ islandIndex doFriction anyArti c) _
  · rw [ep]
    intro c hc
    rw [List.mem_flatMap] at hc
    obtain ⟨c', hc', hx⟩ := hc
    rw [partitionOps_partitionIndex core _ _ islandIndex doFriction anyArti c' c hx]
    exact List.mem_range.mp hc'
  · rw [er]
    exact (List.pairwise_lt_range _).filter _
  · rw [ea]
    exact (List.pairwise_lt_range _).filter _
  · intro op hop
    unfold solvePartitionsOps at hop
    rw [List.mem_append, List.mem_flatMap] at hop
    rcases hop with ⟨c, -, h⟩ | h
    · exact partitionOps_stream core _ _ islandIndex doFriction anyArti c op h
    · exact a6 op h

/-- C2 exercised on the example island (two partitions). -/
theorem C2_partitions_in_index_order_witness :
    SolveBlockDimsValid exampleCore.blockDim ∧
    ∃ st1 ops,
      solvePartitions exampleCore (fun _ => exampleIsland) exampleConstraintsPerPartition
        exampleArtiConstraintsPerPartition 0 true true SolverState.empty = some st1 ∧
      st1.issued = SolverState.empty.issued ++ ops ∧
      (ops.filterMap partitionIndex).Pairwise (· ≤ ·) ∧
      (∀ c ∈ ops.filterMap partitionIndex, c < ((fun _ => exampleIsland) 0).mNumPartitions) ∧
      (ops.filterMap rigidPartition).Pairwise (· < ·) ∧
      (ops.filterMap artiPartition).Pairwise (· < ·) ∧
      ops.filterMap rigidPartition =
        (List.range ((fun _ => exampleIsland) 0).mNumPartitions).filter
          (fun c => decide (0 < nbBlocks exampleCore exampleConstraintsPerPartition c)) ∧
      ops.filterMap artiPartition =
        (List.range ((fun _ => exampleIsland) 0).mNumPartitions).filter
          (fun c => decide (0 < nbArtiBlocks exampleCore exampleArtiConstraintsPerPartition c)) ∧
      ∀ op ∈ ops, ∀ s, streamOf op = some s → s = Stream.mStream :=
  ⟨by decide, C2_partitions_in_index_order exampleCore (by decide) (fun _ => exampleIsland)
    exampleConstraintsPerPartition exampleArtiConstraintsPerPartition 0 true true
    SolverState.empty⟩

/-- C4: for an island with at least one partition, one call of
`solvePartitions` issues the slab reference-count recomputation exactly once;
everything issued before it is partition 0's `averageDeltaV` (so no kernel
and nothing for a later partition precedes it) and no `averageDeltaV` for
partition 0 follows it, hence it is issued at `c == 0`, after partition 0's
`averageDeltaV` (if any) and before partition 0's rigid dispatch, and never
for `c > 0`. -/
theorem C4_reference_count_once (core : SolverCore)
    (hv : SolveBlockDimsValid core.blockDim) (islandContexts : Nat → PxgIslandContext)
    (constraintsPerPartition artiConstraintsPerPartition : Nat → Int) (islandIndex : Nat)
    (doFriction anyArti : Bool) (st : SolverState)
    (hP : 0 < (islandContexts islandIndex).mNumPartitions) :
    ∃ st1 ops,
      solvePartitions core islandContexts constraintsPerPartition artiConstraintsPerPartition
        islandIndex doFriction anyArti st = some st1 ∧
      st1.issued = st.issued ++ ops ∧
      ops.filter isPrecomputeReferenceCount = [Op.precomputeReferenceCount islandIndex false] ∧
      ∃ pre post, ops = pre ++ Op.precomputeReferenceCount islandIndex false :: post ∧
        (∀ op ∈ pre, averageDeltaVPartition op = some 0) ∧
        (∀ op ∈ post, averageDeltaVPartition op ≠ some 0) ∧
        (∀ op ∈ pre, ∀ c, rigidPartition op ≠ some c) := by
  obtain ⟨st1, h1, h2⟩ := solvePartitions_issues core hv islandContexts
    constraintsPerPartition artiConstraintsPerPartition islandIndex doFriction anyArti st
  have hs := solvePartitionsOps_sweepRank_sorted core islandContexts
    constraintsPerPartition artiConstraintsPerPartition islandIndex doFriction anyArti
  obtain ⟨n, hn⟩ : ∃ n, (islandContexts islandIndex).mNumPartitions = n + 1 :=
    ⟨(islandContexts islandIndex).mNumPartitions - 1, by omega⟩
  have hsplit : solvePartitionsOps core islandContexts constraintsPerPartition
      artiConstraintsPerPartition islandIndex doFriction anyArti =
      (if 0 < nbArtiBlocks core artiConstraintsPerPartition 0 ∨ (0 = 0 ∧ anyArti = true) then
        [Op.averageDeltaV core.mNbArticSlabs Stream.mStream 0 false] else []) ++
      Op.precomputeReferenceCount islandIndex false ::
      (((if 0 < nbBlocks core constraintsPerPartition 0 then
        [Op.launchKernel KernelId.SOLVE_BLOCK_PARTITION (nbBlocks core constraintsPerPartition 0)
          core.blockDim.SOLVE_BLOCK_PARTITION 1 Stream.mStream
          [KernelParam.mSolverCoreDescd, KernelParam.mSharedDescd, KernelParam.u32 islandIndex,
            KernelParam.u32 0, KernelParam.bool doFriction]] else []) ++
      (if 0 < nbArtiBlocks core artiConstraintsPerPartition 0 then
        [Op.launchKernel KernelId.ARTI_SOLVE_BLOCK_PARTITION
          (nbArtiBlocks core artiConstraintsPerPartition 0) WARP_SIZE (numWarpsPerBlock core)
          Stream.mStream
          [KernelParam.mSolverCoreDescd, KernelParam.mSharedDescd, KernelParam.u32 islandIndex,
            KernelParam.u32 0, KernelParam.bool doFriction, KernelParam.artiDescd]] else [])) ++
      ((List.range n).flatMap (fun c => partitionOps core constraintsPerPartition
        artiConstraintsPerPartition islandIndex doFriction anyArti (c + 1)) ++
      averageVelocityOps core (islandContexts islandIndex))) := by
    unfold solvePartitionsOps
    rw [hn, List.range_succ_eq_map, List.flatMap_cons, List.flatMap_map]
    have e0 : partitionOps core constraintsPerPartition artiConstraintsPerPartition islandIndex
        doFriction anyArti 0 =
        (if 0 < nbArtiBlocks core artiConstraintsPerPartition 0 ∨ (0 = 0 ∧ anyArti = true) then
          [Op.averageDeltaV core.mNbArticSlabs Stream.mStream 0 false] else []) ++
        Op.precomputeReferenceCount islandIndex false ::
        ((if 0 < nbBlocks core constraintsPerPartition 0 then
          [Op.launchKernel KernelId.SOLVE_BLOCK_PARTITION
            (nbBlocks core constraintsPerPartition 0)
            core.blockDim.SOLVE_BLOCK_PARTITION 1 Stream.mStream
            [KernelParam.mSolverCoreDescd, KernelParam.mSharedDescd,
              KernelParam.u32 islandIndex, KernelParam.u32 0, KernelParam.bool doFriction]]
          else []) ++
        (if 0 < nbArtiBlocks core artiConstraintsPerPartition 0 then
          [Op.launchKernel KernelId.ARTI_SOLVE_BLOCK_PARTITION
            (nbArtiBlocks core artiConstraintsPerPartition 0) WARP_SIZE (numWarpsPerBlock core)
            Stream.mStream
            [KernelParam.mSolverCoreDescd, KernelParam.mSharedDescd,
              KernelParam.u32 islandIndex, KernelParam.u32 0, KernelParam.bool doFriction,
              KernelParam.artiDescd]] else [])) := by
      unfold partitionOps
      rw [if_pos rfl, List.append_assoc, List.append_assoc, List.singleton_append]
    rw [e0, List.append_assoc, List.append_assoc, List.cons_append]
  have hpre : ∀ op ∈ (if 0 < nbArtiBlocks core artiConstraintsPerPartition 0 ∨
      (0 = 0 ∧ anyArti = true) then
        [Op.averageDeltaV core.mNbArticSlabs Stream.mStream 0 false] else []),
      averageDeltaVPartition op = some 0 ∧ ∀ c, rigidPartition op ≠ some c := by
    intro op hop
    split_ifs at hop <;> simp only [List.mem_singleton, List.not_mem_nil] at hop
    subst hop
    exact ⟨rfl, fun c h => by cases h⟩
  refine ⟨st1, _, h1, h2, ?_, _, _, hsplit, fun op hop => (hpre op hop).1, ?_,
    fun op hop => (hpre op hop).2⟩
  · unfold solvePartitionsOps
    rw [List.filter_append, List.filter_flatMap,
      (averageVelocityOps_observations core (islandContexts islandIndex)).2.2.2.2.1,
      List.append_nil, hn, List.range_succ_eq_map, List.flatMap_cons, List.flatMap_map]
    have h0 : (partitionOps core constraintsPerPartition artiConstraintsPerPartition
        islandIndex doFriction anyArti 0).filter isPrecomputeReferenceCount =
        [Op.precomputeReferenceCount islandIndex false] := by
      unfold partitionOps
      simp only [List.filter_append]
      split_ifs <;> simp_all [isPrecomputeReferenceCount]
    have hsucc : ∀ c, (partitionOps core constraintsPerPartition artiConstraintsPerPartition
        islandIndex doFriction anyArti (Nat.succ c)).filter isPrecomputeReferenceCount = [] := by
      intro c
      unfold partitionOps
      simp only [List.filter_append]
      split_ifs <;> simp_all [isPrecomputeReferenceCount]
    rw [h0]
    simp only [hsucc, List.flatMap_nil, List.append_nil]
    rw [List.flatMap_eq_nil_iff.mpr (fun _ _ => rfl), List.append_nil]
  · intro op hop hcontra
    rw [hsplit, List.filterMap_append, List.filterMap_cons] at hs
    have hr : sweepRank (Op.precomputeReferenceCount islandIndex false) = some 1 := rfl
    rw [hr] at hs
    have hm : 4 * 0 ∈ List.filterMap sweepRank
        (((if 0 < nbBlocks core constraintsPerPartition 0 then
        [Op.launchKernel KernelId.SOLVE_BLOCK_PARTITION (nbBlocks core constraintsPerPartition 0)
          core.blockDim.SOLVE_BLOCK_PARTITION 1 Stream.mStream
          [KernelParam.mSolverCoreDescd, KernelParam.mSharedDescd, KernelParam.u32 islandIndex,
            KernelParam.u32 0, KernelParam.bool doFriction]] else []) ++
      (if 0 < nbArtiBlocks core artiConstraintsPerPartition 0 then
        [Op.launchKernel KernelId.ARTI_SOLVE_BLOCK_PARTITION
          (nbArtiBlocks core artiConstraintsPerPartition 0) WARP_SIZE (numWarpsPerBlock core)
          Stream.mStream
          [KernelParam.mSolverCoreDescd, KernelParam.mSharedDescd, KernelParam.u32 islandIndex,
            KernelParam.u32 0, KernelParam.bool doFriction, KernelParam.artiDescd]] else [])) ++
      ((List.range n).flatMap (fun c => partitionOps core constraintsPerPartition
        artiConstraintsPerPartition islandIndex doFriction anyArti (c + 1)) ++
      averageVelocityOps core (islandContexts islandIndex))) :=
      List.mem_filterMap.mpr ⟨op, hop, sweepRank_of_averageDeltaVPartition hcontra⟩
    have := (List.pairwise_cons.mp (List.pairwise_append.mp hs).2.1).1 _ hm
    omega

/-- C4 exercised on the example island (two partitions). -/
theorem C4_reference_count_once_witness :
    SolveBlockDimsValid exampleCore.blockDim ∧
    0 < ((fun _ => exampleIsland) 0).mNumPartitions ∧
    ∃ st1 ops,
      solvePartitions exampleCore (fun _ => exampleIsland) exampleConstraintsPerPartition
        exampleArtiConstraintsPerPartition 0 true true SolverState.empty = some st1 ∧
      st1.issued = SolverState.empty.issued ++ ops ∧
      ops.filter isPrecomputeReferenceCount = [Op.precomputeReferenceCount 0 false] ∧
      ∃ pre post, ops = pre ++ Op.precomputeReferenceCount 0 false :: post ∧
        (∀ op ∈ pre, averageDeltaVPartition op = some 0) ∧
        (∀ op ∈ post, averageDeltaVPartition op ≠ some 0) ∧
        (∀ op ∈ pre, ∀ c, rigidPartition op ≠ some c) :=
  ⟨by decide, by decide,
    C4_reference_count_once exampleCore (by decide) (fun _ => exampleIsland)
      exampleConstraintsPerPartition exampleArtiConstraintsPerPartition 0 true true
      SolverState.empty (by decide)⟩

/-- C5: one call of `solveContactMultiBlockParallel` issues, after the
initial accumulator clear, one block of operations per island in increasing
island index (`0, 1, ..., numIslands-1`), and every operation of block `a`
that names an island names `a`.  The block of island `a` is the concatenation
of: the operations of its `max(0, N)` position iterations, the conclude and
body write-back (with the residual read-back when enabled), the operations of
its `max(0, V)` velocity iterations, and the final write-back.  Each iteration
calls `solvePartitions` once and then issues the articulation internal solve
once: the internal solves of the block are `max(0, N)` position-flagged ones
followed by `max(0, V)` velocity-flagged ones, none occurs in the conclude or
final part, and for an island with a partition the reference-count
recomputation (issued once per `solvePartitions` call) occurs exactly
`max(0, N) + max(0, V)` times. -/
theorem C5_island_phase_order (core : SolverCore) (hv : SolveBlockDimsValid core.blockDim)
    (islandContexts : Nat → PxgIslandContext) (numIslands : Nat)
    (constraintsPerPartition artiConstraintsPerPartition : Nat → Int)
    (posIterResidualPinnedMemSize : Nat) (st : SolverState) :
    ∃ st1 pre, ∃ block : Nat → List Op,
      solveContactMultiBlockParallel core islandContexts numIslands constraintsPerPartition
        artiConstraintsPerPartition posIterResidualPinnedMemSize st = some st1 ∧
      st1.issued = st.issued ++ pre ++ (List.range numIslands).flatMap block ∧
      (∀ s, (zeroErrorAccumulators core s).issued = s.issued ++ pre) ∧
      ∀ a,
        Issues (solveContactMultiBlockParallel_island core islandContexts
          constraintsPerPartition artiConstraintsPerPartition posIterResidualPinnedMemSize a)
          (block a) ∧
        (∀ op ∈ block a, ∀ i, islandOf op = some i → i = a) ∧
        (0 < (islandContexts a).mNumPartitions →
          ((block a).filter isPrecomputeReferenceCount).length =
            (islandContexts a).mNumPositionIterations.toNat +
            (islandContexts a).mNumVelocityIterations.toNat) ∧
        (((islandContexts a).mNumPositionIterations.toNat : Int) =
          max 0 (islandContexts a).mNumPositionIterations) ∧
        (((islandContexts a).mNumVelocityIterations.toNat : Int) =
          max 0 (islandContexts a).mNumVelocityIterations) ∧
        ∃ pos mid vel fin, block a = pos ++ mid ++ vel ++ fin ∧
          Issues (forLoop (islandContexts a).mNumPositionIterations.toNat
            (solveContactMultiBlockParallel_positionIteration core islandContexts
              constraintsPerPartition artiConstraintsPerPartition a
              (anyArticulationConstraints (islandContexts a)) false)) pos ∧
          Issues (fun s =>
            (solveContactMultiBlockParallel_concludeAndWriteBack core (islandContexts a) a s).bind
              (fun s => if core.residualReportingEnabled then
                solveContactMultiBlockParallel_residualReport core (islandContexts a) a
                  posIterResidualPinnedMemSize s else some s)) mid ∧
          Issues (forLoop (islandContexts a).mNumVelocityIterations.toNat
            (solveContactMultiBlockParallel_velocityIteration core islandContexts
              constraintsPerPartition artiConstraintsPerPartition a
              (anyArticulationConstraints (islandContexts a)) false true)) vel ∧
          Issues (solveContactMultiBlockParallel_finalWriteBack core (islandContexts a) a) fin ∧
          pos.filterMap velocityIterationFlag =
            List.replicate (islandContexts a).mNumPositionIterations.toNat false ∧
          mid.filterMap velocityIterationFlag = [] ∧
          vel.filterMap velocityIterationFlag =
            List.replicate (islandContexts a).mNumVelocityIterations.toNat true ∧
          fin.filterMap velocityIterationFlag = [] ∧
          Op.saveVelocities ∈ mid := by
  obtain ⟨st1, h1, h2⟩ := solveContactMultiBlockParallel_issues core hv islandContexts
    numIslands constraintsPerPartition artiConstraintsPerPartition
    posIterResidualPinnedMemSize st
  refine ⟨st1, zeroErrorAccumulatorsOps core,
    islandOps core islandContexts constraintsPerPartition artiConstraintsPerPartition
      posIterResidualPinnedMemSize, h1, ?_, zeroErrorAccumulators_issued core, ?_⟩
  · rw [h2, solveContactMultiBlockParallelOps, List.append_assoc]
  intro a
  obtain ⟨o1, o2, o3⟩ := islandOps_obs core islandContexts constraintsPerPartition
    artiConstraintsPerPartition posIterResidualPinnedMemSize a
  have hres : Issues (fun s =>
      if core.residualReportingEnabled then
        solveContactMultiBlockParallel_residualReport core (islandContexts a) a
          posIterResidualPinnedMemSize s
      else some s)
      (if core.residualReportingEnabled then
        residualReportOps core (islandContexts a) a posIterResidualPinnedMemSize else []) := by
    split_ifs
    · exact residualReport_issues core hv (islandContexts a) a posIterResidualPinnedMemSize
    · exact Issues.nil
  refine ⟨island_issues core hv islandContexts constraintsPerPartition
    artiConstraintsPerPartition posIterResidualPinnedMemSize a, o3, o2, by omega, by omega,
    _, _, _, _, ?_,
    Issues.forLoop (fun b => positionIteration_issues core hv islandContexts
      constraintsPerPartition artiConstraintsPerPartition a
      (anyArticulationConstraints (islandContexts a)) false b) _,
    (concludeAndWriteBack_issues core hv (islandContexts a) a).bind hres,
    Issues.forLoop (fun b => velocityIteration_issues core hv islandContexts
      constraintsPerPartition artiConstraintsPerPartition a
      (anyArticulationConstraints (islandContexts a)) false true b) _,
    finalWriteBack_issues core hv (islandContexts a) a,
    (positionLoopOps_obs core islandContexts constraintsPerPartition
      artiConstraintsPerPartition a _ false _).1,
    (plain_filters (plainFor_middle core (islandContexts a) a posIterResidualPinnedMemSize)).1,
    (velocityLoopOps_obs core islandContexts constraintsPerPartition
      artiConstraintsPerPartition a _ false true _).1,
    (plain_filters (plainFor_finalWriteBack core (islandContexts a) a)).1, ?_⟩
  · rw [islandOps, List.append_assoc
      ((List.range (islandContexts a).mNumPositionIterations.toNat).flatMap _)]
  · rw [List.mem_append]
    left
    unfold concludeAndWriteBackOps
    rw [List.mem_append]
    right
    exact List.mem_singleton.mpr rfl

/-- C5 exercised on a step with two copies of the example island. -/
theorem C5_island_phase_order_witness :
    SolveBlockDimsValid exampleCore.blockDim ∧
    ∃ st1 pre, ∃ block : Nat → List Op,
      solveContactMultiBlockParallel exampleCore (fun _ => exampleIsland) 2
        exampleConstraintsPerPartition exampleArtiConstraintsPerPartition 0
        SolverState.empty = some st1 ∧
      st1.issued = SolverState.empty.issued ++ pre ++ (List.range 2).flatMap block ∧
      (∀ s, (zeroErrorAccumulators exampleCore s).issued = s.issued ++ pre) ∧
      ∀ a,
        Issues (solveContactMultiBlockParallel_island exampleCore (fun _ => exampleIsland)
          exampleConstraintsPerPartition exampleArtiConstraintsPerPartition 0 a) (block a) ∧
        (∀ op ∈ block a, ∀ i, islandOf op = some i → i = a) ∧
        (0 < ((fun _ => exampleIsland) a).mNumPartitions →
          ((block a).filter isPrecomputeReferenceCount).length =
            ((fun _ => exampleIsland) a).mNumPositionIterations.toNat +
            ((fun _ => exampleIsland) a).mNumVelocityIterations.toNat) ∧
        ((((fun _ => exampleIsland) a).mNumPositionIterations.toNat : Int) =
          max 0 ((fun _ => exampleIsland) a).mNumPositionIterations) ∧
        ((((fun _ => exampleIsland) a).mNumVelocityIterations.toNat : Int) =
          max 0 ((fun _ => exampleIsland) a).mNumVelocityIterations) ∧
        ∃ pos mid vel fin, block a = pos ++ mid ++ vel ++ fin ∧
          Issues (forLoop ((fun _ => exampleIsland) a).mNumPositionIterations.toNat
            (solveContactMultiBlockParallel_positionIteration exampleCore
              (fun _ => exampleIsland) exampleConstraintsPerPartition
              exampleArtiConstraintsPerPartition a
              (anyArticulationConstraints ((fun _ => exampleIsland) a)) false)) pos ∧
          Issues (fun s =>
            (solveContactMultiBlockParallel_concludeAndWriteBack exampleCore
              ((fun _ => exampleIsland) a) a s).bind
              (fun s => if exampleCore.residualReportingEnabled then
                solveContactMultiBlockParallel_residualReport exampleCore
                  ((fun _ => exampleIsland) a) a 0 s else some s)) mid ∧
          Issues (forLoop ((fun _ => exampleIsland) a).mNumVelocityIterations.toNat
            (solveContactMultiBlockParallel_velocityIteration exampleCore
              (fun _ => exampleIsland) exampleConstraintsPerPartition
              exampleArtiConstraintsPerPartition a
              (anyArticulationConstraints ((fun _ => exampleIsland) a)) false true)) vel ∧
          Issues (solveContactMultiBlockParallel_finalWriteBack exampleCore
            ((fun _ => exampleIsland) a) a) fin ∧
          pos.filterMap velocityIterationFlag =
            List.replicate ((fun _ => exampleIsland) a).mNumPositionIterations.toNat false ∧
          mid.filterMap velocityIterationFlag = [] ∧
          vel.filterMap velocityIterationFlag =
            List.replicate ((fun _ => exampleIsland) a).mNumVelocityIterations.toNat true ∧
          fin.filterMap velocityIterationFlag = [] ∧
          Op.saveVelocities ∈ mid :=
  ⟨by decide, C5_island_phase_order exampleCore (by decide) (fun _ => exampleIsland) 2
    exampleConstraintsPerPartition exampleArtiConstraintsPerPartition 0 SolverState.empty⟩

/-- C6: in every position iteration the operations are issued in the order
of their steps: (1) the per-partition sweep, (2) the cross-slab
average-velocity kernel, (3) the articulation internal solve, (4) the
extended-body solvers (`outputVelocity`, particle-system solves, cloth solve,
soft-body solve, then particle `updateParticles`), (5) the static-constraint
solve kernel followed by the static propagate kernel, (6) the re-averaging
kernel.  The step codes of the operations issued (see `iterationStep`) form a
non-decreasing sequence, so no operation of a step is issued before an
operation of an earlier step; step (3) is always present. -/
theorem C6_position_iteration_step_order (core : SolverCore)
    (hv : SolveBlockDimsValid core.blockDim) (islandContexts : Nat → PxgIslandContext)
    (constraintsPerPartition artiConstraintsPerPartition : Nat → Int) (a : Nat)
    (anyArti isTgs : Bool) (b : Nat) (st : SolverState) :
    ∃ st1 ops,
      solveContactMultiBlockParallel_positionIteration core islandContexts
        constraintsPerPartition artiConstraintsPerPartition a anyArti isTgs b st = some st1 ∧
      st1.issued = st.issued ++ ops ∧
      (ops.filterMap iterationStep).Pairwise (· ≤ ·) ∧
      30 ∈ ops.filterMap iterationStep := by
  obtain ⟨st1, h1, h2⟩ := positionIteration_issues core hv islandContexts
    constraintsPerPartition artiConstraintsPerPartition a anyArti isTgs b st
  refine ⟨st1, _, h1, h2, (stepsWithin_positionIterationOps core islandContexts
    constraintsPerPartition artiConstraintsPerPartition a anyArti isTgs b).1, ?_⟩
  rw [List.mem_filterMap]
  exact ⟨Op.propagateRigidBodyImpulsesAndSolveInternalConstraints false
    (positionDoFriction core (islandContexts a) b) isTgs core.residualReportingEnabled,
    by simp [positionIterationOps], rfl⟩

/-- C6 exercised on the example island, whose position iterations issue
operations of all six steps. -/
theorem C6_position_iteration_step_order_witness :
    SolveBlockDimsValid exampleCore.blockDim ∧
    ∃ st1 ops,
      solveContactMultiBlockParallel_positionIteration exampleCore (fun _ => exampleIsland)
        exampleConstraintsPerPartition exampleArtiConstraintsPerPartition 0 true false 0
        SolverState.empty = some st1 ∧
      st1.issued = SolverState.empty.issued ++ ops ∧
      (ops.filterMap iterationStep).Pairwise (· ≤ ·) ∧
      30 ∈ ops.filterMap iterationStep :=
  ⟨by decide, C6_position_iteration_step_order exampleCore (by decide) (fun _ => exampleIsland)
    exampleConstraintsPerPartition exampleArtiConstraintsPerPartition 0 true false 0
    SolverState.empty⟩

/-- C7: in every velocity iteration (run, as the island loop does, with the
local `doFriction` set to `true`) every friction flag that is passed on (to
the partition kernels, to the articulation internal solve and to the
static-constraint kernels) is `true`, whatever `mFrictionEveryIteration` and
the iteration index are, and the articulation internal solve is called
exactly once, with its velocity-iteration flag `true`; in every position
iteration it is called exactly once with that flag `false`.  Over a whole
island the internal solves are the position-flagged ones followed by the
velocity-flagged ones, and every velocity-flagged one carries friction. -/
theorem C7_velocity_iteration_flags (core : SolverCore)
    (hv : SolveBlockDimsValid core.blockDim) (islandContexts : Nat → PxgIslandContext)
    (constraintsPerPartition artiConstraintsPerPartition : Nat → Int)
    (posIterResidualPinnedMemSize a : Nat) (anyArti isTgs : Bool) (b : Nat)
    (st : SolverState) :
    (∃ st1 ops,
      solveContactMultiBlockParallel_velocityIteration core islandContexts
        constraintsPerPartition artiConstraintsPerPartition a anyArti isTgs true b st =
        some st1 ∧
      st1.issued = st.issued ++ ops ∧
      (∀ op ∈ ops, ∀ f, frictionFlag op = some f → f = true) ∧
      Op.propagateRigidBodyImpulsesAndSolveInternalConstraints true true isTgs
        core.residualReportingEnabled ∈ ops ∧
      ops.filterMap velocityIterationFlag = [true]) ∧
    (∃ st1 ops,
      solveContactMultiBlockParallel_positionIteration core islandContexts
        constraintsPerPartition artiConstraintsPerPartition a anyArti isTgs b st = some st1 ∧
      st1.issued = st.issued ++ ops ∧
      ops.filterMap velocityIterationFlag = [false]) ∧
    (∃ st1 ops,
      solveContactMultiBlockParallel_island core islandContexts constraintsPerPartition
        artiConstraintsPerPartition posIterResidualPinnedMemSize a st = some st1 ∧
      st1.issued = st.issued ++ ops ∧
      ops.filterMap velocityIterationFlag =
        List.replicate (islandContexts a).mNumPositionIterations.toNat false ++
        List.replicate (islandContexts a).mNumVelocityIterations.toNat true ∧
      ∀ op ∈ ops, velocityIterationFlag op = some true → frictionFlag op = some true) := by
  refine ⟨?_, ?_, ?_⟩
  · obtain ⟨st1, h1, h2⟩ := velocityIteration_issues core hv islandContexts
      constraintsPerPartition artiConstraintsPerPartition a anyArti isTgs true b st
    refine ⟨st1, _, h1, h2, ?_, ?_, ?_⟩
    · exact fun op hop f hf => velocityIterationOps_frictionFlag core islandContexts
        constraintsPerPartition artiConstraintsPerPartition a anyArti isTgs true b op hop f hf
    · simp [velocityIterationOps]
    · exact (velocityIterationOps_obs core islandContexts constraintsPerPartition
        artiConstraintsPerPartition a anyArti isTgs true b).1
  · obtain ⟨st1, h1, h2⟩ := positionIteration_issues core hv islandContexts
      constraintsPerPartition artiConstraintsPerPartition a anyArti isTgs b st
    exact ⟨st1, _, h1, h2, (positionIterationOps_obs core islandContexts
      constraintsPerPartition artiConstraintsPerPartition a anyArti isTgs b).1⟩
  · obtain ⟨st1, h1, h2⟩ := island_issues core hv islandContexts constraintsPerPartition
      artiConstraintsPerPartition posIterResidualPinnedMemSize a st
    refine ⟨st1, _, h1, h2, (islandOps_obs core islandContexts constraintsPerPartition
      artiConstraintsPerPartition posIterResidualPinnedMemSize a).1, ?_⟩
    intro op hop hflag
    have hf : ∃ f, frictionFlag op = some f := by
      unfold velocityIterationFlag at hflag
      split at hflag
      · exact ⟨_, rfl⟩
      · cases hflag
    obtain ⟨f, hf⟩ := hf
    unfold islandOps at hop
    simp only [List.mem_append, List.mem_flatMap] at hop
    rcases hop with (((⟨c, -, h⟩ | h) | h) | ⟨c, -, h⟩) | h
    · have e := (positionIterationOps_obs core islandContexts constraintsPerPartition
        artiConstraintsPerPartition a (anyArticulationConstraints (islandContexts a)) false c).1
      have hm : true ∈ (positionIterationOps core islandContexts constraintsPerPartition
          artiConstraintsPerPartition a (anyArticulationConstraints (islandContexts a)) false
          c).filterMap velocityIterationFlag := List.mem_filterMap.mpr ⟨op, h, hflag⟩
      rw [e] at hm
      simp at hm
    · rw [(plainFor_conclude core (islandContexts a) a op h).1] at hflag
      cases hflag
    · split_ifs at h
      · rw [(plainFor_residual core (islandContexts a) a posIterResidualPinnedMemSize op h).1]
          at hflag
        cases hflag
      · simp at h
    · rw [hf, velocityIterationOps_frictionFlag core islandContexts constraintsPerPartition
        artiConstraintsPerPartition a _ false true c op h f hf]
    · rw [(plainFor_finalWriteBack core (islandContexts a) a op h).1] at hflag
      cases hflag

/-- C7 exercised on the example island, whose core has
`mFrictionEveryIteration` off. -/
theorem C7_velocity_iteration_flags_witness :
    SolveBlockDimsValid exampleCore.blockDim ∧
    (∃ st1 ops,
      solveContactMultiBlockParallel_velocityIteration exampleCore (fun _ => exampleIsland)
        exampleConstraintsPerPartition exampleArtiConstraintsPerPartition 0 true false true 0
        SolverState.empty = some st1 ∧
      st1.issued = SolverState.empty.issued ++ ops ∧
      (∀ op ∈ ops, ∀ f, frictionFlag op = some f → f = true) ∧
      Op.propagateRigidBodyImpulsesAndSolveInternalConstraints true true false
        exampleCore.residualReportingEnabled ∈ ops ∧
      ops.filterMap velocityIterationFlag = [true]) ∧
    (∃ st1 ops,
      solveContactMultiBlockParallel_positionIteration exampleCore (fun _ => exampleIsland)
        exampleConstraintsPerPartition exampleArtiConstraintsPerPartition 0 true false 0
        SolverState.empty = some st1 ∧
      st1.issued = SolverState.empty.issued ++ ops ∧
      ops.filterMap velocityIterationFlag = [false]) ∧
    (∃ st1 ops,
      solveContactMultiBlockParallel_island exampleCore (fun _ => exampleIsland)
        exampleConstraintsPerPartition exampleArtiConstraintsPerPartition 0 0
        SolverState.empty = some st1 ∧
      st1.issued = SolverState.empty.issued ++ ops ∧
      ops.filterMap velocityIterationFlag =
        List.replicate ((fun _ => exampleIsland) 0).mNumPositionIterations.toNat false ++
        List.replicate ((fun _ => exampleIsland) 0).mNumVelocityIterations.toNat true ∧
      ∀ op ∈ ops, velocityIterationFlag op = some true → frictionFlag op = some true) :=
  ⟨by decide, C7_velocity_iteration_flags exampleCore (by decide) (fun _ => exampleIsland)
    exampleConstraintsPerPartition exampleArtiConstraintsPerPartition 0 0 true false 0
    SolverState.empty⟩

/-- Counterexample to C8 as stated: an island with two velocity iterations and
`2^27` bodies (at least one body).  In velocity iteration `b = 0`, which is
not the final one, no propagate-body-velocity kernel is dispatched, because
the 32-bit product `mBodyCount * 32` wraps to `0` and the grid size
`(0 + 256 - 1) / 256` is `0`. -/
theorem C8_counterexample :
    1 ≤ overflowIsland.mBodyCount ∧ 1 ≤ overflowIsland.mNumVelocityIterations ∧
    ((0 : Nat) : Int) ≠ overflowIsland.mNumVelocityIterations - 1 ∧
    (solveContactMultiBlockParallel_velocityIteration exampleCore (fun _ => overflowIsland)
      exampleConstraintsPerPartition exampleArtiConstraintsPerPartition 0 false false true 0
      SolverState.empty).map
      (fun s => s.issued.filter (isLaunchOf KernelId.PROPAGATE_BODY_VELOCITY)) = some [] := by
  decide

/-- C8 (amended): for an island with at least one body whose thread count
`mBodyCount * 32 + blockDim - 1` does not overflow 32 bits, the re-averaging
pass (the propagate-body-velocity kernel) is dispatched once in velocity
iteration `b` if `b` is not the final iteration `V - 1` and not at all in the
final one; over the whole velocity loop it is dispatched exactly `V - 1` times
(`0` times when there is no velocity iteration); every position iteration
dispatches it exactly once. -/
theorem C8_reaveraging_dispatch (core : SolverCore) (hv : SolveBlockDimsValid core.blockDim)
    (islandContexts : Nat → PxgIslandContext)
    (constraintsPerPartition artiConstraintsPerPartition : Nat → Int) (a : Nat)
    (anyArti isTgs doFriction : Bool) (b : Nat) (st : SolverState)
    (hbody : 1 ≤ (islandContexts a).mBodyCount)
    (hno : (islandContexts a).mBodyCount * 32 +
      core.blockDim.COMPUTE_BODIES_AVERAGE_VELOCITY - 1 < 4294967296) :
    (∃ st1 ops,
      solveContactMultiBlockParallel_velocityIteration core islandContexts
        constraintsPerPartition artiConstraintsPerPartition a anyArti isTgs doFriction b st =
        some st1 ∧
      st1.issued = st.issued ++ ops ∧
      (ops.filter (isLaunchOf KernelId.PROPAGATE_BODY_VELOCITY)).length =
        if (b : Int) = (islandContexts a).mNumVelocityIterations - 1 then 0 else 1) ∧
    (∃ st1 ops,
      forLoop (islandContexts a).mNumVelocityIterations.toNat
        (solveContactMultiBlockParallel_velocityIteration core islandContexts
          constraintsPerPartition artiConstraintsPerPartition a anyArti isTgs doFriction) st =
        some st1 ∧
      st1.issued = st.issued ++ ops ∧
      (ops.filter (isLaunchOf KernelId.PROPAGATE_BODY_VELOCITY)).length =
        (islandContexts a).mNumVelocityIterations.toNat - 1) ∧
    (∃ st1 ops,
      solveContactMultiBlockParallel_positionIteration core islandContexts
        constraintsPerPartition artiConstraintsPerPartition a anyArti isTgs b st = some st1 ∧
      st1.issued = st.issued ++ ops ∧
      (ops.filter (isLaunchOf KernelId.PROPAGATE_BODY_VELOCITY)).length = 1) := by
  have hlen := propagateBodyVelocityOps_length core hv (islandContexts a) hbody hno
  refine ⟨?_, ?_, ?_⟩
  · obtain ⟨st1, h1, h2⟩ := velocityIteration_issues core hv islandContexts
      constraintsPerPartition artiConstraintsPerPartition a anyArti isTgs doFriction b st
    refine ⟨st1, _, h1, h2, ?_⟩
    rw [(velocityIterationOps_obs core islandContexts constraintsPerPartition
      artiConstraintsPerPartition a anyArti isTgs doFriction b).2.2.1]
    by_cases hb : (b : Int) = (islandContexts a).mNumVelocityIterations - 1
    · rw [if_pos hb, if_neg (by omega)]
      rfl
    · rw [if_neg hb, if_pos (by omega), hlen]
  · obtain ⟨st1, h1, h2⟩ := Issues.forLoop (fun b => velocityIteration_issues core hv
      islandContexts constraintsPerPartition artiConstraintsPerPartition a anyArti isTgs
      doFriction b) (islandContexts a).mNumVelocityIterations.toNat st
    refine ⟨st1, _, h1, h2, ?_⟩
    rw [velocityLoop_propagate_count core islandContexts constraintsPerPartition
      artiConstraintsPerPartition a anyArti isTgs doFriction hlen _ (le_refl _)]
    omega
  · obtain ⟨st1, h1, h2⟩ := positionIteration_issues core hv islandContexts
      constraintsPerPartition artiConstraintsPerPartition a anyArti isTgs b st
    refine ⟨st1, _, h1, h2, ?_⟩
    rw [(positionIterationOps_obs core islandContexts constraintsPerPartition
      artiConstraintsPerPartition a anyArti isTgs b).2.2.1, hlen]

/-- C8 (amended) exercised on the example island (three bodies, two velocity
iterations), at the non-final velocity iteration `b = 0`. -/
theorem C8_reaveraging_dispatch_witness :
    SolveBlockDimsValid exampleCore.blockDim ∧
    1 ≤ ((fun _ => exampleIsland) 0).mBodyCount ∧
    ((fun _ => exampleIsland) 0).mBodyCount * 32 +
      exampleCore.blockDim.COMPUTE_BODIES_AVERAGE_VELOCITY - 1 < 4294967296 ∧
    (∃ st1 ops,
      solveContactMultiBlockParallel_velocityIteration exampleCore (fun _ => exampleIsland)
        exampleConstraintsPerPartition exampleArtiConstraintsPerPartition 0 true false true 0
        SolverState.empty = some st1 ∧
      st1.issued = SolverState.empty.issued ++ ops ∧
      (ops.filter (isLaunchOf KernelId.PROPAGATE_BODY_VELOCITY)).length =
        if ((0 : Nat) : Int) = ((fun _ => exampleIsland) 0).mNumVelocityIterations - 1 then 0
        else 1) ∧
    (∃ st1 ops,
      forLoop ((fun _ => exampleIsland) 0).mNumVelocityIterations.toNat
        (solveContactMultiBlockParallel_velocityIteration exampleCore (fun _ => exampleIsland)
          exampleConstraintsPerPartition exampleArtiConstraintsPerPartition 0 true false true)
        SolverState.empty = some st1 ∧
      st1.issued = SolverState.empty.issued ++ ops ∧
      (ops.filter (isLaunchOf KernelId.PROPAGATE_BODY_VELOCITY)).length =
        ((fun _ => exampleIsland) 0).mNumVelocityIterations.toNat - 1) ∧
    (∃ st1 ops,
      solveContactMultiBlockParallel_positionIteration exampleCore (fun _ => exampleIsland)
        exampleConstraintsPerPartition exampleArtiConstraintsPerPartition 0 true false 0
        SolverState.empty = some st1 ∧
      st1.issued = SolverState.empty.issued ++ ops ∧
      (ops.filter (isLaunchOf KernelId.PROPAGATE_BODY_VELOCITY)).length = 1) :=
  ⟨by decide, by decide, by decide,
    C8_reaveraging_dispatch exampleCore (by decide) (fun _ => exampleIsland)
      exampleConstraintsPerPartition exampleArtiConstraintsPerPartition 0 true false true 0
      SolverState.empty (by decide) (by decide)⟩

/-- Counterexample to C9 as stated: in the final velocity iteration (`b = 1` of
two) of the example island, the partition sweep still dispatches the
compute-average-velocity kernel, which averages each body's velocity across
slabs. -/
theorem C9_counterexample :
    ((1 : Nat) : Int) = exampleIsland.mNumVelocityIterations - 1 ∧
    (solveContactMultiBlockParallel_velocityIteration exampleCore (fun _ => exampleIsland)
      exampleConstraintsPerPartition exampleArtiConstraintsPerPartition 0 true false true 1
      SolverState.empty).map
      (fun s => (s.issued.filter (isLaunchOf KernelId.COMPUTE_AVERAGE_VELOCITY)).length) =
      some 1 := by
  decide

/-- C9 (amended): in the final velocity iteration of an island (`V - b = 1`)
the propagate-body-velocity kernel is not dispatched, while the
compute-average-velocity kernel of the partition sweep is still dispatched,
exactly once, whenever the island has at least one body and the thread count
`mBodyCount * 32 + blockDim - 1` does not overflow 32 bits. -/
theorem C9_final_velocity_iteration (core : SolverCore)
    (hv : SolveBlockDimsValid core.blockDim) (islandContexts : Nat → PxgIslandContext)
    (constraintsPerPartition artiConstraintsPerPartition : Nat → Int) (a : Nat)
    (anyArti isTgs doFriction : Bool) (b : Nat) (st : SolverState)
    (hlast : (islandContexts a).mNumVelocityIterations - (b : Int) = 1)
    (hbody : 1 ≤ (islandContexts a).mBodyCount)
    (hno : (islandContexts a).mBodyCount * 32 +
      core.blockDim.COMPUTE_BODIES_AVERAGE_VELOCITY - 1 < 4294967296) :
    ∃ st1 ops,
      solveContactMultiBlockParallel_velocityIteration core islandContexts
        constraintsPerPartition artiConstraintsPerPartition a anyArti isTgs doFriction b st =
        some st1 ∧
      st1.issued = st.issued ++ ops ∧
      ops.filter (isLaunchOf KernelId.PROPAGATE_BODY_VELOCITY) = [] ∧
      (ops.filter (isLaunchOf KernelId.COMPUTE_AVERAGE_VELOCITY)).length = 1 := by
  obtain ⟨st1, h1, h2⟩ := velocityIteration_issues core hv islandContexts
    constraintsPerPartition artiConstraintsPerPartition a anyArti isTgs doFriction b st
  obtain ⟨-, -, o3, o4, -⟩ := velocityIterationOps_obs core islandContexts
    constraintsPerPartition artiConstraintsPerPartition a anyArti isTgs doFriction b
  refine ⟨st1, _, h1, h2, ?_, ?_⟩
  · rw [o3, if_neg (by omega)]
  · rw [o4, averageVelocityOps_length core hv (islandContexts a) hbody hno]

/-- C9 (amended) exercised on the final velocity iteration of the example island. -/
theorem C9_final_velocity_iteration_witness :
    SolveBlockDimsValid exampleCore.blockDim ∧
    ((fun _ => exampleIsland) 0).mNumVelocityIterations - ((1 : Nat) : Int) = 1 ∧
    1 ≤ ((fun _ => exampleIsland) 0).mBodyCount ∧
    ((fun _ => exampleIsland) 0).mBodyCount * 32 +
      exampleCore.blockDim.COMPUTE_BODIES_AVERAGE_VELOCITY - 1 < 4294967296 ∧
    ∃ st1 ops,
      solveContactMultiBlockParallel_velocityIteration exampleCore (fun _ => exampleIsland)
        exampleConstraintsPerPartition exampleArtiConstraintsPerPartition 0 true false true 1
        SolverState.empty = some st1 ∧
      st1.issued = SolverState.empty.issued ++ ops ∧
      ops.filter (isLaunchOf KernelId.PROPAGATE_BODY_VELOCITY) = [] ∧
      (ops.filter (isLaunchOf KernelId.COMPUTE_AVERAGE_VELOCITY)).length = 1 :=
  ⟨by decide, by decide, by decide, by decide,
    C9_final_velocity_iteration exampleCore (by decide) (fun _ => exampleIsland)
      exampleConstraintsPerPartition exampleArtiConstraintsPerPartition 0 true false true 1
      SolverState.empty (by decide) (by decide) (by decide)⟩

/-- C11: `syncDmaBack` leaves `0` in `nbChangedThresholdElements` and stores
`0` in `mNbPrevExceededForceElements` whenever the device context is in abort
mode, whatever the downloaded descriptor holds and whether or not the wait on
the pinned event succeeded; when the context is not in abort mode it returns
exactly the descriptor's `nbForceChangeElements` and stores exactly its
`nbExceededThresholdElements`.  In both cases nothing but the context
acquisition, the optional stream synchronisation and the context release is
issued. -/
theorem C11_syncDmaBack_abort_mode (mSolverCoreDesc : PxgSolverCoreDesc)
    (spinWaitSucceeded : Bool) (st : TransferState) :
    ((syncDmaBack mSolverCoreDesc spinWaitSucceeded true st).1 = 0 ∧
      (syncDmaBack mSolverCoreDesc spinWaitSucceeded true st).2.mNbPrevExceededForceElements
        = 0) ∧
    ((syncDmaBack mSolverCoreDesc spinWaitSucceeded false st).1 =
        mSolverCoreDesc.nbForceChangeElements ∧
      (syncDmaBack mSolverCoreDesc spinWaitSucceeded false st).2.mNbPrevExceededForceElements
        = mSolverCoreDesc.nbExceededThresholdElements) ∧
    ∀ isInAbortMode,
      (syncDmaBack mSolverCoreDesc spinWaitSucceeded isInAbortMode st).2.issued =
        st.issued ++ [TransferOp.acquireContext] ++
          (if spinWaitSucceeded then [] else [TransferOp.streamSynchronize Stream.mStream]) ++
          [TransferOp.releaseContext] := by
  refine ⟨⟨rfl, rfl⟩, ⟨rfl, rfl⟩, ?_⟩
  intro isInAbortMode
  cases isInAbortMode <;> cases spinWaitSucceeded <;> simp [syncDmaBack, TransferState.issue]

/-- Counterexample to C12 as stated: with one contact batch and no element
exceeding the threshold in the previous step, the still-active mask is
allocated with `32` elements (one byte each), whereas
`(maxPrevious + maxCurrent) * 2` with `maxCurrent = totalContactBatches * 32`
is `64`. -/
theorem C12_counterexample :
    allocations DeviceBuffer.mThresholdStreamWriteable
      (gpuMemDMAUp_forceThresholdBuffers exampleTransferCore oneContactBatch true
        TransferState.empty).issued = [32] ∧
    (TransferState.empty.mNbPrevExceededForceElements +
      totalContactBatches oneContactBatch * 32) * 2 = 64 := by
  decide

/-- C12 (amended): when `hasForceThresholds` is set, `gpuMemDMAUp` allocates
the still-active mask `mThresholdStreamWriteable` exactly once, with
`maxCurrent + maxPrevious * 2` one-byte elements computed in 32-bit
arithmetic, where `maxPrevious` is the stored previous exceeded-force count
and `maxCurrent` is `totalContactBatches * 32`; absent 32-bit overflow this
is `totalContactBatches * 32 + mNbPrevExceededForceElements * 2`, with
`totalContactBatches` the sum of the five contact batch counts.  The
write-index buffer is allocated with the same number of 32-bit words.  When
`hasForceThresholds` is not set nothing is allocated. -/
theorem C12_writeable_mask_size (core : TransferCore) (data : PxgConstraintPrePrepData)
    (st : TransferState) :
    (∃ ops,
      (gpuMemDMAUp_forceThresholdBuffers core data true st).issued = st.issued ++ ops ∧
      allocations DeviceBuffer.mThresholdStreamWriteable ops =
        [u32add (u32mul (totalContactBatches data) 32)
          (u32mul st.mNbPrevExceededForceElements 2)] ∧
      allocations DeviceBuffer.mThresholdStreamWriteIndex ops =
        [4 * u32add (u32mul (totalContactBatches data) 32)
          (u32mul st.mNbPrevExceededForceElements 2)]) ∧
    ((data.numContactBatches + data.numStaticContactBatches + data.numArtiContactsBatches +
        data.numArtiStaticContactsBatches + data.numArtiSelfContactsBatches) * 32 +
        st.mNbPrevExceededForceElements * 2 < 4294967296 →
      u32add (u32mul (totalContactBatches data) 32) (u32mul st.mNbPrevExceededForceElements 2) =
        (data.numContactBatches + data.numStaticContactBatches + data.numArtiContactsBatches +
          data.numArtiStaticContactsBatches + data.numArtiSelfContactsBatches) * 32 +
        st.mNbPrevExceededForceElements * 2) ∧
    gpuMemDMAUp_forceThresholdBuffers core data false st = st := by
  refine ⟨⟨_, forceThresholdBuffers_issued core data st, ?_, ?_⟩, ?_, rfl⟩
  · have h : u32add (u32mul (totalContactBatches data) 32)
        (u32mul st.mNbPrevExceededForceElements 2) < 18446744073709551616 := by
      unfold u32add; omega
    simp [allocations, forceThresholdBuffersOps, usizeMul, Nat.mod_eq_of_lt h]
  · have h : 4 * u32add (u32mul (totalContactBatches data) 32)
        (u32mul st.mNbPrevExceededForceElements 2) < 18446744073709551616 := by
      unfold u32add; omega
    simp [allocations, forceThresholdBuffersOps, usizeMul, Nat.mod_eq_of_lt h]
  · intro h
    unfold totalContactBatches u32add u32mul
    dsimp only
    omega

/-- C12 (amended) exercised on a step with one contact batch and three
elements that exceeded the threshold in the previous step: `32 + 3 * 2 = 38`
elements. -/
theorem C12_writeable_mask_size_witness :
    (oneContactBatch.numContactBatches + oneContactBatch.numStaticContactBatches +
        oneContactBatch.numArtiContactsBatches + oneContactBatch.numArtiStaticContactsBatches +
        oneContactBatch.numArtiSelfContactsBatches) * 32 + 3 * 2 < 4294967296 ∧
    u32add (u32mul (totalContactBatches oneContactBatch) 32) (u32mul 3 2) = 38 :=
  ⟨by decide,
    (C12_writeable_mask_size exampleTransferCore oneContactBatch
      ⟨[], [], 0, 3, 0, 0, 0, 0⟩).2.1 (by decide)⟩

/-- C13: `accumulatedForceThresholdStream` first issues the snapshot copy of
the threshold stream into the temporary stream (`mTotalContactManagers`
elements), then the initialisation kernel keyed by body B followed by one run
of `radixSort(nbPasses)`, then the initialisation kernel keyed by body A
followed by a second run of `radixSort` with the same `nbPasses`; each run
consists of `2 * nbPasses` launches of the two radix-sort kernels and nothing
else.  Everything issued after the second sort contains no radix-sort or
initialisation kernel, and its kernels are, in this order: reorganise, the
three accumulate kernels, the two exceeded-force kernels, the mask kernels
(the set-mask kernel only when a previous exceeded-force element exists) and
the force-change kernel. -/
theorem C13_threshold_stream_order (core : TransferCore)
    (mPrepareDesc : PxgConstraintPrepareDesc) (maxNodes : Nat) (st : TransferState) :
    ∃ rest,
      (accumulatedForceThresholdStream core mPrepareDesc maxNodes st).issued =
        st.issued ++
          TransferOp.memcpyDtoDAsync DeviceBuffer.tmpThresholdStream DeviceBuffer.thresholdStream
            (usizeMul core.sizes.ThresholdStreamElement st.mTotalContactManagers)
            Stream.mStream ::
          TransferOp.launchKernel TransferKernelId.INITIALIZE_INPUT_AND_RANKS_B
            (core.gridDim KernelDim.INITIALIZE_INPUT_AND_RANKS)
            (core.blockDim KernelDim.INITIALIZE_INPUT_AND_RANKS) Stream.mStream
            [TransferParam.mSolverCoreDescd, TransferParam.mRadixSortDescd 0] ::
          (radixSort core (nbPasses maxNodes) TransferState.empty).issued ++
          TransferOp.launchKernel TransferKernelId.INITIALIZE_INPUT_AND_RANKS_A
            (core.gridDim KernelDim.INITIALIZE_INPUT_AND_RANKS)
            (core.blockDim KernelDim.INITIALIZE_INPUT_AND_RANKS) Stream.mStream
            [TransferParam.mSolverCoreDescd, TransferParam.mRadixSortDescd 0] ::
          (radixSort core (nbPasses maxNodes) TransferState.empty).issued ++
          rest ∧
      (radixSort core (nbPasses maxNodes) TransferState.empty).issued.length =
        2 * nbPasses maxNodes ∧
      (∀ op ∈ (radixSort core (nbPasses maxNodes) TransferState.empty).issued,
        op.isRadixSortLaunch = true) ∧
      rest.filterMap TransferOp.kernel =
        [TransferKernelId.REORGANIZE_THRESHOLDSTREAM,
          TransferKernelId.COMPUTE_ACCUMULATED_THRESHOLDSTREAM,
          TransferKernelId.OUTPUT_ACCUMULATED_THRESHOLDSTREAM,
          TransferKernelId.WRITEOUT_ACCUMULATEDFORCEPEROBJECT,
          TransferKernelId.COMPUTE_EXCEEDEDFORCE_THRESHOLDELEMENT_INDICE,
          TransferKernelId.OUTPUT_EXCEEDEDFORCE_THRESHOLDELEMENT_INDICE] ++
        (if st.mNbPrevExceededForceElements > 0 then
          [TransferKernelId.SET_THRESHOLDELEMENT_MASK] else []) ++
        [TransferKernelId.COMPUTE_THRESHOLDELEMENT_MASK_INDICES,
          TransferKernelId.OUTPUT_THRESHOLDELEMENT_MASK_INDICES,
          TransferKernelId.CREATE_FORCECHANGE_THRESHOLDELEMENTS] := by
  have hr : (radixSort core (nbPasses maxNodes) TransferState.empty).issued =
      radixSortOps core (nbPasses maxNodes) := by
    rw [radixSort_eq]
    rfl
  refine ⟨thresholdReduceOps core mPrepareDesc st.mNbPrevExceededForceElements, ?_, ?_, ?_, ?_⟩
  · rw [hr]
    exact accumulatedForceThresholdStream_issued core mPrepareDesc maxNodes st
  · rw [hr]
    exact radixSortOps_length core _
  · rw [hr]
    exact fun op h => (radixSortOps_all core _ op h).1
  · unfold thresholdReduceOps
    split_ifs <;> rfl

/-- C14: the first operation `gpuMemDMAbackSolverData` issues is the join
`synchronizeStreams(mStream, mStream2, mEventDmaBack)` that makes `mStream2`
wait for `mStream`; every device-to-host copy and every kernel launch it
issues comes after that join and is issued on `mStream2`, and no operation of
the function (copy, launch or flush) is issued on `mStream`.  The function
always issues the descriptor copy, so at least one copy follows the join. -/
theorem C14_download_on_second_queue (core : TransferCore) (args : DmaBackArgs)
    (st : TransferState) :
    ∃ rest,
      (gpuMemDMAbackSolverData core args st).issued =
        st.issued ++ TransferOp.synchronizeStreams Stream.mStream Stream.mStream2
          Event.mEventDmaBack :: rest ∧
      (∀ op ∈ rest, op.isCopyBackOrLaunch = true → op.stream = some Stream.mStream2) ∧
      (∀ op ∈ rest, op.stream ≠ some Stream.mStream) ∧
      (∃ op ∈ rest, op.isCopyBackOrLaunch = true) := by
  refine ⟨dmaBackOps core args, gpuMemDMAbackSolverData_issued core args st, ?_, ?_, ?_⟩
  · intro op h hc
    unfold dmaBackOps at h
    simp at h
    rcases h with rfl | ⟨-, rfl⟩ | ⟨-, rfl⟩ | ⟨-, rfl⟩ | ⟨-, rfl | rfl⟩ | ⟨-, rfl⟩ | ⟨-, rfl⟩ | rfl <;>
      first | rfl | exact absurd hc (by decide)
  · intro op h
    unfold dmaBackOps at h
    simp at h
    rcases h with rfl | ⟨-, rfl⟩ | ⟨-, rfl⟩ | ⟨-, rfl⟩ | ⟨-, rfl | rfl⟩ | ⟨-, rfl⟩ | ⟨-, rfl⟩ | rfl <;>
      simp [TransferOp.stream]
  · refine ⟨TransferOp.memcpyDtoHAsync HostBuffer.mSolverCoreDesc 0 DeviceBuffer.mSolverCoreDescd 0
      core.sizes.PxgSolverCoreDesc Stream.mStream2, ?_, rfl⟩
    unfold dmaBackOps
    simp

/-- Counterexample to C15 as stated: with residual reporting enabled, for an
island with one position and one velocity iteration, the articulation
internal solve of the velocity iteration (velocity flag `true`) is issued
after the first residual read-back operation, so the read-back is not issued
after all of the island's iterations. -/
theorem C15_counterexample :
    exampleCore.residualReportingEnabled = true ∧
    (solveContactMultiBlockParallel_island exampleCore (fun _ => smallIsland)
      exampleConstraintsPerPartition exampleArtiConstraintsPerPartition 0 0
      SolverState.empty).map
      (fun s => (s.issued.dropWhile (fun op => !hasKind OpKind.residualReadBack op)).filterMap
        velocityIterationFlag) = some [true] := by
  decide

/-- C15 (amended): when residual reporting is enabled, one call of
`solveContactMultiBlockParallel` issues, after the initial accumulator clear,
one block per island in increasing island index; in the block of island `a`
the operations that transfer the residuals and the error accumulators to host
memory (the residual kernels and the two device-to-host copies, at least the
two copies) are issued after all of that island's position iterations and its
conclude and write-back, and before all of its velocity iterations, hence
before any operation of the next island: nothing before or after them in the
block is a read-back operation, the articulation internal solves before them
are the position-flagged ones of the `max(0, N)` position iterations, and those
after them are the velocity-flagged ones of the `max(0, V)` velocity
iterations. -/
theorem C15_residual_readback_order (core : SolverCore)
    (hv : SolveBlockDimsValid core.blockDim) (hrr : core.residualReportingEnabled = true)
    (islandContexts : Nat → PxgIslandContext) (numIslands : Nat)
    (constraintsPerPartition artiConstraintsPerPartition : Nat → Int)
    (posIterResidualPinnedMemSize : Nat) (st : SolverState) :
    ∃ (st1 : SolverState) (before after : Nat → List Op),
      solveContactMultiBlockParallel core islandContexts numIslands constraintsPerPartition
        artiConstraintsPerPartition posIterResidualPinnedMemSize st = some st1 ∧
      st1.issued = st.issued ++ zeroErrorAccumulatorsOps core ++
        (List.range numIslands).flatMap (fun a =>
          before a ++ residualTransferOps core posIterResidualPinnedMemSize ++ after a) ∧
      (residualTransferOps core posIterResidualPinnedMemSize).filter
        (hasKind OpKind.residualReadBack) =
        residualTransferOps core posIterResidualPinnedMemSize ∧
      2 ≤ (residualTransferOps core posIterResidualPinnedMemSize).length ∧
      ∀ a,
        (before a).filter (hasKind OpKind.residualReadBack) = [] ∧
        (after a).filter (hasKind OpKind.residualReadBack) = [] ∧
        (before a).filterMap velocityIterationFlag =
          List.replicate (islandContexts a).mNumPositionIterations.toNat false ∧
        (after a).filterMap velocityIterationFlag =
          List.replicate (islandContexts a).mNumVelocityIterations.toNat true := by
  obtain ⟨st1, e1, i1⟩ := solveContactMultiBlockParallel_issues core hv islandContexts
    numIslands constraintsPerPartition artiConstraintsPerPartition posIterResidualPinnedMemSize
    st
  refine ⟨st1,
    (fun a =>
      (List.range (islandContexts a).mNumPositionIterations.toNat).flatMap
          (positionIterationOps core islandContexts constraintsPerPartition
            artiConstraintsPerPartition a (anyArticulationConstraints (islandContexts a))
            false) ++
        concludeAndWriteBackOps core (islandContexts a) a ++
        writeBackBlockOps core a (islandContexts a)),
    (fun a =>
      (List.range (islandContexts a).mNumVelocityIterations.toNat).flatMap
          (velocityIterationOps core islandContexts constraintsPerPartition
            artiConstraintsPerPartition a (anyArticulationConstraints (islandContexts a))
            false true) ++
        finalWriteBackOps core (islandContexts a) a), e1, ?_, ?_, ?_, ?_⟩
  · rw [i1]
    unfold solveContactMultiBlockParallelOps
    rw [List.append_assoc]
    congr 2
    apply List.flatMap_congr
    intro a _
    exact islandOps_split core islandContexts constraintsPerPartition
      artiConstraintsPerPartition posIterResidualPinnedMemSize a hrr
  · exact filter_hasKind_eq_self (kind_residualTransfer core posIterResidualPinnedMemSize)
  · unfold residualTransferOps
    simp only [List.length_append, List.length_cons, List.length_nil]
    omega
  · intro a
    obtain ⟨p1, -, -⟩ := positionLoopOps_obs core islandContexts constraintsPerPartition
      artiConstraintsPerPartition a (anyArticulationConstraints (islandContexts a)) false
      (islandContexts a).mNumPositionIterations.toNat
    obtain ⟨v1, -, -⟩ := velocityLoopOps_obs core islandContexts constraintsPerPartition
      artiConstraintsPerPartition a (anyArticulationConstraints (islandContexts a)) false true
      (islandContexts a).mNumVelocityIterations.toNat
    obtain ⟨c1, -⟩ := plain_filters (plainFor_conclude core (islandContexts a) a)
    obtain ⟨w1, -⟩ := plain_filters (plainFor_writeBackBlock core (islandContexts a) a)
    obtain ⟨f1, -⟩ := plain_filters (plainFor_finalWriteBack core (islandContexts a) a)
    refine ⟨islandOps_before_noReadBack _ _ _ _ _, islandOps_after_noReadBack _ _ _ _ _, ?_, ?_⟩
    · rw [List.filterMap_append, List.filterMap_append, p1, c1, w1]
      simp
    · rw [List.filterMap_append, v1, f1]
      simp

/-- C15 (amended) exercised on a step with two copies of the example island. -/
theorem C15_residual_readback_order_witness :
    SolveBlockDimsValid exampleCore.blockDim ∧ exampleCore.residualReportingEnabled = true ∧
    ∃ (st1 : SolverState) (before after : Nat → List Op),
      solveContactMultiBlockParallel exampleCore (fun _ => exampleIsland) 2
        exampleConstraintsPerPartition exampleArtiConstraintsPerPartition 4
        SolverState.empty = some st1 ∧
      st1.issued = SolverState.empty.issued ++ zeroErrorAccumulatorsOps exampleCore ++
        (List.range 2).flatMap (fun a =>
          before a ++ residualTransferOps exampleCore 4 ++ after a) ∧
      (residualTransferOps exampleCore 4).filter (hasKind OpKind.residualReadBack) =
        residualTransferOps exampleCore 4 ∧
      2 ≤ (residualTransferOps exampleCore 4).length ∧
      ∀ a,
        (before a).filter (hasKind OpKind.residualReadBack) = [] ∧
        (after a).filter (hasKind OpKind.residualReadBack) = [] ∧
        (before a).filterMap velocityIterationFlag =
          List.replicate ((fun _ => exampleIsland) a).mNumPositionIterations.toNat false ∧
        (after a).filterMap velocityIterationFlag =
          List.replicate ((fun _ => exampleIsland) a).mNumVelocityIterations.toNat true :=
  ⟨by decide, by decide,
    C15_residual_readback_order exampleCore (by decide) (by decide) (fun _ => exampleIsland) 2
      exampleConstraintsPerPartition exampleArtiConstraintsPerPartition 4 SolverState.empty⟩

/-- C16: with residual reporting enabled, every position iteration and every
velocity iteration first fills both error accumulators (the solver's and the
articulation core's) with zero words on `mStream` and then issues the
operations of its `solvePartitions` call; no other fill is issued in the
iteration.  With residual reporting disabled, one call of
`solveContactMultiBlockParallel` fills each accumulator exactly once, at the
start, with the value `0xFFFFFFFF`, and issues no further fill, no residual
kernel and no residual copy. -/
theorem C16_accumulator_resets (core : SolverCore) (hv : SolveBlockDimsValid core.blockDim)
    (islandContexts : Nat → PxgIslandContext) (numIslands : Nat)
    (constraintsPerPartition artiConstraintsPerPartition : Nat → Int)
    (posIterResidualPinnedMemSize : Nat) (a : Nat) (anyArti isTgs doFriction : Bool) (b : Nat)
    (st : SolverState) :
    (core.residualReportingEnabled = true →
      (∃ st1 rest,
        solveContactMultiBlockParallel_positionIteration core islandContexts
          constraintsPerPartition artiConstraintsPerPartition a anyArti isTgs b st = some st1 ∧
        st1.issued = st.issued ++
          [Op.memsetD32Async ErrorAccumulatorPtr.solverCoreContactErrorAccumulator 0
              (core.sizeofErrorAccumulator / 4) Stream.mStream,
            Op.memsetD32Async ErrorAccumulatorPtr.articulationContactErrorAccumulator 0
              (core.sizeofErrorAccumulator / 4) Stream.mStream] ++
          solvePartitionsOps core islandContexts constraintsPerPartition
            artiConstraintsPerPartition a (positionDoFriction core (islandContexts a) b)
            anyArti ++ rest ∧
        (solvePartitionsOps core islandContexts constraintsPerPartition
            artiConstraintsPerPartition a (positionDoFriction core (islandContexts a) b)
            anyArti ++ rest).filter (hasKind OpKind.accumulatorFill) = []) ∧
      (∃ st1 rest,
        solveContactMultiBlockParallel_velocityIteration core islandContexts
          constraintsPerPartition artiConstraintsPerPartition a anyArti isTgs doFriction b st =
          some st1 ∧
        st1.issued = st.issued ++
          [Op.memsetD32Async ErrorAccumulatorPtr.solverCoreContactErrorAccumulator 0
              (core.sizeofErrorAccumulator / 4) Stream.mStream,
            Op.memsetD32Async ErrorAccumulatorPtr.articulationContactErrorAccumulator 0
              (core.sizeofErrorAccumulator / 4) Stream.mStream] ++
          solvePartitionsOps core islandContexts constraintsPerPartition
            artiConstraintsPerPartition a doFriction anyArti ++ rest ∧
        (solvePartitionsOps core islandContexts constraintsPerPartition
            artiConstraintsPerPartition a doFriction anyArti ++ rest).filter
          (hasKind OpKind.accumulatorFill) = [])) ∧
    (core.residualReportingEnabled = false →
      ∃ st1 rest,
        solveContactMultiBlockParallel core islandContexts numIslands constraintsPerPartition
          artiConstraintsPerPartition posIterResidualPinnedMemSize st = some st1 ∧
        st1.issued = st.issued ++
          [Op.memsetD32Async ErrorAccumulatorPtr.solverCoreContactErrorAccumulator 4294967295
              (core.sizeofErrorAccumulator / 4) Stream.mStream,
            Op.memsetD32Async ErrorAccumulatorPtr.articulationContactErrorAccumulator
              4294967295 (core.sizeofErrorAccumulator / 4) Stream.mStream] ++ rest ∧
        rest.filter (hasKind OpKind.accumulatorFill) = [] ∧
        rest.filter (hasKind OpKind.residualReadBack) = []) ∧
    Issues (solvePartitions core islandContexts constraintsPerPartition
        artiConstraintsPerPartition a doFriction anyArti)
      (solvePartitionsOps core islandContexts constraintsPerPartition
        artiConstraintsPerPartition a doFriction anyArti) := by
  refine ⟨?_, ?_, solvePartitions_issues core hv islandContexts constraintsPerPartition
    artiConstraintsPerPartition a doFriction anyArti⟩
  · intro hrr
    have hz : zeroErrorAccumulatorsOps core =
        [Op.memsetD32Async ErrorAccumulatorPtr.solverCoreContactErrorAccumulator 0
            (core.sizeofErrorAccumulator / 4) Stream.mStream,
          Op.memsetD32Async ErrorAccumulatorPtr.articulationContactErrorAccumulator 0
            (core.sizeofErrorAccumulator / 4) Stream.mStream] := by
      unfold zeroErrorAccumulatorsOps clearValue
      rw [if_pos hrr]
    have harti : ∀ v d, ∀ op ∈ [Op.propagateRigidBodyImpulsesAndSolveInternalConstraints v d
        isTgs core.residualReportingEnabled], opKind op = OpKind.solve := by
      intro v d op h
      rw [List.mem_singleton.mp h]
      rfl
    constructor
    · obtain ⟨st1, h1, h2⟩ := positionIteration_issues core hv islandContexts
        constraintsPerPartition artiConstraintsPerPartition a anyArti isTgs b st
      refine ⟨st1,
        [Op.propagateRigidBodyImpulsesAndSolveInternalConstraints false
          (positionDoFriction core (islandContexts a) b) isTgs core.residualReportingEnabled] ++
        positionExtendedBodiesOps core (islandContexts a) b ++
        staticConstraintsOps core (islandContexts a) a
          (positionDoFriction core (islandContexts a) b) ++
        propagateBodyVelocityOps core (islandContexts a), h1, ?_, ?_⟩
      · rw [h2]
        unfold positionIterationOps
        rw [if_pos hrr, hz]
        simp only [List.append_assoc]
      · simp only [List.filter_append]
        rw [filter_hasKind_eq_nil (kind_solvePartitions _ _ _ _ _ _ _) (by decide),
          filter_hasKind_eq_nil (harti _ _) (by decide),
          filter_hasKind_eq_nil (kind_positionExtended _ _ _) (by decide),
          filter_hasKind_eq_nil (kind_static _ _ _ _) (by decide),
          filter_hasKind_eq_nil (kind_propagate _ _) (by decide)]
        rfl
    · obtain ⟨st1, h1, h2⟩ := velocityIteration_issues core hv islandContexts
        constraintsPerPartition artiConstraintsPerPartition a anyArti isTgs doFriction b st
      have hp : (if (islandContexts a).mNumVelocityIterations - (b : Int) ≠ 1 then
          propagateBodyVelocityOps core (islandContexts a) else []).filter
          (hasKind OpKind.accumulatorFill) = [] := by
        split_ifs
        · exact filter_hasKind_eq_nil (kind_propagate _ _) (by decide)
        · rfl
      refine ⟨st1,
        [Op.propagateRigidBodyImpulsesAndSolveInternalConstraints true doFriction isTgs
          core.residualReportingEnabled] ++
        velocityExtendedBodiesOps core ++
        staticConstraintsOps core (islandContexts a) a doFriction ++
        (if (islandContexts a).mNumVelocityIterations - (b : Int) ≠ 1 then
          propagateBodyVelocityOps core (islandContexts a) else []), h1, ?_, ?_⟩
      · rw [h2]
        unfold velocityIterationOps
        rw [if_pos hrr, hz]
        simp only [List.append_assoc]
      · simp only [List.filter_append]
        rw [filter_hasKind_eq_nil (kind_solvePartitions _ _ _ _ _ _ _) (by decide),
          filter_hasKind_eq_nil (harti _ _) (by decide),
          filter_hasKind_eq_nil (kind_velocityExtended _) (by decide),
          filter_hasKind_eq_nil (kind_static _ _ _ _) (by decide), hp]
        rfl
  · intro hrr
    obtain ⟨st1, h1, h2⟩ := solveContactMultiBlockParallel_issues core hv islandContexts
      numIslands constraintsPerPartition artiConstraintsPerPartition
      posIterResidualPinnedMemSize st
    have hz : zeroErrorAccumulatorsOps core =
        [Op.memsetD32Async ErrorAccumulatorPtr.solverCoreContactErrorAccumulator 4294967295
            (core.sizeofErrorAccumulator / 4) Stream.mStream,
          Op.memsetD32Async ErrorAccumulatorPtr.articulationContactErrorAccumulator 4294967295
            (core.sizeofErrorAccumulator / 4) Stream.mStream] := by
      unfold zeroErrorAccumulatorsOps clearValue
      rw [hrr]
      rfl
    refine ⟨st1, (List.range numIslands).flatMap
      (islandOps core islandContexts constraintsPerPartition artiConstraintsPerPartition
        posIterResidualPinnedMemSize), h1, ?_, ?_, ?_⟩
    · rw [h2]
      unfold solveContactMultiBlockParallelOps
      rw [hz, List.append_assoc]
    · rw [List.filter_eq_nil_iff]
      intro op h
      obtain ⟨i, -, h⟩ := List.mem_flatMap.mp h
      rcases islandOps_quiet core _ _ _ _ _ hrr op h with k | k <;> simp [hasKind, k]
    · rw [List.filter_eq_nil_iff]
      intro op h
      obtain ⟨i, -, h⟩ := List.mem_flatMap.mp h
      rcases islandOps_quiet core _ _ _ _ _ hrr op h with k | k <;> simp [hasKind, k]

/-- C16 exercised on the example core (residual reporting enabled), at
iteration `b = 1` of the example island, and on the same core with residual
reporting disabled, for a step with two islands. -/
theorem C16_accumulator_resets_witness :
    (SolveBlockDimsValid exampleCore.blockDim ∧ exampleCore.residualReportingEnabled = true ∧
      ∃ st1 rest,
        solveContactMultiBlockParallel_velocityIteration exampleCore (fun _ => exampleIsland)
          exampleConstraintsPerPartition exampleArtiConstraintsPerPartition 0 true false true 1
          SolverState.empty = some st1 ∧
        st1.issued = SolverState.empty.issued ++
          [Op.memsetD32Async ErrorAccumulatorPtr.solverCoreContactErrorAccumulator 0
              (exampleCore.sizeofErrorAccumulator / 4) Stream.mStream,
            Op.memsetD32Async ErrorAccumulatorPtr.articulationContactErrorAccumulator 0
              (exampleCore.sizeofErrorAccumulator / 4) Stream.mStream] ++
          solvePartitionsOps exampleCore (fun _ => exampleIsland)
            exampleConstraintsPerPartition exampleArtiConstraintsPerPartition 0 true true ++
          rest ∧
        (solvePartitionsOps exampleCore (fun _ => exampleIsland)
            exampleConstraintsPerPartition exampleArtiConstraintsPerPartition 0 true true ++
          rest).filter (hasKind OpKind.accumulatorFill) = []) ∧
    (SolveBlockDimsValid quietCore.blockDim ∧ quietCore.residualReportingEnabled = false ∧
      ∃ st1 rest,
        solveContactMultiBlockParallel quietCore (fun _ => exampleIsland) 2
          exampleConstraintsPerPartition exampleArtiConstraintsPerPartition 0
          SolverState.empty = some st1 ∧
        st1.issued = SolverState.empty.issued ++
          [Op.memsetD32Async ErrorAccumulatorPtr.solverCoreContactErrorAccumulator 4294967295
              (quietCore.sizeofErrorAccumulator / 4) Stream.mStream,
            Op.memsetD32Async ErrorAccumulatorPtr.articulationContactErrorAccumulator
              4294967295 (quietCore.sizeofErrorAccumulator / 4) Stream.mStream] ++ rest ∧
        rest.filter (hasKind OpKind.accumulatorFill) = [] ∧
        rest.filter (hasKind OpKind.residualReadBack) = []) :=
  ⟨⟨by decide, by decide,
      ((C16_accumulator_resets exampleCore (by decide) (fun _ => exampleIsland) 2
        exampleConstraintsPerPartition exampleArtiConstraintsPerPartition 0 0 true false true 1
        SolverState.empty).1 (by decide)).2⟩,
    ⟨by decide, by decide,
      (C16_accumulator_resets quietCore (by decide) (fun _ => exampleIsland) 2
        exampleConstraintsPerPartition exampleArtiConstraintsPerPartition 0 0 true false true 1
        SolverState.empty).2.1 (by decide)⟩⟩

/-- C17: let `core0` be a core with no soft-body core, no cloth core and zero
particle-system cores (obtained from any core by unregistering its
extended-body solvers).  Then `nonRigidConstraintPrepare` returns the state
unchanged (nothing is issued), and `solveContactMultiBlockParallel` completes
and issues no operation of the extended-body kind: no solve, updateParticles,
copyContactCountsToHost, finalizeVelocities or constraint preparation of an
extended-body solver and no articulation `outputVelocity`.  Moreover the
operations it issues are exactly the operations issued with the solvers
present once the extended-body operations are removed, in the same order, so
the rigid and articulation operations are the same. -/
theorem C17_no_extended_body_solvers (core : SolverCore)
    (hv : SolveBlockDimsValid core.blockDim) (islandContexts : Nat → PxgIslandContext)
    (numIslands : Nat) (constraintsPerPartition artiConstraintsPerPartition : Nat → Int)
    (posIterResidualPinnedMemSize numSolverBodies numArticulations : Nat) (st : SolverState) :
    nonRigidConstraintPrepare (withoutExtendedBodies core) numSolverBodies numArticulations st
      = st ∧
    ∃ st0 st1 ops0 ops1,
      solveContactMultiBlockParallel (withoutExtendedBodies core) islandContexts numIslands
        constraintsPerPartition artiConstraintsPerPartition posIterResidualPinnedMemSize st =
        some st0 ∧
      st0.issued = st.issued ++ ops0 ∧
      solveContactMultiBlockParallel core islandContexts numIslands constraintsPerPartition
        artiConstraintsPerPartition posIterResidualPinnedMemSize st = some st1 ∧
      st1.issued = st.issued ++ ops1 ∧
      ops0.filter (hasKind OpKind.extendedBody) = [] ∧
      ops1.filter (fun op => !hasKind OpKind.extendedBody op) = ops0 := by
  obtain ⟨st0, e0, i0⟩ := solveContactMultiBlockParallel_issues (withoutExtendedBodies core) hv
    islandContexts numIslands constraintsPerPartition artiConstraintsPerPartition
    posIterResidualPinnedMemSize st
  obtain ⟨st1, e1, i1⟩ := solveContactMultiBlockParallel_issues core hv
    islandContexts numIslands constraintsPerPartition artiConstraintsPerPartition
    posIterResidualPinnedMemSize st
  have hw := solveContactMultiBlockParallelOps_without core islandContexts numIslands
    constraintsPerPartition artiConstraintsPerPartition posIterResidualPinnedMemSize
  refine ⟨rfl, st0, st1, _, _, e0, i0, e1, i1, ?_, hw⟩
  rw [← hw]
  exact filter_hasKind_filter_not _ _

/-- C17 exercised on the example core, which has a soft-body core, a cloth
core and two particle-system cores registered. -/
theorem C17_no_extended_body_solvers_witness :
    SolveBlockDimsValid exampleCore.blockDim ∧
    nonRigidConstraintPrepare (withoutExtendedBodies exampleCore) 3 1 SolverState.empty
      = SolverState.empty ∧
    ∃ st0 st1 ops0 ops1,
      solveContactMultiBlockParallel (withoutExtendedBodies exampleCore)
        (fun _ => exampleIsland) 1 exampleConstraintsPerPartition
        exampleArtiConstraintsPerPartition 0 SolverState.empty = some st0 ∧
      st0.issued = SolverState.empty.issued ++ ops0 ∧
      solveContactMultiBlockParallel exampleCore (fun _ => exampleIsland) 1
        exampleConstraintsPerPartition exampleArtiConstraintsPerPartition 0 SolverState.empty =
        some st1 ∧
      st1.issued = SolverState.empty.issued ++ ops1 ∧
      ops0.filter (hasKind OpKind.extendedBody) = [] ∧
      ops1.filter (fun op => !hasKind OpKind.extendedBody op) = ops0 :=
  ⟨by decide, C17_no_extended_body_solvers exampleCore (by decide) (fun _ => exampleIsland) 1
    exampleConstraintsPerPartition exampleArtiConstraintsPerPartition 0 3 1 SolverState.empty⟩

/-- Counterexample to C18 as stated: the example core has a cloth core
registered, yet a velocity iteration of the example island invokes the cloth
solve zero times. -/
theorem C18_counterexample :
    exampleCore.femClothCore = true ∧
    (solveContactMultiBlockParallel_velocityIteration exampleCore (fun _ => exampleIsland)
      exampleConstraintsPerPartition exampleArtiConstraintsPerPartition 0 true false true 0
      SolverState.empty).map (fun s => (s.issued.filter isFemClothSolve).length) = some 0 := by
  decide

/-- C18 (amended): in every position iteration of every island the solve of
the soft-body core, of the cloth core and of each particle-system core is
invoked exactly once when that solver is registered (and not at all
otherwise); in every velocity iteration the solve of the soft-body core and
of each registered particle-system core is invoked exactly once, and the
cloth solve is not invoked (there is no velocity-iteration support for FEM
cloth). -/
theorem C18_extended_body_solves (core : SolverCore) (hv : SolveBlockDimsValid core.blockDim)
    (islandContexts : Nat → PxgIslandContext)
    (constraintsPerPartition artiConstraintsPerPartition : Nat → Int) (a : Nat)
    (anyArti isTgs doFriction : Bool) (b : Nat) (st : SolverState) :
    (∃ st1 ops,
      solveContactMultiBlockParallel_positionIteration core islandContexts
        constraintsPerPartition artiConstraintsPerPartition a anyArti isTgs b st = some st1 ∧
      st1.issued = st.issued ++ ops ∧
      (ops.filter isSoftBodySolve).length = (if core.softbodyCore then 1 else 0) ∧
      (ops.filter isFemClothSolve).length = (if core.femClothCore then 1 else 0) ∧
      ∀ i, (ops.filter (isParticleSystemSolve i)).length =
        if i < core.numParticleSystemCores then 1 else 0) ∧
    (∃ st1 ops,
      solveContactMultiBlockParallel_velocityIteration core islandContexts
        constraintsPerPartition artiConstraintsPerPartition a anyArti isTgs doFriction b st =
        some st1 ∧
      st1.issued = st.issued ++ ops ∧
      (ops.filter isSoftBodySolve).length = (if core.softbodyCore then 1 else 0) ∧
      ops.filter isFemClothSolve = [] ∧
      ∀ i, (ops.filter (isParticleSystemSolve i)).length =
        if i < core.numParticleSystemCores then 1 else 0) := by
  constructor
  · obtain ⟨st1, h1, h2⟩ := positionIteration_issues core hv islandContexts
      constraintsPerPartition artiConstraintsPerPartition a anyArti isTgs b st
    obtain ⟨s1, s2, s3⟩ := positionExtendedBodiesOps_solves core (islandContexts a) b
    refine ⟨st1, _, h1, h2, ?_, ?_, ?_⟩
    · rw [positionIterationOps_filter _ _ _ _ _ _ _ _ kind_of_isSoftBodySolve, s1]
    · rw [positionIterationOps_filter _ _ _ _ _ _ _ _ kind_of_isFemClothSolve, s2]
    · intro i
      rw [positionIterationOps_filter _ _ _ _ _ _ _ _ (kind_of_isParticleSystemSolve i), s3]
  · obtain ⟨st1, h1, h2⟩ := velocityIteration_issues core hv islandContexts
      constraintsPerPartition artiConstraintsPerPartition a anyArti isTgs doFriction b st
    obtain ⟨s1, s2, s3⟩ := velocityExtendedBodiesOps_solves core
    refine ⟨st1, _, h1, h2, ?_, ?_, ?_⟩
    · rw [velocityIterationOps_filter _ _ _ _ _ _ _ _ _ kind_of_isSoftBodySolve, s1]
    · rw [velocityIterationOps_filter _ _ _ _ _ _ _ _ _ kind_of_isFemClothSolve, s2]
    · intro i
      rw [velocityIterationOps_filter _ _ _ _ _ _ _ _ _ (kind_of_isParticleSystemSolve i), s3]

/-- C18 (amended) exercised on the example core (soft-body core, cloth core
and two particle-system cores registered) at iteration `b = 0`. -/
theorem C18_extended_body_solves_witness :
    SolveBlockDimsValid exampleCore.blockDim ∧
    (∃ st1 ops,
      solveContactMultiBlockParallel_positionIteration exampleCore (fun _ => exampleIsland)
        exampleConstraintsPerPartition exampleArtiConstraintsPerPartition 0 true false 0
        SolverState.empty = some st1 ∧
      st1.issued = SolverState.empty.issued ++ ops ∧
      (ops.filter isSoftBodySolve).length = (if exampleCore.softbodyCore then 1 else 0) ∧
      (ops.filter isFemClothSolve).length = (if exampleCore.femClothCore then 1 else 0) ∧
      ∀ i, (ops.filter (isParticleSystemSolve i)).length =
        if i < exampleCore.numParticleSystemCores then 1 else 0) ∧
    (∃ st1 ops,
      solveContactMultiBlockParallel_velocityIteration exampleCore (fun _ => exampleIsland)
        exampleConstraintsPerPartition exampleArtiConstraintsPerPartition 0 true false true 0
        SolverState.empty = some st1 ∧
      st1.issued = SolverState.empty.issued ++ ops ∧
      (ops.filter isSoftBodySolve).length = (if exampleCore.softbodyCore then 1 else 0) ∧
      ops.filter isFemClothSolve = [] ∧
      ∀ i, (ops.filter (isParticleSystemSolve i)).length =
        if i < exampleCore.numParticleSystemCores then 1 else 0) :=
  ⟨by decide, C18_extended_body_solves exampleCore (by decide) (fun _ => exampleIsland)
    exampleConstraintsPerPartition exampleArtiConstraintsPerPartition 0 true false true 0
    SolverState.empty⟩

/-- C19: `gpuMemDmaUpBodyData` allocates the encoded reference-count buffer
once, with `4 * n` bytes (`n` 32-bit words), and right after the allocation
fills exactly `n` words of it with `0` on `mStream`, where `n` is the local
`numEncodedReferenceCount`; nothing else allocates or fills that buffer, so
the fill covers the whole buffer.  Absent 32-bit overflow (of
`max(1, nbSlabs) + 31` and of the product), `n` is
`numSolverBodies * ceil(max(1, nbSlabs) / 32)`: the number of words per body
is at least one, holds at least `nbSlabs` bits, and is the least such
number. -/
theorem C19_reference_count_zeroed (core : TransferCore) (args : BodyDataArgs)
    (st : TransferState) :
    (∃ before after,
      (gpuMemDmaUpBodyData core args st).issued =
        st.issued ++ before ++
          [TransferOp.allocate DeviceBuffer.mSolverEncodedReferenceCount
              (4 * numEncodedReferenceCount args.numSolverBodies args.nbSlabs),
            TransferOp.memsetD32Async DeviceBuffer.mSolverEncodedReferenceCount 0
              (numEncodedReferenceCount args.numSolverBodies args.nbSlabs) Stream.mStream] ++
          after ∧
      allocations DeviceBuffer.mSolverEncodedReferenceCount (before ++ after) = [] ∧
      (∀ v, fills DeviceBuffer.mSolverEncodedReferenceCount v (before ++ after) = [])) ∧
    (max 1 args.nbSlabs + 31 < 4294967296 →
      args.numSolverBodies * wordsPerBody args.nbSlabs < 4294967296 →
      numEncodedReferenceCount args.numSolverBodies args.nbSlabs =
        args.numSolverBodies * wordsPerBody args.nbSlabs ∧
      1 ≤ wordsPerBody args.nbSlabs ∧
      args.nbSlabs ≤ 32 * wordsPerBody args.nbSlabs ∧
      32 * (wordsPerBody args.nbSlabs - 1) < max 1 args.nbSlabs) := by
  have hn := numEncodedReferenceCount_lt args.numSolverBodies args.nbSlabs
  constructor
  · refine ⟨bodyDataPrefixOps core args, [TransferOp.streamFlush Stream.mStream], ?_, ?_, ?_⟩
    · rw [gpuMemDmaUpBodyData_issued]
      have h1 : usizeMul 4 (numEncodedReferenceCount args.numSolverBodies args.nbSlabs) =
          4 * numEncodedReferenceCount args.numSolverBodies args.nbSlabs := by
        unfold usizeMul; omega
      have h2 : usizeMul (numEncodedReferenceCount args.numSolverBodies args.nbSlabs) (4 / 4) =
          numEncodedReferenceCount args.numSolverBodies args.nbSlabs := by
        unfold usizeMul; omega
      rw [h1, h2]
      simp
    · simp [allocations, bodyDataPrefixOps]
    · intro v
      simp [fills, bodyDataPrefixOps]
  · intro h1 h2
    unfold wordsPerBody at h2 ⊢
    refine ⟨?_, ?_, ?_, ?_⟩
    · unfold numEncodedReferenceCount u32mul u32add
      rw [Nat.mod_eq_of_lt h1, Nat.mod_eq_of_lt h2]
    · omega
    · omega
    · omega

/-- C19 exercised on a step with 5 solver bodies and 40 slabs: two words per
body, ten words in all. -/
theorem C19_reference_count_zeroed_witness :
    max 1 exampleBodyDataArgs.nbSlabs + 31 < 4294967296 ∧
    exampleBodyDataArgs.numSolverBodies * wordsPerBody exampleBodyDataArgs.nbSlabs <
      4294967296 ∧
    numEncodedReferenceCount exampleBodyDataArgs.numSolverBodies exampleBodyDataArgs.nbSlabs =
      exampleBodyDataArgs.numSolverBodies * wordsPerBody exampleBodyDataArgs.nbSlabs ∧
    1 ≤ wordsPerBody exampleBodyDataArgs.nbSlabs ∧
    exampleBodyDataArgs.nbSlabs ≤ 32 * wordsPerBody exampleBodyDataArgs.nbSlabs ∧
    32 * (wordsPerBody exampleBodyDataArgs.nbSlabs - 1) < max 1 exampleBodyDataArgs.nbSlabs :=
  ⟨by decide, by decide,
    (C19_reference_count_zeroed exampleTransferCore exampleBodyDataArgs TransferState.empty).2
      (by decide) (by decide)⟩

/-- Counterexample to C20 as stated: with `nbDestroyedEdges = 2^32 - 1`
(positive) and a block dimension of 256 the 32-bit sum
`nbDestroyedEdges + 256 - 1` wraps to `254`, `nbBlocksRequired` is
`254 / 256 = 0`, and no kernel is launched. -/
theorem C20_counterexample :
    1 ≤ overflowContactDataArgs.nbDestroyedEdges ∧
    overflowContactDataArgs.nbDestroyedEdges < 4294967296 ∧
    (gpuMemDMAUpContactData exampleTransferCore overflowContactDataArgs
      TransferState.empty).map (fun s => s.issued.filterMap TransferOp.kernel) = some [] := by
  decide

/-- C20 (amended): when the 32-bit sum `nbDestroyedEdges + blockDim - 1` does
not overflow (and the block dimension is a positive 32-bit value), `gpuMemDMAUpContactData`
completes and issues, in this order: allocations and uploads without any
launch, the copy of the destroyed-edge indices to the device, the patch-count
reset kernel if and only if `nbDestroyedEdges > 0`, and the flush of
`mStream`.  The kernel is launched on `mStream` with
`(nbDestroyedEdges + blockDim - 1) / blockDim` blocks of `blockDim` threads,
the least number of blocks with `blocks * blockDim >= nbDestroyedEdges`, and
its first argument is the patch-count buffer of index `1 - mCurrentIndex`,
which is not the current one when `mCurrentIndex` is `0` or `1`. -/
theorem C20_patch_count_reset (core : TransferCore) (args : ContactDataArgs)
    (st : TransferState)
    (hpos : 0 < core.blockDim KernelDim.CLEAR_FRICTION_PATCH_COUNTS)
    (hdim : core.blockDim KernelDim.CLEAR_FRICTION_PATCH_COUNTS < 4294967296)
    (hno : args.nbDestroyedEdges + core.blockDim KernelDim.CLEAR_FRICTION_PATCH_COUNTS - 1 <
      4294967296) :
    (∃ st1 before,
      gpuMemDMAUpContactData core args st = some st1 ∧
      st1.issued = st.issued ++ before ++ [destroyedEdgesUpload args] ++
        (if args.nbDestroyedEdges > 0 then
          [clearFrictionPatchCountsLaunch core args st.mCurrentIndex
            ((args.nbDestroyedEdges + core.blockDim KernelDim.CLEAR_FRICTION_PATCH_COUNTS - 1) /
              core.blockDim KernelDim.CLEAR_FRICTION_PATCH_COUNTS)]
        else []) ++ [TransferOp.streamFlush Stream.mStream] ∧
      before.filterMap TransferOp.kernel = []) ∧
    args.nbDestroyedEdges ≤
      (args.nbDestroyedEdges + core.blockDim KernelDim.CLEAR_FRICTION_PATCH_COUNTS - 1) /
        core.blockDim KernelDim.CLEAR_FRICTION_PATCH_COUNTS *
        core.blockDim KernelDim.CLEAR_FRICTION_PATCH_COUNTS ∧
    ((args.nbDestroyedEdges + core.blockDim KernelDim.CLEAR_FRICTION_PATCH_COUNTS - 1) /
        core.blockDim KernelDim.CLEAR_FRICTION_PATCH_COUNTS - 1) *
        core.blockDim KernelDim.CLEAR_FRICTION_PATCH_COUNTS < max 1 args.nbDestroyedEdges ∧
    (st.mCurrentIndex ≤ 1 →
      u32sub 1 st.mCurrentIndex = 1 - st.mCurrentIndex ∧
      u32sub 1 st.mCurrentIndex ≠ st.mCurrentIndex) := by
  generalize hB : core.blockDim KernelDim.CLEAR_FRICTION_PATCH_COUNTS = B at hpos hdim hno ⊢
  have hB' : B < 4294967296 := hdim
  have hq : u32sub (u32add args.nbDestroyedEdges B) 1 = args.nbDestroyedEdges + B - 1 := by
    unfold u32sub u32add
    omega
  have hdiv : (args.nbDestroyedEdges + B - 1) / B * B ≤ args.nbDestroyedEdges + B - 1 :=
    Nat.div_mul_le_self _ _
  have hlt : args.nbDestroyedEdges + B - 1 < ((args.nbDestroyedEdges + B - 1) / B + 1) * B := by
    have := Nat.lt_div_mul_add (a := args.nbDestroyedEdges + B - 1) hpos
    rw [Nat.add_mul, Nat.one_mul]
    exact this
  have hcode : gpuMemDMAUpContactData core args st = some
      (TransferState.issue (TransferOp.streamFlush Stream.mStream)
        (if (args.nbDestroyedEdges + B - 1) / B > 0 then
          TransferState.issue
            (clearFrictionPatchCountsLaunch core args
              (gpuMemDMAUpContactData_upload core args
                (gpuMemDMAUpContactData_allocate core args st)).mCurrentIndex
              ((args.nbDestroyedEdges + B - 1) / B))
            (gpuMemDMAUpContactData_upload core args
              (gpuMemDMAUpContactData_allocate core args st))
        else
          gpuMemDMAUpContactData_upload core args
            (gpuMemDMAUpContactData_allocate core args st))) := by
    unfold gpuMemDMAUpContactData
    rw [hB, u32div_bind (u32_pos hpos hB'), hq, u32_of_lt hB']
    simp only [clearFrictionPatchCountsLaunch, hB]
    rfl
  refine ⟨⟨_, contactDataPrefixOps core args, hcode, ?_, ?_⟩, ?_, ?_, ?_⟩
  · simp only [TransferState.issued_of_issue, apply_ite TransferState.issued,
      gpuMemDMAUpContactData_prefix_issued, gpuMemDMAUpContactData_prefix_mCurrentIndex]
    by_cases h0 : args.nbDestroyedEdges > 0
    · have : (args.nbDestroyedEdges + B - 1) / B > 0 :=
        Nat.div_pos (by omega) hpos
      rw [if_pos this, if_pos h0]
    · have : ¬ (args.nbDestroyedEdges + B - 1) / B > 0 := by
        have : (args.nbDestroyedEdges + B - 1) / B = 0 := Nat.div_eq_of_lt (by omega)
        omega
      rw [if_neg this, if_neg h0]
      simp
  · rfl
  · rw [Nat.add_mul, Nat.one_mul] at hlt
    omega
  · rcases Nat.eq_zero_or_pos ((args.nbDestroyedEdges + B - 1) / B) with h | h
    · rw [h]; simp
    · have : ((args.nbDestroyedEdges + B - 1) / B - 1) * B + B =
          (args.nbDestroyedEdges + B - 1) / B * B := by
        rw [← Nat.succ_mul]
        congr 1
        omega
      omega
  · intro h
    unfold u32sub
    omega

/-- C20 (amended) exercised on an upload with three destroyed edges and 256
threads per block: one block. -/
theorem C20_patch_count_reset_witness :
    0 < exampleTransferCore.blockDim KernelDim.CLEAR_FRICTION_PATCH_COUNTS ∧
    exampleTransferCore.blockDim KernelDim.CLEAR_FRICTION_PATCH_COUNTS < 4294967296 ∧
    exampleContactDataArgs.nbDestroyedEdges +
      exampleTransferCore.blockDim KernelDim.CLEAR_FRICTION_PATCH_COUNTS - 1 < 4294967296 ∧
    ∃ st1 before,
      gpuMemDMAUpContactData exampleTransferCore exampleContactDataArgs TransferState.empty =
        some st1 ∧
      st1.issued = TransferState.empty.issued ++ before ++
        [destroyedEdgesUpload exampleContactDataArgs] ++
        (if exampleContactDataArgs.nbDestroyedEdges > 0 then
          [clearFrictionPatchCountsLaunch exampleTransferCore exampleContactDataArgs
            TransferState.empty.mCurrentIndex
            ((exampleContactDataArgs.nbDestroyedEdges +
                exampleTransferCore.blockDim KernelDim.CLEAR_FRICTION_PATCH_COUNTS - 1) /
              exampleTransferCore.blockDim KernelDim.CLEAR_FRICTION_PATCH_COUNTS)]
        else []) ++ [TransferOp.streamFlush Stream.mStream] ∧
      before.filterMap TransferOp.kernel = [] :=
  ⟨by decide, by decide, by decide,
    (C20_patch_count_reset exampleTransferCore exampleContactDataArgs TransferState.empty
      (by decide) (by decide) (by decide)).1⟩

/-- C21 counterexample: with `offset = 0`, `nbSolverBodies = 2^32 - 1` and 256
threads per block the range of bodies is not empty, yet the 32-bit sum
`nbSolverBodies - offset + 255` wraps to `254`, the block count is `0`, and
neither `preIntegration` nor `integrateCoreParallel` launches a kernel. -/
theorem C21_counterexample :
    (0 : Nat) ≤ 4294967295 ∧ (0 : Nat) < 4294967295 ∧
    (preIntegration exampleTransferCore 0 4294967295 TransferState.empty).map
      (fun st => st.issued) = some [] ∧
    (integrateCoreParallel exampleTransferCore 0 4294967295 TransferState.empty).map
      (fun st => st.issued) = some [TransferOp.streamFlush Stream.mStream] := by
  refine ⟨by decide, by decide, ?_, ?_⟩ <;> rfl

/-- C21 (amended): for `offset <= nbSolverBodies`, positive block dimensions
and no 32-bit overflow in the sums `nbSolverBodies - offset + blockDim - 1`
and `offset + blockDim - 1`, `preIntegration` and `integrateCoreParallel`
complete; `preIntegration` launches the pre-integration kernel if and only if
`offset < nbSolverBodies`, with `ceil((nbSolverBodies - offset) / blockDim)`
blocks of `blockDim` threads, and the static/kinematic initialisation kernel
if and only if `0 < offset`, with `ceil(offset / blockDim)` blocks, and
launches nothing else; `integrateCoreParallel` launches its kernel if and
only if `offset < nbSolverBodies`, with
`ceil((nbSolverBodies - offset) / blockDim)` blocks, and nothing else.  The
block counts are the least ones whose threads cover the range. -/
theorem C21_integration_launches (core : TransferCore) (offset nbSolverBodies : Nat)
    (st : TransferState)
    (hpos : 0 < core.blockDim KernelDim.PRE_INTEGRATION)
    (hdim : core.blockDim KernelDim.PRE_INTEGRATION < 4294967296)
    (hposI : 0 < core.blockDim KernelDim.INTEGRATE_CORE_PARALLEL)
    (hdimI : core.blockDim KernelDim.INTEGRATE_CORE_PARALLEL < 4294967296)
    (hle : offset ≤ nbSolverBodies) (hn : nbSolverBodies < 4294967296)
    (hno : nbSolverBodies - offset + core.blockDim KernelDim.PRE_INTEGRATION - 1 < 4294967296)
    (hnoStatic : offset + core.blockDim KernelDim.PRE_INTEGRATION - 1 < 4294967296)
    (hnoI : nbSolverBodies - offset + core.blockDim KernelDim.INTEGRATE_CORE_PARALLEL - 1 <
      4294967296) :
    (∃ (st1 st2 : TransferState) (ops1 ops2 : List TransferOp),
      preIntegration core offset nbSolverBodies st = some st1 ∧
      st1.issued = st.issued ++ ops1 ∧
      integrateCoreParallel core offset nbSolverBodies st = some st2 ∧
      st2.issued = st.issued ++ ops2 ∧
      launchDims TransferKernelId.PRE_INTEGRATION ops1 =
        (if offset < nbSolverBodies then
          [(blocksToCover (nbSolverBodies - offset) (core.blockDim KernelDim.PRE_INTEGRATION),
            core.blockDim KernelDim.PRE_INTEGRATION)]
        else []) ∧
      launchDims TransferKernelId.INIT_STATIC_KINEMATICS ops1 =
        (if 0 < offset then
          [(blocksToCover offset (core.blockDim KernelDim.PRE_INTEGRATION),
            core.blockDim KernelDim.PRE_INTEGRATION)]
        else []) ∧
      ops1.filterMap TransferOp.kernel =
        (if offset < nbSolverBodies then [TransferKernelId.PRE_INTEGRATION] else []) ++
        (if 0 < offset then [TransferKernelId.INIT_STATIC_KINEMATICS] else []) ∧
      launchDims TransferKernelId.INTEGRATE_CORE_PARALLEL ops2 =
        (if offset < nbSolverBodies then
          [(blocksToCover (nbSolverBodies - offset)
              (core.blockDim KernelDim.INTEGRATE_CORE_PARALLEL),
            core.blockDim KernelDim.INTEGRATE_CORE_PARALLEL)]
        else []) ∧
      ops2.filterMap TransferOp.kernel =
        (if offset < nbSolverBodies then [TransferKernelId.INTEGRATE_CORE_PARALLEL] else [])) ∧
    (∀ count blockDim, 0 < blockDim →
      count ≤ blocksToCover count blockDim * blockDim ∧
      blocksToCover count blockDim * blockDim < count + blockDim ∧
      (blocksToCover count blockDim = 0 ↔ count = 0)) := by
  obtain ⟨st1, h1, -, h1i⟩ :=
    preIntegration_eq core offset nbSolverBodies st hpos hdim hle hn hno hnoStatic
  obtain ⟨st2, h2, h2i⟩ :=
    integrateCoreParallel_eq core offset nbSolverBodies st hposI hdimI hle hn hnoI
  rw [List.append_assoc] at h1i h2i
  refine ⟨⟨st1, st2, _, _, h1, h1i, h2, h2i, ?_, ?_, ?_, ?_, ?_⟩, blocksToCover_spec⟩
  · by_cases a : offset < nbSolverBodies <;> by_cases b : 0 < offset <;>
      simp [launchDims, a, b]
  · by_cases a : offset < nbSolverBodies <;> by_cases b : 0 < offset <;>
      simp [launchDims, a, b]
  · by_cases a : offset < nbSolverBodies <;> by_cases b : 0 < offset <;>
      simp [TransferOp.kernel, a, b]
  · by_cases a : offset < nbSolverBodies <;> simp [launchDims, a]
  · by_cases a : offset < nbSolverBodies <;> simp [TransferOp.kernel, a]

/-- C21 (amended) exercised on ten bodies of which the first three are
static or kinematic, with 256 threads per block: one block each. -/
theorem C21_integration_launches_witness :
    ∃ (st1 st2 : TransferState) (ops1 ops2 : List TransferOp),
      preIntegration exampleTransferCore 3 10 TransferState.empty = some st1 ∧
      st1.issued = TransferState.empty.issued ++ ops1 ∧
      integrateCoreParallel exampleTransferCore 3 10 TransferState.empty = some st2 ∧
      st2.issued = TransferState.empty.issued ++ ops2 ∧
      launchDims TransferKernelId.PRE_INTEGRATION ops1 =
        (if 3 < 10 then
          [(blocksToCover (10 - 3) (exampleTransferCore.blockDim KernelDim.PRE_INTEGRATION),
            exampleTransferCore.blockDim KernelDim.PRE_INTEGRATION)]
        else []) ∧
      launchDims TransferKernelId.INIT_STATIC_KINEMATICS ops1 =
        (if 0 < 3 then
          [(blocksToCover 3 (exampleTransferCore.blockDim KernelDim.PRE_INTEGRATION),
            exampleTransferCore.blockDim KernelDim.PRE_INTEGRATION)]
        else []) ∧
      ops1.filterMap TransferOp.kernel =
        (if 3 < 10 then [TransferKernelId.PRE_INTEGRATION] else []) ++
        (if 0 < 3 then [TransferKernelId.INIT_STATIC_KINEMATICS] else []) ∧
      launchDims TransferKernelId.INTEGRATE_CORE_PARALLEL ops2 =
        (if 3 < 10 then
          [(blocksToCover (10 - 3) (exampleTransferCore.blockDim KernelDim.INTEGRATE_CORE_PARALLEL),
            exampleTransferCore.blockDim KernelDim.INTEGRATE_CORE_PARALLEL)]
        else []) ∧
      ops2.filterMap TransferOp.kernel =
        (if 3 < 10 then [TransferKernelId.INTEGRATE_CORE_PARALLEL] else []) :=
  (C21_integration_launches exampleTransferCore 3 10 TransferState.empty (by decide) (by decide)
    (by decide) (by decide) (by decide) (by decide) (by decide) (by decide) (by decide)).1

/-- C22: for valid block dimensions, `solvePartitions`, `writeBackBlock` and
`solveContactMultiBlockParallel` complete whatever the driver answers; the
operations they issue are the closed-form sequences, which are the same for
every behaviour of the driver (so the same as when every launch succeeds);
and the errors they report are exactly, in issue order, the kernels of the
launches whose result is not `CUDA_SUCCESS`. -/
theorem C22_launch_failures_reported (core : SolverCore)
    (hv : SolveBlockDimsValid core.blockDim)
    (islandContexts : Nat → PxgIslandContext) (numIslands : Nat)
    (constraintsPerPartition artiConstraintsPerPartition : Nat → Int)
    (posIterResidualPinnedMemSize a : Nat) (doFriction anyArti : Bool) (st : SolverState) :
    (∃ st1, solvePartitions core islandContexts constraintsPerPartition
        artiConstraintsPerPartition a doFriction anyArti st = some st1 ∧
      st1.issued = st.issued ++ solvePartitionsOps core islandContexts constraintsPerPartition
        artiConstraintsPerPartition a doFriction anyArti ∧
      st1.errors = st.errors ++ reportsOf core st.issued
        (solvePartitionsOps core islandContexts constraintsPerPartition
          artiConstraintsPerPartition a doFriction anyArti)) ∧
    (∃ st1, writeBackBlock core a (islandContexts a) st = some st1 ∧
      st1.issued = st.issued ++ writeBackBlockOps core a (islandContexts a) ∧
      st1.errors = st.errors ++ reportsOf core st.issued
        (writeBackBlockOps core a (islandContexts a))) ∧
    (∃ st1, solveContactMultiBlockParallel core islandContexts numIslands
        constraintsPerPartition artiConstraintsPerPartition posIterResidualPinnedMemSize st =
        some st1 ∧
      st1.issued = st.issued ++ solveContactMultiBlockParallelOps core islandContexts numIslands
        constraintsPerPartition artiConstraintsPerPartition posIterResidualPinnedMemSize ∧
      st1.errors = st.errors ++ reportsOf core st.issued
        (solveContactMultiBlockParallelOps core islandContexts numIslands
          constraintsPerPartition artiConstraintsPerPartition posIterResidualPinnedMemSize)) ∧
    (∀ launchResult : List Op → CUresult,
      solvePartitionsOps { core with launchResult := launchResult } islandContexts
          constraintsPerPartition artiConstraintsPerPartition a doFriction anyArti =
        solvePartitionsOps core islandContexts constraintsPerPartition
          artiConstraintsPerPartition a doFriction anyArti ∧
      writeBackBlockOps { core with launchResult := launchResult } a (islandContexts a) =
        writeBackBlockOps core a (islandContexts a) ∧
      solveContactMultiBlockParallelOps { core with launchResult := launchResult }
          islandContexts numIslands constraintsPerPartition artiConstraintsPerPartition
          posIterResidualPinnedMemSize =
        solveContactMultiBlockParallelOps core islandContexts numIslands
          constraintsPerPartition artiConstraintsPerPartition posIterResidualPinnedMemSize) ∧
    (∀ (prev ops : List Op) (f : KernelId), f ∈ reportsOf core prev ops ↔
      ∃ pre g bx bw s p post, ops = pre ++ Op.launchKernel f g bx bw s p :: post ∧
        core.launchResult (prev ++ pre ++ [Op.launchKernel f g bx bw s p]) ≠ CUDA_SUCCESS) :=
  ⟨reportsOf_of_issues (solvePartitions_issues core hv islandContexts constraintsPerPartition
      artiConstraintsPerPartition a doFriction anyArti)
      (solvePartitions_reports core islandContexts constraintsPerPartition
        artiConstraintsPerPartition a doFriction anyArti) st,
    reportsOf_of_issues (writeBackBlock_issues core hv a (islandContexts a))
      (writeBackBlock_reports core a (islandContexts a)) st,
    reportsOf_of_issues (solveContactMultiBlockParallel_issues core hv islandContexts numIslands
      constraintsPerPartition artiConstraintsPerPartition posIterResidualPinnedMemSize)
      (solveContactMultiBlockParallel_reports core islandContexts numIslands
        constraintsPerPartition artiConstraintsPerPartition posIterResidualPinnedMemSize) st,
    fun _ => ⟨rfl, rfl, rfl⟩,
    mem_reportsOf core⟩

/-- C22 exercised on a driver that rejects every launch: `solvePartitions`
on the example island still completes and issues its closed-form sequence,
and each of its four launches is reported. -/
theorem C22_launch_failures_reported_witness :
    SolveBlockDimsValid failingCore.blockDim ∧
    (∃ st1, solvePartitions failingCore (fun _ => exampleIsland) exampleConstraintsPerPartition
        exampleArtiConstraintsPerPartition 0 true false SolverState.empty = some st1 ∧
      st1.issued = SolverState.empty.issued ++ solvePartitionsOps failingCore
        (fun _ => exampleIsland) exampleConstraintsPerPartition
        exampleArtiConstraintsPerPartition 0 true false ∧
      st1.errors = SolverState.empty.errors ++ reportsOf failingCore SolverState.empty.issued
        (solvePartitionsOps failingCore (fun _ => exampleIsland) exampleConstraintsPerPartition
          exampleArtiConstraintsPerPartition 0 true false)) ∧
    reportsOf failingCore SolverState.empty.issued
        (solvePartitionsOps failingCore (fun _ => exampleIsland) exampleConstraintsPerPartition
          exampleArtiConstraintsPerPartition 0 true false) =
      [KernelId.SOLVE_BLOCK_PARTITION, KernelId.SOLVE_BLOCK_PARTITION,
        KernelId.ARTI_SOLVE_BLOCK_PARTITION, KernelId.COMPUTE_AVERAGE_VELOCITY] :=
  ⟨by decide,
    (C22_launch_failures_reported failingCore (by decide) (fun _ => exampleIsland) 1
      exampleConstraintsPerPartition exampleArtiConstraintsPerPartition 0 0 true false
      SolverState.empty).1,
    by decide⟩

/-- C26: after `gpuMemDMAUp`, each of the twelve batch counts of the
constraint-prepare descriptor equals the per-step input count of the same
kind (`numBatches` and `numStaticBatches` the two batch-header counts, the
other ten the counts of `data`), and `articContactIndex` and
`articJointIndex` are `0`. -/
theorem C26_prepare_desc_counts (core : TransferCore) (sizes : DmaUpSizes) (args : DmaUpArgs)
    (st : TransferState) :
    (gpuMemDMAUp core sizes args st).mPrepareDesc.numBatches = args.numConstraintBatchHeader ∧
    (gpuMemDMAUp core sizes args st).mPrepareDesc.numStaticBatches =
      args.numStaticConstraintBatchHeader ∧
    (gpuMemDMAUp core sizes args st).mPrepareDesc.num1dConstraintBatches =
      args.data.num1dConstraintBatches ∧
    (gpuMemDMAUp core sizes args st).mPrepareDesc.numContactBatches =
      args.data.numContactBatches ∧
    (gpuMemDMAUp core sizes args st).mPrepareDesc.numStatic1dConstraintBatches =
      args.data.numStatic1dConstraintBatches ∧
    (gpuMemDMAUp core sizes args st).mPrepareDesc.numStaticContactBatches =
      args.data.numStaticContactBatches ∧
    (gpuMemDMAUp core sizes args st).mPrepareDesc.numArti1dConstraintBatches =
      args.data.numArti1dConstraintBatches ∧
    (gpuMemDMAUp core sizes args st).mPrepareDesc.numArtiContactBatches =
      args.data.numArtiContactsBatches ∧
    (gpuMemDMAUp core sizes args st).mPrepareDesc.numArtiStatic1dConstraintBatches =
      args.data.numArtiStatic1dConstraintBatches ∧
    (gpuMemDMAUp core sizes args st).mPrepareDesc.numArtiStaticContactBatches =
      args.data.numArtiStaticContactsBatches ∧
    (gpuMemDMAUp core sizes args st).mPrepareDesc.numArtiSelf1dConstraintBatches =
      args.data.numArtiSelf1dConstraintBatches ∧
    (gpuMemDMAUp core sizes args st).mPrepareDesc.numArtiSelfContactBatches =
      args.data.numArtiSelfContactsBatches ∧
    (gpuMemDMAUp core sizes args st).mPrepareDesc.articContactIndex = 0 ∧
    (gpuMemDMAUp core sizes args st).mPrepareDesc.articJointIndex = 0 ∧
    (gpuMemDMAUp exampleTransferCore exampleDmaUpSizes exampleDmaUpArgs
        TransferState.empty).mPrepareDesc =
      ⟨13, 14, 3, 4, 5, 6, 9, 10, 11, 12, 8, 7, 29, 30, 0, 0, 20, 2⟩ :=
  ⟨rfl, rfl, rfl, rfl, rfl, rfl, rfl, rfl, rfl, rfl, rfl, rfl, rfl, rfl, rfl⟩

/-- C27: two calls of `solvePartitions`, for islands `a` and `a2` (of two
island tables) that have the same number of partitions and the same body
count and the same articulation flag (the local
`anyArticulationConstraints` of the island loop), with the same friction
flag and with end-index arrays that agree on the indices `0 .. numPartitions - 1`, both
complete and issue the same operations up to the island index passed as an
argument; in particular the kernels launched, their order and their grid and
block dimensions are identical. -/
theorem C27_schedule_independent_of_island (core : SolverCore)
    (hv : SolveBlockDimsValid core.blockDim)
    (islandContexts islandContexts2 : Nat → PxgIslandContext)
    (constraintsPerPartition artiConstraintsPerPartition
      constraintsPerPartition2 artiConstraintsPerPartition2 : Nat → Int)
    (a a2 : Nat) (doFriction : Bool) (st st2 : SolverState)
    (hF : anyArticulationConstraints (islandContexts a) =
      anyArticulationConstraints (islandContexts2 a2))
    (hP : (islandContexts a).mNumPartitions = (islandContexts2 a2).mNumPartitions)
    (hB : (islandContexts a).mBodyCount = (islandContexts2 a2).mBodyCount)
    (hcpp : ∀ i, i < (islandContexts a).mNumPartitions →
      constraintsPerPartition i = constraintsPerPartition2 i)
    (hacpp : ∀ i, i < (islandContexts a).mNumPartitions →
      artiConstraintsPerPartition i = artiConstraintsPerPartition2 i) :
    ∃ (st1 st3 : SolverState) (ops ops2 : List Op),
      solvePartitions core islandContexts constraintsPerPartition artiConstraintsPerPartition
        a doFriction (anyArticulationConstraints (islandContexts a)) st = some st1 ∧
      st1.issued = st.issued ++ ops ∧
      solvePartitions core islandContexts2 constraintsPerPartition2 artiConstraintsPerPartition2
        a2 doFriction (anyArticulationConstraints (islandContexts2 a2)) st2 = some st3 ∧
      st3.issued = st2.issued ++ ops2 ∧
      ops2.map withoutIslandIndex = ops.map withoutIslandIndex ∧
      ops2.filterMap launchShape = ops.filterMap launchShape ∧
      (∀ op ∈ ops, ∀ i, islandOf op = some i → i = a) ∧
      (∀ op ∈ ops2, ∀ i, islandOf op = some i → i = a2) := by
  obtain ⟨st1, h1, h2⟩ := solvePartitions_issues core hv islandContexts constraintsPerPartition
    artiConstraintsPerPartition a doFriction (anyArticulationConstraints (islandContexts a)) st
  obtain ⟨st3, h3, h4⟩ := solvePartitions_issues core hv islandContexts2
    constraintsPerPartition2 artiConstraintsPerPartition2 a2 doFriction
    (anyArticulationConstraints (islandContexts2 a2)) st2
  have key : (solvePartitionsOps core islandContexts2 constraintsPerPartition2
      artiConstraintsPerPartition2 a2 doFriction
        (anyArticulationConstraints (islandContexts2 a2))).map withoutIslandIndex =
      (solvePartitionsOps core islandContexts constraintsPerPartition
        artiConstraintsPerPartition a doFriction
        (anyArticulationConstraints (islandContexts a))).map withoutIslandIndex := by
    rw [solvePartitionsOps_withoutIslandIndex, solvePartitionsOps_withoutIslandIndex, ← hP,
      averageVelocityOps_congr core _ _ hB, ← hF]
    congr 1
    apply List.flatMap_congr
    intro c hc
    exact (partitionOps_congr core _ _ _ _ 0 doFriction _ _ c (List.mem_range.1 hc)
      hcpp hacpp).symm
  have shape : ∀ l : List Op, (l.map withoutIslandIndex).filterMap launchShape =
      l.filterMap launchShape := by
    intro l
    rw [List.filterMap_map]
    congr 1
    funext op
    exact launchShape_withoutIslandIndex op
  refine ⟨st1, st3, _, _, h1, h2, h3, h4, key, ?_, ?_, ?_⟩
  · rw [← shape, key, shape]
  · exact solvePartitionsOps_islandOf core islandContexts _ _ a doFriction _
  · exact solvePartitionsOps_islandOf core islandContexts2 _ _ a2 doFriction _

/-- C27 exercised on islands `0` and `1` of `twoIslands`. -/
theorem C27_schedule_independent_of_island_witness :
    ∃ (st1 st3 : SolverState) (ops ops2 : List Op),
      solvePartitions exampleCore twoIslands exampleConstraintsPerPartition
        exampleArtiConstraintsPerPartition 0 true (anyArticulationConstraints (twoIslands 0))
        SolverState.empty = some st1 ∧
      st1.issued = SolverState.empty.issued ++ ops ∧
      solvePartitions exampleCore twoIslands exampleConstraintsPerPartition
        exampleArtiConstraintsPerPartition 1 true (anyArticulationConstraints (twoIslands 1))
        SolverState.empty = some st3 ∧
      st3.issued = SolverState.empty.issued ++ ops2 ∧
      ops2.map withoutIslandIndex = ops.map withoutIslandIndex ∧
      ops2.filterMap launchShape = ops.filterMap launchShape ∧
      (∀ op ∈ ops, ∀ i, islandOf op = some i → i = 0) ∧
      (∀ op ∈ ops2, ∀ i, islandOf op = some i → i = 1) :=
  C27_schedule_independent_of_island exampleCore (by decide) twoIslands twoIslands
    exampleConstraintsPerPartition exampleArtiConstraintsPerPartition
    exampleConstraintsPerPartition exampleArtiConstraintsPerPartition 0 1 true
    SolverState.empty SolverState.empty (by decide) (by decide) (by decide) (fun _ _ => rfl)
    (fun _ _ => rfl)

/-- C28: for `1 <= maxNodes` (a `PxU32`), the pass count computed by
`accumulatedForceThresholdStream` is even, at least `2`, large enough that
`maxNodes < 2^(4 * nbPasses)`, and the least even number with that property;
`radixSort(nbPasses)` issues, for `i = 0 .. nbPasses - 1` in order, the
single-block launch and the rank launch of pass `i`, both with sort
descriptor `i mod 2` and start bit `4 * i`, and nothing else, and the last
launch uses descriptor `1`. -/
theorem C28_radix_sort_passes (core : TransferCore) (maxNodes : Nat) (st : TransferState)
    (h1 : 1 ≤ maxNodes) (h2 : maxNodes < 4294967296) :
    nbPasses maxNodes % 2 = 0 ∧ 2 ≤ nbPasses maxNodes ∧
    maxNodes < 2 ^ (4 * nbPasses maxNodes) ∧
    (∀ m, m % 2 = 0 → maxNodes < 2 ^ (4 * m) → nbPasses maxNodes ≤ m) ∧
    ∃ passes : List TransferOp,
      (radixSort core (nbPasses maxNodes) st).issued = st.issued ++ passes ∧
      passes.length = 2 * nbPasses maxNodes ∧
      passes.map (fun op => (op.kernel, op.sortDescriptor, op.startBit)) =
        (List.range (nbPasses maxNodes)).flatMap (fun i =>
          [(some TransferKernelId.RADIXSORT_SINGLEBLOCK, some (i % 2), some (4 * i)),
            (some TransferKernelId.RADIXSORT_CALCULATERANKS, some (i % 2), some (4 * i))]) ∧
      passes.getLast?.bind TransferOp.sortDescriptor = some 1 := by
  obtain ⟨he, hge, hle, hcov, hmin⟩ := nbPasses_spec maxNodes h1 h2
  refine ⟨he, hge, hcov, hmin, radixSortOps core (nbPasses maxNodes), ?_, ?_, ?_, ?_⟩
  · rw [radixSort_eq]
  · exact radixSortOps_length core _
  · exact radixSortOps_observed core _ hle
  · exact radixSortOps_last core _ he (by omega)

/-- C28 exercised on `maxNodes = 70000` (17 significant bits): six passes. -/
theorem C28_radix_sort_passes_witness :
    1 ≤ 70000 ∧ 70000 < 4294967296 ∧
    nbPasses 70000 % 2 = 0 ∧ 2 ≤ nbPasses 70000 ∧
    70000 < 2 ^ (4 * nbPasses 70000) ∧
    (∀ m, m % 2 = 0 → 70000 < 2 ^ (4 * m) → nbPasses 70000 ≤ m) ∧
    ∃ passes : List TransferOp,
      (radixSort exampleTransferCore (nbPasses 70000) TransferState.empty).issued =
        TransferState.empty.issued ++ passes ∧
      passes.length = 2 * nbPasses 70000 ∧
      passes.map (fun op => (op.kernel, op.sortDescriptor, op.startBit)) =
        (List.range (nbPasses 70000)).flatMap (fun i =>
          [(some TransferKernelId.RADIXSORT_SINGLEBLOCK, some (i % 2), some (4 * i)),
            (some TransferKernelId.RADIXSORT_CALCULATERANKS, some (i % 2), some (4 * i))]) ∧
      passes.getLast?.bind TransferOp.sortDescriptor = some 1 :=
  ⟨by decide, by decide,
    C28_radix_sort_passes exampleTransferCore 70000 TransferState.empty (by decide) (by decide)⟩

/-- C29: with `hasForceThresholds` set, the previous-exceeded count the same
when `accumulatedForceThresholdStream` runs as after `gpuMemDMAUp`, and no
32-bit overflow in `totalContactBatches * 32 + prev * 2`, `gpuMemDMAUp`
allocates `4 * allocated` bytes for the threshold write-index buffer with
`allocated = totalContactBatches * 32 + prev * 2` (all five contact batch
counts), `accumulatedForceThresholdStream` fills
`prev * 2 + (numContactBatches + numStaticContactBatches) * 32` words of it
with `1`, the words filled never exceed the words allocated, and the two are
equal exactly when the three articulation contact batch counts are `0`. -/
theorem C29_write_index_fill_within_allocation (core : TransferCore) (sizes : DmaUpSizes)
    (args : DmaUpArgs) (maxNodes : Nat) (st st2 : TransferState)
    (hft : args.hasForceThresholds = true)
    (hprev : st2.mNbPrevExceededForceElements =
      (gpuMemDMAUp core sizes args st).st.mNbPrevExceededForceElements)
    (hno : (args.data.numContactBatches + args.data.numStaticContactBatches +
        args.data.numArtiContactsBatches + args.data.numArtiStaticContactsBatches +
        args.data.numArtiSelfContactsBatches) * 32 +
        st.mNbPrevExceededForceElements * 2 < 4294967296) :
    ∃ allocated filled : Nat,
      allocations DeviceBuffer.mThresholdStreamWriteIndex
          (gpuMemDMAUp core sizes args st).st.issued =
        allocations DeviceBuffer.mThresholdStreamWriteIndex st.issued ++ [4 * allocated] ∧
      fills DeviceBuffer.mThresholdStreamWriteIndex 1
          (accumulatedForceThresholdStream core (gpuMemDMAUp core sizes args st).mPrepareDesc
            maxNodes st2).issued =
        fills DeviceBuffer.mThresholdStreamWriteIndex 1 st2.issued ++ [filled] ∧
      allocated = (args.data.numContactBatches + args.data.numStaticContactBatches +
        args.data.numArtiContactsBatches + args.data.numArtiStaticContactsBatches +
        args.data.numArtiSelfContactsBatches) * 32 + st.mNbPrevExceededForceElements * 2 ∧
      filled = st.mNbPrevExceededForceElements * 2 +
        (args.data.numContactBatches + args.data.numStaticContactBatches) * 32 ∧
      filled ≤ allocated ∧
      (filled = allocated ↔
        args.data.numArtiContactsBatches = 0 ∧ args.data.numArtiStaticContactsBatches = 0 ∧
        args.data.numArtiSelfContactsBatches = 0) := by
  have hp : (gpuMemDMAUp core sizes args st).st.mNbPrevExceededForceElements =
      st.mNbPrevExceededForceElements := gpuMemDMAUp_mNbPrev core sizes args st
  rw [hp] at hprev
  have ha : u32add (u32mul (totalContactBatches args.data) 32)
      (u32mul st.mNbPrevExceededForceElements 2) =
      (args.data.numContactBatches + args.data.numStaticContactBatches +
        args.data.numArtiContactsBatches + args.data.numArtiStaticContactsBatches +
        args.data.numArtiSelfContactsBatches) * 32 + st.mNbPrevExceededForceElements * 2 := by
    unfold totalContactBatches u32add u32mul
    dsimp only
    omega
  have hf : u32add (u32mul st.mNbPrevExceededForceElements 2)
      (u32mul (u32add args.data.numContactBatches args.data.numStaticContactBatches) 32) =
      st.mNbPrevExceededForceElements * 2 +
        (args.data.numContactBatches + args.data.numStaticContactBatches) * 32 := by
    unfold u32add u32mul
    omega
  have hd : (gpuMemDMAUp core sizes args st).mPrepareDesc.numContactBatches =
      args.data.numContactBatches ∧
      (gpuMemDMAUp core sizes args st).mPrepareDesc.numStaticContactBatches =
      args.data.numStaticContactBatches := ⟨rfl, rfl⟩
  refine ⟨_, _, ?_, ?_, rfl, rfl, by omega, by omega⟩
  · rw [gpuMemDMAUp_writeIndex core sizes args st hft, ha]
    unfold usizeMul
    rw [Nat.mod_eq_of_lt (by omega)]
  · rw [accumulatedForceThresholdStream_fills, hprev, hd.1, hd.2, hf]

/-- C29 exercised on a step with ten rigid and thirty articulation contact
batches and no previously exceeded element: 320 words filled, 1280 allocated. -/
theorem C29_write_index_fill_within_allocation_witness :
    ∃ allocated filled : Nat,
      allocations DeviceBuffer.mThresholdStreamWriteIndex
          (gpuMemDMAUp exampleTransferCore exampleDmaUpSizes exampleDmaUpArgs
            TransferState.empty).st.issued =
        allocations DeviceBuffer.mThresholdStreamWriteIndex TransferState.empty.issued ++
          [4 * allocated] ∧
      fills DeviceBuffer.mThresholdStreamWriteIndex 1
          (accumulatedForceThresholdStream exampleTransferCore
            (gpuMemDMAUp exampleTransferCore exampleDmaUpSizes exampleDmaUpArgs
              TransferState.empty).mPrepareDesc 70000 TransferState.empty).issued =
        fills DeviceBuffer.mThresholdStreamWriteIndex 1 TransferState.empty.issued ++ [filled] ∧
      allocated = (4 + 6 + 8 + 10 + 12) * 32 + 0 * 2 ∧
      filled = 0 * 2 + (4 + 6) * 32 ∧
      filled ≤ allocated ∧
      (filled = allocated ↔
        exampleDmaUpArgs.data.numArtiContactsBatches = 0 ∧
        exampleDmaUpArgs.data.numArtiStaticContactsBatches = 0 ∧
        exampleDmaUpArgs.data.numArtiSelfContactsBatches = 0) :=
  C29_write_index_fill_within_allocation exampleTransferCore exampleDmaUpSizes exampleDmaUpArgs
    70000 TransferState.empty TransferState.empty rfl rfl (by decide)

/-- C30: for an alignment that is a power of two between `1` and `2^31`,
`Sn::getPadding(value, alignment)` is below `alignment`, makes
`value + padding` a multiple of `alignment`, is the only number below
`alignment` doing so, is `0` exactly when `value` is a multiple of
`alignment`, and is the same for `value` and for the low 32 bits of `value`. -/
theorem C30_getPadding (value alignment k : Nat) (hk : k ≤ 31) (ha : alignment = 2 ^ k) :
    Sn.getPadding value alignment < alignment ∧
    alignment ∣ value + Sn.getPadding value alignment ∧
    (∀ p, p < alignment → alignment ∣ value + p → p = Sn.getPadding value alignment) ∧
    (Sn.getPadding value alignment = 0 ↔ alignment ∣ value) ∧
    Sn.getPadding value alignment = Sn.getPadding (value % 4294967296) alignment := by
  subst ha
  have hpos : 0 < 2 ^ k := Nat.pow_pos (by decide)
  have hdvd : 2 ^ k ∣ 4294967296 := by
    have : (4294967296 : Nat) = 2 ^ 32 := by norm_num
    rw [this]
    exact Nat.pow_dvd_pow 2 (by omega)
  rw [getPadding_pow_two value k hk, getPadding_pow_two (value % 4294967296) k hk,
    Nat.mod_mod_of_dvd value hdvd]
  generalize 2 ^ k = A at hpos
  have hlt : value % A < A := Nat.mod_lt _ hpos
  have hdiv : value = A * (value / A) + value % A := (Nat.div_add_mod value A).symm
  have key : A ∣ value + (A - value % A) % A := by
    rcases Nat.eq_zero_or_pos (value % A) with h0 | h0
    · rw [h0, Nat.sub_zero, Nat.mod_self, Nat.add_zero]
      exact Nat.dvd_of_mod_eq_zero h0
    · rw [Nat.mod_eq_of_lt (by omega)]
      refine ⟨value / A + 1, ?_⟩
      rw [Nat.mul_add, Nat.mul_one]
      omega
  refine ⟨Nat.mod_lt _ hpos, key, ?_, ?_, rfl⟩
  · intro p hp hd
    have h1 : (value + p) % A = 0 := Nat.mod_eq_zero_of_dvd hd
    have h2 : (value + (A - value % A) % A) % A = 0 := Nat.mod_eq_zero_of_dvd key
    have hq : (A - value % A) % A < A := Nat.mod_lt _ hpos
    have h3 : (value + p) % A = (value + (A - value % A) % A) % A := by rw [h1, h2]
    have h4 : p % A = ((A - value % A) % A) % A := Nat.ModEq.add_left_cancel' value h3
    rwa [Nat.mod_eq_of_lt hp, Nat.mod_eq_of_lt hq] at h4
  · constructor
    · intro h
      rw [h, Nat.add_zero] at key
      exact key
    · intro h
      have : value % A = 0 := Nat.mod_eq_zero_of_dvd h
      rw [this, Nat.sub_zero, Nat.mod_self]

/-- C30 exercised on `value = 2^32 + 13` and `alignment = 16`: the padding is `3`. -/
theorem C30_getPadding_witness :
    Sn.getPadding 4294967309 16 < 16 ∧
    16 ∣ 4294967309 + Sn.getPadding 4294967309 16 ∧
    (∀ p, p < 16 → 16 ∣ 4294967309 + p → p = Sn.getPadding 4294967309 16) ∧
    (Sn.getPadding 4294967309 16 = 0 ↔ 16 ∣ 4294967309) ∧
    Sn.getPadding 4294967309 16 = Sn.getPadding (4294967309 % 4294967296) 16 :=
  C30_getPadding 4294967309 16 4 (by decide) (by decide)

end PxgCudaSolverCore
